import Mathlib

/-!
Equipment tracker: repack session bookkeeping and tag label decoding.

A shallow embedding of the session tracker (`markAllItemsUsedInitially`,
`resetFoundTagsForRepack`, `usedTagsInitiallyCount`, `processScannedRepackTag`)
and of the label decoder of `readTagDetails` from `src/main.cpp`, with the
properties proved about them.

Conventions of the embedding:
* an Arduino `String` is the list of its character codes (`AString`);
* the fixed-size global arrays are lists, `currentMaxItems` is a natural number,
  and `Session.WF` records the declared array sizes (`MAX_EXPECTED_ITEMS`);
* a `for (int i = 0; i < n; i++)` loop is a recursion on the number of
  iterations left, carrying the index `i`;
* serial / display output of `processScannedRepackTag` is returned as a `ScanReport`.
-/

namespace Repack

/-! ## Strings -/

/-- An Arduino `String`: the character codes of its characters, in order. -/
abbrev AString := List Nat

/-- The character codes of a string literal. -/
def str (s : String) : AString := s.toList.map Char.toNat

/-- C `tolower` in the default locale: `'A'..'Z'` go to `'a'..'z'`, every other
code is returned as it is. -/
def tolower (c : Nat) : Nat := if 65 ≤ c ∧ c ≤ 90 then c + 32 else c

/-- The comparison loop of `String::equalsIgnoreCase`: walks both buffers and
stops with `false` at the first position whose lowered characters differ. -/
def equalsIgnoreCaseLoop : AString → AString → Bool
  | [], _ => true
  | _ :: _, [] => false
  | c1 :: p1, c2 :: p2 =>
    if tolower c1 != tolower c2 then false else equalsIgnoreCaseLoop p1 p2

/-- Modelled from the spec: `String::equalsIgnoreCase` belongs to the Arduino core,
which is not under `src/`; the spec calls it a case-insensitive compare of the two
strings. Unequal lengths give `false`, two empty strings give `true`, otherwise the
characters are compared after `tolower`. -/
def equalsIgnoreCase (s1 s2 : AString) : Bool :=
  if s1.length != s2.length then false
  else if s1.length == 0 then true
  else equalsIgnoreCaseLoop s1 s2

/-- Embedding of `compareUidStrings` (main.cpp:221). -/
def compareUidStrings (uidStr1 uidStr2 : AString) : Bool :=
  equalsIgnoreCase uidStr1 uidStr2

/-! ## Session state -/

/-- The constant `MAX_EXPECTED_ITEMS` (Config.h). -/
def MAX_EXPECTED_ITEMS : Nat := 20

/-- The globals the repack session logic reads and writes (main.cpp:23-27, 81). -/
structure Session where
  currentExpectedItemNames : List AString
  currentExpectedUIDStrings : List AString
  currentMaxItems : Nat
  foundTagsDuringRepack : List Bool
  usedTagsInitially : List Bool
  allRepackItemsScanned : Bool
deriving DecidableEq, Repr

/-- The declared shape of the globals: four arrays of `MAX_EXPECTED_ITEMS` entries and
an item count that stays within them. -/
def Session.WF (s : Session) : Prop :=
  s.currentExpectedItemNames.length = MAX_EXPECTED_ITEMS ∧
  s.currentExpectedUIDStrings.length = MAX_EXPECTED_ITEMS ∧
  s.foundTagsDuringRepack.length = MAX_EXPECTED_ITEMS ∧
  s.usedTagsInitially.length = MAX_EXPECTED_ITEMS ∧
  s.currentMaxItems ≤ MAX_EXPECTED_ITEMS

instance (s : Session) : Decidable s.WF := by
  unfold Session.WF; infer_instance

/-- Read `usedTagsInitially[i]`. -/
def Session.used (s : Session) (i : Nat) : Bool := s.usedTagsInitially.getD i false

/-- Read `foundTagsDuringRepack[i]`. -/
def Session.found (s : Session) (i : Nat) : Bool := s.foundTagsDuringRepack.getD i false

/-- Read `currentExpectedUIDStrings[i]`. -/
def Session.uid (s : Session) (i : Nat) : AString := s.currentExpectedUIDStrings.getD i []

/-- What `processScannedRepackTag` tells the user: the "Scanned:" message for item
`index` (followed by "Already Scanned!" when `alreadyScanned`), or "Unknown Tag!". -/
inductive ScanReport where
  | matched (index : Nat) (alreadyScanned : Bool)
  | unknownTag
deriving DecidableEq, Repr

/-! ## Session operations -/

/-- The loop of `markAllItemsUsedInitially` (main.cpp:879-882) from index `i`,
with `k` iterations left. -/
def markLoop : Nat → Nat → Session → Session
  | 0, _, s => s
  | k + 1, i, s =>
    markLoop k (i + 1)
      { s with usedTagsInitially := s.usedTagsInitially.set i true
               foundTagsDuringRepack := s.foundTagsDuringRepack.set i false }

/-- Embedding of `markAllItemsUsedInitially` (main.cpp:878-885). -/
def markAllItemsUsedInitially (s : Session) : Session :=
  { markLoop s.currentMaxItems 0 s with allRepackItemsScanned := false }

/-- The loop of `resetFoundTagsForRepack` (main.cpp:888-890). -/
def resetLoop : Nat → Nat → Session → Session
  | 0, _, s => s
  | k + 1, i, s =>
    resetLoop k (i + 1) { s with foundTagsDuringRepack := s.foundTagsDuringRepack.set i false }

/-- Embedding of `resetFoundTagsForRepack` (main.cpp:887-893). -/
def resetFoundTagsForRepack (s : Session) : Session :=
  { resetLoop s.currentMaxItems 0 s with allRepackItemsScanned := false }

/-- The loop of `usedTagsInitiallyCount` (main.cpp:897-901). -/
def countLoop (s : Session) : Nat → Nat → Nat → Nat
  | 0, _, count => count
  | k + 1, i, count => countLoop s k (i + 1) (if s.used i then count + 1 else count)

/-- Embedding of `usedTagsInitiallyCount` (main.cpp:895-903). -/
def usedTagsInitiallyCount (s : Session) : Nat :=
  countLoop s s.currentMaxItems 0 0

/-- The search loop of `processScannedRepackTag` (main.cpp:907-922): the index at which
the loop breaks, or `none` when it runs to the end without a match. -/
def matchLoop (s : Session) (scannedUID : AString) : Nat → Nat → Option Nat
  | 0, _ => none
  | k + 1, i =>
    if compareUidStrings scannedUID (s.uid i) then some i
    else matchLoop s scannedUID k (i + 1)

/-- The completion loop of `processScannedRepackTag` (main.cpp:937-942): `false` as soon
as an item that was out has not been found. -/
def allDoneLoop (s : Session) : Nat → Nat → Bool
  | 0, _ => true
  | k + 1, i =>
    if s.used i && !s.found i then false else allDoneLoop s k (i + 1)

/-- Embedding of `processScannedRepackTag` (main.cpp:905-945). -/
def processScannedRepackTag (s : Session) (scannedUID : AString) : Session × ScanReport :=
  let r : Session × ScanReport :=
    match matchLoop s scannedUID s.currentMaxItems 0 with
    | some i =>
      if !s.found i then
        ({ s with foundTagsDuringRepack := s.foundTagsDuringRepack.set i true },
          ScanReport.matched i false)
      else (s, ScanReport.matched i true)
    | none => (s, ScanReport.unknownTag)
  let allDone : Bool :=
    if usedTagsInitiallyCount r.1 == 0 then false
    else allDoneLoop r.1 r.1.currentMaxItems 0
  ({ r.1 with allRepackItemsScanned := allDone }, r.2)

/-- A run of tag scans in the scanning phase: `processScannedRepackTag` once per
scanned identifier, in order. -/
def scanAll (s : Session) (scans : List AString) : Session :=
  scans.foldl (fun t u => (processScannedRepackTag t u).1) s

/-- A session over the given `(UID, name)` pairs with all flags cleared, the arrays
padded to `MAX_EXPECTED_ITEMS` entries. -/
def Session.ofItems (items : List (AString × AString)) : Session :=
  let pad := MAX_EXPECTED_ITEMS - items.length
  { currentExpectedItemNames := items.map Prod.snd ++ List.replicate pad []
    currentExpectedUIDStrings := items.map Prod.fst ++ List.replicate pad []
    currentMaxItems := items.length
    foundTagsDuringRepack := List.replicate MAX_EXPECTED_ITEMS false
    usedTagsInitially := List.replicate MAX_EXPECTED_ITEMS false
    allRepackItemsScanned := false }

/-- The expected list of scenarios A, B and C. -/
def scenarioList : Session :=
  Session.ofItems [(str "04AABBCC", str "Helmet"), (str "04112233", str "Gloves")]

/-- The two-entry list with the same UID twice (once in lower case). -/
def duplicateList : Session :=
  Session.ofItems [(str "04AABBCC", str "Helmet"), (str "04aabbcc", str "Spare helmet")]

/-! ## Tag reading -/

/-- The character of one hexadecimal digit as `String(value, HEX)` prints it:
`'0'..'9'`, then lower-case `'a'..'f'`. -/
def hexDigit (d : Nat) : Nat := if d < 10 then 48 + d else 87 + d

/-- Modelled from the spec: the Arduino core constructor `String(unsigned char, HEX)` is not
under `src/`; it prints the value in base 16 without a leading zero, so a byte below
`0x10` gives one digit and any other byte two. -/
def hexOfByte (v : Nat) : AString :=
  if v < 16 then [hexDigit v] else [hexDigit (v / 16 % 16), hexDigit (v % 16)]

/-- C `toupper` in the default locale, the per-character step of `String::toUpperCase`. -/
def toupper (c : Nat) : Nat := if 97 ≤ c ∧ c ≤ 122 then c - 32 else c

/-- The loop of `uidBytesToHexString` (main.cpp:211-216) from index `i`, with `k`
iterations left. -/
def hexLoop (uid : List Nat) : Nat → Nat → AString → AString
  | 0, _, hexString => hexString
  | k + 1, i, hexString =>
    let padded := if uid.getD i 0 < 0x10 then hexString ++ str "0" else hexString
    hexLoop uid k (i + 1) (padded ++ hexOfByte (uid.getD i 0))

/-- Embedding of `uidBytesToHexString` (main.cpp:209-219). -/
def uidBytesToHexString (uid : List Nat) (uidLength : Nat) : AString :=
  (hexLoop uid uidLength 0 []).map toupper

/-- Checked read of `buf[i]`: `none` stands for an access outside the buffer. -/
def readAt (buf : List Nat) (i : Nat) : Option Nat := buf[i]?

/-- Checked write `buf[i] = v`: `none` stands for an access outside the buffer. -/
def writeAt (buf : List Nat) (i : Nat) (v : Nat) : Option (List Nat) :=
  if i < buf.length then some (buf.set i v) else none

/-- The call `memcpy(dst, &src[srcOff], n)` byte by byte, every read and write checked; `k` is the
number of bytes already copied. -/
def memcpyLoop (src : List Nat) (srcOff : Nat) : Nat → Nat → List Nat → Option (List Nat)
  | 0, _, dst => some dst
  | n + 1, k, dst =>
    (readAt src (srcOff + k)).bind fun b =>
    (writeAt dst k b).bind fun dst1 =>
    memcpyLoop src srcOff n (k + 1) dst1

/-- The constructor `String(const char*)`: the characters up to the first zero byte; `none` when the
scan leaves the buffer before it meets a zero byte. -/
def readCString : List Nat → Option AString
  | [] => none
  | c :: rest => if c = 0 then some [] else (readCString rest).map (fun l => c :: l)

/-- The copy step of `readTagDetails` (main.cpp:845-859): the size/offset test, the two
`min` clamps, `memcpy` into `nameBuffer`, the terminator and the conversion to a
`String`. `nameBuffer` is the content the uninitialised local array happens to have. -/
def copyText (nameBuffer pageBuffer : List Nat) (actualTextStartOffset : Nat)
    (actualTextLength : Int) : Option AString :=
  if actualTextStartOffset < 32 ∧ actualTextLength > 0 ∧
      (actualTextStartOffset : Int) + actualTextLength ≤ 32 then
    let copyLength0 : Int := min actualTextLength (32 - 1)
    let copyLength : Int := min copyLength0 (32 - (actualTextStartOffset : Int))
    if copyLength > 0 then
      (memcpyLoop pageBuffer actualTextStartOffset copyLength.toNat 0 nameBuffer).bind fun nb1 =>
      (writeAt nb1 copyLength.toNat 0).bind fun nb2 =>
      readCString nb2
    else some []
  else some []

/-- The record cursor of `readTagDetails` (main.cpp:817-829): 2 after a `0x03` marker
(for the extended-length value `0xFF` as for any other length byte), else 0. -/
def recordOffsetOf (pageBuffer : List Nat) : Option Nat :=
  (readAt pageBuffer 0).bind fun b0 =>
  if b0 = 0x03 then
    (readAt pageBuffer 1).bind fun ndefMessageLength =>
    if ndefMessageLength = 0xFF then some 2 else some 2
  else some 0

/-- The NDEF text-record parser of `readTagDetails` (main.cpp:811-865), run on the 32
bytes read from pages 4..11: the value of `outNdefName` afterwards, or `none` if any
access leaves `pageBuffer` or `nameBuffer`. -/
def parseNdefText (nameBuffer pageBuffer : List Nat) : Option AString :=
  (recordOffsetOf pageBuffer).bind fun recordOffset =>
  if recordOffset < 28 then
    (readAt pageBuffer recordOffset).bind fun header =>
    if header &&& 0x07 = 0x01 then
      (readAt pageBuffer (recordOffset + 1)).bind fun typeLength =>
      (readAt pageBuffer (recordOffset + 2)).bind fun payloadLength =>
      if recordOffset + 3 + typeLength < 32 ∧ typeLength = 1 then
        (readAt pageBuffer (recordOffset + 3)).bind fun typeByte =>
        if typeByte = 84 then
          let textPayloadFieldOffset := recordOffset + 3 + typeLength
          (readAt pageBuffer textPayloadFieldOffset).bind fun statusByte =>
          let langCodeLength := statusByte &&& 0x3F
          copyText nameBuffer pageBuffer (textPayloadFieldOffset + 1 + langCodeLength)
            ((payloadLength : Int) - (1 + (langCodeLength : Int)))
        else some []
      else some []
    else some []
  else some []

/-- What the PN532 reader hands back for a tag in range: the UID bytes and the 32 bytes of
pages 4..11, `none` when one of the eight page reads fails. -/
structure TagRead where
  uid : List Nat
  pages : Option (List Nat)
deriving DecidableEq, Repr

/-- The outputs of `readTagDetails`: its return value and the two reference parameters. -/
structure TagDetails where
  nfcReadSuccess : Bool
  outUidString : AString
  outNdefName : AString
deriving DecidableEq, Repr

/-- Embedding of `readTagDetails` (main.cpp:787-871). `poll` is the answer of `readPassiveTargetID`
(`none`: no tag within the timeout); the result is `none` if the parser leaves a buffer. -/
def readTagDetails (poll : Option TagRead) (nameBuffer : List Nat) : Option TagDetails :=
  match poll with
  | none => some { nfcReadSuccess := false, outUidString := [], outNdefName := [] }
  | some tag =>
    let outUidString := uidBytesToHexString tag.uid tag.uid.length
    match tag.pages with
    | none => some { nfcReadSuccess := true, outUidString := outUidString, outNdefName := [] }
    | some pageBuffer =>
      (parseNdefText nameBuffer pageBuffer).map fun name =>
        { nfcReadSuccess := true, outUidString := outUidString, outNdefName := name }

/-- A 32-byte window: the given bytes followed by zero bytes. -/
def window (bytes : List Nat) : List Nat := bytes ++ List.replicate (32 - bytes.length) 0

/-- A tag written with the text record "Helmet" (language code "en") inside a `0x03`
message block. -/
def helmetWindow : List Nat :=
  window ([0x03, 0x0D, 0xD1, 0x01, 0x09, 0x54, 0x02, 0x65, 0x6E] ++ str "Helmet" ++ [0xFE])

/-- A window without the `0x03` marker whose first byte is not a well-known-type header
(scenario E). -/
def scenarioEWindow : List Nat := window [0x00, 0x00, 0x00, 0x00]

/-- An arbitrary content for the uninitialised `nameBuffer`. -/
def junkBuffer : List Nat := List.replicate 32 0xAA

/-- The "Helmet" record with the SR bit (0x10) of the header byte cleared: header 0xC1. -/
def longRecordWindow : List Nat :=
  window ([0x03, 0x0D, 0xC1, 0x01, 0x09, 0x54, 0x02, 0x65, 0x6E] ++ str "Helmet" ++ [0xFE])

/-- A text record whose payload length (0x40) runs past the end of the window. -/
def overlongWindow : List Nat :=
  window ([0x03, 0x44, 0xD1, 0x01, 0x40, 0x54, 0x02, 0x65, 0x6E] ++ str "Helmet")

/-- The sixteen upper-case hexadecimal digit characters, indexed by digit value. -/
def upperHexChars : AString := str "0123456789ABCDEF"

/-- The upper-case hexadecimal digit character of a nibble. -/
def upperHexDigit (d : Nat) : Nat := upperHexChars.getD d 0

/-- The canonical rendering of the spec: per byte, the upper-case hexadecimal digit of
the high nibble followed by that of the low nibble. -/
def hexPairs : List Nat → AString
  | [] => []
  | v :: rest => upperHexDigit (v / 16) :: upperHexDigit (v % 16) :: hexPairs rest

/-- Two characters that differ at most in letter case: equal, or one is an upper-case
letter `'A'..'Z'` and the other the corresponding lower-case letter. -/
def sameLetter (c d : Nat) : Prop :=
  c = d ∨ (65 ≤ c ∧ c ≤ 90 ∧ d = c + 32) ∨ (65 ≤ d ∧ d ≤ 90 ∧ c = d + 32)

instance (c d : Nat) : Decidable (sameLetter c d) := by
  unfold sameLetter; infer_instance

/-! ## The workflow state machine: state and inputs

Time is discrete: `millis()` reads the field `millis`, which advances by the time an
iteration of `loop()` starts after the previous one (`Inputs.elapsed`), by `delay()` and by
the blocking calls (`Inputs.tagReadMs`, `Inputs.networkMs`); other code takes no time.
`unsigned long` arithmetic is modulo `2^32`. Display and serial output are not kept,
except for the time a non-persistent status message blocks. -/

/-- Value of the enumerator `IDLE_MENU` of `SystemState` (main.cpp:45-60). -/
def IDLE_MENU : Nat := 0
/-- Value of the enumerator `REPACK_SESSION_START_CONFIRM`. -/
def REPACK_SESSION_START_CONFIRM : Nat := 1
/-- Value of the enumerator `SESSION_ACTIVE`. -/
def SESSION_ACTIVE : Nat := 2
/-- Value of the enumerator `REPACKING_SCAN`. -/
def REPACKING_SCAN : Nat := 3
/-- Value of the enumerator `REPACK_CONFIRM_FINISH`. -/
def REPACK_CONFIRM_FINISH : Nat := 4
/-- Value of the enumerator `REPACK_SESSION_COMPLETE`. -/
def REPACK_SESSION_COMPLETE : Nat := 5
/-- Value of the enumerator `ADMIN_MODE_UNLOCK`. -/
def ADMIN_MODE_UNLOCK : Nat := 6
/-- Value of the enumerator `ADMIN_MODE_PREPARE_WIFI`. -/
def ADMIN_MODE_PREPARE_WIFI : Nat := 7
/-- Value of the enumerator `ADMIN_MENU`. -/
def ADMIN_MENU : Nat := 8
/-- Value of the enumerator `ADMIN_SET_ACTIVE_BAG_FETCH`. -/
def ADMIN_SET_ACTIVE_BAG_FETCH : Nat := 9
/-- Value of the enumerator `ADMIN_SET_ACTIVE_BAG_SELECT`. -/
def ADMIN_SET_ACTIVE_BAG_SELECT : Nat := 10
/-- Value of the enumerator `ADMIN_REPLACE_SCAN_OLD`. -/
def ADMIN_REPLACE_SCAN_OLD : Nat := 11
/-- Value of the enumerator `ADMIN_REPLACE_SCAN_NEW`. -/
def ADMIN_REPLACE_SCAN_NEW : Nat := 12
/-- Value of the enumerator `ADMIN_REPLACE_CONFIRM`. -/
def ADMIN_REPLACE_CONFIRM : Nat := 13

/-- Value of the enumerator `MAIN_MENU` of `MenuScreen` (main.cpp:64-67). -/
def MAIN_MENU : Nat := 0
/-- Value of the enumerator `ADMIN_MENU_SCREEN`. -/
def ADMIN_MENU_SCREEN : Nat := 1

/-- Pin of button A (Config.h). -/
def BUTTON_A_PIN : Nat := 4
/-- Pin of button B (Config.h). -/
def BUTTON_B_PIN : Nat := 12
/-- Pin of button C (Config.h). -/
def BUTTON_C_PIN : Nat := 13
/-- Polling interval of the tag reader in ms (Config.h). -/
def NFC_POLLING_INTERVAL_MS : Nat := 200
/-- Pause after a tag read in ms (Config.h). -/
def TAG_READ_DELAY_MS : Nat := 500
/-- Admin tag scan timeout in ms (Config.h). -/
def ADMIN_TAG_SCAN_TIMEOUT_MS : Nat := 10000
/-- Default duration of a status message in ms (Config.h). -/
def STATUS_MESSAGE_DURATION_MS : Nat := 2000
/-- Auto-return time of the outcome screen in ms (Config.h). -/
def WELL_DONE_TIMEOUT_MS : Nat := 5000
/-- Inactivity time before deep sleep in ms (Config.h). -/
def DEEP_SLEEP_TIMEOUT_MS : Nat := 60000
/-- Debounce delay in ms (main.cpp:80). -/
def debounceDelay : Nat := 50
/-- Size of the bag arrays (main.cpp:37). -/
def MAX_BAGS_TO_LIST : Nat := 10

/-- Modelled from the spec: the value of `ESP_SLEEP_WAKEUP_EXT1` comes from the ESP-IDF header
`esp_sleep.h`, which is not under `src/`; it is the wake-up cause of a button wake-up. -/
def ESP_SLEEP_WAKEUP_EXT1 : Nat := 3

/-- The global and function-static variables of `main.cpp` that the workflow reads or
writes, the clock, and whether the program is still running (`asleep`: after
`esp_deep_sleep_start()`; `halted`: in the endless loop of `setup`). The constant
`ADMIN_TAG_UID_STRING` comes from `Secrets.h`, which is not under `src/`, and is carried
as a field that no operation changes. -/
structure Device where
  session : Session
  currentAssignedBagID : AString
  currentAssignedBagName : AString
  availableBagNames : List AString
  availableBagIDs : List AString
  availableBagCount : Int
  currentState : Nat
  currentMenuScreen : Nat
  currentMenuSelection : Int
  redrawOled : Bool
  admin_TargetOldUID_str : AString
  admin_NewUID_str : AString
  admin_NewEquipmentName_str : AString
  buttonState : List Bool
  lastButtonState : List Bool
  lastDebounceTime : List Nat
  savedCurrentState : Nat
  savedCurrentMenuScreen : Nat
  savedCurrentMenuSelection : Int
  rtcDataIsValid : Bool
  lastActivityTime : Nat
  millis : Nat
  asleep : Bool
  halted : Bool
  ADMIN_TAG_UID_STRING : AString
  startConfirm_oledPromptDrawn : Bool
  sessionActive_oledPromptDrawn : Bool
  scan_oledScreenDrawn : Bool
  scan_lastNfcPollTime : Nat
  confirmFinish_oledPromptDrawn : Bool
  complete_oledOutcomeDrawn : Bool
  complete_entryTime : Nat
  unlock_oledPromptDrawn : Bool
  unlock_unlockAttemptStartTime : Nat
  replaceOld_oledPromptDrawn : Bool
  replaceNew_oledPromptDrawn : Bool
  replaceConfirm_oledPromptDrawn : Bool

/-- The answer of the inventory service to one GET request, as the fetch functions
distinguish it: `http.begin` failed, a status other than 200, a body that is not JSON, a
body without a `records` array, or the array with the two string fields of each record
(`none` for a missing or null field). -/
inductive HttpReply where
  | beginFailed
  | httpError
  | badJson
  | noRecords
  | records (rs : List (Option AString × Option AString))

/-- What the environment supplies during one pass of `loop()`: the time since the previous
pass, the levels `digitalRead` returns for the three button pins, the answer of the tag
reader with the old content of `nameBuffer`, the WiFi status before and after
`connectWiFi`, the service answers, the results of the file write and of the update
request, and the time the blocking calls take. -/
structure Inputs where
  elapsed : Nat
  pinA : Bool
  pinB : Bool
  pinC : Bool
  tag : Option TagRead
  nameBuffer : List Nat
  tagReadMs : Nat
  wifiStatus : Bool
  wifiAfterConnect : Bool
  networkMs : Nat
  equipmentReply : HttpReply
  bagsReply : HttpReply
  updateOk : Bool
  saveBagOk : Bool

/-- What the environment supplies to `setup()`: the wake-up cause, the firmware version the
tag reader reports (0: reader not found), whether SPIFFS mounts, the lines of the bag
configuration file and of the cached list file (`none`: the file cannot be opened), and the
time `setup` takes. -/
structure BootInputs where
  wakeup_reason : Nat
  nfc_firmware_version : Nat
  spiffsOk : Bool
  bagConfigFile : Option (List AString)
  listFile : Option (List AString)
  setupMs : Nat

/-! ## The workflow state machine: helpers -/

/-- Unsigned 32-bit difference `now - t` of two `millis()` readings. -/
def elapsedSince (now t : Nat) : Nat := (now + 4294967296 - t) % 4294967296

/-- The call `delay(ms)`: the clock advances. -/
def delay (ms : Nat) (d : Device) : Device :=
  { d with millis := (d.millis + ms) % 4294967296 }

/-- Embedding of `oledShowStatusMessage` (main.cpp:138-152): a message that is not
persistent blocks for `customDuration` ms, or for the default duration when that is 0. -/
def oledShowStatusMessage (persistent : Bool) (customDuration : Nat) (d : Device) : Device :=
  if !persistent then
    delay (if customDuration > 0 then customDuration else STATUS_MESSAGE_DURATION_MS) d
  else d

/-- Embedding of `isButtonPressed` (main.cpp:180-204) with the level `reading` returned by
`digitalRead(pin)`. -/
def isButtonPressed (pin : Nat) (reading : Bool) (d : Device) : Bool × Device :=
  if pin ≥ 32 then (false, d)
  else
    let lastDebounceTime :=
      if reading != d.lastButtonState.getD pin false then d.lastDebounceTime.set pin d.millis
      else d.lastDebounceTime
    let changed :=
      decide (elapsedSince d.millis (lastDebounceTime.getD pin 0) > debounceDelay) &&
        (reading != d.buttonState.getD pin false)
    let triggered := changed && reading
    (triggered,
      { d with
        lastDebounceTime := lastDebounceTime
        buttonState := if changed then d.buttonState.set pin reading else d.buttonState
        lastActivityTime := if triggered then d.millis else d.lastActivityTime
        lastButtonState := d.lastButtonState.set pin reading })

/-- Embedding of `displayCurrentMenuOnOLED` (main.cpp:1065-1114): only the admin-menu
branch clears `redrawOled`. -/
def displayCurrentMenuOnOLED (d : Device) : Device :=
  if d.currentMenuScreen = MAIN_MENU then d
  else if d.currentMenuScreen = ADMIN_MENU_SCREEN then { d with redrawOled := false }
  else d

/-- Embedding of `handleButtonInputsForMenu` (main.cpp:1117-1137); `%` is the C remainder. -/
def handleButtonInputsForMenu (inp : Inputs) (d : Device) : Device :=
  if d.currentMenuScreen ≠ MAIN_MENU ∧ d.currentMenuScreen ≠ ADMIN_MENU_SCREEN then d
  else
    let itemCount : Int := if d.currentMenuScreen = MAIN_MENU then 2 else 4
    let a := isButtonPressed BUTTON_A_PIN inp.pinA d
    if a.1 then
      { a.2 with
        currentMenuSelection := Int.tmod (a.2.currentMenuSelection - 1 + itemCount) itemCount
        redrawOled := true }
    else
      let b := isButtonPressed BUTTON_B_PIN inp.pinB a.2
      if b.1 then
        { b.2 with
          currentMenuSelection := Int.tmod (b.2.currentMenuSelection + 1) itemCount
          redrawOled := true }
      else b.2

/-- The tag poll of a handler: the outputs of `readTagDetails` for this pass. The parser
cannot leave its buffers when they have 32 bytes (`readTagDetails_isSome`); for any other
input the poll counts as "no tag". -/
def pollTag (inp : Inputs) : TagDetails :=
  (readTagDetails inp.tag inp.nameBuffer).getD
    { nfcReadSuccess := false, outUidString := [], outNdefName := [] }

/-- The time the status messages of `processScannedRepackTag` block (main.cpp:912-926):
1500 ms for "Scanned:" or "Unknown Tag!", another 1000 ms for "Already Scanned!". -/
def scanReportDelay : ScanReport → Nat
  | ScanReport.matched _ false => 1500
  | ScanReport.matched _ true => 2500
  | ScanReport.unknownTag => 1500

/-- The call of `connectWiFi` (main.cpp:371-418) as far as the workflow sees it: it
blocks; the status afterwards is `Inputs.wifiAfterConnect`. -/
def connectWiFi (inp : Inputs) (d : Device) : Device := delay inp.networkMs d

/-- The record loop of `fetchEquipmentList_Airtable` (main.cpp:508-527): the count reached
and the arrays written. -/
def loadEquipmentRecords :
    List (Option AString × Option AString) → Nat → Session → Nat × Session
  | [], count, s => (count, s)
  | r :: rest, count, s =>
    if count ≥ MAX_EXPECTED_ITEMS then (count, s)
    else
      match r with
      | (some uid_str, some name_str) =>
        loadEquipmentRecords rest (count + 1)
          { s with
            currentExpectedUIDStrings := s.currentExpectedUIDStrings.set count uid_str
            currentExpectedItemNames := s.currentExpectedItemNames.set count name_str }
      | _ => loadEquipmentRecords rest count s

/-- Embedding of `fetchEquipmentList_Airtable` (main.cpp:446-548); the HTTP exchange and
the JSON parse are the input `equipmentReply`, and `saveListToSPIFFS` writes a file only. -/
def fetchEquipmentList_Airtable (inp : Inputs) (d : Device) : Bool × Device :=
  if d.currentAssignedBagID.isEmpty then (false, oledShowStatusMessage false 3000 d)
  else if !inp.wifiStatus && !inp.wifiAfterConnect then
    (false, oledShowStatusMessage false 3000 (connectWiFi inp d))
  else
    let d1 := if !inp.wifiStatus then connectWiFi inp d else d
    let d2 := delay inp.networkMs
      { d1 with session := { d1.session with currentMaxItems := 0 } }
    match inp.equipmentReply with
    | HttpReply.records rs =>
      let r := loadEquipmentRecords rs 0 d2.session
      (true, oledShowStatusMessage false 2000
        { d2 with session := { r.2 with currentMaxItems := r.1 } })
    | _ => (false, oledShowStatusMessage false 3000 d2)

/-- The record loop of `fetchAvailableBags_Airtable` (main.cpp:737-752). -/
def loadBagRecords : List (Option AString × Option AString) → Device → Device
  | [], d => d
  | r :: rest, d =>
    if d.availableBagCount ≥ MAX_BAGS_TO_LIST then d
    else
      match r with
      | (some bagNameStr, some bagIdStr) =>
        loadBagRecords rest
          { d with
            availableBagNames := d.availableBagNames.set d.availableBagCount.toNat bagNameStr
            availableBagIDs := d.availableBagIDs.set d.availableBagCount.toNat bagIdStr
            availableBagCount := d.availableBagCount + 1 }
      | _ => loadBagRecords rest d

/-- Embedding of `fetchAvailableBags_Airtable` (main.cpp:702-781). -/
def fetchAvailableBags_Airtable (inp : Inputs) (d : Device) : Bool × Device :=
  if !inp.wifiStatus && !inp.wifiAfterConnect then
    (false, oledShowStatusMessage false 3000 (connectWiFi inp d))
  else
    let d1 := if !inp.wifiStatus then connectWiFi inp d else d
    let d2 := delay inp.networkMs { d1 with availableBagCount := 0 }
    match inp.bagsReply with
    | HttpReply.records rs =>
      let d3 := loadBagRecords rs d2
      if d3.availableBagCount > 0 then (true, oledShowStatusMessage false 2000 d3)
      else (false, oledShowStatusMessage false 3000 d3)
    | _ => (false, oledShowStatusMessage false 3000 d2)

/-- Embedding of `saveCurrentBagID` (main.cpp:297-311); `saveBagOk` tells whether the
configuration file could be opened for writing. -/
def saveCurrentBagID (inp : Inputs) (bagID bagName : AString) (d : Device) : Bool × Device :=
  if !inp.saveBagOk then (false, d)
  else (true, { d with currentAssignedBagID := bagID, currentAssignedBagName := bagName })

/-- The call of `sendAirtableUpdateRequest` (main.cpp:597-700) as far as the workflow sees
it: it blocks and reports success or failure; it writes no global. -/
def sendAirtableUpdateRequest (inp : Inputs) (d : Device) : Bool × Device :=
  (inp.updateOk, delay inp.networkMs d)

/-- Embedding of `disconnectWiFi` (main.cpp:420-428): the "WiFi Off" message blocks when
the link was up. -/
def disconnectWiFi (inp : Inputs) (d : Device) : Device :=
  if inp.wifiStatus then oledShowStatusMessage false 1500 d else d

/-! ## The workflow state machine: state handlers -/

/-- Embedding of `handleIdleMenuState` (main.cpp:1142-1181). -/
def handleIdleMenuState (inp : Inputs) (d : Device) : Device :=
  let d1 := handleButtonInputsForMenu inp d
  let d2 := if d1.redrawOled then displayCurrentMenuOnOLED d1 else d1
  let c := isButtonPressed BUTTON_C_PIN inp.pinC d2
  let d3 :=
    if c.1 then
      let d2r : Device := { c.2 with redrawOled := true }
      if d2r.currentMenuScreen = MAIN_MENU then
        if d2r.currentMenuSelection = 0 then
          { d2r with currentState := REPACK_SESSION_START_CONFIRM }
        else if d2r.currentMenuSelection = 1 then
          { d2r with currentState := ADMIN_MODE_UNLOCK }
        else d2r
      else d2r
    else c.2
  if elapsedSince d3.millis d3.lastActivityTime > DEEP_SLEEP_TIMEOUT_MS then
    { delay 1000
        { d3 with
          savedCurrentState := d3.currentState
          savedCurrentMenuScreen := d3.currentMenuScreen
          savedCurrentMenuSelection := d3.currentMenuSelection
          rtcDataIsValid := true } with
      asleep := true }
  else d3

/-- Embedding of `handleRepackSessionStartConfirmState` (main.cpp:1184-1229). -/
def handleRepackSessionStartConfirmState (inp : Inputs) (d : Device) : Device :=
  let d1 :=
    if !d.startConfirm_oledPromptDrawn || d.redrawOled then
      { d with startConfirm_oledPromptDrawn := true, redrawOled := false }
    else d
  if d1.session.currentMaxItems = 0 then
    let c := isButtonPressed BUTTON_C_PIN inp.pinC d1
    if c.1 then
      { c.2 with
        currentState := IDLE_MENU
        currentMenuScreen := MAIN_MENU
        currentMenuSelection := 0
        startConfirm_oledPromptDrawn := false
        redrawOled := true }
    else c.2
  else
    let a := isButtonPressed BUTTON_A_PIN inp.pinA d1
    if a.1 then
      { a.2 with
        session := markAllItemsUsedInitially a.2.session
        currentState := SESSION_ACTIVE
        startConfirm_oledPromptDrawn := false
        redrawOled := true }
    else
      let b := isButtonPressed BUTTON_B_PIN inp.pinB a.2
      if b.1 then
        { b.2 with
          currentState := IDLE_MENU
          currentMenuScreen := MAIN_MENU
          currentMenuSelection := 0
          startConfirm_oledPromptDrawn := false
          redrawOled := true }
      else b.2

/-- Embedding of `handleSessionActiveState` (main.cpp:1231-1250). -/
def handleSessionActiveState (inp : Inputs) (d : Device) : Device :=
  let d1 :=
    if !d.sessionActive_oledPromptDrawn || d.redrawOled then
      { d with sessionActive_oledPromptDrawn := true, redrawOled := false }
    else d
  let c := isButtonPressed BUTTON_C_PIN inp.pinC d1
  if c.1 then
    { c.2 with
      session := resetFoundTagsForRepack c.2.session
      currentState := REPACKING_SCAN
      sessionActive_oledPromptDrawn := false
      redrawOled := true }
  else c.2

/-- The end of `handleRepackingScanState` (main.cpp:1292-1296): the manual-finish button. -/
def scanManualFinish (inp : Inputs) (d : Device) : Device :=
  let b := isButtonPressed BUTTON_B_PIN inp.pinB d
  if b.1 then
    { b.2 with
      currentState := REPACK_CONFIRM_FINISH
      scan_oledScreenDrawn := false
      redrawOled := true }
  else b.2

/-- The body of `if (readTagDetails(...))` in `handleRepackingScanState`
(main.cpp:1267-1289) and, when the session is not complete, the rest of the handler. -/
def scanAfterRead (inp : Inputs) (d2 : Device) : Device :=
  let r := processScannedRepackTag d2.session (pollTag inp).outUidString
  let d3 := delay TAG_READ_DELAY_MS (delay (scanReportDelay r.2) { d2 with session := r.1 })
  let d4 := { d3 with scan_lastNfcPollTime := d3.millis }
  if d4.session.allRepackItemsScanned && decide (usedTagsInitiallyCount d4.session > 0) then
    { oledShowStatusMessage false 2000 d4 with
      currentState := REPACK_SESSION_COMPLETE
      scan_oledScreenDrawn := false
      redrawOled := true }
  else scanManualFinish inp d4

/-- Embedding of `handleRepackingScanState` (main.cpp:1252-1297). -/
def handleRepackingScanState (inp : Inputs) (d : Device) : Device :=
  let d1 :=
    if !d.scan_oledScreenDrawn || d.redrawOled then
      { d with scan_oledScreenDrawn := true, redrawOled := false }
    else d
  if elapsedSince d1.millis d1.scan_lastNfcPollTime ≥ NFC_POLLING_INTERVAL_MS then
    let d2 := delay inp.tagReadMs { d1 with scan_lastNfcPollTime := d1.millis }
    if (pollTag inp).nfcReadSuccess then scanAfterRead inp d2
    else scanManualFinish inp d2
  else scanManualFinish inp d1

/-- Embedding of `handleRepackConfirmFinishState` (main.cpp:1299-1322). -/
def handleRepackConfirmFinishState (inp : Inputs) (d : Device) : Device :=
  let d1 :=
    if !d.confirmFinish_oledPromptDrawn || d.redrawOled then
      { d with confirmFinish_oledPromptDrawn := true, redrawOled := false }
    else d
  let a := isButtonPressed BUTTON_A_PIN inp.pinA d1
  if a.1 then
    { a.2 with
      currentState := REPACK_SESSION_COMPLETE
      confirmFinish_oledPromptDrawn := false
      redrawOled := true }
  else
    let b := isButtonPressed BUTTON_B_PIN inp.pinB a.2
    if b.1 then
      { b.2 with
        currentState := REPACKING_SCAN
        confirmFinish_oledPromptDrawn := false
        redrawOled := true }
    else b.2

/-- Embedding of `handleRepackSessionCompleteState` (main.cpp:1324-1352). -/
def handleRepackSessionCompleteState (inp : Inputs) (d : Device) : Device :=
  let d1 :=
    if !d.complete_oledOutcomeDrawn || d.redrawOled then
      { d with complete_oledOutcomeDrawn := true, redrawOled := false, complete_entryTime := d.millis }
    else d
  let c := isButtonPressed BUTTON_C_PIN inp.pinC d1
  if c.1 || (decide (elapsedSince c.2.millis c.2.complete_entryTime > WELL_DONE_TIMEOUT_MS) &&
      decide (c.2.complete_entryTime ≠ 0)) then
    { c.2 with
      currentState := IDLE_MENU
      currentMenuScreen := MAIN_MENU
      currentMenuSelection := 0
      complete_oledOutcomeDrawn := false
      redrawOled := true
      complete_entryTime := 0 }
  else c.2

/-- The end of `handleAdminModeUnlockState` (main.cpp:1387-1406): the cancel button, then
the timeout test. -/
def unlockCancelOrTimeout (inp : Inputs) (d : Device) : Device :=
  let b := isButtonPressed BUTTON_B_PIN inp.pinB d
  let d1 :=
    if b.1 then
      { oledShowStatusMessage false 1500 b.2 with
        currentState := IDLE_MENU
        currentMenuScreen := MAIN_MENU
        currentMenuSelection := 0
        unlock_oledPromptDrawn := false
        redrawOled := true }
    else b.2
  if elapsedSince d1.millis d1.unlock_unlockAttemptStartTime > ADMIN_TAG_SCAN_TIMEOUT_MS then
    { oledShowStatusMessage false 2000 d1 with
      currentState := IDLE_MENU
      currentMenuScreen := MAIN_MENU
      currentMenuSelection := 0
      unlock_oledPromptDrawn := false
      redrawOled := true }
  else d1

/-- Embedding of `handleAdminModeUnlockState` (main.cpp:1354-1407). -/
def handleAdminModeUnlockState (inp : Inputs) (d : Device) : Device :=
  let d1 :=
    if !d.unlock_oledPromptDrawn || d.redrawOled then
      { d with
        unlock_oledPromptDrawn := true
        redrawOled := false
        unlock_unlockAttemptStartTime := d.millis }
    else d
  let d2 := delay inp.tagReadMs d1
  if (pollTag inp).nfcReadSuccess then
    if !(pollTag inp).outUidString.isEmpty &&
        equalsIgnoreCase (pollTag inp).outUidString d2.ADMIN_TAG_UID_STRING then
      { oledShowStatusMessage false 1500 d2 with
        currentState := ADMIN_MODE_PREPARE_WIFI
        unlock_oledPromptDrawn := false
        redrawOled := true }
    else if !(pollTag inp).outUidString.isEmpty then
      let d3 := delay TAG_READ_DELAY_MS (oledShowStatusMessage false 2000 d2)
      unlockCancelOrTimeout inp
        { d3 with
          unlock_oledPromptDrawn := false
          redrawOled := true
          unlock_unlockAttemptStartTime := d3.millis }
    else unlockCancelOrTimeout inp d2
  else unlockCancelOrTimeout inp d2

/-- Embedding of `handleAdminModePrepareWifiState` (main.cpp:1409-1441). -/
def handleAdminModePrepareWifiState (inp : Inputs) (d : Device) : Device :=
  let d1 := if !inp.wifiStatus then connectWiFi inp d else oledShowStatusMessage false 1500 d
  if inp.wifiStatus || inp.wifiAfterConnect then
    { d1 with
      currentMenuScreen := ADMIN_MENU_SCREEN
      currentMenuSelection := 0
      currentState := ADMIN_MENU
      redrawOled := true }
  else
    { d1 with
      currentState := IDLE_MENU
      currentMenuScreen := MAIN_MENU
      currentMenuSelection := 0
      redrawOled := true }

/-- Embedding of `handleAdminMenuState` (main.cpp:1443-1492). -/
def handleAdminMenuState (inp : Inputs) (d : Device) : Device :=
  let d1 := if d.redrawOled then displayCurrentMenuOnOLED d else d
  let d2 := handleButtonInputsForMenu inp d1
  let c := isButtonPressed BUTTON_C_PIN inp.pinC d2
  if c.1 then
    let d3 : Device := { c.2 with redrawOled := true }
    if d3.currentMenuSelection = 0 then
      { d3 with currentState := ADMIN_SET_ACTIVE_BAG_FETCH }
    else if d3.currentMenuSelection = 1 then
      if d3.currentAssignedBagID.isEmpty then
        { oledShowStatusMessage false 3000 d3 with redrawOled := true }
      else
        { d3 with
          currentState := ADMIN_REPLACE_SCAN_OLD
          admin_TargetOldUID_str := []
          admin_NewUID_str := []
          admin_NewEquipmentName_str := [] }
    else if d3.currentMenuSelection = 2 then
      if d3.currentAssignedBagID.isEmpty then
        { oledShowStatusMessage false 3000 d3 with redrawOled := true }
      else
        { (fetchEquipmentList_Airtable inp d3).2 with redrawOled := true }
    else if d3.currentMenuSelection = 3 then
      { disconnectWiFi inp (oledShowStatusMessage false 1000 d3) with
        currentMenuScreen := MAIN_MENU
        currentMenuSelection := 0
        currentState := IDLE_MENU }
    else d3
  else c.2

/-- The end of the two replace-tag scan handlers (main.cpp:1517-1523, 1572-1578): the
cancel button. `scanNew` tells which handler's prompt flag is cleared. -/
def replaceScanCancel (inp : Inputs) (scanNew : Bool) (d : Device) : Device :=
  let b := isButtonPressed BUTTON_B_PIN inp.pinB d
  if b.1 then
    let d1 := oledShowStatusMessage false 1500 b.2
    if scanNew then
      { d1 with currentState := ADMIN_MENU, replaceNew_oledPromptDrawn := false, redrawOled := true }
    else
      { d1 with currentState := ADMIN_MENU, replaceOld_oledPromptDrawn := false, redrawOled := true }
  else b.2

/-- Embedding of `handleAdminReplaceScanOldState` (main.cpp:1497-1524). -/
def handleAdminReplaceScanOldState (inp : Inputs) (d : Device) : Device :=
  let d1 :=
    if d.redrawOled || !d.replaceOld_oledPromptDrawn then
      { d with replaceOld_oledPromptDrawn := true, redrawOled := false }
    else d
  let d2 := delay inp.tagReadMs d1
  if (pollTag inp).nfcReadSuccess && !(pollTag inp).outUidString.isEmpty then
    let d3 := oledShowStatusMessage false 1500
      { d2 with admin_TargetOldUID_str := (pollTag inp).outUidString }
    replaceScanCancel inp false
      (delay TAG_READ_DELAY_MS
        { d3 with
          currentState := ADMIN_REPLACE_SCAN_NEW
          replaceOld_oledPromptDrawn := false
          redrawOled := true })
  else replaceScanCancel inp false d2

/-- The body of `if (!uidScanned.isEmpty())` in `handleAdminReplaceScanNewState`
(main.cpp:1538-1568) and, when both validations pass, the rest of the handler. -/
def replaceNewAfterRead (inp : Inputs) (d2 : Device) : Device :=
  let d3 :=
    { d2 with
      admin_NewUID_str := (pollTag inp).outUidString
      admin_NewEquipmentName_str := (pollTag inp).outNdefName }
  if equalsIgnoreCase d3.admin_NewUID_str d3.admin_TargetOldUID_str then
    { delay TAG_READ_DELAY_MS (oledShowStatusMessage false 3000 d3) with
      replaceNew_oledPromptDrawn := false
      redrawOled := true }
  else if d3.admin_NewEquipmentName_str.isEmpty then
    { delay TAG_READ_DELAY_MS (oledShowStatusMessage false 3000 d3) with
      replaceNew_oledPromptDrawn := false
      redrawOled := true }
  else
    replaceScanCancel inp true
      (delay TAG_READ_DELAY_MS
        { oledShowStatusMessage false 1500 d3 with
          currentState := ADMIN_REPLACE_CONFIRM
          replaceNew_oledPromptDrawn := false
          redrawOled := true })

/-- Embedding of `handleAdminReplaceScanNewState` (main.cpp:1526-1579). -/
def handleAdminReplaceScanNewState (inp : Inputs) (d : Device) : Device :=
  let d1 :=
    if d.redrawOled || !d.replaceNew_oledPromptDrawn then
      { d with replaceNew_oledPromptDrawn := true, redrawOled := false }
    else d
  let d2 := delay inp.tagReadMs d1
  if (pollTag inp).nfcReadSuccess && !(pollTag inp).outUidString.isEmpty then
    replaceNewAfterRead inp d2
  else replaceScanCancel inp true d2

/-- Embedding of `handleAdminReplaceConfirmState` (main.cpp:1581-1628). -/
def handleAdminReplaceConfirmState (inp : Inputs) (d : Device) : Device :=
  let d1 :=
    if d.redrawOled || !d.replaceConfirm_oledPromptDrawn then
      { d with replaceConfirm_oledPromptDrawn := true, redrawOled := false }
    else d
  let a := isButtonPressed BUTTON_A_PIN inp.pinA d1
  if a.1 then
    let u := sendAirtableUpdateRequest inp a.2
    let d2 :=
      if u.1 then
        let f := fetchEquipmentList_Airtable inp u.2
        if f.1 then f.2 else oledShowStatusMessage false 3000 f.2
      else u.2
    { d2 with
      currentState := ADMIN_MENU
      replaceConfirm_oledPromptDrawn := false
      redrawOled := true }
  else
    let b := isButtonPressed BUTTON_B_PIN inp.pinB a.2
    if b.1 then
      { oledShowStatusMessage false 1500 b.2 with
        currentState := ADMIN_MENU
        replaceConfirm_oledPromptDrawn := false
        redrawOled := true }
    else b.2

/-- Embedding of `handleAdminSetActiveBagFetchState` (main.cpp:1630-1647). -/
def handleAdminSetActiveBagFetchState (inp : Inputs) (d : Device) : Device :=
  let f := fetchAvailableBags_Airtable inp d
  if f.1 then
    if f.2.availableBagCount > 0 then
      { f.2 with
        currentState := ADMIN_SET_ACTIVE_BAG_SELECT
        currentMenuSelection := 0
        redrawOled := true }
    else
      { oledShowStatusMessage false 3000 f.2 with currentState := ADMIN_MENU, redrawOled := true }
  else { f.2 with currentState := ADMIN_MENU, redrawOled := true }

/-- Embedding of `handleAdminSetActiveBagSelectState` (main.cpp:1649-1691); `%` is the C
remainder and the array reads use the index as it is. -/
def handleAdminSetActiveBagSelectState (inp : Inputs) (d : Device) : Device :=
  let a := isButtonPressed BUTTON_A_PIN inp.pinA d
  let b := isButtonPressed BUTTON_B_PIN inp.pinB a.2
  if !a.1 && b.1 then
    { oledShowStatusMessage false 1500 b.2 with currentState := ADMIN_MENU, redrawOled := true }
  else
    let d1 :=
      if a.1 then
        { a.2 with
          currentMenuSelection :=
            Int.tmod (a.2.currentMenuSelection - 1 + a.2.availableBagCount) a.2.availableBagCount
          redrawOled := true }
      else b.2
    let c := isButtonPressed BUTTON_C_PIN inp.pinC d1
    if c.1 then
      let selectedBagID := c.2.availableBagIDs.getD c.2.currentMenuSelection.toNat []
      let selectedBagName := c.2.availableBagNames.getD c.2.currentMenuSelection.toNat []
      let s := saveCurrentBagID inp selectedBagID selectedBagName c.2
      let d2 :=
        if s.1 then (fetchEquipmentList_Airtable inp s.2).2
        else oledShowStatusMessage false 3000 s.2
      { d2 with currentState := ADMIN_MENU, redrawOled := true }
    else c.2

/-- The `switch` of `runStateMachine` (main.cpp:1699-1721): the handler of the current
phase, or the reset to `IDLE_MENU` for a value that is no enumerator. -/
def dispatchState (inp : Inputs) (d : Device) : Device :=
  if d.currentState = IDLE_MENU then handleIdleMenuState inp d
  else if d.currentState = REPACK_SESSION_START_CONFIRM then
      handleRepackSessionStartConfirmState inp d
    else if d.currentState = SESSION_ACTIVE then handleSessionActiveState inp d
    else if d.currentState = REPACKING_SCAN then handleRepackingScanState inp d
    else if d.currentState = REPACK_CONFIRM_FINISH then handleRepackConfirmFinishState inp d
    else if d.currentState = REPACK_SESSION_COMPLETE then handleRepackSessionCompleteState inp d
    else if d.currentState = ADMIN_MODE_UNLOCK then handleAdminModeUnlockState inp d
    else if d.currentState = ADMIN_MODE_PREPARE_WIFI then handleAdminModePrepareWifiState inp d
    else if d.currentState = ADMIN_MENU then handleAdminMenuState inp d
    else if d.currentState = ADMIN_SET_ACTIVE_BAG_FETCH then
      handleAdminSetActiveBagFetchState inp d
    else if d.currentState = ADMIN_SET_ACTIVE_BAG_SELECT then
      handleAdminSetActiveBagSelectState inp d
    else if d.currentState = ADMIN_REPLACE_SCAN_OLD then handleAdminReplaceScanOldState inp d
    else if d.currentState = ADMIN_REPLACE_SCAN_NEW then handleAdminReplaceScanNewState inp d
    else if d.currentState = ADMIN_REPLACE_CONFIRM then handleAdminReplaceConfirmState inp d
    else
      { d with
        currentState := IDLE_MENU
        currentMenuScreen := MAIN_MENU
        currentMenuSelection := 0
        redrawOled := true }

/-- Embedding of `runStateMachine` (main.cpp:1696-1729). When the handler has called
`esp_deep_sleep_start()` the rest of the function does not run. -/
def runStateMachine (inp : Inputs) (d : Device) : Device :=
  let stateBeforeRun := d.currentState
  let d1 := dispatchState inp d
  if d1.asleep then d1
  else if d1.currentState ≠ stateBeforeRun then
    { d1 with lastActivityTime := d1.millis, redrawOled := true }
  else d1

/-- One pass of `loop()` (main.cpp:1856-1859) after `elapsed` ms; nothing runs while the
device sleeps or is halted. -/
def loopOnce (inp : Inputs) (d : Device) : Device :=
  if d.asleep || d.halted then d else runStateMachine inp (delay inp.elapsed d)

/-! ## Start-up -/

/-- C `isspace` in the default locale: space and the control characters 9..13. -/
def isspace (c : Nat) : Bool := c == 32 || (decide (9 ≤ c) && decide (c ≤ 13))

/-- Modelled from the spec: `String::trim` of the Arduino core (not under `src/`) removes
the white space at both ends. -/
def trim (s : AString) : AString :=
  ((s.dropWhile isspace).reverse.dropWhile isspace).reverse

/-- Modelled from the spec: `String::indexOf(char)` of the Arduino core, the index of the
first occurrence or -1. -/
def indexOf (ch : Nat) (s : AString) : Int :=
  if s.indexOf ch < s.length then (s.indexOf ch : Int) else -1

/-- Modelled from the spec: `String::substring(left, right)` of the Arduino core for
`0 ≤ left ≤ right`, the characters at indices `left .. right-1`. -/
def substring (s : AString) (left right : Nat) : AString := (s.take right).drop left

/-- The variables after power-on: every global and function-static variable at its
initialiser, the `RTC_DATA_ATTR` variables included; `adminTag` is the constant
`ADMIN_TAG_UID_STRING`. -/
def Device.powerOn (adminTag : AString) : Device :=
  { session :=
      { currentExpectedItemNames := List.replicate MAX_EXPECTED_ITEMS []
        currentExpectedUIDStrings := List.replicate MAX_EXPECTED_ITEMS []
        currentMaxItems := 0
        foundTagsDuringRepack := List.replicate MAX_EXPECTED_ITEMS false
        usedTagsInitially := List.replicate MAX_EXPECTED_ITEMS false
        allRepackItemsScanned := false }
    currentAssignedBagID := []
    currentAssignedBagName := []
    availableBagNames := List.replicate MAX_BAGS_TO_LIST []
    availableBagIDs := List.replicate MAX_BAGS_TO_LIST []
    availableBagCount := 0
    currentState := IDLE_MENU
    currentMenuScreen := MAIN_MENU
    currentMenuSelection := 0
    redrawOled := true
    admin_TargetOldUID_str := []
    admin_NewUID_str := []
    admin_NewEquipmentName_str := []
    buttonState := List.replicate 32 false
    lastButtonState := List.replicate 32 false
    lastDebounceTime := List.replicate 32 0
    savedCurrentState := 0
    savedCurrentMenuScreen := 0
    savedCurrentMenuSelection := 0
    rtcDataIsValid := false
    lastActivityTime := 0
    millis := 0
    asleep := false
    halted := false
    ADMIN_TAG_UID_STRING := adminTag
    startConfirm_oledPromptDrawn := false
    sessionActive_oledPromptDrawn := false
    scan_oledScreenDrawn := false
    scan_lastNfcPollTime := 0
    confirmFinish_oledPromptDrawn := false
    complete_oledOutcomeDrawn := false
    complete_entryTime := 0
    unlock_oledPromptDrawn := false
    unlock_unlockAttemptStartTime := 0
    replaceOld_oledPromptDrawn := false
    replaceNew_oledPromptDrawn := false
    replaceConfirm_oledPromptDrawn := false }

/-- The variables as the C++ runtime initialises them when the program starts after a
reset or a wake-up: as after power-on, except that the four `RTC_DATA_ATTR` variables
keep what `prev` held. -/
def Device.initial (prev : Device) : Device :=
  { Device.powerOn prev.ADMIN_TAG_UID_STRING with
    savedCurrentState := prev.savedCurrentState
    savedCurrentMenuScreen := prev.savedCurrentMenuScreen
    savedCurrentMenuSelection := prev.savedCurrentMenuSelection
    rtcDataIsValid := prev.rtcDataIsValid }

/-- Embedding of `loadCurrentBagID` (main.cpp:313-352) on the lines of the configuration
file. -/
def loadCurrentBagID (b : BootInputs) (d : Device) : Bool × Device :=
  match b.bagConfigFile with
  | none => (false, { d with currentAssignedBagID := [], currentAssignedBagName := [] })
  | some lines =>
    let bagID := match lines with
      | [] => []
      | l :: _ => trim l
    let bagName := match lines with
      | _ :: l :: _ => trim l
      | _ => []
    if !bagID.isEmpty then
      (true, { d with currentAssignedBagID := bagID, currentAssignedBagName := bagName })
    else (false, { d with currentAssignedBagID := bagID, currentAssignedBagName := [] })

/-- The read loop of `loadListFromSPIFFS` (main.cpp:275-289) over the remaining lines. -/
def loadListLoop : List AString → Session → Session
  | [], s => s
  | raw :: rest, s =>
    if s.currentMaxItems < MAX_EXPECTED_ITEMS then
      let line := trim raw
      let commaIndex := indexOf 44 line
      if line.length > 0 ∧ commaIndex > 0 ∧ commaIndex < (line.length : Int) - 1 then
        loadListLoop rest
          { s with
            currentExpectedUIDStrings :=
              s.currentExpectedUIDStrings.set s.currentMaxItems (substring line 0 commaIndex.toNat)
            currentExpectedItemNames :=
              s.currentExpectedItemNames.set s.currentMaxItems
                (substring line (commaIndex.toNat + 1) line.length)
            currentMaxItems := s.currentMaxItems + 1 }
      else loadListLoop rest s
    else s

/-- Embedding of `loadListFromSPIFFS` (main.cpp:261-292). -/
def loadListFromSPIFFS (b : BootInputs) (d : Device) : Bool × Device :=
  if !b.spiffsOk then (false, d)
  else
    match b.listFile with
    | none => (false, { d with session := { d.session with currentMaxItems := 0 } })
    | some lines =>
      (true, { d with session := loadListLoop lines { d.session with currentMaxItems := 0 } })

/-- The restore block of `setup` (main.cpp:1789-1812). -/
def restoreOrDefault (b : BootInputs) (d : Device) : Device :=
  if b.wakeup_reason = ESP_SLEEP_WAKEUP_EXT1 then
    if d.rtcDataIsValid then
      oledShowStatusMessage false 1000
        { d with
          currentState := d.savedCurrentState
          currentMenuScreen := d.savedCurrentMenuScreen
          currentMenuSelection := d.savedCurrentMenuSelection }
    else
      oledShowStatusMessage false 1000
        { d with currentState := IDLE_MENU, currentMenuScreen := MAIN_MENU, currentMenuSelection := 0 }
  else
    oledShowStatusMessage false 2000
      { d with
        currentState := IDLE_MENU
        currentMenuScreen := MAIN_MENU
        currentMenuSelection := 0
        rtcDataIsValid := false }

/-- Embedding of `setup` (main.cpp:1734-1854), run on the variables `prev` left in RTC
memory. When the tag reader is not found `setup` never returns (`halted`). -/
def setup (b : BootInputs) (prev : Device) : Device :=
  let d0 := Device.initial prev
  if b.nfc_firmware_version = 0 then { d0 with halted := true }
  else
    let d1 := restoreOrDefault b d0
    let d2 := (loadCurrentBagID b d1).2
    let d3 :=
      if !d2.currentAssignedBagID.isEmpty then (loadListFromSPIFFS b d2).2
      else { d2 with session := { d2.session with currentMaxItems := 0 } }
    let d4 := delay b.setupMs d3
    { d4 with redrawOled := true, lastActivityTime := d4.millis }

/-- The states the device can be in: after a start that is not a button wake-up (power-on
or reset, with any content of the RTC variables), after a pass of `loop()`, and after a
button wake-up out of deep sleep. -/
inductive Reachable : Device → Prop where
  | coldStart (b : BootInputs) (prev : Device) :
      b.wakeup_reason ≠ ESP_SLEEP_WAKEUP_EXT1 → Reachable (setup b prev)
  | pass (inp : Inputs) (d : Device) : Reachable d → Reachable (loopOnce inp d)
  | wake (b : BootInputs) (d : Device) :
      Reachable d → d.asleep = true → b.wakeup_reason = ESP_SLEEP_WAKEUP_EXT1 →
      Reachable (setup b d)

/-- The boot inputs of the scenarios: power-on, tag reader found, bag "recBag1" configured,
the two-item list of scenario A cached. -/
def scenarioBoot : BootInputs :=
  { wakeup_reason := 0, nfc_firmware_version := 1, spiffsOk := true,
    bagConfigFile := some [str "recBag1", str "Goalie bag"],
    listFile := some [str "04AABBCC,Helmet", str "04112233,Gloves"], setupMs := 1000 }

/-- The device after a power-on start with `scenarioBoot` and the admin tag 04ADADAD. -/
def idleDevice : Device := setup scenarioBoot (Device.powerOn (str "04ADADAD"))

/-- Inputs of a pass in which nothing happens: no button held, no tag, 10 ms since the
previous pass. -/
def quietInputs : Inputs :=
  { elapsed := 10, pinA := false, pinB := false, pinC := false, tag := none,
    nameBuffer := junkBuffer, tagReadMs := 50, wifiStatus := false, wifiAfterConnect := false,
    networkMs := 100, equipmentReply := HttpReply.httpError, bagsReply := HttpReply.httpError,
    updateOk := false, saveBagOk := true }

/-- Inputs of a pass that starts 61 s after the previous one, with no button held and no
tag in range. -/
def sleepyInputs : Inputs := { quietInputs with elapsed := 61000 }

/-- The boot inputs of a button wake-up: as `scenarioBoot`, with the wake-up cause EXT1. -/
def wakeBoot : BootInputs := { scenarioBoot with wakeup_reason := ESP_SLEEP_WAKEUP_EXT1 }

/-- A step from `d` to `r` that writes no snapshot and requests no sleep: the four RTC
variables and the flags `asleep`, `halted` are as before, and if the phase afterwards is
`IDLE_MENU` then the menu screen is `MAIN_MENU`, unless phase and screen are both as
before. -/
def QuietStep (d r : Device) : Prop :=
  r.savedCurrentState = d.savedCurrentState ∧
  r.savedCurrentMenuScreen = d.savedCurrentMenuScreen ∧
  r.savedCurrentMenuSelection = d.savedCurrentMenuSelection ∧
  r.rtcDataIsValid = d.rtcDataIsValid ∧ r.asleep = d.asleep ∧ r.halted = d.halted ∧
  ((r.currentState = IDLE_MENU → r.currentMenuScreen = MAIN_MENU) ∨
    (r.currentState = d.currentState ∧ r.currentMenuScreen = d.currentMenuScreen))

/-- What a step of the `IDLE_MENU` handler can do: either it writes no snapshot and the
phase stays or moves to one of the two phases of the main menu, or it writes the snapshot
of the phase and menu screen it started with, marks it valid and goes to sleep with the
phase unchanged. The menu screen is never changed. -/
def IdleStep (d r : Device) : Prop :=
  r.halted = d.halted ∧ r.currentMenuScreen = d.currentMenuScreen ∧
  ((r.asleep = d.asleep ∧ r.savedCurrentState = d.savedCurrentState ∧
      r.savedCurrentMenuScreen = d.savedCurrentMenuScreen ∧
      r.savedCurrentMenuSelection = d.savedCurrentMenuSelection ∧
      r.rtcDataIsValid = d.rtcDataIsValid ∧
      (r.currentState = d.currentState ∨ r.currentState = REPACK_SESSION_START_CONFIRM ∨
        r.currentState = ADMIN_MODE_UNLOCK)) ∨
    (r.asleep = true ∧ r.rtcDataIsValid = true ∧ r.savedCurrentState = d.currentState ∧
      r.savedCurrentMenuScreen = d.currentMenuScreen ∧
      r.savedCurrentMenuSelection = r.currentMenuSelection ∧
      r.currentState = d.currentState))

/-- The invariant of the reachable states: a device halted in `setup` is not asleep; on
any other device the phase `IDLE_MENU` goes with the menu screen `MAIN_MENU`, and a
snapshot marked valid holds the phase `IDLE_MENU` and the menu screen `MAIN_MENU`. -/
def SnapshotInv (d : Device) : Prop :=
  (d.halted = true ∧ d.asleep = false) ∨
  ((d.currentState = IDLE_MENU → d.currentMenuScreen = MAIN_MENU) ∧
    (d.rtcDataIsValid = true →
      d.savedCurrentState = IDLE_MENU ∧ d.savedCurrentMenuScreen = MAIN_MENU))

/-- Runs passes of `loop()` with the given inputs, one after the other. -/
def runPasses (d : Device) : List Inputs → Device
  | [] => d
  | inp :: rest => runPasses (loopOnce inp d) rest

/-- A pass 60 ms after the previous one, with no button held and no tag in range. -/
def pass60 : Inputs := { quietInputs with elapsed := 60 }

/-- As `pass60`, with the WiFi link up. -/
def online60 : Inputs := { pass60 with wifiStatus := true }

/-- A pass 60 ms after the previous one with button A held. -/
def pressA : Inputs := { pass60 with pinA := true }

/-- A run with a bags answer that the service does not give: it ends in
`REPACK_SESSION_START_CONFIRM` with an empty bag ID and the two-item list still loaded.
Every press takes two passes (the level change, then the debounced level). The user
selects "Admin Mode", shows the admin tag, the WiFi link comes up, the user selects "Set
Active Bag", the bags answer lists one bag whose record id is the empty string, the user
selects it (`saveCurrentBagID` stores the empty ID and `fetchEquipmentList_Airtable`
returns before it clears the list), leaves the admin menu, selects "Start Repack", and
holds button A for a first pass. -/
def emptyIdRun : List Inputs :=
  [ { pass60 with pinB := true }, { pass60 with pinB := true },
    { pass60 with pinC := true }, { pass60 with pinC := true },
    { pass60 with tag := some { uid := [0x04, 0xAD, 0xAD, 0xAD], pages := none } },
    { pass60 with wifiAfterConnect := true },
    online60, online60, { online60 with pinC := true }, { online60 with pinC := true },
    { online60 with bagsReply := HttpReply.records [(some (str "Bag"), some [])] },
    online60, online60, { online60 with pinC := true }, { online60 with pinC := true },
    { online60 with pinA := true }, { online60 with pinA := true },
    online60, online60, { online60 with pinC := true }, { online60 with pinC := true },
    pass60, pass60, { pass60 with pinC := true }, { pass60 with pinC := true },
    pressA ]

/-- The device at the end of `emptyIdRun`. -/
def emptyIdDevice : Device := runPasses idleDevice emptyIdRun

/-- A tag written with the text record "Gloves". -/
def glovesWindow : List Nat :=
  window ([0x03, 0x0D, 0xD1, 0x01, 0x09, 0x54, 0x02, 0x65, 0x6E] ++ str "Gloves" ++ [0xFE])

/-- The tag of the first item of the cached list: UID 04AABBCC, label "Helmet". -/
def helmetTag : TagRead := { uid := [0x04, 0xAA, 0xBB, 0xCC], pages := some helmetWindow }

/-- The tag of the second item of the cached list: UID 04112233, label "Gloves". -/
def glovesTag : TagRead := { uid := [0x04, 0x11, 0x22, 0x33], pages := some glovesWindow }

/-- A run from the main menu into `REPACKING_SCAN` with one of the two items scanned back:
"Start Repack" is selected, the start is confirmed with button A, button C is released
and pressed again to begin scanning, and the helmet tag is read. -/
def scanRun : List Inputs :=
  [ { pass60 with pinC := true }, { pass60 with pinC := true }, pressA, pressA,
    pass60, pass60, { pass60 with pinC := true }, { pass60 with pinC := true },
    { quietInputs with elapsed := 250, tag := some helmetTag } ]

/-- The device at the end of `scanRun`. -/
def scanningDevice : Device := runPasses idleDevice scanRun

/-- A pass 250 ms after the previous one in which the gloves tag is read. -/
def glovesScan : Inputs := { quietInputs with elapsed := 250, tag := some glovesTag }

/-- A run into `ADMIN_REPLACE_SCAN_NEW`: "Admin Mode" is selected and unlocked with the
admin tag, the WiFi link comes up, "Replace Tag" is selected, the helmet tag is read as the
old tag, and then button B goes down (a first pass sees the level change). -/
def replaceRun : List Inputs :=
  [ { pass60 with pinB := true }, { pass60 with pinB := true },
    { pass60 with pinC := true }, { pass60 with pinC := true },
    { pass60 with tag := some { uid := [0x04, 0xAD, 0xAD, 0xAD], pages := none } },
    { pass60 with wifiAfterConnect := true },
    online60, online60, { online60 with pinB := true }, { online60 with pinB := true },
    { online60 with pinC := true }, { online60 with pinC := true },
    { online60 with tag := some helmetTag },
    { online60 with pinB := true } ]

/-- The device at the end of `replaceRun`. -/
def replaceNewDevice : Device := runPasses idleDevice replaceRun

/-- A pass in which the gloves tag is read while button B is still held. -/
def glovesWhileCancelling : Inputs := { online60 with pinB := true, tag := some glovesTag }

/-- A pass in which the gloves tag is read and no button is held. -/
def glovesNoButton : Inputs := { online60 with tag := some glovesTag }

/-! ## Status views and the cached list file -/

/-- Read `currentExpectedItemNames[i]`. -/
def Session.name (s : Session) (i : Nat) : AString := s.currentExpectedItemNames.getD i []

/-- A line `reportSessionOutcomeToSerial` prints (main.cpp:1004-1035): the title, "(No
equipment list loaded for this session)", "No items were marked as 'used' ...", the
heading of the item lines, one item line "- name (UID: uid)", "All items ... were
successfully scanned back!", "%d item(s) ... are still recorded as missing.", and the
closing rule. -/
inductive OutcomeLine where
  | title
  | noListLoaded
  | noneMarkedUsed
  | itemsHeading
  | item (name uid : AString)
  | allScannedBack
  | stillMissing (missingItemCount : Nat)
  | rule
deriving DecidableEq, Repr

/-- The name and UID of an item line, `none` for every other line. -/
def OutcomeLine.itemOf : OutcomeLine → Option (AString × AString)
  | OutcomeLine.item name uid => some (name, uid)
  | _ => none

/-- The loop of `reportSessionOutcomeToSerial` (main.cpp:1021-1027) from index `i`, with `k`
iterations left: the lines printed so far, `missingItemCount` and `anyItemsMissing`. -/
def reportLoop (s : Session) :
    Nat → Nat → List OutcomeLine × Nat × Bool → List OutcomeLine × Nat × Bool
  | 0, _, acc => acc
  | k + 1, i, (lines, missingItemCount, anyItemsMissing) =>
    if s.used i && !s.found i then
      reportLoop s k (i + 1)
        (lines ++ [OutcomeLine.item (s.name i) (s.uid i)], missingItemCount + 1, true)
    else reportLoop s k (i + 1) (lines, missingItemCount, anyItemsMissing)

/-- Embedding of `reportSessionOutcomeToSerial` (main.cpp:1004-1035): the lines printed. -/
def reportSessionOutcomeToSerial (s : Session) : List OutcomeLine :=
  if s.currentMaxItems = 0 then [OutcomeLine.title, OutcomeLine.noListLoaded]
  else if usedTagsInitiallyCount s = 0 then
    [OutcomeLine.title, OutcomeLine.noneMarkedUsed, OutcomeLine.rule]
  else
    let r := reportLoop s s.currentMaxItems 0
      ([OutcomeLine.title, OutcomeLine.itemsHeading], 0, false)
    r.1 ++ [if !r.2.2 then OutcomeLine.allScannedBack else OutcomeLine.stillMissing r.2.1,
      OutcomeLine.rule]

/-- What `displayBagStatusSummaryOLED` shows (main.cpp:979-1002): "No List!", or the three
lines "Repack: a/b", "Missing: c", "Total List: n". -/
inductive StatusView where
  | noList
  | summary (itemsScannedThisRepack initialItemsToFind itemsStillMissingFromInitial
      total : Nat)
deriving DecidableEq, Repr

/-- The number after "Missing:" when the view shows one. -/
def StatusView.missingShown : StatusView → Option Nat
  | StatusView.noList => none
  | StatusView.summary _ _ m _ => some m

/-- The loop of `displayBagStatusSummaryOLED` (main.cpp:989-996): `itemsScannedThisRepack`
and `itemsStillMissingFromInitial`. -/
def statusLoop (s : Session) : Nat → Nat → Nat × Nat → Nat × Nat
  | 0, _, acc => acc
  | k + 1, i, (itemsScannedThisRepack, itemsStillMissingFromInitial) =>
    statusLoop s k (i + 1)
      (if s.found i then itemsScannedThisRepack + 1 else itemsScannedThisRepack,
        if s.used i && !s.found i then itemsStillMissingFromInitial + 1
        else itemsStillMissingFromInitial)

/-- Embedding of `displayBagStatusSummaryOLED` (main.cpp:979-1002). -/
def displayBagStatusSummaryOLED (s : Session) : StatusView :=
  if s.currentMaxItems = 0 then StatusView.noList
  else
    let initialItemsToFind := usedTagsInitiallyCount s
    let r := statusLoop s s.currentMaxItems 0 (0, 0)
    StatusView.summary r.1 initialItemsToFind r.2 s.currentMaxItems

/-- What `displaySessionOutcomeOLED` shows (main.cpp:1037-1059): "WELL DONE! All items
packed!", "Session Done (No items out or list empty)", or "Session Done, k item(s) still
marked as OUT." -/
inductive OutcomeView where
  | wellDone
  | nothingOut
  | stillOut (missingItemCount : Nat)
deriving DecidableEq, Repr

/-- The loop of `displaySessionOutcomeOLED` (main.cpp:1043-1048): `anyMissing` and
`missingItemCount`. -/
def outcomeLoop (s : Session) : Nat → Nat → Bool × Nat → Bool × Nat
  | 0, _, acc => acc
  | k + 1, i, (anyMissing, missingItemCount) =>
    if s.used i && !s.found i then outcomeLoop s k (i + 1) (true, missingItemCount + 1)
    else outcomeLoop s k (i + 1) (anyMissing, missingItemCount)

/-- Embedding of `displaySessionOutcomeOLED` (main.cpp:1037-1059). -/
def displaySessionOutcomeOLED (s : Session) : OutcomeView :=
  let initialItemsOut := usedTagsInitiallyCount s
  let r :=
    if s.currentMaxItems > 0 ∧ initialItemsOut > 0 then
      outcomeLoop s s.currentMaxItems 0 (false, 0)
    else (false, 0)
  if r.1 = false ∧ s.currentMaxItems > 0 ∧ initialItemsOut > 0 then OutcomeView.wellDone
  else if s.currentMaxItems = 0 ∨ initialItemsOut = 0 then OutcomeView.nothingOut
  else OutcomeView.stillOut r.2

/-- The missing items as the specification defines them: the indices below
`currentMaxItems` whose item was out at the start and has not been scanned back, in list
order. -/
def missingItems (s : Session) : List Nat :=
  (List.range s.currentMaxItems).filter fun i => s.used i && !s.found i

/-- The loop of `saveListToSPIFFS` (main.cpp:253-255): the bytes written, one
`println(uid + "," + name)` per item; `println` ends the line with "\r\n". -/
def saveLoop (s : Session) : Nat → Nat → List Nat
  | 0, _ => []
  | k + 1, i => (s.uid i ++ str "," ++ s.name i) ++ [13, 10] ++ saveLoop s k (i + 1)

/-- Embedding of `saveListToSPIFFS` (main.cpp:246-259) for a file that opens: the content
of the file afterwards. -/
def saveListToSPIFFS (s : Session) : List Nat := saveLoop s s.currentMaxItems 0

/-- Modelled from the spec: `File::available` and `File::readStringUntil` belong to the
Arduino core, which is not under `src/`. The strings that successive calls of
`readStringUntil('\n')` return while `available()` holds: the file content split at the
line feeds, the line feeds removed, and no string after a final line feed. `cur` is the
part of the current string already read. -/
def fileLines : List Nat → AString → List AString
  | [], cur => if cur = [] then [] else [cur]
  | c :: rest, cur => if c = 10 then cur :: fileLines rest [] else fileLines rest (cur ++ [c])

/-- A character of a UID string: a decimal digit or a letter `A`..`F`, `a`..`f`. -/
def isHexChar (c : Nat) : Bool :=
  (decide (48 ≤ c) && decide (c ≤ 57)) || (decide (65 ≤ c) && decide (c ≤ 70)) ||
    (decide (97 ≤ c) && decide (c ≤ 102))

/-! ## Further scenarios -/

/-- A run from the main menu into `SESSION_ACTIVE`, with button C released again and then
pressed (a first pass sees the level change). -/
def activeRun : List Inputs :=
  [ { pass60 with pinC := true }, { pass60 with pinC := true }, pressA, pressA,
    pass60, pass60, { pass60 with pinC := true } ]

/-- The device at the end of `activeRun`. -/
def activeDevice : Device := runPasses idleDevice activeRun

/-- A pass 60 ms after the previous one with button C held. -/
def pressC : Inputs := { pass60 with pinC := true }

/-- The "Helmet" window with the length byte replaced by the extended-length value. -/
def extendedLengthWindow : List Nat := helmetWindow.set 1 0xFF

/-- A two-item list whose first name contains a comma. -/
def commaList : Session :=
  Session.ofItems [(str "04AABBCC", str "Helmet, red"), (str "04112233", str "Gloves")]

/-- Boot inputs whose cached list file is the one `saveListToSPIFFS` writes for
`commaList`. -/
def cachedBoot : BootInputs :=
  { scenarioBoot with listFile := some (fileLines (saveListToSPIFFS commaList) []) }

/-- The service answer with the one-item list "Rope". -/
def ropeReply : HttpReply := HttpReply.records [(some (str "04DDEEFF"), some (str "Rope"))]

/-- A run through a whole session and into the admin menu: the session of `scanRun` (both
items marked out, the helmet scanned back) is finished by hand with B and A, the outcome
screen is left with C, "Admin Mode" is selected and unlocked, the WiFi link comes up, the
selection is moved to "Fetch List", and button C goes down (a first pass sees the level
change). -/
def refetchRun : List Inputs :=
  scanRun ++
  [ { pass60 with pinB := true }, { pass60 with pinB := true },
    pass60, pass60, pressA, pressA,
    pass60, pass60, { pass60 with pinC := true }, { pass60 with pinC := true },
    { pass60 with pinB := true }, { pass60 with pinB := true },
    { pass60 with pinC := true }, { pass60 with pinC := true },
    { pass60 with tag := some { uid := [0x04, 0xAD, 0xAD, 0xAD], pages := none } },
    { pass60 with wifiAfterConnect := true },
    { online60 with pinB := true }, { online60 with pinB := true }, online60, online60,
    { online60 with pinB := true }, { online60 with pinB := true },
    { online60 with pinC := true } ]

/-- The device at the end of `refetchRun`. -/
def refetchDevice : Device := runPasses idleDevice refetchRun

/-- The pass in which the press of C on "Fetch List" is registered and the service answers
with `ropeReply`. -/
def fetchRopePass : Inputs := { online60 with pinC := true, equipmentReply := ropeReply }

/-- A run from the main menu into `ADMIN_MODE_UNLOCK`: the selection is moved to "Admin
Mode" with B and confirmed with C; the phase is entered in the last pass. -/
def unlockRun : List Inputs :=
  [ { pass60 with pinB := true }, { pass60 with pinB := true }, pressC, pressC ]

/-- The device at the end of `unlockRun`. -/
def unlockDevice : Device := runPasses idleDevice unlockRun

/-- A pass 3 s after the previous one in which the helmet tag, which is not the admin tag,
is read. -/
def wrongTagPass : Inputs := { quietInputs with elapsed := 3000, tag := some helmetTag }

/-- A pass 3 s after the previous one with no tag in range and no button held. -/
def idle3s : Inputs := { quietInputs with elapsed := 3000 }

/-- A pass 10 s after the previous one with no tag in range and no button held. -/
def idle10s : Inputs := { quietInputs with elapsed := 10000 }

/-- A pass 60 ms after the previous one with button B held. -/
def pressB : Inputs := { pass60 with pinB := true }

/-- The device on the second entry of the main menu: from `idleDevice` the selection is
moved down once with B. -/
def secondEntryDevice : Device := runPasses idleDevice [pressB, pressB]

/-- The device asleep on the second entry of the main menu: the pass 61 s after the press
of B saves the snapshot and goes to sleep. -/
def sleepingDevice : Device := runPasses idleDevice [pressB, pressB, sleepyInputs]

/-- Boot inputs of a reset on which the tag reader does not answer: as `scenarioBoot`, with
no firmware version read. -/
def readerMissingBoot : BootInputs := { scenarioBoot with nfc_firmware_version := 0 }

/-- Boot inputs of a button wake-up on which the tag reader does not answer. -/
def readerMissingWake : BootInputs := { wakeBoot with nfc_firmware_version := 0 }

/-! ## Invariants of the workflow -/

/-- The three phases of a running repack session. -/
def InSession (p : Nat) : Prop :=
  p = SESSION_ACTIVE ∨ p = REPACKING_SCAN ∨ p = REPACK_CONFIRM_FINISH

/-- What one step from `d` to `r` can do to the session and to the bag list. The arrays
keep their declared shape. If `r` is in a session phase, either `d` was in one and the
item count and `usedTagsInitially` are as before, or the list of `d` is non-empty and the
session of `r` is the one `markAllItemsUsedInitially` makes. If `r` is in
`ADMIN_SET_ACTIVE_BAG_SELECT`, either `d` was there, the bag count is as before and the
selection is as before or moved up by one modulo the bag count, or the bag count is
between 1 and `MAX_BAGS_TO_LIST` and the selection is 0. -/
def WorkflowStep (d r : Device) : Prop :=
  r.session.WF ∧
  (InSession r.currentState →
    (InSession d.currentState ∧
      r.session.usedTagsInitially = d.session.usedTagsInitially ∧
      r.session.currentMaxItems = d.session.currentMaxItems) ∨
    (d.session.currentMaxItems ≠ 0 ∧
      r.session = markAllItemsUsedInitially d.session)) ∧
  (r.currentState = ADMIN_SET_ACTIVE_BAG_SELECT →
    (d.currentState = ADMIN_SET_ACTIVE_BAG_SELECT ∧
      r.availableBagCount = d.availableBagCount ∧
      (r.currentMenuSelection = d.currentMenuSelection ∨
        r.currentMenuSelection =
          Int.tmod (d.currentMenuSelection - 1 + d.availableBagCount) d.availableBagCount)) ∨
    (0 < r.availableBagCount ∧ r.availableBagCount ≤ MAX_BAGS_TO_LIST ∧
      r.currentMenuSelection = 0))

/-- The invariant of the reachable states: the arrays have their declared shape; in a
session phase the list is non-empty and every item of it is marked out; in
`ADMIN_SET_ACTIVE_BAG_SELECT` the bag count is between 1 and `MAX_BAGS_TO_LIST` and the
selection is an index below it. -/
def WorkflowInv (d : Device) : Prop :=
  d.session.WF ∧
  (InSession d.currentState →
    0 < d.session.currentMaxItems ∧
    ∀ i, i < d.session.currentMaxItems → d.session.used i = true) ∧
  (d.currentState = ADMIN_SET_ACTIVE_BAG_SELECT →
    1 ≤ d.availableBagCount ∧ d.availableBagCount ≤ MAX_BAGS_TO_LIST ∧
    0 ≤ d.currentMenuSelection ∧ d.currentMenuSelection < d.availableBagCount)

/-- The service answer that lists five bags. -/
def fiveBagsReply : HttpReply :=
  HttpReply.records
    [(some (str "Bag A"), some (str "recA")), (some (str "Bag B"), some (str "recB")),
     (some (str "Bag C"), some (str "recC")), (some (str "Bag D"), some (str "recD")),
     (some (str "Bag E"), some (str "recE"))]

/-- A run into `ADMIN_SET_ACTIVE_BAG_SELECT` with the last of five bags selected: "Admin
Mode" is selected and unlocked, the WiFi link comes up, "Set Active Bag" is confirmed, the
service lists five bags, and button A (up) moves the selection from the first bag to the
last. -/
def bagListRun : List Inputs :=
  [ { pass60 with pinB := true }, { pass60 with pinB := true }, pressC, pressC,
    { pass60 with tag := some { uid := [0x04, 0xAD, 0xAD, 0xAD], pages := none } },
    { pass60 with wifiAfterConnect := true },
    online60, online60, { online60 with pinC := true }, { online60 with pinC := true },
    { online60 with bagsReply := fiveBagsReply },
    { online60 with pinA := true }, { online60 with pinA := true } ]

/-- The device at the end of `bagListRun`. -/
def bagListDevice : Device := runPasses idleDevice bagListRun

/-- The two passes of a press of button C with the WiFi link up. -/
def confirmBag : List Inputs := [{ online60 with pinC := true }, { online60 with pinC := true }]

/-- The two passes of a press of button B with the WiFi link up. -/
def cancelBag : List Inputs := [{ online60 with pinB := true }, { online60 with pinB := true }]

/-- What one step from `d` to `r` can do to the menu when `r` is in `IDLE_MENU`: either the
menu is reset (screen `MAIN_MENU`, selection 0), or `d` was in `IDLE_MENU`, the screen is
as before and the selection is as before or, on the main menu, moved up or down by one
modulo its two entries. -/
def MenuStep (d r : Device) : Prop :=
  r.currentState = IDLE_MENU →
    (r.currentMenuScreen = MAIN_MENU ∧ r.currentMenuSelection = 0) ∨
    (d.currentState = IDLE_MENU ∧ r.currentMenuScreen = d.currentMenuScreen ∧
      (r.currentMenuSelection = d.currentMenuSelection ∨
        r.currentMenuSelection = Int.tmod (d.currentMenuSelection - 1 + 2) 2 ∨
        r.currentMenuSelection = Int.tmod (d.currentMenuSelection + 1) 2 ∨
        d.currentMenuScreen ≠ MAIN_MENU))

/-- The invariant of the reachable states for the main menu: a halted device is not asleep;
in `IDLE_MENU` the menu screen is `MAIN_MENU` and the selection is 0 or 1; on a device
that is not halted, a snapshot marked valid holds a selection that is 0 or 1. -/
def MenuInv (d : Device) : Prop :=
  (d.halted = true → d.asleep = false) ∧
  (d.currentState = IDLE_MENU →
    d.currentMenuScreen = MAIN_MENU ∧ 0 ≤ d.currentMenuSelection ∧
      d.currentMenuSelection ≤ 1) ∧
  (d.halted = false → d.rtcDataIsValid = true →
    0 ≤ d.savedCurrentMenuSelection ∧ d.savedCurrentMenuSelection ≤ 1)

/-! ## The selected bag and the loaded list -/

/-- Modelled from the spec: the inventory service is not under `src/`. The id of a bag
record is the record id the service issues itself (main.cpp:750, "This is the Airtable
Record ID"), which is never the empty string: every record of the bags answer that has an
id has a non-empty one. -/
def HttpReply.idsPresent : HttpReply → Bool
  | HttpReply.records rs => rs.all fun r => r.2 != some []
  | _ => true

/-- The states the device can be in when the service issues its record ids: as
`Reachable`, with the bags answer of every pass of `loop()` carrying record ids. -/
inductive ReachableWithIds : Device → Prop where
  | coldStart (b : BootInputs) (prev : Device) :
      b.wakeup_reason ≠ ESP_SLEEP_WAKEUP_EXT1 → ReachableWithIds (setup b prev)
  | pass (inp : Inputs) (d : Device) :
      ReachableWithIds d → inp.bagsReply.idsPresent = true →
      ReachableWithIds (loopOnce inp d)
  | wake (b : BootInputs) (d : Device) :
      ReachableWithIds d → d.asleep = true → b.wakeup_reason = ESP_SLEEP_WAKEUP_EXT1 →
      ReachableWithIds (setup b d)

/-- Read `availableBagIDs[i]`. -/
def Device.bagID (d : Device) (i : Nat) : AString := d.availableBagIDs.getD i []

/-- The invariant that ties the list to the bag: with no bag selected no list is loaded;
the array of bag IDs has its declared size and its filled entries are non-empty. -/
def BagInv (d : Device) : Prop :=
  (d.currentAssignedBagID = [] → d.session.currentMaxItems = 0) ∧
  d.availableBagIDs.length = MAX_BAGS_TO_LIST ∧
  (∀ i : Nat, (i : Int) < d.availableBagCount → d.bagID i ≠ [])

/-- A step from `d` to `r` that keeps the selected bag and the bag list, and keeps the
item count when no bag is selected. -/
def BagKeep (d r : Device) : Prop :=
  r.currentAssignedBagID = d.currentAssignedBagID ∧
  r.availableBagIDs = d.availableBagIDs ∧
  r.availableBagCount = d.availableBagCount ∧
  (d.currentAssignedBagID = [] → r.session.currentMaxItems = d.session.currentMaxItems)

/-- Boot inputs of a power-on start of a device on which no bag has been set: as
`scenarioBoot`, with no bag configuration file. -/
def noBagBoot : BootInputs := { scenarioBoot with bagConfigFile := none }

/-- The device with no bag set, in `REPACK_SESSION_START_CONFIRM` with button A held: after
the power-on start with `noBagBoot`, "Start Repack" is selected with C and a first pass
sees A go down. -/
def noBagConfirmDevice : Device :=
  runPasses (setup noBagBoot (Device.powerOn (str "04ADADAD"))) [pressC, pressC, pressA]

/-! ## Lemmas on the loops -/

theorem getD_set_flag (l : List Bool) (i j : Nat) (b : Bool) :
    (l.set i b).getD j false = if i = j ∧ j < l.length then b else l.getD j false := by
  simp only [List.getD_eq_getElem?_getD, List.getElem?_set]
  by_cases h : i = j
  · subst h
    by_cases hl : i < l.length
    · simp [hl]
    · simp [hl, List.getElem?_eq_none (Nat.le_of_not_lt hl)]
  · simp [h]

theorem markLoop_frame (k i : Nat) (s : Session) :
    (markLoop k i s).currentExpectedItemNames = s.currentExpectedItemNames ∧
    (markLoop k i s).currentExpectedUIDStrings = s.currentExpectedUIDStrings ∧
    (markLoop k i s).currentMaxItems = s.currentMaxItems ∧
    (markLoop k i s).allRepackItemsScanned = s.allRepackItemsScanned ∧
    (markLoop k i s).usedTagsInitially.length = s.usedTagsInitially.length ∧
    (markLoop k i s).foundTagsDuringRepack.length = s.foundTagsDuringRepack.length := by
  induction k generalizing i s with
  | zero => simp [markLoop]
  | succ k ih =>
    have h := ih (i + 1)
      { s with usedTagsInitially := s.usedTagsInitially.set i true
               foundTagsDuringRepack := s.foundTagsDuringRepack.set i false }
    simpa [markLoop] using h

theorem markLoop_used (k i : Nat) (s : Session) (j : Nat) :
    (markLoop k i s).used j =
      if i ≤ j ∧ j < i + k ∧ j < s.usedTagsInitially.length then true else s.used j := by
  induction k generalizing i s with
  | zero => simp [markLoop]; intro h1 h2; omega
  | succ k ih =>
    rw [markLoop, ih]
    simp only [Session.used, getD_set_flag, List.length_set]
    by_cases h1 : i = j
    · subst h1
      by_cases h2 : i < s.usedTagsInitially.length <;> simp [h2]
    · by_cases h2 : i + 1 ≤ j
      · have h3 : i ≤ j := by omega
        have h4 : (j < i + 1 + k) = (j < i + (k + 1)) := by
          apply propext; omega
        simp [h1, h2, h3, h4]
      · have h3 : ¬ i ≤ j := by omega
        simp [h1, h2, h3]

theorem markLoop_found (k i : Nat) (s : Session) (j : Nat) :
    (markLoop k i s).found j =
      if i ≤ j ∧ j < i + k ∧ j < s.foundTagsDuringRepack.length then false else s.found j := by
  induction k generalizing i s with
  | zero => simp [markLoop]; intro _; omega
  | succ k ih =>
    rw [markLoop, ih]
    simp only [Session.found, getD_set_flag, List.length_set]
    by_cases h1 : i = j
    · subst h1
      by_cases h2 : i < s.foundTagsDuringRepack.length <;> simp [h2]
    · by_cases h2 : i + 1 ≤ j
      · have h3 : i ≤ j := by omega
        have h4 : (j < i + 1 + k) = (j < i + (k + 1)) := by
          apply propext; omega
        simp [h1, h2, h3, h4]
      · have h3 : ¬ i ≤ j := by omega
        simp [h1, h2, h3]

theorem countLoop_eq_zero (s : Session) (k i c : Nat) :
    countLoop s k i c = 0 ↔ c = 0 ∧ ∀ j, i ≤ j → j < i + k → s.used j = false := by
  induction k generalizing i c with
  | zero => simp [countLoop]; intro _ j h1 h2; omega
  | succ k ih =>
    rw [countLoop, ih]
    constructor
    · rintro ⟨h1, h2⟩
      by_cases hu : s.used i = true
      · simp [hu] at h1
      · simp only [Bool.not_eq_true] at hu
        simp [hu] at h1
        refine ⟨h1, fun j hj1 hj2 => ?_⟩
        by_cases hij : j = i
        · subst hij; exact hu
        · exact h2 j (by omega) (by omega)
    · rintro ⟨h1, h2⟩
      have hu := h2 i (Nat.le_refl i) (by omega)
      refine ⟨by simp [hu, h1], fun j hj1 hj2 => h2 j (by omega) (by omega)⟩

theorem allDoneLoop_eq_true (s : Session) (k i : Nat) :
    allDoneLoop s k i = true ↔
      ∀ j, i ≤ j → j < i + k → s.used j = true → s.found j = true := by
  induction k generalizing i with
  | zero => simp [allDoneLoop]; intro j h1 h2; omega
  | succ k ih =>
    rw [allDoneLoop]
    by_cases hc : (s.used i && !s.found i) = true
    · simp only [hc, if_true]
      constructor
      · intro h; cases h
      · intro h
        simp only [Bool.and_eq_true, Bool.not_eq_true'] at hc
        have := h i (Nat.le_refl i) (by omega) hc.1
        rw [hc.2] at this; cases this
    · simp only [hc, Bool.false_eq_true, if_false, ih]
      constructor
      · intro h j hj1 hj2 hu
        by_cases hij : j = i
        · subst hij
          cases hf : s.found j
          · simp [hu, hf] at hc
          · rfl
        · exact h j (by omega) (by omega) hu
      · intro h j hj1 hj2 hu
        exact h j (by omega) (by omega) hu

theorem matchLoop_eq_some (s : Session) (u : AString) (k i m : Nat) :
    matchLoop s u k i = some m ↔
      i ≤ m ∧ m < i + k ∧ compareUidStrings u (s.uid m) = true ∧
        ∀ j, i ≤ j → j < m → compareUidStrings u (s.uid j) = false := by
  induction k generalizing i with
  | zero => simp [matchLoop]; intro h1 h2; omega
  | succ k ih =>
    rw [matchLoop]
    by_cases hc : compareUidStrings u (s.uid i) = true
    · simp only [hc, if_true, Option.some.injEq]
      constructor
      · intro h; subst h
        exact ⟨Nat.le_refl _, by omega, hc, fun j h1 h2 => by omega⟩
      · rintro ⟨h1, _, _, h4⟩
        by_contra hne
        have := h4 i (Nat.le_refl i) (by omega)
        rw [hc] at this; cases this
    · simp only [hc, Bool.false_eq_true, if_false, ih]
      simp only [Bool.not_eq_true] at hc
      constructor
      · rintro ⟨h1, h2, h3, h4⟩
        refine ⟨by omega, by omega, h3, fun j hj1 hj2 => ?_⟩
        by_cases hij : j = i
        · subst hij; exact hc
        · exact h4 j (by omega) hj2
      · rintro ⟨h1, h2, h3, h4⟩
        have hne : m ≠ i := by
          intro h; subst h; rw [hc] at h3; cases h3
        exact ⟨by omega, by omega, h3, fun j hj1 hj2 => h4 j (by omega) hj2⟩

theorem matchLoop_eq_none (s : Session) (u : AString) (k i : Nat) :
    matchLoop s u k i = none ↔
      ∀ j, i ≤ j → j < i + k → compareUidStrings u (s.uid j) = false := by
  induction k generalizing i with
  | zero => simp [matchLoop]; intro j h1 h2; omega
  | succ k ih =>
    rw [matchLoop]
    by_cases hc : compareUidStrings u (s.uid i) = true
    · simp only [hc, if_true]
      constructor
      · intro h; cases h
      · intro h
        have := h i (Nat.le_refl i) (by omega)
        rw [hc] at this; cases this
    · simp only [hc, Bool.false_eq_true, if_false, ih]
      simp only [Bool.not_eq_true] at hc
      constructor
      · intro h j hj1 hj2
        by_cases hij : j = i
        · subst hij; exact hc
        · exact h j (by omega) (by omega)
      · intro h j hj1 hj2
        exact h j (by omega) (by omega)

/-! ## Lemmas on `processScannedRepackTag` -/

theorem set_true_of_getD (l : List Bool) (i : Nat) (h : l.getD i false = true) :
    l.set i true = l := by
  induction l generalizing i with
  | nil => simp
  | cons a l ih =>
    cases i with
    | zero => simp at h; simp [h]
    | succ i => simp at h; simp [ih i (by simpa using h)]

theorem processScannedRepackTag_frame (s : Session) (u : AString) :
    (processScannedRepackTag s u).1.currentExpectedItemNames = s.currentExpectedItemNames ∧
    (processScannedRepackTag s u).1.currentExpectedUIDStrings = s.currentExpectedUIDStrings ∧
    (processScannedRepackTag s u).1.currentMaxItems = s.currentMaxItems ∧
    (processScannedRepackTag s u).1.usedTagsInitially = s.usedTagsInitially := by
  unfold processScannedRepackTag
  cases matchLoop s u s.currentMaxItems 0 with
  | none => simp
  | some i => cases h : s.found i <;> simp [h]

theorem processScannedRepackTag_foundList (s : Session) (u : AString) :
    (processScannedRepackTag s u).1.foundTagsDuringRepack =
      match matchLoop s u s.currentMaxItems 0 with
      | some i => s.foundTagsDuringRepack.set i true
      | none => s.foundTagsDuringRepack := by
  unfold processScannedRepackTag
  cases matchLoop s u s.currentMaxItems 0 with
  | none => simp
  | some i =>
    cases h : s.found i
    · simp [h]
    · simp [h, set_true_of_getD _ i h]

theorem processScannedRepackTag_report (s : Session) (u : AString) :
    (processScannedRepackTag s u).2 =
      match matchLoop s u s.currentMaxItems 0 with
      | some i => ScanReport.matched i (s.found i)
      | none => ScanReport.unknownTag := by
  unfold processScannedRepackTag
  cases matchLoop s u s.currentMaxItems 0 with
  | none => simp
  | some i => cases h : s.found i <;> simp [h]

theorem allDone_iff (r : Session) :
    (if usedTagsInitiallyCount r == 0 then false else allDoneLoop r r.currentMaxItems 0) = true ↔
      (∃ i, i < r.currentMaxItems ∧ r.used i = true) ∧
        ∀ i, i < r.currentMaxItems → r.used i = true → r.found i = true := by
  by_cases hc : usedTagsInitiallyCount r = 0
  · have hc2 := (countLoop_eq_zero r r.currentMaxItems 0 0).1 hc
    simp only [hc, beq_self_eq_true, if_true, Bool.false_eq_true, false_iff]
    rintro ⟨⟨i, hi, hu⟩, _⟩
    have := hc2.2 i (Nat.zero_le i) (by omega)
    rw [hu] at this; cases this
  · have hb : (usedTagsInitiallyCount r == 0) = false := by simpa using hc
    simp only [hb, Bool.false_eq_true, if_false, allDoneLoop_eq_true]
    constructor
    · intro h
      refine ⟨?_, fun i hi hu => h i (Nat.zero_le i) (by omega) hu⟩
      by_contra hne
      apply hc
      refine (countLoop_eq_zero r r.currentMaxItems 0 0).2 ⟨rfl, fun j _ hj => ?_⟩
      cases hu : r.used j
      · rfl
      · exact absurd ⟨j, by omega, hu⟩ hne
    · rintro ⟨_, h⟩ j _ hj hu
      exact h j (by omega) hu

theorem processScannedRepackTag_flag (s : Session) (u : AString) :
    (processScannedRepackTag s u).1.allRepackItemsScanned = true ↔
      (∃ i, i < (processScannedRepackTag s u).1.currentMaxItems ∧
          (processScannedRepackTag s u).1.used i = true) ∧
        ∀ i, i < (processScannedRepackTag s u).1.currentMaxItems →
          (processScannedRepackTag s u).1.used i = true →
          (processScannedRepackTag s u).1.found i = true := by
  unfold processScannedRepackTag
  exact allDone_iff _

theorem matchLoop_exists (s : Session) (u : AString) (i : Nat)
    (hi : i < s.currentMaxItems) (hm : compareUidStrings u (s.uid i) = true) :
    ∃ i0, matchLoop s u s.currentMaxItems 0 = some i0 ∧ i0 ≤ i := by
  cases hml : matchLoop s u s.currentMaxItems 0 with
  | none =>
    have := (matchLoop_eq_none s u _ 0).1 hml i (Nat.zero_le i) (by omega)
    rw [hm] at this; cases this
  | some i0 =>
    refine ⟨i0, rfl, ?_⟩
    have h := (matchLoop_eq_some s u _ 0 i0).1 hml
    by_contra hlt
    have := h.2.2.2 i (Nat.zero_le i) (by omega)
    rw [hm] at this; cases this

/-! ## Case-insensitive comparison is an equivalence -/

theorem equalsIgnoreCaseLoop_iff (a b : AString) (hlen : a.length = b.length) :
    equalsIgnoreCaseLoop a b = true ↔ a.map tolower = b.map tolower := by
  induction a generalizing b with
  | nil =>
    cases b with
    | nil => simp [equalsIgnoreCaseLoop]
    | cons _ _ => simp at hlen
  | cons c1 p1 ih =>
    cases b with
    | nil => simp at hlen
    | cons c2 p2 =>
      have hl : p1.length = p2.length := by simpa using hlen
      by_cases hc : tolower c1 = tolower c2
      · simp [equalsIgnoreCaseLoop, hc, ih p2 hl]
      · simp [equalsIgnoreCaseLoop, hc]

theorem compareUidStrings_iff (a b : AString) :
    compareUidStrings a b = true ↔ a.map tolower = b.map tolower := by
  unfold compareUidStrings equalsIgnoreCase
  by_cases hlen : a.length = b.length
  · by_cases h0 : a.length = 0
    · have ha : a = [] := List.length_eq_zero.1 h0
      have hb : b = [] := List.length_eq_zero.1 (hlen ▸ h0)
      subst ha; subst hb; simp
    · simp [hlen, h0, equalsIgnoreCaseLoop_iff a b hlen]
      intro h; subst h; exact absurd hlen h0
  · have hne : a.map tolower ≠ b.map tolower := by
      intro h
      apply hlen
      have := congrArg List.length h
      simpa using this
    simp [hlen, hne]

theorem compareUidStrings_symm (a b : AString) :
    compareUidStrings a b = compareUidStrings b a := by
  rw [Bool.eq_iff_iff, compareUidStrings_iff, compareUidStrings_iff]
  exact eq_comm

theorem compareUidStrings_trans (a b c : AString)
    (h1 : compareUidStrings a b = true) (h2 : compareUidStrings b c = true) :
    compareUidStrings a c = true := by
  rw [compareUidStrings_iff] at *
  exact h1.trans h2

/-! ## Repeated scans -/

theorem matchLoop_congr (s t : Session) (u : AString)
    (h : t.currentExpectedUIDStrings = s.currentExpectedUIDStrings) (k i : Nat) :
    matchLoop t u k i = matchLoop s u k i := by
  induction k generalizing i with
  | zero => rfl
  | succ k ih => simp [matchLoop, Session.uid, h, ih]

theorem Session.eq_of_fields (a b : Session)
    (h1 : a.currentExpectedItemNames = b.currentExpectedItemNames)
    (h2 : a.currentExpectedUIDStrings = b.currentExpectedUIDStrings)
    (h3 : a.currentMaxItems = b.currentMaxItems)
    (h4 : a.foundTagsDuringRepack = b.foundTagsDuringRepack)
    (h5 : a.usedTagsInitially = b.usedTagsInitially)
    (h6 : a.allRepackItemsScanned = b.allRepackItemsScanned) : a = b := by
  cases a; cases b; simp_all

theorem processScannedRepackTag_flag_congr (s t : Session) (u v : AString)
    (h3 : (processScannedRepackTag t v).1.currentMaxItems
      = (processScannedRepackTag s u).1.currentMaxItems)
    (h4 : (processScannedRepackTag t v).1.foundTagsDuringRepack
      = (processScannedRepackTag s u).1.foundTagsDuringRepack)
    (h5 : (processScannedRepackTag t v).1.usedTagsInitially
      = (processScannedRepackTag s u).1.usedTagsInitially) :
    (processScannedRepackTag t v).1.allRepackItemsScanned
      = (processScannedRepackTag s u).1.allRepackItemsScanned := by
  rw [Bool.eq_iff_iff, processScannedRepackTag_flag, processScannedRepackTag_flag]
  simp only [Session.used, Session.found, h3, h4, h5]

theorem scanAll_append (s : Session) (l : List AString) (u : AString) :
    scanAll s (l ++ [u]) = (processScannedRepackTag (scanAll s l) u).1 := by
  simp [scanAll, List.foldl_append]

theorem scanAll_frame (s : Session) (l : List AString) :
    (scanAll s l).currentExpectedItemNames = s.currentExpectedItemNames ∧
    (scanAll s l).currentExpectedUIDStrings = s.currentExpectedUIDStrings ∧
    (scanAll s l).currentMaxItems = s.currentMaxItems ∧
    (scanAll s l).usedTagsInitially = s.usedTagsInitially ∧
    (scanAll s l).foundTagsDuringRepack.length = s.foundTagsDuringRepack.length := by
  induction l using List.reverseRecOn with
  | nil => simp [scanAll]
  | append_singleton l u ih =>
    rw [scanAll_append]
    have hfr := processScannedRepackTag_frame (scanAll s l) u
    have hfl := processScannedRepackTag_foundList (scanAll s l) u
    refine ⟨hfr.1.trans ih.1, hfr.2.1.trans ih.2.1, hfr.2.2.1.trans ih.2.2.1,
      hfr.2.2.2.trans ih.2.2.2.1, ?_⟩
    rw [hfl]
    cases matchLoop (scanAll s l) u (scanAll s l).currentMaxItems 0 with
    | none => exact ih.2.2.2.2
    | some i => simp [ih.2.2.2.2]

/-- One scan, seen from index `j`: the flag is set afterwards exactly when it was set
before or the search loop stopped at `j`. -/
theorem processScannedRepackTag_found_iff (s : Session) (u : AString) (j : Nat)
    (hj : j < s.foundTagsDuringRepack.length) :
    (processScannedRepackTag s u).1.found j = true ↔
      s.found j = true ∨ matchLoop s u s.currentMaxItems 0 = some j := by
  have hfl := processScannedRepackTag_foundList s u
  simp only [Session.found]
  rw [hfl]
  cases hml : matchLoop s u s.currentMaxItems 0 with
  | none => simp
  | some i =>
    simp only [getD_set_flag, Option.some.injEq]
    by_cases hij : i = j
    · simp [hij, hj]
    · simp [hij]

/-! ## A session after `markAllItemsUsedInitially` and a run of scans -/

theorem run_frame (s : Session) (h : s.WF) (l : List AString) :
    (scanAll (markAllItemsUsedInitially s) l).currentExpectedUIDStrings
      = s.currentExpectedUIDStrings ∧
    (scanAll (markAllItemsUsedInitially s) l).currentMaxItems = s.currentMaxItems ∧
    (scanAll (markAllItemsUsedInitially s) l).foundTagsDuringRepack.length
      = MAX_EXPECTED_ITEMS ∧
    ∀ i, i < s.currentMaxItems → (scanAll (markAllItemsUsedInitially s) l).used i = true := by
  have hs := scanAll_frame (markAllItemsUsedInitially s) l
  have hm := markLoop_frame s.currentMaxItems 0 s
  refine ⟨hs.2.1.trans hm.2.1, hs.2.2.1.trans hm.2.2.1, ?_, fun i hi => ?_⟩
  · rw [hs.2.2.2.2]
    exact hm.2.2.2.2.2.trans h.2.2.1
  · simp only [Session.used]
    rw [hs.2.2.2.1]
    have hu := markLoop_used s.currentMaxItems 0 s i
    have hlen : i < s.usedTagsInitially.length := by
      have h4 := h.2.2.2.1
      have h5 := h.2.2.2.2
      omega
    simp only [Session.used] at hu
    show (markLoop s.currentMaxItems 0 s).usedTagsInitially.getD i false = true
    rw [hu]; simp [hi, hlen]

theorem run_uid (s : Session) (h : s.WF) (l : List AString) (i : Nat) :
    (scanAll (markAllItemsUsedInitially s) l).uid i = s.uid i := by
  simp only [Session.uid, (run_frame s h l).1]

theorem markAll_found (s : Session) (h : s.WF) (i : Nat) (hi : i < s.currentMaxItems) :
    (markAllItemsUsedInitially s).found i = false := by
  have hf := markLoop_found s.currentMaxItems 0 s i
  have hlen : i < s.foundTagsDuringRepack.length := by
    have h3 := h.2.2.1
    have h5 := h.2.2.2.2
    omega
  show (markLoop s.currentMaxItems 0 s).found i = false
  rw [hf]; simp [hi, hlen]

/-- With pairwise distinct expected UIDs the search loop stops at `i` exactly when the
scanned identifier matches `uid i`. -/
theorem matchLoop_some_iff_of_distinct (t : Session) (u : AString) (i : Nat)
    (hi : i < t.currentMaxItems)
    (hd : ∀ a b, a < t.currentMaxItems → b < t.currentMaxItems → a ≠ b →
      compareUidStrings (t.uid a) (t.uid b) = false) :
    matchLoop t u t.currentMaxItems 0 = some i ↔ compareUidStrings u (t.uid i) = true := by
  constructor
  · intro hml
    exact ((matchLoop_eq_some t u _ 0 i).1 hml).2.2.1
  · intro hm
    obtain ⟨i0, hml, hle⟩ := matchLoop_exists t u i hi hm
    have hsome := (matchLoop_eq_some t u _ 0 i0).1 hml
    by_cases hne : i0 = i
    · rw [hml, hne]
    · exfalso
      have h1 : compareUidStrings (t.uid i0) u = true := by
        rw [compareUidStrings_symm]; exact hsome.2.2.1
      have h2 := compareUidStrings_trans _ _ _ h1 hm
      rw [hd i0 i (by omega) hi hne] at h2
      cases h2

theorem run_found_iff (s : Session) (h : s.WF)
    (hd : ∀ a b, a < s.currentMaxItems → b < s.currentMaxItems → a ≠ b →
      compareUidStrings (s.uid a) (s.uid b) = false)
    (l : List AString) (i : Nat) (hi : i < s.currentMaxItems) :
    (scanAll (markAllItemsUsedInitially s) l).found i = true ↔
      ∃ u, u ∈ l ∧ compareUidStrings u (s.uid i) = true := by
  induction l using List.reverseRecOn with
  | nil =>
    have := markAll_found s h i hi
    simp [scanAll, this]
  | append_singleton l u ih =>
    have hfr := run_frame s h l
    have hlen : i < (scanAll (markAllItemsUsedInitially s) l).foundTagsDuringRepack.length := by
      have h5 := h.2.2.2.2
      rw [hfr.2.2.1]; omega
    have hd2 : ∀ a b, a < (scanAll (markAllItemsUsedInitially s) l).currentMaxItems →
        b < (scanAll (markAllItemsUsedInitially s) l).currentMaxItems → a ≠ b →
        compareUidStrings ((scanAll (markAllItemsUsedInitially s) l).uid a)
          ((scanAll (markAllItemsUsedInitially s) l).uid b) = false := by
      intro a b ha hb hab
      rw [run_uid s h l, run_uid s h l]
      rw [hfr.2.1] at ha hb
      exact hd a b ha hb hab
    rw [scanAll_append, processScannedRepackTag_found_iff _ u i hlen, ih,
      matchLoop_some_iff_of_distinct _ u i (by rw [hfr.2.1]; exact hi) hd2, run_uid s h l]
    constructor
    · rintro (⟨v, hv, hc⟩ | hc)
      · exact ⟨v, by simp [hv], hc⟩
      · exact ⟨u, by simp, hc⟩
    · rintro ⟨v, hv, hc⟩
      rcases List.mem_append.1 hv with hv | hv
      · exact Or.inl ⟨v, hv, hc⟩
      · have : v = u := by simpa using hv
        subst this
        exact Or.inr hc

theorem run_flag_iff (s : Session) (h : s.WF) (hn : 0 < s.currentMaxItems)
    (l : List AString) :
    (scanAll (markAllItemsUsedInitially s) l).allRepackItemsScanned = true ↔
      ∀ i, i < s.currentMaxItems → (scanAll (markAllItemsUsedInitially s) l).found i = true := by
  induction l using List.reverseRecOn with
  | nil =>
    have h0 := markAll_found s h 0 hn
    have hfl : (markAllItemsUsedInitially s).allRepackItemsScanned = false := rfl
    simp only [scanAll, List.foldl_nil, hfl, Bool.false_eq_true, false_iff]
    intro hall
    rw [hall 0 hn] at h0; cases h0
  | append_singleton l u _ =>
    have hfr := run_frame s h (l ++ [u])
    rw [scanAll_append] at hfr ⊢
    rw [processScannedRepackTag_flag, hfr.2.1]
    constructor
    · rintro ⟨_, hall⟩ i hi
      exact hall i hi (hfr.2.2.2 i hi)
    · intro hall
      exact ⟨⟨0, hn, hfr.2.2.2 0 hn⟩, fun i hi _ => hall i hi⟩

/-! ## The label decoder: lemmas -/

theorem readAt_eq (buf : List Nat) (i : Nat) (h : i < buf.length) :
    readAt buf i = some (buf.getD i 0) := by
  simp [readAt, List.getD_eq_getElem?_getD, List.getElem?_eq_getElem h]

theorem readCString_append (a b : List Nat) :
    readCString (a ++ 0 :: b) = some (a.takeWhile (fun c => c ≠ 0)) := by
  induction a with
  | nil => simp [readCString]
  | cons c a ih =>
    by_cases hc : c = 0
    · simp [readCString, hc]
    · simp [readCString, hc, ih, List.takeWhile_cons]

theorem memcpyLoop_spec (src : List Nat) (srcOff n : Nat) (pre rest : List Nat)
    (hdst : n ≤ rest.length) (hsrc : srcOff + pre.length + n ≤ src.length) :
    memcpyLoop src srcOff n pre.length (pre ++ rest) =
      some (pre ++ (src.drop (srcOff + pre.length)).take n ++ rest.drop n) := by
  induction n generalizing pre rest with
  | zero => simp [memcpyLoop]
  | succ n ih =>
    cases rest with
    | nil => simp at hdst
    | cons r rest =>
      have hlt : srcOff + pre.length < src.length := by omega
      have hw : writeAt (pre ++ r :: rest) pre.length (src.getD (srcOff + pre.length) 0)
          = some ((pre ++ [src.getD (srcOff + pre.length) 0]) ++ rest) := by
        simp [writeAt]
      have hstep := ih (pre ++ [src.getD (srcOff + pre.length) 0]) rest
        (by simpa using hdst) (by simp; omega)
      simp only [List.length_append, List.length_singleton] at hstep
      rw [memcpyLoop, readAt_eq src _ hlt]
      simp only [Option.some_bind, hw, hstep]
      have hd : src.drop (srcOff + pre.length)
          = src.getD (srcOff + pre.length) 0 :: src.drop (srcOff + (pre.length + 1)) := by
        rw [List.drop_eq_getElem_cons hlt]
        simp [List.getD_eq_getElem?_getD, List.getElem?_eq_getElem hlt, Nat.add_assoc]
      rw [hd]
      simp

theorem copyText_spec (nameBuffer pageBuffer : List Nat) (hn : nameBuffer.length = 32)
    (hp : pageBuffer.length = 32) (start len : Nat) (hpos : 0 < len)
    (hend : start + len ≤ 32) :
    copyText nameBuffer pageBuffer start (len : Int) =
      some (((pageBuffer.drop start).take (min len 31)).takeWhile (fun c => c ≠ 0)) := by
  have hcond : start < 32 ∧ (len : Int) > 0 ∧ (start : Int) + (len : Int) ≤ 32 := by
    refine ⟨by omega, by omega, by omega⟩
  have hmin : min (min (len : Int) (32 - 1)) (32 - (start : Int)) = ((min len 31 : Nat) : Int) := by
    omega
  generalize hm : min len 31 = m at hmin
  have hm1 : 0 < m := by omega
  have hm2 : m ≤ 31 := by omega
  have hm3 : start + m ≤ 32 := by omega
  have hmem := memcpyLoop_spec pageBuffer start m [] nameBuffer (by omega)
    (by simp; omega)
  simp only [List.length_nil, List.nil_append, Nat.add_zero] at hmem
  have hlen1 : ((pageBuffer.drop start).take m).length = m := by
    simp; omega
  have hw : writeAt ((pageBuffer.drop start).take m ++ nameBuffer.drop m) m 0
      = some ((pageBuffer.drop start).take m ++ 0 :: nameBuffer.drop (m + 1)) := by
    have hlt : m < ((pageBuffer.drop start).take m ++ nameBuffer.drop m).length := by
      rw [List.length_append, hlen1, List.length_drop]; omega
    have hne : nameBuffer.drop m ≠ [] := by
      intro h
      have := congrArg List.length h
      simp at this; omega
    obtain ⟨x, xs, hx⟩ := List.exists_cons_of_ne_nil hne
    have hxs : nameBuffer.drop (m + 1) = xs := by
      have : nameBuffer.drop (m + 1) = (nameBuffer.drop m).drop 1 := by
        rw [List.drop_drop]
      rw [this, hx]; rfl
    simp only [writeAt, hlt, if_true]
    rw [hxs, hx, List.set_append_right _ _ (by rw [hlen1])]
    simp [hlen1]
  unfold copyText
  simp only [hcond, and_self, if_true, hmin, Int.toNat_ofNat]
  have hgt : (m : Int) > 0 := by omega
  simp only [hgt, if_true, hmem, Option.some_bind, hw, readCString_append]

theorem copyText_isSome (nameBuffer pageBuffer : List Nat) (hn : nameBuffer.length = 32)
    (hp : pageBuffer.length = 32) (start : Nat) (len : Int) :
    (copyText nameBuffer pageBuffer start len).isSome = true := by
  by_cases hcond : start < 32 ∧ len > 0 ∧ (start : Int) + len ≤ 32
  · obtain ⟨m, hm⟩ := Int.eq_ofNat_of_zero_le (Int.le_of_lt hcond.2.1)
    subst hm
    rw [copyText_spec nameBuffer pageBuffer hn hp start m (by omega) (by omega)]
    rfl
  · unfold copyText
    rw [if_neg hcond]
    rfl

/-- The parser on a full 32-byte window, as one case split on the three header checks. -/
theorem parseNdefText_eq (nameBuffer pageBuffer : List Nat) (hp : pageBuffer.length = 32)
    (c : Nat) (hc : c = if pageBuffer.getD 0 0 = 3 then 2 else 0) :
    parseNdefText nameBuffer pageBuffer =
      if pageBuffer.getD c 0 &&& 7 = 1 ∧ pageBuffer.getD (c + 1) 0 = 1 ∧
          pageBuffer.getD (c + 3) 0 = 84 then
        copyText nameBuffer pageBuffer (c + 5 + (pageBuffer.getD (c + 4) 0 &&& 0x3F))
          ((pageBuffer.getD (c + 2) 0 : Int) - 1 - ((pageBuffer.getD (c + 4) 0 &&& 0x3F : Nat) : Int))
      else some [] := by
  have hc2 : c = 0 ∨ c = 2 := by
    by_cases h : pageBuffer.getD 0 0 = 3
    · rw [if_pos h] at hc; exact Or.inr hc
    · rw [if_neg h] at hc; exact Or.inl hc
  have hro : recordOffsetOf pageBuffer = some c := by
    unfold recordOffsetOf
    rw [readAt_eq pageBuffer 0 (by omega), readAt_eq pageBuffer 1 (by omega)]
    by_cases h : pageBuffer.getD 0 0 = 3
    · rw [if_pos h] at hc
      simp only [Option.some_bind, if_pos h, ite_self, hc]
    · rw [if_neg h] at hc
      simp only [Option.some_bind, if_neg h, hc]
  have hlt : c < 28 := by omega
  unfold parseNdefText
  rw [hro]
  simp only [Option.some_bind, hlt, if_true]
  rw [readAt_eq pageBuffer c (by omega), readAt_eq pageBuffer (c + 1) (by omega),
    readAt_eq pageBuffer (c + 2) (by omega), readAt_eq pageBuffer (c + 3) (by omega)]
  simp only [Option.some_bind]
  by_cases h1 : pageBuffer.getD c 0 &&& 7 = 1
  · by_cases h2 : pageBuffer.getD (c + 1) 0 = 1
    · have h2b : c + 3 + pageBuffer.getD (c + 1) 0 < 32 ∧ pageBuffer.getD (c + 1) 0 = 1 := by
        rw [h2]; exact ⟨by omega, rfl⟩
      by_cases h3 : pageBuffer.getD (c + 3) 0 = 84
      · rw [if_pos h1, if_pos h2b, if_pos h3, if_pos ⟨h1, h2, h3⟩, h2,
          readAt_eq pageBuffer (c + 3 + 1) (by omega)]
        simp only [Option.some_bind]
        have e1 : c + 3 + 1 = c + 4 := by omega
        rw [e1]
        have e2 : c + 4 + 1 + (pageBuffer.getD (c + 4) 0 &&& 63)
            = c + 5 + (pageBuffer.getD (c + 4) 0 &&& 63) := by omega
        have e3 : ((pageBuffer.getD (c + 2) 0 : Int) - (1 + ((pageBuffer.getD (c + 4) 0 &&& 63 : Nat) : Int)))
            = (pageBuffer.getD (c + 2) 0 : Int) - 1 - ((pageBuffer.getD (c + 4) 0 &&& 63 : Nat) : Int) := by
          omega
        rw [e2, e3]
      · rw [if_pos h1, if_pos h2b, if_neg h3, if_neg (fun hh => h3 hh.2.2)]
    · have h2b : ¬ (c + 3 + pageBuffer.getD (c + 1) 0 < 32 ∧ pageBuffer.getD (c + 1) 0 = 1) :=
        fun hh => h2 hh.2
      rw [if_pos h1, if_neg h2b, if_neg (fun hh => h2 hh.2.1)]
  · rw [if_neg h1, if_neg (fun hh => h1 hh.1)]

theorem parseNdefText_isSome (nameBuffer pageBuffer : List Nat)
    (hn : nameBuffer.length = 32) (hp : pageBuffer.length = 32) :
    (parseNdefText nameBuffer pageBuffer).isSome = true := by
  obtain ⟨c, hc⟩ : ∃ c, c = if pageBuffer.getD 0 0 = 3 then 2 else 0 := ⟨_, rfl⟩
  rw [parseNdefText_eq nameBuffer pageBuffer hp c hc]
  by_cases hh : pageBuffer.getD c 0 &&& 7 = 1 ∧ pageBuffer.getD (c + 1) 0 = 1 ∧
      pageBuffer.getD (c + 3) 0 = 84
  · rw [if_pos hh]
    exact copyText_isSome nameBuffer pageBuffer hn hp _ _
  · rw [if_neg hh]
    rfl

theorem readTagDetails_isSome (nameBuffer pageBuffer uid : List Nat)
    (hn : nameBuffer.length = 32) (hp : pageBuffer.length = 32) :
    (readTagDetails (some { uid := uid, pages := some pageBuffer }) nameBuffer).isSome
      = true := by
  simp only [readTagDetails, Option.isSome_map', parseNdefText_isSome nameBuffer pageBuffer hn hp]

/-! ## Hexadecimal rendering: lemmas -/

theorem upperHexDigit_eq (d : Nat) (hd : d < 16) :
    upperHexDigit d = if d < 10 then 48 + d else 55 + d := by
  have h : ∀ e, e < 16 → upperHexDigit e = if e < 10 then 48 + e else 55 + e := by decide
  exact h d hd

theorem toupper_hexDigit (d : Nat) (hd : d < 16) : toupper (hexDigit d) = upperHexDigit d := by
  rw [upperHexDigit_eq d hd]
  unfold toupper hexDigit
  split_ifs <;> omega

/-- The characters appended for one byte, after `toUpperCase`: the two digit characters. -/
theorem hexByte_upper (v : Nat) (hv : v < 256) (acc : AString) :
    (((if v < 0x10 then acc ++ str "0" else acc) ++ hexOfByte v).map toupper)
      = acc.map toupper ++ [upperHexDigit (v / 16), upperHexDigit (v % 16)] := by
  have h0 : str "0" = [48] := by decide
  by_cases h : v < 16
  · have hq : v / 16 = 0 := by omega
    have hr : v % 16 = v := by omega
    have hz : upperHexDigit 0 = 48 := by decide
    have ht : toupper 48 = 48 := by decide
    simp [h, hexOfByte, h0, hq, hr, hz, ht, toupper_hexDigit v h]
  · have hq : v / 16 % 16 = v / 16 := by omega
    simp [h, hexOfByte, hq, toupper_hexDigit (v / 16) (by omega),
      toupper_hexDigit (v % 16) (by omega)]

theorem hexLoop_upper (uid : List Nat) (hb : ∀ x, x ∈ uid → x < 256) (k i : Nat)
    (acc : AString) (hk : i + k ≤ uid.length) :
    (hexLoop uid k i acc).map toupper
      = acc.map toupper ++ hexPairs ((uid.drop i).take k) := by
  induction k generalizing i acc with
  | zero => simp [hexLoop, hexPairs]
  | succ k ih =>
    have hi : i < uid.length := by omega
    have hget : uid.getD i 0 = uid[i] := by
      simp [List.getD_eq_getElem?_getD, List.getElem?_eq_getElem hi]
    have hv : uid.getD i 0 < 256 := by
      rw [hget]; exact hb _ (List.getElem_mem hi)
    have hd : (uid.drop i).take (k + 1) = uid.getD i 0 :: (uid.drop (i + 1)).take k := by
      rw [List.drop_eq_getElem_cons hi, List.take_succ_cons, hget]
    rw [hexLoop, ih (i + 1) _ (by omega), hexByte_upper _ hv, hd, hexPairs]
    simp

theorem uidBytesToHexString_eq (b : List Nat) (hb : ∀ x, x ∈ b → x < 256) :
    uidBytesToHexString b b.length = hexPairs b := by
  unfold uidBytesToHexString
  rw [hexLoop_upper b hb b.length 0 [] (by omega)]
  simp

theorem hexPairs_length (b : List Nat) : (hexPairs b).length = 2 * b.length := by
  induction b with
  | nil => rfl
  | cons v rest ih => simp [hexPairs, ih]; omega

theorem upperHexDigit_range (d : Nat) (hd : d < 16) :
    (48 ≤ upperHexDigit d ∧ upperHexDigit d ≤ 57) ∨
      (65 ≤ upperHexDigit d ∧ upperHexDigit d ≤ 70) := by
  rw [upperHexDigit_eq d hd]
  split_ifs <;> omega

theorem hexPairs_chars (b : List Nat) (hb : ∀ x, x ∈ b → x < 256) (ch : Nat)
    (hch : ch ∈ hexPairs b) : (48 ≤ ch ∧ ch ≤ 57) ∨ (65 ≤ ch ∧ ch ≤ 70) := by
  induction b with
  | nil => simp [hexPairs] at hch
  | cons v rest ih =>
    have hv : v < 256 := hb v (by simp)
    simp only [hexPairs, List.mem_cons] at hch
    rcases hch with h | h | h
    · rw [h]; exact upperHexDigit_range _ (by omega)
    · rw [h]; exact upperHexDigit_range _ (by omega)
    · exact ih (fun x hx => hb x (by simp [hx])) h

theorem hexPairs_getD (b : List Nat) (i : Nat) (hi : i < b.length) :
    (hexPairs b).getD (2 * i) 0 = upperHexDigit (b.getD i 0 / 16) ∧
    (hexPairs b).getD (2 * i + 1) 0 = upperHexDigit (b.getD i 0 % 16) := by
  induction b generalizing i with
  | nil => simp at hi
  | cons v rest ih =>
    cases i with
    | zero => simp [hexPairs]
    | succ i =>
      have h := ih i (by simpa using hi)
      have e1 : 2 * (i + 1) = 2 * i + 1 + 1 := by omega
      rw [e1]
      simpa [hexPairs] using h

theorem tolower_upperHexDigit_inj (d e : Nat) (hd : d < 16) (he : e < 16)
    (h : tolower (upperHexDigit d) = tolower (upperHexDigit e)) : d = e := by
  rw [upperHexDigit_eq d hd, upperHexDigit_eq e he] at h
  unfold tolower at h
  split_ifs at h <;> omega

theorem hexPairs_lower_inj (a b : List Nat) (ha : ∀ x, x ∈ a → x < 256)
    (hb : ∀ x, x ∈ b → x < 256)
    (h : (hexPairs a).map tolower = (hexPairs b).map tolower) : a = b := by
  induction a generalizing b with
  | nil =>
    cases b with
    | nil => rfl
    | cons w rest => simp [hexPairs] at h
  | cons v rest ih =>
    cases b with
    | nil => simp [hexPairs] at h
    | cons w rest2 =>
      simp only [hexPairs, List.map_cons, List.cons.injEq] at h
      have hv : v < 256 := ha v (by simp)
      have hw : w < 256 := hb w (by simp)
      have h1 := tolower_upperHexDigit_inj _ _ (by omega) (by omega) h.1
      have h2 := tolower_upperHexDigit_inj _ _ (by omega) (by omega) h.2.1
      have hvw : v = w := by omega
      have hrest := ih rest2 (fun x hx => ha x (by simp [hx]))
        (fun x hx => hb x (by simp [hx])) h.2.2
      rw [hvw, hrest]

theorem sameLetter_tolower (c d : Nat) (h : sameLetter c d) : tolower c = tolower d := by
  unfold tolower
  rcases h with h | ⟨h1, h2, h3⟩ | ⟨h1, h2, h3⟩
  · rw [h]
  · split_ifs <;> omega
  · split_ifs <;> omega

theorem forall₂_sameLetter_lower (s t : AString) (h : List.Forall₂ sameLetter s t) :
    s.map tolower = t.map tolower := by
  induction h with
  | nil => rfl
  | cons hcd _ ih => simp [sameLetter_tolower _ _ hcd, ih]

/-! ## Frame lemmas for the helpers of the state machine -/

@[simp]
theorem delay_frame (ms : Nat) (d : Device) :
    (delay ms d).session = d.session ∧
    (delay ms d).currentAssignedBagID = d.currentAssignedBagID ∧
    (delay ms d).currentState = d.currentState ∧
    (delay ms d).currentMenuScreen = d.currentMenuScreen ∧
    (delay ms d).currentMenuSelection = d.currentMenuSelection ∧
    (delay ms d).savedCurrentState = d.savedCurrentState ∧
    (delay ms d).savedCurrentMenuScreen = d.savedCurrentMenuScreen ∧
    (delay ms d).savedCurrentMenuSelection = d.savedCurrentMenuSelection ∧
    (delay ms d).rtcDataIsValid = d.rtcDataIsValid ∧
    (delay ms d).asleep = d.asleep ∧
    (delay ms d).halted = d.halted ∧
    (delay ms d).admin_TargetOldUID_str = d.admin_TargetOldUID_str ∧
    (delay ms d).ADMIN_TAG_UID_STRING = d.ADMIN_TAG_UID_STRING ∧
    (delay ms d).availableBagCount = d.availableBagCount := by
  simp [delay]

@[simp]
theorem oledShowStatusMessage_frame (p : Bool) (c : Nat) (d : Device) :
    (oledShowStatusMessage p c d).session = d.session ∧
    (oledShowStatusMessage p c d).currentAssignedBagID = d.currentAssignedBagID ∧
    (oledShowStatusMessage p c d).currentState = d.currentState ∧
    (oledShowStatusMessage p c d).currentMenuScreen = d.currentMenuScreen ∧
    (oledShowStatusMessage p c d).currentMenuSelection = d.currentMenuSelection ∧
    (oledShowStatusMessage p c d).savedCurrentState = d.savedCurrentState ∧
    (oledShowStatusMessage p c d).savedCurrentMenuScreen = d.savedCurrentMenuScreen ∧
    (oledShowStatusMessage p c d).savedCurrentMenuSelection = d.savedCurrentMenuSelection ∧
    (oledShowStatusMessage p c d).rtcDataIsValid = d.rtcDataIsValid ∧
    (oledShowStatusMessage p c d).asleep = d.asleep ∧
    (oledShowStatusMessage p c d).halted = d.halted ∧
    (oledShowStatusMessage p c d).admin_TargetOldUID_str = d.admin_TargetOldUID_str ∧
    (oledShowStatusMessage p c d).ADMIN_TAG_UID_STRING = d.ADMIN_TAG_UID_STRING ∧
    (oledShowStatusMessage p c d).availableBagCount = d.availableBagCount := by
  unfold oledShowStatusMessage
  split <;> simp

@[simp]
theorem isButtonPressed_frame (pin : Nat) (r : Bool) (d : Device) :
    ((isButtonPressed pin r d).2).session = d.session ∧
    ((isButtonPressed pin r d).2).currentAssignedBagID = d.currentAssignedBagID ∧
    ((isButtonPressed pin r d).2).currentState = d.currentState ∧
    ((isButtonPressed pin r d).2).currentMenuScreen = d.currentMenuScreen ∧
    ((isButtonPressed pin r d).2).currentMenuSelection = d.currentMenuSelection ∧
    ((isButtonPressed pin r d).2).savedCurrentState = d.savedCurrentState ∧
    ((isButtonPressed pin r d).2).savedCurrentMenuScreen = d.savedCurrentMenuScreen ∧
    ((isButtonPressed pin r d).2).savedCurrentMenuSelection = d.savedCurrentMenuSelection ∧
    ((isButtonPressed pin r d).2).rtcDataIsValid = d.rtcDataIsValid ∧
    ((isButtonPressed pin r d).2).asleep = d.asleep ∧
    ((isButtonPressed pin r d).2).halted = d.halted ∧
    ((isButtonPressed pin r d).2).millis = d.millis ∧
    ((isButtonPressed pin r d).2).admin_TargetOldUID_str = d.admin_TargetOldUID_str ∧
    ((isButtonPressed pin r d).2).ADMIN_TAG_UID_STRING = d.ADMIN_TAG_UID_STRING ∧
    ((isButtonPressed pin r d).2).availableBagCount = d.availableBagCount := by
  unfold isButtonPressed
  split <;> simp

@[simp]
theorem connectWiFi_frame (inp : Inputs) (d : Device) :
    (connectWiFi inp d).session = d.session ∧
    (connectWiFi inp d).currentAssignedBagID = d.currentAssignedBagID ∧
    (connectWiFi inp d).currentState = d.currentState ∧
    (connectWiFi inp d).currentMenuScreen = d.currentMenuScreen ∧
    (connectWiFi inp d).currentMenuSelection = d.currentMenuSelection ∧
    (connectWiFi inp d).savedCurrentState = d.savedCurrentState ∧
    (connectWiFi inp d).savedCurrentMenuScreen = d.savedCurrentMenuScreen ∧
    (connectWiFi inp d).savedCurrentMenuSelection = d.savedCurrentMenuSelection ∧
    (connectWiFi inp d).rtcDataIsValid = d.rtcDataIsValid ∧
    (connectWiFi inp d).asleep = d.asleep ∧
    (connectWiFi inp d).halted = d.halted ∧
    (connectWiFi inp d).admin_TargetOldUID_str = d.admin_TargetOldUID_str ∧
    (connectWiFi inp d).ADMIN_TAG_UID_STRING = d.ADMIN_TAG_UID_STRING ∧
    (connectWiFi inp d).availableBagCount = d.availableBagCount := by
  simp [connectWiFi]

@[simp]
theorem disconnectWiFi_frame (inp : Inputs) (d : Device) :
    (disconnectWiFi inp d).session = d.session ∧
    (disconnectWiFi inp d).currentAssignedBagID = d.currentAssignedBagID ∧
    (disconnectWiFi inp d).currentState = d.currentState ∧
    (disconnectWiFi inp d).currentMenuScreen = d.currentMenuScreen ∧
    (disconnectWiFi inp d).currentMenuSelection = d.currentMenuSelection ∧
    (disconnectWiFi inp d).savedCurrentState = d.savedCurrentState ∧
    (disconnectWiFi inp d).savedCurrentMenuScreen = d.savedCurrentMenuScreen ∧
    (disconnectWiFi inp d).savedCurrentMenuSelection = d.savedCurrentMenuSelection ∧
    (disconnectWiFi inp d).rtcDataIsValid = d.rtcDataIsValid ∧
    (disconnectWiFi inp d).asleep = d.asleep ∧
    (disconnectWiFi inp d).halted = d.halted ∧
    (disconnectWiFi inp d).admin_TargetOldUID_str = d.admin_TargetOldUID_str ∧
    (disconnectWiFi inp d).ADMIN_TAG_UID_STRING = d.ADMIN_TAG_UID_STRING ∧
    (disconnectWiFi inp d).availableBagCount = d.availableBagCount := by
  unfold disconnectWiFi
  split <;> simp

@[simp]
theorem sendAirtableUpdateRequest_frame (inp : Inputs) (d : Device) :
    ((sendAirtableUpdateRequest inp d).2).session = d.session ∧
    ((sendAirtableUpdateRequest inp d).2).currentAssignedBagID = d.currentAssignedBagID ∧
    ((sendAirtableUpdateRequest inp d).2).currentState = d.currentState ∧
    ((sendAirtableUpdateRequest inp d).2).currentMenuScreen = d.currentMenuScreen ∧
    ((sendAirtableUpdateRequest inp d).2).currentMenuSelection = d.currentMenuSelection ∧
    ((sendAirtableUpdateRequest inp d).2).savedCurrentState = d.savedCurrentState ∧
    ((sendAirtableUpdateRequest inp d).2).savedCurrentMenuScreen = d.savedCurrentMenuScreen ∧
    ((sendAirtableUpdateRequest inp d).2).savedCurrentMenuSelection = d.savedCurrentMenuSelection ∧
    ((sendAirtableUpdateRequest inp d).2).rtcDataIsValid = d.rtcDataIsValid ∧
    ((sendAirtableUpdateRequest inp d).2).asleep = d.asleep ∧
    ((sendAirtableUpdateRequest inp d).2).halted = d.halted ∧
    ((sendAirtableUpdateRequest inp d).2).admin_TargetOldUID_str = d.admin_TargetOldUID_str ∧
    ((sendAirtableUpdateRequest inp d).2).ADMIN_TAG_UID_STRING = d.ADMIN_TAG_UID_STRING ∧
    ((sendAirtableUpdateRequest inp d).2).availableBagCount = d.availableBagCount := by
  simp [sendAirtableUpdateRequest]

@[simp]
theorem saveCurrentBagID_frame (inp : Inputs) (i n : AString) (d : Device) :
    ((saveCurrentBagID inp i n d).2).session = d.session ∧
    ((saveCurrentBagID inp i n d).2).currentState = d.currentState ∧
    ((saveCurrentBagID inp i n d).2).currentMenuScreen = d.currentMenuScreen ∧
    ((saveCurrentBagID inp i n d).2).currentMenuSelection = d.currentMenuSelection ∧
    ((saveCurrentBagID inp i n d).2).savedCurrentState = d.savedCurrentState ∧
    ((saveCurrentBagID inp i n d).2).savedCurrentMenuScreen = d.savedCurrentMenuScreen ∧
    ((saveCurrentBagID inp i n d).2).savedCurrentMenuSelection = d.savedCurrentMenuSelection ∧
    ((saveCurrentBagID inp i n d).2).rtcDataIsValid = d.rtcDataIsValid ∧
    ((saveCurrentBagID inp i n d).2).asleep = d.asleep ∧
    ((saveCurrentBagID inp i n d).2).halted = d.halted ∧
    ((saveCurrentBagID inp i n d).2).millis = d.millis ∧
    ((saveCurrentBagID inp i n d).2).admin_TargetOldUID_str = d.admin_TargetOldUID_str ∧
    ((saveCurrentBagID inp i n d).2).ADMIN_TAG_UID_STRING = d.ADMIN_TAG_UID_STRING ∧
    ((saveCurrentBagID inp i n d).2).availableBagCount = d.availableBagCount := by
  unfold saveCurrentBagID
  split <;> simp

@[simp]
theorem displayCurrentMenuOnOLED_frame (d : Device) :
    (displayCurrentMenuOnOLED d).session = d.session ∧
    (displayCurrentMenuOnOLED d).currentAssignedBagID = d.currentAssignedBagID ∧
    (displayCurrentMenuOnOLED d).currentState = d.currentState ∧
    (displayCurrentMenuOnOLED d).currentMenuScreen = d.currentMenuScreen ∧
    (displayCurrentMenuOnOLED d).currentMenuSelection = d.currentMenuSelection ∧
    (displayCurrentMenuOnOLED d).savedCurrentState = d.savedCurrentState ∧
    (displayCurrentMenuOnOLED d).savedCurrentMenuScreen = d.savedCurrentMenuScreen ∧
    (displayCurrentMenuOnOLED d).savedCurrentMenuSelection = d.savedCurrentMenuSelection ∧
    (displayCurrentMenuOnOLED d).rtcDataIsValid = d.rtcDataIsValid ∧
    (displayCurrentMenuOnOLED d).asleep = d.asleep ∧
    (displayCurrentMenuOnOLED d).halted = d.halted ∧
    (displayCurrentMenuOnOLED d).millis = d.millis ∧
    (displayCurrentMenuOnOLED d).admin_TargetOldUID_str = d.admin_TargetOldUID_str ∧
    (displayCurrentMenuOnOLED d).ADMIN_TAG_UID_STRING = d.ADMIN_TAG_UID_STRING ∧
    (displayCurrentMenuOnOLED d).availableBagCount = d.availableBagCount := by
  unfold displayCurrentMenuOnOLED
  split_ifs <;> simp

@[simp]
theorem handleButtonInputsForMenu_frame (inp : Inputs) (d : Device) :
    (handleButtonInputsForMenu inp d).session = d.session ∧
    (handleButtonInputsForMenu inp d).currentAssignedBagID = d.currentAssignedBagID ∧
    (handleButtonInputsForMenu inp d).currentState = d.currentState ∧
    (handleButtonInputsForMenu inp d).currentMenuScreen = d.currentMenuScreen ∧
    (handleButtonInputsForMenu inp d).savedCurrentState = d.savedCurrentState ∧
    (handleButtonInputsForMenu inp d).savedCurrentMenuScreen = d.savedCurrentMenuScreen ∧
    (handleButtonInputsForMenu inp d).savedCurrentMenuSelection = d.savedCurrentMenuSelection ∧
    (handleButtonInputsForMenu inp d).rtcDataIsValid = d.rtcDataIsValid ∧
    (handleButtonInputsForMenu inp d).asleep = d.asleep ∧
    (handleButtonInputsForMenu inp d).halted = d.halted ∧
    (handleButtonInputsForMenu inp d).millis = d.millis ∧
    (handleButtonInputsForMenu inp d).admin_TargetOldUID_str = d.admin_TargetOldUID_str ∧
    (handleButtonInputsForMenu inp d).ADMIN_TAG_UID_STRING = d.ADMIN_TAG_UID_STRING ∧
    (handleButtonInputsForMenu inp d).availableBagCount = d.availableBagCount := by
  unfold handleButtonInputsForMenu
  dsimp only
  split_ifs <;> simp

@[simp]
theorem fetchEquipmentList_Airtable_frame (inp : Inputs) (d : Device) :
    ((fetchEquipmentList_Airtable inp d).2).currentAssignedBagID = d.currentAssignedBagID ∧
    ((fetchEquipmentList_Airtable inp d).2).currentState = d.currentState ∧
    ((fetchEquipmentList_Airtable inp d).2).currentMenuScreen = d.currentMenuScreen ∧
    ((fetchEquipmentList_Airtable inp d).2).currentMenuSelection = d.currentMenuSelection ∧
    ((fetchEquipmentList_Airtable inp d).2).savedCurrentState = d.savedCurrentState ∧
    ((fetchEquipmentList_Airtable inp d).2).savedCurrentMenuScreen = d.savedCurrentMenuScreen ∧
    ((fetchEquipmentList_Airtable inp d).2).savedCurrentMenuSelection = d.savedCurrentMenuSelection ∧
    ((fetchEquipmentList_Airtable inp d).2).rtcDataIsValid = d.rtcDataIsValid ∧
    ((fetchEquipmentList_Airtable inp d).2).asleep = d.asleep ∧
    ((fetchEquipmentList_Airtable inp d).2).halted = d.halted ∧
    ((fetchEquipmentList_Airtable inp d).2).admin_TargetOldUID_str = d.admin_TargetOldUID_str ∧
    ((fetchEquipmentList_Airtable inp d).2).ADMIN_TAG_UID_STRING = d.ADMIN_TAG_UID_STRING ∧
    ((fetchEquipmentList_Airtable inp d).2).availableBagCount = d.availableBagCount := by
  unfold fetchEquipmentList_Airtable
  dsimp only
  split_ifs <;> (try split) <;> simp

@[simp]
theorem loadBagRecords_frame (rs : List (Option AString × Option AString)) (d : Device) :
    (loadBagRecords rs d).session = d.session ∧
    (loadBagRecords rs d).currentAssignedBagID = d.currentAssignedBagID ∧
    (loadBagRecords rs d).currentState = d.currentState ∧
    (loadBagRecords rs d).currentMenuScreen = d.currentMenuScreen ∧
    (loadBagRecords rs d).currentMenuSelection = d.currentMenuSelection ∧
    (loadBagRecords rs d).savedCurrentState = d.savedCurrentState ∧
    (loadBagRecords rs d).savedCurrentMenuScreen = d.savedCurrentMenuScreen ∧
    (loadBagRecords rs d).savedCurrentMenuSelection = d.savedCurrentMenuSelection ∧
    (loadBagRecords rs d).rtcDataIsValid = d.rtcDataIsValid ∧
    (loadBagRecords rs d).asleep = d.asleep ∧
    (loadBagRecords rs d).halted = d.halted ∧
    (loadBagRecords rs d).millis = d.millis ∧
    (loadBagRecords rs d).admin_TargetOldUID_str = d.admin_TargetOldUID_str ∧
    (loadBagRecords rs d).ADMIN_TAG_UID_STRING = d.ADMIN_TAG_UID_STRING := by
  induction rs generalizing d with
  | nil => simp [loadBagRecords]
  | cons r rest ih =>
    unfold loadBagRecords
    split_ifs
    · simp
    · split <;> simp [ih]

@[simp]
theorem fetchAvailableBags_Airtable_frame (inp : Inputs) (d : Device) :
    ((fetchAvailableBags_Airtable inp d).2).session = d.session ∧
    ((fetchAvailableBags_Airtable inp d).2).currentAssignedBagID = d.currentAssignedBagID ∧
    ((fetchAvailableBags_Airtable inp d).2).currentState = d.currentState ∧
    ((fetchAvailableBags_Airtable inp d).2).currentMenuScreen = d.currentMenuScreen ∧
    ((fetchAvailableBags_Airtable inp d).2).currentMenuSelection = d.currentMenuSelection ∧
    ((fetchAvailableBags_Airtable inp d).2).savedCurrentState = d.savedCurrentState ∧
    ((fetchAvailableBags_Airtable inp d).2).savedCurrentMenuScreen = d.savedCurrentMenuScreen ∧
    ((fetchAvailableBags_Airtable inp d).2).savedCurrentMenuSelection = d.savedCurrentMenuSelection ∧
    ((fetchAvailableBags_Airtable inp d).2).rtcDataIsValid = d.rtcDataIsValid ∧
    ((fetchAvailableBags_Airtable inp d).2).asleep = d.asleep ∧
    ((fetchAvailableBags_Airtable inp d).2).halted = d.halted ∧
    ((fetchAvailableBags_Airtable inp d).2).admin_TargetOldUID_str = d.admin_TargetOldUID_str ∧
    ((fetchAvailableBags_Airtable inp d).2).ADMIN_TAG_UID_STRING = d.ADMIN_TAG_UID_STRING := by
  unfold fetchAvailableBags_Airtable
  dsimp only
  split_ifs <;> (try split) <;> (try split_ifs) <;> simp

/-! ## Steps of the state handlers -/

theorem elapsedSince_self (m : Nat) : elapsedSince m m = 0 := by
  unfold elapsedSince
  have h : m + 4294967296 - m = 4294967296 := by omega
  rw [h]

theorem isButtonPressed_pressed (pin : Nat) (r : Bool) (d : Device)
    (h : (isButtonPressed pin r d).1 = true) :
    (isButtonPressed pin r d).2.lastActivityTime = d.millis ∧ r = true := by
  unfold isButtonPressed at h ⊢
  by_cases hp : pin ≥ 32
  · simp [hp] at h
  · simp only [if_neg hp] at h ⊢
    refine ⟨if_pos h, ?_⟩
    simp only [Bool.and_eq_true] at h
    exact h.2

theorem QuietStep.refl (d : Device) : QuietStep d d := by
  simp [QuietStep]

theorem startConfirm_quiet (inp : Inputs) (d : Device) :
    QuietStep d (handleRepackSessionStartConfirmState inp d) := by
  unfold QuietStep handleRepackSessionStartConfirmState
  dsimp only
  split_ifs <;> simp [IDLE_MENU, SESSION_ACTIVE, MAIN_MENU]

theorem sessionActive_quiet (inp : Inputs) (d : Device) :
    QuietStep d (handleSessionActiveState inp d) := by
  unfold QuietStep handleSessionActiveState
  dsimp only
  split_ifs <;> simp [IDLE_MENU, REPACKING_SCAN]

theorem scan_quiet (inp : Inputs) (d : Device) :
    QuietStep d (handleRepackingScanState inp d) := by
  unfold QuietStep handleRepackingScanState scanAfterRead scanManualFinish
  dsimp only
  split_ifs <;> simp [IDLE_MENU, REPACK_SESSION_COMPLETE, REPACK_CONFIRM_FINISH]

theorem confirmFinish_quiet (inp : Inputs) (d : Device) :
    QuietStep d (handleRepackConfirmFinishState inp d) := by
  unfold QuietStep handleRepackConfirmFinishState
  dsimp only
  split_ifs <;> simp [IDLE_MENU, REPACK_SESSION_COMPLETE, REPACKING_SCAN]

theorem complete_quiet (inp : Inputs) (d : Device) :
    QuietStep d (handleRepackSessionCompleteState inp d) := by
  unfold QuietStep handleRepackSessionCompleteState
  dsimp only
  split_ifs <;> simp [IDLE_MENU, MAIN_MENU]

theorem unlock_quiet (inp : Inputs) (d : Device) :
    QuietStep d (handleAdminModeUnlockState inp d) := by
  unfold QuietStep handleAdminModeUnlockState unlockCancelOrTimeout
  dsimp only
  split_ifs <;> simp [IDLE_MENU, ADMIN_MODE_PREPARE_WIFI, MAIN_MENU]

theorem prepareWifi_quiet (inp : Inputs) (d : Device) :
    QuietStep d (handleAdminModePrepareWifiState inp d) := by
  unfold QuietStep handleAdminModePrepareWifiState
  dsimp only
  split_ifs <;> simp [IDLE_MENU, ADMIN_MENU, MAIN_MENU]

theorem adminMenu_quiet (inp : Inputs) (d : Device) :
    QuietStep d (handleAdminMenuState inp d) := by
  unfold QuietStep handleAdminMenuState
  dsimp only
  split_ifs <;>
    simp [IDLE_MENU, ADMIN_SET_ACTIVE_BAG_FETCH, ADMIN_REPLACE_SCAN_OLD, MAIN_MENU]

theorem replaceOld_quiet (inp : Inputs) (d : Device) :
    QuietStep d (handleAdminReplaceScanOldState inp d) := by
  unfold QuietStep handleAdminReplaceScanOldState replaceScanCancel
  dsimp only
  split_ifs <;> simp [IDLE_MENU, ADMIN_MENU, ADMIN_REPLACE_SCAN_NEW]

theorem replaceNew_quiet (inp : Inputs) (d : Device) :
    QuietStep d (handleAdminReplaceScanNewState inp d) := by
  unfold QuietStep handleAdminReplaceScanNewState replaceNewAfterRead replaceScanCancel
  dsimp only
  split_ifs <;> simp [IDLE_MENU, ADMIN_MENU, ADMIN_REPLACE_CONFIRM]

theorem replaceConfirm_quiet (inp : Inputs) (d : Device) :
    QuietStep d (handleAdminReplaceConfirmState inp d) := by
  unfold QuietStep handleAdminReplaceConfirmState
  dsimp only
  split_ifs <;> simp [IDLE_MENU, ADMIN_MENU]

theorem bagFetch_quiet (inp : Inputs) (d : Device) :
    QuietStep d (handleAdminSetActiveBagFetchState inp d) := by
  unfold QuietStep handleAdminSetActiveBagFetchState
  dsimp only
  split_ifs <;> simp [IDLE_MENU, ADMIN_MENU, ADMIN_SET_ACTIVE_BAG_SELECT]

theorem bagSelect_quiet (inp : Inputs) (d : Device) :
    QuietStep d (handleAdminSetActiveBagSelectState inp d) := by
  unfold QuietStep handleAdminSetActiveBagSelectState
  dsimp only
  split_ifs <;> simp [IDLE_MENU, ADMIN_MENU]

@[simp]
theorem loadCurrentBagID_frame (b : BootInputs) (d : Device) :
    ((loadCurrentBagID b d).2).session = d.session ∧
    ((loadCurrentBagID b d).2).currentState = d.currentState ∧
    ((loadCurrentBagID b d).2).currentMenuScreen = d.currentMenuScreen ∧
    ((loadCurrentBagID b d).2).currentMenuSelection = d.currentMenuSelection ∧
    ((loadCurrentBagID b d).2).savedCurrentState = d.savedCurrentState ∧
    ((loadCurrentBagID b d).2).savedCurrentMenuScreen = d.savedCurrentMenuScreen ∧
    ((loadCurrentBagID b d).2).savedCurrentMenuSelection = d.savedCurrentMenuSelection ∧
    ((loadCurrentBagID b d).2).rtcDataIsValid = d.rtcDataIsValid ∧
    ((loadCurrentBagID b d).2).asleep = d.asleep ∧
    ((loadCurrentBagID b d).2).halted = d.halted ∧
    ((loadCurrentBagID b d).2).millis = d.millis := by
  unfold loadCurrentBagID
  split
  · simp
  · dsimp only
    split_ifs <;> simp

@[simp]
theorem loadListFromSPIFFS_frame (b : BootInputs) (d : Device) :
    ((loadListFromSPIFFS b d).2).currentAssignedBagID = d.currentAssignedBagID ∧
    ((loadListFromSPIFFS b d).2).currentState = d.currentState ∧
    ((loadListFromSPIFFS b d).2).currentMenuScreen = d.currentMenuScreen ∧
    ((loadListFromSPIFFS b d).2).currentMenuSelection = d.currentMenuSelection ∧
    ((loadListFromSPIFFS b d).2).savedCurrentState = d.savedCurrentState ∧
    ((loadListFromSPIFFS b d).2).savedCurrentMenuScreen = d.savedCurrentMenuScreen ∧
    ((loadListFromSPIFFS b d).2).savedCurrentMenuSelection = d.savedCurrentMenuSelection ∧
    ((loadListFromSPIFFS b d).2).rtcDataIsValid = d.rtcDataIsValid ∧
    ((loadListFromSPIFFS b d).2).asleep = d.asleep ∧
    ((loadListFromSPIFFS b d).2).halted = d.halted ∧
    ((loadListFromSPIFFS b d).2).millis = d.millis := by
  unfold loadListFromSPIFFS
  split_ifs
  · simp
  · split <;> simp

@[simp]
theorem Device.initial_ctl (prev : Device) :
    (Device.initial prev).currentState = IDLE_MENU ∧
    (Device.initial prev).currentMenuScreen = MAIN_MENU ∧
    (Device.initial prev).currentMenuSelection = 0 ∧
    (Device.initial prev).savedCurrentState = prev.savedCurrentState ∧
    (Device.initial prev).savedCurrentMenuScreen = prev.savedCurrentMenuScreen ∧
    (Device.initial prev).savedCurrentMenuSelection = prev.savedCurrentMenuSelection ∧
    (Device.initial prev).rtcDataIsValid = prev.rtcDataIsValid ∧
    (Device.initial prev).asleep = false ∧
    (Device.initial prev).halted = false := by
  simp [Device.initial, Device.powerOn]

/-- The restore block of `setup` on the control variables. -/
theorem restoreOrDefault_ctl (b : BootInputs) (d : Device) :
    (restoreOrDefault b d).savedCurrentState = d.savedCurrentState ∧
    (restoreOrDefault b d).savedCurrentMenuScreen = d.savedCurrentMenuScreen ∧
    (restoreOrDefault b d).savedCurrentMenuSelection = d.savedCurrentMenuSelection ∧
    (restoreOrDefault b d).asleep = d.asleep ∧
    (restoreOrDefault b d).halted = d.halted ∧
    (b.wakeup_reason ≠ ESP_SLEEP_WAKEUP_EXT1 →
      (restoreOrDefault b d).rtcDataIsValid = false ∧
      (restoreOrDefault b d).currentState = IDLE_MENU ∧
      (restoreOrDefault b d).currentMenuScreen = MAIN_MENU ∧
      (restoreOrDefault b d).currentMenuSelection = 0) ∧
    (b.wakeup_reason = ESP_SLEEP_WAKEUP_EXT1 →
      (restoreOrDefault b d).rtcDataIsValid = d.rtcDataIsValid ∧
      (d.rtcDataIsValid = true →
        (restoreOrDefault b d).currentState = d.savedCurrentState ∧
        (restoreOrDefault b d).currentMenuScreen = d.savedCurrentMenuScreen ∧
        (restoreOrDefault b d).currentMenuSelection = d.savedCurrentMenuSelection) ∧
      (d.rtcDataIsValid = false →
        (restoreOrDefault b d).currentState = IDLE_MENU ∧
        (restoreOrDefault b d).currentMenuScreen = MAIN_MENU ∧
        (restoreOrDefault b d).currentMenuSelection = 0)) := by
  unfold restoreOrDefault
  by_cases h1 : b.wakeup_reason = ESP_SLEEP_WAKEUP_EXT1
  · by_cases h2 : d.rtcDataIsValid = true
    · simp [h1, h2]
    · simp [h1, h2]
  · simp [h1]

/-- The part of `setup` after the restore block leaves the control variables alone. -/
theorem setup_eq_restore (b : BootInputs) (prev : Device)
    (hnfc : b.nfc_firmware_version ≠ 0) :
    (setup b prev).currentState = (restoreOrDefault b (Device.initial prev)).currentState ∧
    (setup b prev).currentMenuScreen
      = (restoreOrDefault b (Device.initial prev)).currentMenuScreen ∧
    (setup b prev).currentMenuSelection
      = (restoreOrDefault b (Device.initial prev)).currentMenuSelection ∧
    (setup b prev).savedCurrentState
      = (restoreOrDefault b (Device.initial prev)).savedCurrentState ∧
    (setup b prev).savedCurrentMenuScreen
      = (restoreOrDefault b (Device.initial prev)).savedCurrentMenuScreen ∧
    (setup b prev).savedCurrentMenuSelection
      = (restoreOrDefault b (Device.initial prev)).savedCurrentMenuSelection ∧
    (setup b prev).rtcDataIsValid = (restoreOrDefault b (Device.initial prev)).rtcDataIsValid ∧
    (setup b prev).asleep = (restoreOrDefault b (Device.initial prev)).asleep ∧
    (setup b prev).halted = (restoreOrDefault b (Device.initial prev)).halted := by
  unfold setup
  simp only [if_neg hnfc]
  split_ifs <;> simp

/-- When the tag reader is not found `setup` stops in its endless loop with the variables
as the runtime initialised them. -/
theorem setup_halted (b : BootInputs) (prev : Device) (hnfc : b.nfc_firmware_version = 0) :
    (setup b prev).halted = true ∧ (setup b prev).asleep = false ∧
    (setup b prev).currentState = IDLE_MENU ∧ (setup b prev).currentMenuScreen = MAIN_MENU ∧
    (setup b prev).currentMenuSelection = 0 ∧
    (setup b prev).rtcDataIsValid = prev.rtcDataIsValid := by
  unfold setup
  simp [hnfc]

theorem handleIdleMenuState_step (inp : Inputs) (d : Device) :
    IdleStep d (handleIdleMenuState inp d) := by
  unfold IdleStep handleIdleMenuState
  dsimp only
  split_ifs with h1 h2 h3 h4 h5 h6 h7 h8 <;>
    first
    | (simp [REPACK_SESSION_START_CONFIRM, ADMIN_MODE_UNLOCK]; done)
    | (exfalso
       have hp := isButtonPressed_pressed _ _ _ ‹_›
       simp [hp.1, elapsedSince_self, DEEP_SLEEP_TIMEOUT_MS] at *)

theorem dispatchState_quiet (inp : Inputs) (d : Device) (h : d.currentState ≠ IDLE_MENU) :
    QuietStep d (dispatchState inp d) := by
  unfold dispatchState
  rw [if_neg h]
  by_cases h0 : d.currentState = REPACK_SESSION_START_CONFIRM
  · rw [if_pos h0]; exact startConfirm_quiet inp d
  rw [if_neg h0]
  by_cases h1 : d.currentState = SESSION_ACTIVE
  · rw [if_pos h1]; exact sessionActive_quiet inp d
  rw [if_neg h1]
  by_cases h2 : d.currentState = REPACKING_SCAN
  · rw [if_pos h2]; exact scan_quiet inp d
  rw [if_neg h2]
  by_cases h3 : d.currentState = REPACK_CONFIRM_FINISH
  · rw [if_pos h3]; exact confirmFinish_quiet inp d
  rw [if_neg h3]
  by_cases h4 : d.currentState = REPACK_SESSION_COMPLETE
  · rw [if_pos h4]; exact complete_quiet inp d
  rw [if_neg h4]
  by_cases h5 : d.currentState = ADMIN_MODE_UNLOCK
  · rw [if_pos h5]; exact unlock_quiet inp d
  rw [if_neg h5]
  by_cases h6 : d.currentState = ADMIN_MODE_PREPARE_WIFI
  · rw [if_pos h6]; exact prepareWifi_quiet inp d
  rw [if_neg h6]
  by_cases h7 : d.currentState = ADMIN_MENU
  · rw [if_pos h7]; exact adminMenu_quiet inp d
  rw [if_neg h7]
  by_cases h8 : d.currentState = ADMIN_SET_ACTIVE_BAG_FETCH
  · rw [if_pos h8]; exact bagFetch_quiet inp d
  rw [if_neg h8]
  by_cases h9 : d.currentState = ADMIN_SET_ACTIVE_BAG_SELECT
  · rw [if_pos h9]; exact bagSelect_quiet inp d
  rw [if_neg h9]
  by_cases h10 : d.currentState = ADMIN_REPLACE_SCAN_OLD
  · rw [if_pos h10]; exact replaceOld_quiet inp d
  rw [if_neg h10]
  by_cases h11 : d.currentState = ADMIN_REPLACE_SCAN_NEW
  · rw [if_pos h11]; exact replaceNew_quiet inp d
  rw [if_neg h11]
  by_cases h12 : d.currentState = ADMIN_REPLACE_CONFIRM
  · rw [if_pos h12]; exact replaceConfirm_quiet inp d
  rw [if_neg h12]
  simp [QuietStep]

theorem dispatchState_idle (inp : Inputs) (d : Device) (h : d.currentState = IDLE_MENU) :
    IdleStep d (dispatchState inp d) := by
  unfold dispatchState
  rw [if_pos h]
  exact handleIdleMenuState_step inp d

/-- The end of `runStateMachine` touches only `lastActivityTime` and `redrawOled`. -/
theorem runStateMachine_ctl (inp : Inputs) (d : Device) :
    (runStateMachine inp d).currentState = (dispatchState inp d).currentState ∧
    (runStateMachine inp d).currentMenuScreen = (dispatchState inp d).currentMenuScreen ∧
    (runStateMachine inp d).currentMenuSelection = (dispatchState inp d).currentMenuSelection ∧
    (runStateMachine inp d).savedCurrentState = (dispatchState inp d).savedCurrentState ∧
    (runStateMachine inp d).savedCurrentMenuScreen
      = (dispatchState inp d).savedCurrentMenuScreen ∧
    (runStateMachine inp d).savedCurrentMenuSelection
      = (dispatchState inp d).savedCurrentMenuSelection ∧
    (runStateMachine inp d).rtcDataIsValid = (dispatchState inp d).rtcDataIsValid ∧
    (runStateMachine inp d).asleep = (dispatchState inp d).asleep ∧
    (runStateMachine inp d).halted = (dispatchState inp d).halted ∧
    (runStateMachine inp d).session = (dispatchState inp d).session ∧
    (runStateMachine inp d).admin_TargetOldUID_str
      = (dispatchState inp d).admin_TargetOldUID_str := by
  unfold runStateMachine
  dsimp only
  split_ifs <;> simp

theorem runStateMachine_quiet (inp : Inputs) (d : Device) (h : d.currentState ≠ IDLE_MENU) :
    QuietStep d (runStateMachine inp d) := by
  have hq := dispatchState_quiet inp d h
  have hc := runStateMachine_ctl inp d
  unfold QuietStep at hq ⊢
  simp only [hc.1, hc.2.1, hc.2.2.2.1, hc.2.2.2.2.1, hc.2.2.2.2.2.1, hc.2.2.2.2.2.2.1,
    hc.2.2.2.2.2.2.2.1, hc.2.2.2.2.2.2.2.2.1]
  exact hq

theorem runStateMachine_idle (inp : Inputs) (d : Device) (h : d.currentState = IDLE_MENU) :
    IdleStep d (runStateMachine inp d) := by
  have hq := dispatchState_idle inp d h
  have hc := runStateMachine_ctl inp d
  unfold IdleStep at hq ⊢
  simp only [hc.1, hc.2.1, hc.2.2.1, hc.2.2.2.1, hc.2.2.2.2.1, hc.2.2.2.2.2.1,
    hc.2.2.2.2.2.2.1, hc.2.2.2.2.2.2.2.1, hc.2.2.2.2.2.2.2.2.1]
  exact hq

/-! ## The snapshot invariant -/

theorem loopOnce_cases (inp : Inputs) (d : Device) :
    (loopOnce inp d = d ∧ (d.asleep = true ∨ d.halted = true)) ∨
    (d.asleep = false ∧ d.halted = false ∧ d.currentState = IDLE_MENU ∧
      IdleStep d (loopOnce inp d)) ∨
    (d.asleep = false ∧ d.halted = false ∧ d.currentState ≠ IDLE_MENU ∧
      QuietStep d (loopOnce inp d)) := by
  unfold loopOnce
  by_cases hs : (d.asleep || d.halted) = true
  · left
    rw [if_pos hs]
    simp only [Bool.or_eq_true] at hs
    exact ⟨rfl, hs⟩
  · rw [if_neg hs]
    simp only [Bool.or_eq_true, not_or, Bool.not_eq_true] at hs
    right
    by_cases hi : d.currentState = IDLE_MENU
    · left
      have h := runStateMachine_idle inp (delay inp.elapsed d) (by simpa using hi)
      refine ⟨hs.1, hs.2, hi, ?_⟩
      simpa [IdleStep] using h
    · right
      have h := runStateMachine_quiet inp (delay inp.elapsed d) (by simpa using hi)
      refine ⟨hs.1, hs.2, hi, ?_⟩
      simpa [QuietStep] using h

theorem loopOnce_inv (inp : Inputs) (d : Device) (h : SnapshotInv d) :
    SnapshotInv (loopOnce inp d) := by
  rcases loopOnce_cases inp d with ⟨he, _⟩ | ⟨ha, hh, hi, hstep⟩ | ⟨ha, hh, hi, hstep⟩
  · rw [he]; exact h
  · have hinv : (d.currentState = IDLE_MENU → d.currentMenuScreen = MAIN_MENU) ∧
        (d.rtcDataIsValid = true →
          d.savedCurrentState = IDLE_MENU ∧ d.savedCurrentMenuScreen = MAIN_MENU) := by
      rcases h with ⟨h1, _⟩ | h2
      · rw [hh] at h1; cases h1
      · exact h2
    obtain ⟨_, hmenu, hcase⟩ := hstep
    right
    rcases hcase with ⟨_, h2, h3, _, h5, h6⟩ | ⟨_, h2, h3, h4, _, h6⟩
    · refine ⟨fun hidle => ?_, fun hv => ?_⟩
      · rw [hmenu]; exact hinv.1 hi
      · rw [h2, h3]; exact hinv.2 (h5 ▸ hv)
    · refine ⟨fun _ => ?_, fun _ => ?_⟩
      · rw [hmenu]; exact hinv.1 hi
      · rw [h3, h4]; exact ⟨hi, hinv.1 hi⟩
  · have hinv : (d.currentState = IDLE_MENU → d.currentMenuScreen = MAIN_MENU) ∧
        (d.rtcDataIsValid = true →
          d.savedCurrentState = IDLE_MENU ∧ d.savedCurrentMenuScreen = MAIN_MENU) := by
      rcases h with ⟨h1, _⟩ | h2
      · rw [hh] at h1; cases h1
      · exact h2
    obtain ⟨h1, h2, _, h4, _, _, hnav⟩ := hstep
    right
    refine ⟨fun hidle => ?_, fun hv => ?_⟩
    · rcases hnav with hn | ⟨hs, _⟩
      · exact hn hidle
      · exact absurd (hs ▸ hidle) hi
    · rw [h1, h2]; exact hinv.2 (h4 ▸ hv)

theorem setup_inv_cold (b : BootInputs) (prev : Device)
    (hcause : b.wakeup_reason ≠ ESP_SLEEP_WAKEUP_EXT1) : SnapshotInv (setup b prev) := by
  by_cases hnfc : b.nfc_firmware_version = 0
  · have h := setup_halted b prev hnfc
    exact Or.inl ⟨h.1, h.2.1⟩
  · have hs := setup_eq_restore b prev hnfc
    have hr := (restoreOrDefault_ctl b (Device.initial prev)).2.2.2.2.2.1 hcause
    right
    refine ⟨fun _ => ?_, fun hv => ?_⟩
    · rw [hs.2.1]; exact hr.2.2.1
    · rw [hs.2.2.2.2.2.2.1, hr.1] at hv; cases hv

theorem setup_inv_wake (b : BootInputs) (d : Device) (h : SnapshotInv d)
    (ha : d.asleep = true) (hcause : b.wakeup_reason = ESP_SLEEP_WAKEUP_EXT1) :
    SnapshotInv (setup b d) := by
  have hinv : (d.rtcDataIsValid = true →
      d.savedCurrentState = IDLE_MENU ∧ d.savedCurrentMenuScreen = MAIN_MENU) := by
    rcases h with ⟨_, h1⟩ | h2
    · rw [ha] at h1; cases h1
    · exact h2.2
  by_cases hnfc : b.nfc_firmware_version = 0
  · have h := setup_halted b d hnfc
    exact Or.inl ⟨h.1, h.2.1⟩
  · have hs := setup_eq_restore b d hnfc
    have hrc := restoreOrDefault_ctl b (Device.initial d)
    have hr := hrc.2.2.2.2.2.2 hcause
    have hi := Device.initial_ctl d
    right
    refine ⟨fun _ => ?_, fun hv => ?_⟩
    · rw [hs.2.1]
      by_cases hv : d.rtcDataIsValid = true
      · rw [(hr.2.1 (by rw [hi.2.2.2.2.2.2.1]; exact hv)).2.1, hi.2.2.2.2.1]
        exact (hinv hv).2
      · simp only [Bool.not_eq_true] at hv
        exact (hr.2.2 (by rw [hi.2.2.2.2.2.2.1]; exact hv)).2.1
    · rw [hs.2.2.2.2.2.2.1, hr.1, hi.2.2.2.2.2.2.1] at hv
      rw [hs.2.2.2.1, hs.2.2.2.2.1, hrc.1, hrc.2.1, hi.2.2.2.1, hi.2.2.2.2.1]
      exact hinv hv

theorem reachable_inv (d : Device) (h : Reachable d) : SnapshotInv d := by
  induction h with
  | coldStart b prev hcause => exact setup_inv_cold b prev hcause
  | pass inp d _ ih => exact loopOnce_inv inp d ih
  | wake b d _ ha hcause ih => exact setup_inv_wake b d ih ha hcause

/-! ## Scan ticks -/

theorem pollTag_eq (inp : Inputs) (det : TagDetails)
    (h : readTagDetails inp.tag inp.nameBuffer = some det) : pollTag inp = det := by
  simp [pollTag, h]

theorem scanManualFinish_ctl (inp : Inputs) (d : Device) (s : Session) (st : Nat)
    (hs : d.session = s) (hst : d.currentState = st) :
    (scanManualFinish inp d).session = s ∧
    ((scanManualFinish inp d).currentState = st ∨
      ((scanManualFinish inp d).currentState = REPACK_CONFIRM_FINISH ∧ inp.pinB = true)) := by
  unfold scanManualFinish
  dsimp only
  split_ifs with h
  · have hp := isButtonPressed_pressed _ _ _ h
    exact ⟨by simp [hs], Or.inr ⟨by simp, hp.2⟩⟩
  · exact ⟨by simp [hs], Or.inl (by simp [hst])⟩

theorem scanAfterRead_spec (inp : Inputs) (d2 : Device) :
    (scanAfterRead inp d2).session
      = (processScannedRepackTag d2.session (pollTag inp).outUidString).1 ∧
    (((processScannedRepackTag d2.session (pollTag inp).outUidString).1.allRepackItemsScanned
          = true ∧
        usedTagsInitiallyCount (processScannedRepackTag d2.session (pollTag inp).outUidString).1
          > 0) →
      (scanAfterRead inp d2).currentState = REPACK_SESSION_COMPLETE) ∧
    (¬ ((processScannedRepackTag d2.session (pollTag inp).outUidString).1.allRepackItemsScanned
          = true ∧
        usedTagsInitiallyCount (processScannedRepackTag d2.session (pollTag inp).outUidString).1
          > 0) →
      (scanAfterRead inp d2).currentState = d2.currentState ∨
      ((scanAfterRead inp d2).currentState = REPACK_CONFIRM_FINISH ∧ inp.pinB = true)) := by
  unfold scanAfterRead
  dsimp only
  split_ifs with h
  · have h' : (processScannedRepackTag d2.session (pollTag inp).outUidString).1.allRepackItemsScanned
          = true ∧
        usedTagsInitiallyCount (processScannedRepackTag d2.session (pollTag inp).outUidString).1
          > 0 := by simpa using h
    exact ⟨by simp, fun _ => by simp, fun hn => absurd h' hn⟩
  · have h' : ¬ ((processScannedRepackTag d2.session
          (pollTag inp).outUidString).1.allRepackItemsScanned = true ∧
        usedTagsInitiallyCount (processScannedRepackTag d2.session (pollTag inp).outUidString).1
          > 0) := by simpa using h
    have hm := scanManualFinish_ctl inp
      { delay TAG_READ_DELAY_MS
          (delay (scanReportDelay (processScannedRepackTag d2.session (pollTag inp).outUidString).2)
            { d2 with session := (processScannedRepackTag d2.session (pollTag inp).outUidString).1 }) with
        scan_lastNfcPollTime :=
          (delay TAG_READ_DELAY_MS
            (delay (scanReportDelay (processScannedRepackTag d2.session (pollTag inp).outUidString).2)
              { d2 with
                session := (processScannedRepackTag d2.session (pollTag inp).outUidString).1 })).millis }
      (processScannedRepackTag d2.session (pollTag inp).outUidString).1 d2.currentState
      (by simp) (by simp)
    exact ⟨hm.1, fun hc => absurd hc h', fun _ => hm.2⟩

theorem usedTagsInitiallyCount_pos (s : Session) :
    usedTagsInitiallyCount s > 0 ↔ ∃ i, i < s.currentMaxItems ∧ s.used i = true := by
  have h := countLoop_eq_zero s s.currentMaxItems 0 0
  unfold usedTagsInitiallyCount
  constructor
  · intro hpos
    by_contra hne
    have : countLoop s s.currentMaxItems 0 0 = 0 := h.2 ⟨rfl, fun j _ hj => by
      cases hu : s.used j
      · rfl
      · exact absurd ⟨j, by omega, hu⟩ hne⟩
    omega
  · rintro ⟨i, hi, hu⟩
    by_contra hz
    have hz' : countLoop s s.currentMaxItems 0 0 = 0 := by omega
    have := (h.1 hz').2 i (Nat.zero_le i) (by omega)
    rw [hu] at this; cases this

theorem handleRepackingScanState_tick (d : Device) (inp : Inputs) (det : TagDetails)
    (hdue : elapsedSince d.millis d.scan_lastNfcPollTime ≥ NFC_POLLING_INTERVAL_MS)
    (hread : readTagDetails inp.tag inp.nameBuffer = some det)
    (hok : det.nfcReadSuccess = true) :
    (handleRepackingScanState inp d).session
      = (processScannedRepackTag d.session det.outUidString).1 ∧
    (((processScannedRepackTag d.session det.outUidString).1.allRepackItemsScanned = true ∧
        usedTagsInitiallyCount (processScannedRepackTag d.session det.outUidString).1 > 0) →
      (handleRepackingScanState inp d).currentState = REPACK_SESSION_COMPLETE) ∧
    (¬ ((processScannedRepackTag d.session det.outUidString).1.allRepackItemsScanned = true ∧
        usedTagsInitiallyCount (processScannedRepackTag d.session det.outUidString).1 > 0) →
      (handleRepackingScanState inp d).currentState = d.currentState ∨
      ((handleRepackingScanState inp d).currentState = REPACK_CONFIRM_FINISH ∧
        inp.pinB = true)) := by
  have hpoll := pollTag_eq inp det hread
  have hsucc : (pollTag inp).nfcReadSuccess = true := by rw [hpoll]; exact hok
  have key : ∀ d2 : Device, d2.session = d.session → d2.currentState = d.currentState →
      (scanAfterRead inp d2).session
        = (processScannedRepackTag d.session det.outUidString).1 ∧
      (((processScannedRepackTag d.session det.outUidString).1.allRepackItemsScanned = true ∧
          usedTagsInitiallyCount (processScannedRepackTag d.session det.outUidString).1 > 0) →
        (scanAfterRead inp d2).currentState = REPACK_SESSION_COMPLETE) ∧
      (¬ ((processScannedRepackTag d.session det.outUidString).1.allRepackItemsScanned = true ∧
          usedTagsInitiallyCount (processScannedRepackTag d.session det.outUidString).1 > 0) →
        (scanAfterRead inp d2).currentState = d.currentState ∨
        ((scanAfterRead inp d2).currentState = REPACK_CONFIRM_FINISH ∧ inp.pinB = true)) := by
    intro d2 hs hst
    have h := scanAfterRead_spec inp d2
    rw [hpoll, hs, hst] at h
    exact h
  unfold handleRepackingScanState
  dsimp only
  by_cases h1 : (!d.scan_oledScreenDrawn || d.redrawOled) = true
  · simp only [h1, if_true]
    simp only [hdue, if_true, hsucc]
    exact key _ (by simp) (by simp)
  · simp only [h1, Bool.false_eq_true, if_false]
    simp only [hdue, if_true, hsucc]
    exact key _ (by simp) (by simp)

theorem dispatchState_scan (inp : Inputs) (d : Device) (h : d.currentState = REPACKING_SCAN) :
    dispatchState inp d = handleRepackingScanState inp d := by
  simp [dispatchState, h, REPACKING_SCAN, IDLE_MENU, REPACK_SESSION_START_CONFIRM,
    SESSION_ACTIVE]

theorem loopOnce_running (inp : Inputs) (d : Device) (ha : d.asleep = false)
    (hh : d.halted = false) : loopOnce inp d = runStateMachine inp (delay inp.elapsed d) := by
  unfold loopOnce
  simp [ha, hh]

theorem reachable_runPasses (inps : List Inputs) :
    ∀ d : Device, Reachable d → Reachable (runPasses d inps) := by
  induction inps with
  | nil => intro d h; exact h
  | cons inp rest ih => intro d h; exact ih _ (Reachable.pass inp d h)

/-! ## Ticks of the replace-tag scan and of the start confirmation -/

theorem replaceScanCancel_ctl (inp : Inputs) (scanNew : Bool) (d : Device) (st : Nat)
    (hst : d.currentState = st) :
    (replaceScanCancel inp scanNew d).currentState = st ∨
    ((replaceScanCancel inp scanNew d).currentState = ADMIN_MENU ∧ inp.pinB = true) := by
  unfold replaceScanCancel
  dsimp only
  split_ifs with h h2
  · exact Or.inr ⟨by simp, (isButtonPressed_pressed _ _ _ h).2⟩
  · exact Or.inr ⟨by simp, (isButtonPressed_pressed _ _ _ h).2⟩
  · exact Or.inl (by simp [hst])

theorem replaceNewAfterRead_spec (inp : Inputs) (d2 : Device) :
    ((equalsIgnoreCase (pollTag inp).outUidString d2.admin_TargetOldUID_str = true ∨
        (pollTag inp).outNdefName = []) →
      (replaceNewAfterRead inp d2).currentState = d2.currentState) ∧
    ((equalsIgnoreCase (pollTag inp).outUidString d2.admin_TargetOldUID_str = false ∧
        (pollTag inp).outNdefName ≠ []) →
      (replaceNewAfterRead inp d2).currentState = ADMIN_REPLACE_CONFIRM ∨
      ((replaceNewAfterRead inp d2).currentState = ADMIN_MENU ∧ inp.pinB = true)) := by
  unfold replaceNewAfterRead
  dsimp only
  by_cases h1 : equalsIgnoreCase (pollTag inp).outUidString d2.admin_TargetOldUID_str = true
  · rw [if_pos h1]
    refine ⟨fun _ => by simp, fun h => ?_⟩
    rw [h1] at h; cases h.1
  · rw [if_neg h1]
    by_cases h2 : (pollTag inp).outNdefName.isEmpty = true
    · rw [if_pos h2]
      refine ⟨fun _ => by simp, fun h => ?_⟩
      exact absurd (List.isEmpty_iff.1 h2) h.2
    · rw [if_neg h2]
      refine ⟨fun h => ?_, fun _ => replaceScanCancel_ctl inp true _ _ (by simp)⟩
      rcases h with h | h
      · exact absurd h h1
      · exact absurd (List.isEmpty_iff.2 h) h2

theorem handleAdminReplaceScanNewState_read (d : Device) (inp : Inputs) (det : TagDetails)
    (hread : readTagDetails inp.tag inp.nameBuffer = some det)
    (hok : det.nfcReadSuccess = true) (huid : det.outUidString ≠ []) :
    ((equalsIgnoreCase det.outUidString d.admin_TargetOldUID_str = true ∨
        det.outNdefName = []) →
      (handleAdminReplaceScanNewState inp d).currentState = d.currentState) ∧
    ((equalsIgnoreCase det.outUidString d.admin_TargetOldUID_str = false ∧
        det.outNdefName ≠ []) →
      (handleAdminReplaceScanNewState inp d).currentState = ADMIN_REPLACE_CONFIRM ∨
      ((handleAdminReplaceScanNewState inp d).currentState = ADMIN_MENU ∧
        inp.pinB = true)) := by
  have hpoll := pollTag_eq inp det hread
  have hne : det.outUidString.isEmpty = false := by
    cases hu : det.outUidString with
    | nil => exact absurd hu huid
    | cons a l => rfl
  have hcond : ((pollTag inp).nfcReadSuccess && !(pollTag inp).outUidString.isEmpty) = true := by
    rw [hpoll, hok, hne]; rfl
  have key : ∀ d2 : Device, d2.admin_TargetOldUID_str = d.admin_TargetOldUID_str →
      d2.currentState = d.currentState →
      ((equalsIgnoreCase det.outUidString d.admin_TargetOldUID_str = true ∨
          det.outNdefName = []) →
        (replaceNewAfterRead inp d2).currentState = d.currentState) ∧
      ((equalsIgnoreCase det.outUidString d.admin_TargetOldUID_str = false ∧
          det.outNdefName ≠ []) →
        (replaceNewAfterRead inp d2).currentState = ADMIN_REPLACE_CONFIRM ∨
        ((replaceNewAfterRead inp d2).currentState = ADMIN_MENU ∧ inp.pinB = true)) := by
    intro d2 h1 h2
    have h := replaceNewAfterRead_spec inp d2
    rw [hpoll, h1, h2] at h
    exact h
  unfold handleAdminReplaceScanNewState
  dsimp only
  rw [if_pos hcond]
  exact key _ (by split_ifs <;> simp) (by split_ifs <;> simp)

theorem dispatchState_replaceNew (inp : Inputs) (d : Device)
    (h : d.currentState = ADMIN_REPLACE_SCAN_NEW) :
    dispatchState inp d = handleAdminReplaceScanNewState inp d := by
  simp [dispatchState, h, ADMIN_REPLACE_SCAN_NEW, IDLE_MENU, REPACK_SESSION_START_CONFIRM,
    SESSION_ACTIVE, REPACKING_SCAN, REPACK_CONFIRM_FINISH, REPACK_SESSION_COMPLETE,
    ADMIN_MODE_UNLOCK, ADMIN_MODE_PREPARE_WIFI, ADMIN_MENU, ADMIN_SET_ACTIVE_BAG_FETCH,
    ADMIN_SET_ACTIVE_BAG_SELECT, ADMIN_REPLACE_SCAN_OLD]

theorem startConfirm_empty_list (inp : Inputs) (d : Device)
    (h : d.session.currentMaxItems = 0) :
    (handleRepackSessionStartConfirmState inp d).session = d.session ∧
    ((handleRepackSessionStartConfirmState inp d).currentState = d.currentState ∨
      (handleRepackSessionStartConfirmState inp d).currentState = IDLE_MENU) := by
  unfold handleRepackSessionStartConfirmState
  dsimp only
  split_ifs <;> simp_all

/-! ## The dispatcher, the start of scanning and the length byte: lemmas -/

theorem dispatchState_unknown (inp : Inputs) (d : Device)
    (h : ADMIN_REPLACE_CONFIRM < d.currentState) :
    dispatchState inp d =
      { d with
        currentState := IDLE_MENU
        currentMenuScreen := MAIN_MENU
        currentMenuSelection := 0
        redrawOled := true } := by
  unfold ADMIN_REPLACE_CONFIRM at h
  have hne : ∀ k, k < 14 → d.currentState ≠ k := fun k hk => by omega
  simp [dispatchState, IDLE_MENU, REPACK_SESSION_START_CONFIRM, SESSION_ACTIVE, REPACKING_SCAN,
    REPACK_CONFIRM_FINISH, REPACK_SESSION_COMPLETE, ADMIN_MODE_UNLOCK, ADMIN_MODE_PREPARE_WIFI,
    ADMIN_MENU, ADMIN_SET_ACTIVE_BAG_FETCH, ADMIN_SET_ACTIVE_BAG_SELECT, ADMIN_REPLACE_SCAN_OLD,
    ADMIN_REPLACE_SCAN_NEW, ADMIN_REPLACE_CONFIRM, hne 0 (by decide), hne 1 (by decide),
    hne 2 (by decide), hne 3 (by decide), hne 4 (by decide), hne 5 (by decide),
    hne 6 (by decide), hne 7 (by decide), hne 8 (by decide), hne 9 (by decide),
    hne 10 (by decide), hne 11 (by decide), hne 12 (by decide), hne 13 (by decide)]

theorem resetLoop_frame (k i : Nat) (s : Session) :
    (resetLoop k i s).currentExpectedItemNames = s.currentExpectedItemNames ∧
    (resetLoop k i s).currentExpectedUIDStrings = s.currentExpectedUIDStrings ∧
    (resetLoop k i s).currentMaxItems = s.currentMaxItems ∧
    (resetLoop k i s).allRepackItemsScanned = s.allRepackItemsScanned ∧
    (resetLoop k i s).usedTagsInitially = s.usedTagsInitially ∧
    (resetLoop k i s).foundTagsDuringRepack.length = s.foundTagsDuringRepack.length := by
  induction k generalizing i s with
  | zero => simp [resetLoop]
  | succ k ih =>
    have h := ih (i + 1) { s with foundTagsDuringRepack := s.foundTagsDuringRepack.set i false }
    simpa [resetLoop] using h

theorem resetLoop_found (k i : Nat) (s : Session) (j : Nat) :
    (resetLoop k i s).found j =
      if i ≤ j ∧ j < i + k ∧ j < s.foundTagsDuringRepack.length then false else s.found j := by
  induction k generalizing i s with
  | zero => simp [resetLoop]; intro _; omega
  | succ k ih =>
    rw [resetLoop, ih]
    simp only [Session.found, getD_set_flag, List.length_set]
    by_cases h1 : i = j
    · subst h1
      by_cases h2 : i < s.foundTagsDuringRepack.length <;> simp [h2]
    · by_cases h2 : i + 1 ≤ j
      · have h3 : i ≤ j := by omega
        have h4 : (j < i + 1 + k) = (j < i + (k + 1)) := by
          apply propext; omega
        simp [h1, h2, h3, h4]
      · have h3 : ¬ i ≤ j := by omega
        simp [h1, h2, h3]

theorem resetFoundTagsForRepack_spec (s : Session) :
    (∀ i, i < s.currentMaxItems → (resetFoundTagsForRepack s).found i = false) ∧
    (resetFoundTagsForRepack s).usedTagsInitially = s.usedTagsInitially ∧
    (resetFoundTagsForRepack s).currentExpectedUIDStrings = s.currentExpectedUIDStrings ∧
    (resetFoundTagsForRepack s).currentExpectedItemNames = s.currentExpectedItemNames ∧
    (resetFoundTagsForRepack s).currentMaxItems = s.currentMaxItems ∧
    (resetFoundTagsForRepack s).allRepackItemsScanned = false := by
  have hf := resetLoop_frame s.currentMaxItems 0 s
  refine ⟨fun i hi => ?_, hf.2.2.2.2.1, hf.2.1, hf.1, hf.2.2.1, rfl⟩
  have h := resetLoop_found s.currentMaxItems 0 s i
  have e : (resetFoundTagsForRepack s).found i = (resetLoop s.currentMaxItems 0 s).found i := rfl
  rw [e, h]
  by_cases hl : i < s.foundTagsDuringRepack.length
  · rw [if_pos ⟨Nat.zero_le i, by omega, hl⟩]
  · rw [if_neg (fun hc => hl hc.2.2)]
    simp [Session.found, List.getD_eq_getElem?_getD, List.getElem?_eq_none (Nat.le_of_not_lt hl)]

theorem isButtonPressed_fst (pin : Nat) (r : Bool) (d e : Device)
    (h1 : e.buttonState = d.buttonState) (h2 : e.lastButtonState = d.lastButtonState)
    (h3 : e.lastDebounceTime = d.lastDebounceTime) (h4 : e.millis = d.millis) :
    (isButtonPressed pin r e).1 = (isButtonPressed pin r d).1 := by
  unfold isButtonPressed
  by_cases hp : pin ≥ 32
  · simp only [if_pos hp]
  · simp only [if_neg hp, h1, h2, h3, h4]

theorem isButtonPressed_low (pin : Nat) (d : Device) :
    (isButtonPressed pin false d).1 = false := by
  cases h : (isButtonPressed pin false d).1
  · rfl
  · exact absurd (isButtonPressed_pressed pin false d h).2 (by decide)

theorem sessionActive_step (inp : Inputs) (d : Device) :
    ((isButtonPressed BUTTON_C_PIN inp.pinC d).1 = true →
      (handleSessionActiveState inp d).currentState = REPACKING_SCAN ∧
      (handleSessionActiveState inp d).session = resetFoundTagsForRepack d.session) ∧
    ((isButtonPressed BUTTON_C_PIN inp.pinC d).1 = false →
      (handleSessionActiveState inp d).currentState = d.currentState ∧
      (handleSessionActiveState inp d).session = d.session) := by
  unfold handleSessionActiveState
  dsimp only
  by_cases h1 : (!d.sessionActive_oledPromptDrawn || d.redrawOled) = true
  · simp only [h1, if_true]
    rw [isButtonPressed_fst BUTTON_C_PIN inp.pinC d
      { d with sessionActive_oledPromptDrawn := true, redrawOled := false } rfl rfl rfl rfl]
    constructor
    · intro hp; rw [if_pos hp]; simp
    · intro hp; rw [hp]; simp
  · simp only [h1, Bool.false_eq_true, if_false]
    constructor
    · intro hp; rw [if_pos hp]; simp
    · intro hp; rw [hp]; simp

theorem dispatchState_sessionActive (inp : Inputs) (d : Device)
    (h : d.currentState = SESSION_ACTIVE) :
    dispatchState inp d = handleSessionActiveState inp d := by
  simp [dispatchState, h, SESSION_ACTIVE, IDLE_MENU, REPACK_SESSION_START_CONFIRM]

theorem memcpyLoop_congr (w1 w2 : List Nat) (off : Nat)
    (h : ∀ i, off ≤ i → readAt w1 i = readAt w2 i) (n k : Nat) (dst : List Nat) :
    memcpyLoop w1 off n k dst = memcpyLoop w2 off n k dst := by
  induction n generalizing k dst with
  | zero => rfl
  | succ n ih =>
    rw [memcpyLoop, memcpyLoop, h (off + k) (by omega)]
    cases readAt w2 (off + k) with
    | none => rfl
    | some b =>
      simp only [Option.some_bind]
      cases writeAt dst k b with
      | none => rfl
      | some dst1 => simp only [Option.some_bind]; exact ih (k + 1) dst1

theorem copyText_congr (nameBuffer w1 w2 : List Nat) (start : Nat) (len : Int)
    (h : ∀ i, start ≤ i → readAt w1 i = readAt w2 i) :
    copyText nameBuffer w1 start len = copyText nameBuffer w2 start len := by
  unfold copyText
  dsimp only
  rw [memcpyLoop_congr w1 w2 start h]

/-! ## The status views: lemmas -/

theorem filter_missing_cons (s : Session) (i : Nat) (l : List Nat) :
    (i :: l).filter (fun j => s.used j && !s.found j) =
      if (s.used i && !s.found i) = true then i :: l.filter (fun j => s.used j && !s.found j)
      else l.filter (fun j => s.used j && !s.found j) := by
  rw [List.filter_cons]

theorem reportLoop_eq (s : Session) (k i : Nat) (lines : List OutcomeLine) (c : Nat) (b : Bool) :
    reportLoop s k i (lines, c, b) =
      (lines ++ ((List.range' i k).filter fun j => s.used j && !s.found j).map
          (fun j => OutcomeLine.item (s.name j) (s.uid j)),
        c + ((List.range' i k).filter fun j => s.used j && !s.found j).length,
        b || !((List.range' i k).filter fun j => s.used j && !s.found j).isEmpty) := by
  induction k generalizing i lines c b with
  | zero => simp [reportLoop]
  | succ k ih =>
    rw [reportLoop, List.range'_succ]
    by_cases hp : (s.used i && !s.found i) = true
    · rw [if_pos hp, ih, filter_missing_cons, if_pos hp]
      simp [Nat.add_assoc, Nat.add_comm 1]
    · rw [if_neg hp, ih, filter_missing_cons, if_neg hp]

theorem statusLoop_snd (s : Session) (k i a m : Nat) :
    (statusLoop s k i (a, m)).2 =
      m + ((List.range' i k).filter fun j => s.used j && !s.found j).length := by
  induction k generalizing i a m with
  | zero => simp [statusLoop]
  | succ k ih =>
    rw [statusLoop, ih, List.range'_succ]
    by_cases hp : (s.used i && !s.found i) = true
    · rw [if_pos hp, filter_missing_cons, if_pos hp]
      simp [Nat.add_assoc, Nat.add_comm 1]
    · rw [if_neg hp, filter_missing_cons, if_neg hp]

theorem outcomeLoop_eq (s : Session) (k i : Nat) (b : Bool) (c : Nat) :
    outcomeLoop s k i (b, c) =
      (b || !((List.range' i k).filter fun j => s.used j && !s.found j).isEmpty,
        c + ((List.range' i k).filter fun j => s.used j && !s.found j).length) := by
  induction k generalizing i b c with
  | zero => simp [outcomeLoop]
  | succ k ih =>
    rw [outcomeLoop, List.range'_succ]
    by_cases hp : (s.used i && !s.found i) = true
    · rw [if_pos hp, ih, filter_missing_cons, if_pos hp]
      simp [Nat.add_assoc, Nat.add_comm 1]
    · rw [if_neg hp, ih, filter_missing_cons, if_neg hp]

theorem missingItems_eq (s : Session) :
    missingItems s
      = (List.range' 0 s.currentMaxItems).filter fun j => s.used j && !s.found j := by
  rw [missingItems, List.range_eq_range']

theorem missingItems_nil_of_count (s : Session) (h : usedTagsInitiallyCount s = 0) :
    missingItems s = [] := by
  have hz := ((countLoop_eq_zero s s.currentMaxItems 0 0).1 h).2
  rw [missingItems, List.filter_eq_nil_iff]
  intro j hj
  rw [List.mem_range] at hj
  simp [hz j (Nat.zero_le j) (by omega)]

theorem reportSessionOutcomeToSerial_eq (s : Session) :
    reportSessionOutcomeToSerial s =
      if s.currentMaxItems = 0 then [OutcomeLine.title, OutcomeLine.noListLoaded]
      else if usedTagsInitiallyCount s = 0 then
        [OutcomeLine.title, OutcomeLine.noneMarkedUsed, OutcomeLine.rule]
      else
        [OutcomeLine.title, OutcomeLine.itemsHeading] ++
          (missingItems s).map (fun j => OutcomeLine.item (s.name j) (s.uid j)) ++
          [if missingItems s = [] then OutcomeLine.allScannedBack
            else OutcomeLine.stillMissing (missingItems s).length, OutcomeLine.rule] := by
  unfold reportSessionOutcomeToSerial
  dsimp only
  rw [reportLoop_eq, ← missingItems_eq]
  by_cases hm : missingItems s = [] <;> simp [hm]

theorem displayBagStatusSummaryOLED_missing (s : Session) (h : s.currentMaxItems ≠ 0) :
    (displayBagStatusSummaryOLED s).missingShown = some (missingItems s).length := by
  unfold displayBagStatusSummaryOLED
  dsimp only
  rw [if_neg h, statusLoop_snd, ← missingItems_eq]
  simp [StatusView.missingShown]

theorem displaySessionOutcomeOLED_eq (s : Session) :
    displaySessionOutcomeOLED s =
      if s.currentMaxItems = 0 ∨ usedTagsInitiallyCount s = 0 then OutcomeView.nothingOut
      else if missingItems s = [] then OutcomeView.wellDone
      else OutcomeView.stillOut (missingItems s).length := by
  unfold displaySessionOutcomeOLED
  dsimp only
  by_cases h : s.currentMaxItems = 0 ∨ usedTagsInitiallyCount s = 0
  · have h2 : ¬ (s.currentMaxItems > 0 ∧ usedTagsInitiallyCount s > 0) := by omega
    simp [h, h2]
  · have h2 : s.currentMaxItems > 0 ∧ usedTagsInitiallyCount s > 0 := by omega
    rw [if_pos h2, outcomeLoop_eq, ← missingItems_eq, if_neg h]
    by_cases hm : missingItems s = [] <;> simp [hm, h2, h]

/-! ## The cached list file: lemmas -/

theorem fileLines_line (l rest : List Nat) (cur : AString) (h : 10 ∉ l) :
    fileLines (l ++ 10 :: rest) cur = (cur ++ l) :: fileLines rest [] := by
  induction l generalizing cur with
  | nil => simp [fileLines]
  | cons c l ih =>
    have hc : c ≠ 10 := fun e => h (by simp [e])
    have hl : 10 ∉ l := fun e => h (by simp [e])
    rw [List.cons_append, fileLines, if_neg hc, ih _ hl]
    simp

theorem fileLines_saveLoop (s : Session) (k i : Nat)
    (h : ∀ j, i ≤ j → j < i + k → 10 ∉ s.uid j ∧ 10 ∉ s.name j) :
    fileLines (saveLoop s k i) [] =
      (List.range' i k).map (fun j => s.uid j ++ 44 :: s.name j ++ [13]) := by
  induction k generalizing i with
  | zero => simp [saveLoop, fileLines]
  | succ k ih =>
    have hi := h i (Nat.le_refl i) (by omega)
    have e : saveLoop s (k + 1) i
        = (s.uid i ++ 44 :: s.name i ++ [13]) ++ 10 :: saveLoop s k (i + 1) := by
      simp [saveLoop, str]
    have hno : 10 ∉ s.uid i ++ 44 :: s.name i ++ [13] := by
      simp [hi.1, hi.2]
    rw [e, fileLines_line _ _ _ hno, ih (i + 1) (fun j h1 h2 => h j (by omega) (by omega)),
      List.range'_succ]
    simp

theorem trim_line (x t y : List Nat) (hd l : Nat) (hx : x = hd :: t) (hy : x = y ++ [l])
    (hh : isspace hd = false) (hl : isspace l = false) : trim (x ++ [13]) = x := by
  unfold trim
  have e1 : (x ++ [13]).dropWhile isspace = x ++ [13] := by
    rw [hx, List.cons_append, List.dropWhile_cons_of_neg (by simp [hh])]
  rw [e1, List.reverse_append, List.reverse_singleton, List.singleton_append,
    List.dropWhile_cons_of_pos (by decide)]
  conv_lhs => rw [hy]
  rw [List.reverse_append, List.reverse_singleton, List.singleton_append,
    List.dropWhile_cons_of_neg (by simp [hl])]
  simp [hy]

theorem indexOf_comma (a b : List Nat) (h : 44 ∉ a) :
    List.indexOf 44 (a ++ 44 :: b) = a.length := by
  induction a with
  | nil => simp
  | cons c a ih =>
    have hc : c ≠ 44 := fun e => h (by simp [e])
    have ha : 44 ∉ a := fun e => h (by simp [e])
    rw [List.cons_append, List.indexOf_cons_ne _ hc, ih ha]
    rfl

theorem getD_set_string (l : List AString) (i j : Nat) (v : AString) :
    (l.set i v).getD j [] = if i = j ∧ j < l.length then v else l.getD j [] := by
  simp only [List.getD_eq_getElem?_getD, List.getElem?_set]
  by_cases h : i = j
  · subst h
    by_cases hl : i < l.length
    · simp [hl]
    · simp [hl, List.getElem?_eq_none (Nat.le_of_not_lt hl)]
  · simp [h]

theorem isHexChar_facts (c : Nat) (h : isHexChar c = true) :
    isspace c = false ∧ c ≠ 44 ∧ c ≠ 10 := by
  unfold isHexChar at h
  unfold isspace
  simp only [Bool.or_eq_true, Bool.and_eq_true, decide_eq_true_eq] at h
  refine ⟨?_, by omega, by omega⟩
  simp only [Bool.or_eq_false_iff, Bool.and_eq_false_iff, beq_eq_false_iff_ne,
    decide_eq_false_iff_not]
  omega

theorem loadListLoop_step (raws : List AString) (t : Session) (uid name : AString)
    (t0 : List Nat) (hd0 : Nat) (y : List Nat) (l : Nat)
    (hlt : t.currentMaxItems < MAX_EXPECTED_ITEMS)
    (hu : uid = hd0 :: t0) (hchars : ∀ c ∈ uid, isHexChar c = true)
    (hnm : name = y ++ [l]) (hl : isspace l = false) :
    loadListLoop ((uid ++ 44 :: name ++ [13]) :: raws) t =
      loadListLoop raws
        { t with
          currentExpectedUIDStrings := t.currentExpectedUIDStrings.set t.currentMaxItems uid
          currentExpectedItemNames := t.currentExpectedItemNames.set t.currentMaxItems name
          currentMaxItems := t.currentMaxItems + 1 } := by
  have hh : isspace hd0 = false := (isHexChar_facts hd0 (hchars hd0 (by simp [hu]))).1
  have hno : 44 ∉ uid := fun hm => (isHexChar_facts 44 (hchars 44 hm)).2.1 rfl
  have e0 : uid ++ 44 :: name ++ [13] = (uid ++ 44 :: name) ++ [13] := by simp
  have htrim : trim (uid ++ 44 :: name ++ [13]) = uid ++ 44 :: name := by
    rw [e0]
    exact trim_line (uid ++ 44 :: name) (t0 ++ 44 :: name) (uid ++ 44 :: y) hd0 l
      (by simp [hu]) (by simp [hnm]) hh hl
  have hidx : indexOf 44 (uid ++ 44 :: name) = (uid.length : Int) := by
    unfold indexOf
    rw [indexOf_comma uid name hno]
    simp
  have hlen : (uid ++ 44 :: name).length = uid.length + 1 + (y.length + 1) := by
    simp [hnm]; omega
  have hulen : uid.length = t0.length + 1 := by simp [hu]
  have hcond : (uid ++ 44 :: name).length > 0 ∧ ((uid.length : Int) > 0 ∧
      (uid.length : Int) < ((uid ++ 44 :: name).length : Int) - 1) := by
    rw [hlen]
    refine ⟨by omega, by omega, by omega⟩
  have hs1 : substring (uid ++ 44 :: name) 0 uid.length = uid := by
    simp [substring]
  have hs2 : substring (uid ++ 44 :: name) (uid.length + 1) (uid ++ 44 :: name).length
      = name := by
    unfold substring
    rw [List.take_length]
    have e : uid ++ 44 :: name = (uid ++ [44]) ++ name := by simp
    rw [e]
    exact List.drop_left' (by simp)
  rw [loadListLoop, if_pos hlt]
  simp only [htrim, hidx, Int.toNat_ofNat, hs1, hs2]
  rw [if_pos hcond]

theorem loadListLoop_saved (s : Session) (k : Nat) :
    ∀ (i : Nat) (t : Session), t.currentMaxItems = i → i + k ≤ MAX_EXPECTED_ITEMS →
      t.currentExpectedUIDStrings.length = MAX_EXPECTED_ITEMS →
      t.currentExpectedItemNames.length = MAX_EXPECTED_ITEMS →
      (∀ j, i ≤ j → j < i + k → s.uid j ≠ [] ∧ ∀ c ∈ s.uid j, isHexChar c = true) →
      (∀ j, i ≤ j → j < i + k →
        s.name j ≠ [] ∧ ∀ l ∈ (s.name j).getLast?, isspace l = false) →
      (loadListLoop ((List.range' i k).map (fun j => s.uid j ++ 44 :: s.name j ++ [13]))
          t).currentMaxItems = i + k ∧
      ∀ j,
        (j < i →
          (loadListLoop ((List.range' i k).map (fun j => s.uid j ++ 44 :: s.name j ++ [13]))
              t).uid j = t.uid j ∧
          (loadListLoop ((List.range' i k).map (fun j => s.uid j ++ 44 :: s.name j ++ [13]))
              t).name j = t.name j) ∧
        (i ≤ j → j < i + k →
          (loadListLoop ((List.range' i k).map (fun j => s.uid j ++ 44 :: s.name j ++ [13]))
              t).uid j = s.uid j ∧
          (loadListLoop ((List.range' i k).map (fun j => s.uid j ++ 44 :: s.name j ++ [13]))
              t).name j = s.name j) := by
  induction k with
  | zero =>
    intro i t ht _ _ _ _ _
    refine ⟨by simpa [loadListLoop] using ht, fun j => ⟨fun _ => ⟨rfl, rfl⟩, fun h1 h2 => ?_⟩⟩
    omega
  | succ k ih =>
    intro i t ht hk hlu hln huid hname
    obtain ⟨hune, hchars⟩ := huid i (Nat.le_refl i) (by omega)
    obtain ⟨hnne, hlast⟩ := hname i (Nat.le_refl i) (by omega)
    obtain ⟨hd0, t0, hu⟩ := List.exists_cons_of_ne_nil hune
    obtain ⟨y, l, hnm⟩ : ∃ y l, s.name i = y ++ [l] :=
      ⟨(s.name i).dropLast, (s.name i).getLast hnne, (List.dropLast_append_getLast hnne).symm⟩
    have hl : isspace l = false := hlast l (by rw [hnm]; simp)
    have hlt : t.currentMaxItems < MAX_EXPECTED_ITEMS := by omega
    rw [List.range'_succ, List.map_cons,
      loadListLoop_step _ t (s.uid i) (s.name i) t0 hd0 y l hlt hu hchars hnm hl]
    have h := ih (i + 1)
      { t with
        currentExpectedUIDStrings := t.currentExpectedUIDStrings.set t.currentMaxItems (s.uid i)
        currentExpectedItemNames := t.currentExpectedItemNames.set t.currentMaxItems (s.name i)
        currentMaxItems := t.currentMaxItems + 1 }
      (by simp [ht]) (by omega) (by simp [hlu]) (by simp [hln])
      (fun j h1 h2 => huid j (by omega) (by omega))
      (fun j h1 h2 => hname j (by omega) (by omega))
    refine ⟨by rw [h.1]; omega, fun j => ⟨fun hj => ?_, fun h1 h2 => ?_⟩⟩
    · have hj2 := (h.2 j).1 (by omega)
      rw [hj2.1, hj2.2]
      have hne : ¬ (t.currentMaxItems = j ∧ j < t.currentExpectedUIDStrings.length) := by omega
      have hne2 : ¬ (t.currentMaxItems = j ∧ j < t.currentExpectedItemNames.length) := by omega
      simp only [Session.uid, Session.name, getD_set_string, if_neg hne, if_neg hne2]
      exact ⟨trivial, trivial⟩
    · by_cases hji : j = i
      · subst hji
        have hj2 := (h.2 j).1 (by omega)
        rw [hj2.1, hj2.2]
        have hpos : t.currentMaxItems = j ∧ j < t.currentExpectedUIDStrings.length := by
          unfold MAX_EXPECTED_ITEMS at hk hlu; omega
        have hpos2 : t.currentMaxItems = j ∧ j < t.currentExpectedItemNames.length := by
          unfold MAX_EXPECTED_ITEMS at hk hln; omega
        simp only [Session.uid, Session.name, getD_set_string, if_pos hpos, if_pos hpos2]
        exact ⟨trivial, trivial⟩
      · exact (h.2 j).2 (by omega) (by omega)

/-! ## List loading keeps the flags -/

theorem loadEquipmentRecords_flags (rs : List (Option AString × Option AString)) :
    ∀ (count : Nat) (s : Session),
      (loadEquipmentRecords rs count s).2.usedTagsInitially = s.usedTagsInitially ∧
      (loadEquipmentRecords rs count s).2.foundTagsDuringRepack = s.foundTagsDuringRepack ∧
      (loadEquipmentRecords rs count s).2.currentExpectedUIDStrings.length
        = s.currentExpectedUIDStrings.length ∧
      (loadEquipmentRecords rs count s).2.currentExpectedItemNames.length
        = s.currentExpectedItemNames.length ∧
      (count ≤ MAX_EXPECTED_ITEMS →
        (loadEquipmentRecords rs count s).1 ≤ MAX_EXPECTED_ITEMS) := by
  induction rs with
  | nil => intro count s; simp [loadEquipmentRecords]
  | cons r rest ih =>
    intro count s
    unfold loadEquipmentRecords
    by_cases hc : count ≥ MAX_EXPECTED_ITEMS
    · rw [if_pos hc]; simp
    · rw [if_neg hc]
      rcases r with ⟨_ | u, _ | n⟩
      · exact ih count s
      · exact ih count s
      · exact ih count s
      · have h := ih (count + 1)
          { s with
            currentExpectedUIDStrings := s.currentExpectedUIDStrings.set count u
            currentExpectedItemNames := s.currentExpectedItemNames.set count n }
        refine ⟨h.1, h.2.1, ?_, ?_, fun _ => h.2.2.2.2 (by omega)⟩
        · simpa using h.2.2.1
        · simpa using h.2.2.2.1

theorem fetchEquipmentList_Airtable_flags (inp : Inputs) (d : Device) :
    (fetchEquipmentList_Airtable inp d).2.session.usedTagsInitially
      = d.session.usedTagsInitially ∧
    (fetchEquipmentList_Airtable inp d).2.session.foundTagsDuringRepack
      = d.session.foundTagsDuringRepack ∧
    (d.session.WF → (fetchEquipmentList_Airtable inp d).2.session.WF) := by
  unfold fetchEquipmentList_Airtable
  dsimp only
  by_cases h1 : d.currentAssignedBagID.isEmpty = true
  · rw [if_pos h1]; simp
  · rw [if_neg h1]
    by_cases h2 : (!inp.wifiStatus && !inp.wifiAfterConnect) = true
    · rw [if_pos h2]; simp
    · rw [if_neg h2]
      cases hr : inp.equipmentReply with
      | records rs =>
        have hwifi : (if (!inp.wifiStatus) = true then connectWiFi inp d else d).session
            = d.session := by split_ifs <;> simp
        have h := loadEquipmentRecords_flags rs 0
          { d.session with currentMaxItems := 0 }
        simp only [oledShowStatusMessage_frame, delay_frame, hwifi]
        refine ⟨h.1, h.2.1, fun hwf => ?_⟩
        exact ⟨by rw [h.2.2.2.1]; exact hwf.1, by rw [h.2.2.1]; exact hwf.2.1,
          by rw [h.2.1]; exact hwf.2.2.1, by rw [h.1]; exact hwf.2.2.2.1,
          h.2.2.2.2 (Nat.zero_le _)⟩
      | _ =>
        have hwifi : (if (!inp.wifiStatus) = true then connectWiFi inp d else d).session
            = d.session := by split_ifs <;> simp
        simp only [oledShowStatusMessage_frame, delay_frame, hwifi]
        exact ⟨trivial, trivial,
          fun hwf => ⟨hwf.1, hwf.2.1, hwf.2.2.1, hwf.2.2.2.1, Nat.zero_le _⟩⟩

theorem loadListLoop_flags (lines : List AString) :
    ∀ s : Session,
      (loadListLoop lines s).usedTagsInitially = s.usedTagsInitially ∧
      (loadListLoop lines s).foundTagsDuringRepack = s.foundTagsDuringRepack ∧
      (loadListLoop lines s).currentExpectedUIDStrings.length
        = s.currentExpectedUIDStrings.length ∧
      (loadListLoop lines s).currentExpectedItemNames.length
        = s.currentExpectedItemNames.length ∧
      (s.currentMaxItems ≤ MAX_EXPECTED_ITEMS →
        (loadListLoop lines s).currentMaxItems ≤ MAX_EXPECTED_ITEMS) := by
  induction lines with
  | nil => intro s; simp [loadListLoop]
  | cons raw rest ih =>
    intro s
    unfold loadListLoop
    dsimp only
    by_cases h1 : s.currentMaxItems < MAX_EXPECTED_ITEMS
    · rw [if_pos h1]
      split_ifs
      · have h := ih
          { s with
            currentExpectedUIDStrings :=
              s.currentExpectedUIDStrings.set s.currentMaxItems
                (substring (trim raw) 0 (indexOf 44 (trim raw)).toNat)
            currentExpectedItemNames :=
              s.currentExpectedItemNames.set s.currentMaxItems
                (substring (trim raw) ((indexOf 44 (trim raw)).toNat + 1) (trim raw).length)
            currentMaxItems := s.currentMaxItems + 1 }
        have hle : s.currentMaxItems + 1 ≤ MAX_EXPECTED_ITEMS := by omega
        refine ⟨h.1, h.2.1, ?_, ?_, fun _ => h.2.2.2.2 hle⟩
        · simpa using h.2.2.1
        · simpa using h.2.2.2.1
      · exact ih s
    · rw [if_neg h1]; simp

theorem loadListFromSPIFFS_flags (b : BootInputs) (d : Device) :
    (loadListFromSPIFFS b d).2.session.usedTagsInitially = d.session.usedTagsInitially ∧
    (loadListFromSPIFFS b d).2.session.foundTagsDuringRepack
      = d.session.foundTagsDuringRepack ∧
    (d.session.WF → (loadListFromSPIFFS b d).2.session.WF) := by
  unfold loadListFromSPIFFS
  by_cases h1 : (!b.spiffsOk) = true
  · rw [if_pos h1]; exact ⟨rfl, rfl, id⟩
  · rw [if_neg h1]
    cases hf : b.listFile with
    | none =>
      exact ⟨rfl, rfl, fun hwf => ⟨hwf.1, hwf.2.1, hwf.2.2.1, hwf.2.2.2.1, Nat.zero_le _⟩⟩
    | some lines =>
      have h := loadListLoop_flags lines { d.session with currentMaxItems := 0 }
      refine ⟨h.1, h.2.1, fun hwf => ?_⟩
      exact ⟨by rw [h.2.2.2.1]; exact hwf.1, by rw [h.2.2.1]; exact hwf.2.1,
        by rw [h.2.1]; exact hwf.2.2.1, by rw [h.1]; exact hwf.2.2.2.1,
        h.2.2.2.2 (Nat.zero_le _)⟩

theorem restoreOrDefault_session (b : BootInputs) (d : Device) :
    (restoreOrDefault b d).session = d.session := by
  unfold restoreOrDefault
  split_ifs <;> simp

theorem Device.initial_session (prev : Device) :
    (Device.initial prev).session.usedTagsInitially = List.replicate MAX_EXPECTED_ITEMS false ∧
    (Device.initial prev).session.foundTagsDuringRepack
      = List.replicate MAX_EXPECTED_ITEMS false ∧
    (Device.initial prev).session.WF := by
  simp [Device.initial, Device.powerOn, Session.WF]

theorem setup_session (b : BootInputs) (prev : Device) :
    (setup b prev).session.usedTagsInitially = List.replicate MAX_EXPECTED_ITEMS false ∧
    (setup b prev).session.foundTagsDuringRepack = List.replicate MAX_EXPECTED_ITEMS false ∧
    (setup b prev).session.WF := by
  have h0 := Device.initial_session prev
  have hd1 := restoreOrDefault_session b (Device.initial prev)
  have hd2 : ((loadCurrentBagID b (restoreOrDefault b (Device.initial prev))).2).session
      = (Device.initial prev).session := by
    rw [(loadCurrentBagID_frame _ _).1, hd1]
  have hl := loadListFromSPIFFS_flags b
    (loadCurrentBagID b (restoreOrDefault b (Device.initial prev))).2
  rw [hd2] at hl
  unfold setup
  dsimp only
  by_cases hn : b.nfc_firmware_version = 0
  · rw [if_pos hn]
    exact h0
  · rw [if_neg hn]
    split_ifs
    · simp only [delay_frame]
      exact ⟨hl.1.trans h0.1, hl.2.1.trans h0.2.1, hl.2.2 h0.2.2⟩
    · simp only [delay_frame, hd2]
      exact ⟨h0.1, h0.2.1, h0.2.2.1, h0.2.2.2.1, h0.2.2.2.2.1, h0.2.2.2.2.2.1, Nat.zero_le _⟩

/-! ## The unlock timeout -/

@[simp]
theorem delay_unlockStart (ms : Nat) (d : Device) :
    (delay ms d).unlock_unlockAttemptStartTime = d.unlock_unlockAttemptStartTime := rfl

@[simp]
theorem oledShowStatusMessage_unlockStart (p : Bool) (c : Nat) (d : Device) :
    (oledShowStatusMessage p c d).unlock_unlockAttemptStartTime
      = d.unlock_unlockAttemptStartTime := by
  unfold oledShowStatusMessage
  split <;> simp

@[simp]
theorem isButtonPressed_unlockStart (pin : Nat) (r : Bool) (d : Device) :
    ((isButtonPressed pin r d).2).unlock_unlockAttemptStartTime
      = d.unlock_unlockAttemptStartTime := by
  unfold isButtonPressed
  split <;> simp

theorem runStateMachine_clock (inp : Inputs) (d : Device) :
    (runStateMachine inp d).millis = (dispatchState inp d).millis ∧
    (runStateMachine inp d).unlock_unlockAttemptStartTime
      = (dispatchState inp d).unlock_unlockAttemptStartTime ∧
    (runStateMachine inp d).availableBagCount = (dispatchState inp d).availableBagCount := by
  unfold runStateMachine
  dsimp only
  split_ifs <;> simp

theorem unlockCancelOrTimeout_spec (inp : Inputs) (d : Device) :
    (elapsedSince d.millis d.unlock_unlockAttemptStartTime > ADMIN_TAG_SCAN_TIMEOUT_MS →
      (unlockCancelOrTimeout inp d).currentState = IDLE_MENU ∧
      (unlockCancelOrTimeout inp d).currentMenuScreen = MAIN_MENU ∧
      (unlockCancelOrTimeout inp d).currentMenuSelection = 0) ∧
    (inp.pinB = false →
      ¬ elapsedSince d.millis d.unlock_unlockAttemptStartTime > ADMIN_TAG_SCAN_TIMEOUT_MS →
      (unlockCancelOrTimeout inp d).currentState = d.currentState ∧
      (unlockCancelOrTimeout inp d).unlock_unlockAttemptStartTime
        = d.unlock_unlockAttemptStartTime ∧
      (unlockCancelOrTimeout inp d).millis = d.millis) := by
  unfold unlockCancelOrTimeout
  dsimp only
  by_cases hb : (isButtonPressed BUTTON_B_PIN inp.pinB d).1 = true
  · simp only [hb, if_true]
    refine ⟨fun _ => ?_, fun hlow => ?_⟩
    · split_ifs <;> simp
    · rw [hlow, isButtonPressed_low] at hb; cases hb
  · simp only [hb, Bool.false_eq_true, if_false]
    simp only [isButtonPressed_frame, isButtonPressed_unlockStart]
    refine ⟨fun ht => ?_, fun _ hnt => ?_⟩
    · rw [if_pos ht]; simp
    · rw [if_neg hnt]; simp

theorem handleAdminModeUnlockState_noTag (inp : Inputs) (d : Device)
    (hno : (pollTag inp).nfcReadSuccess = false) (start : Nat)
    (hstart : start = if (!d.unlock_oledPromptDrawn || d.redrawOled) = true then d.millis
      else d.unlock_unlockAttemptStartTime) :
    (elapsedSince (delay inp.tagReadMs d).millis start > ADMIN_TAG_SCAN_TIMEOUT_MS →
      (handleAdminModeUnlockState inp d).currentState = IDLE_MENU ∧
      (handleAdminModeUnlockState inp d).currentMenuScreen = MAIN_MENU ∧
      (handleAdminModeUnlockState inp d).currentMenuSelection = 0) ∧
    (inp.pinB = false →
      ¬ elapsedSince (delay inp.tagReadMs d).millis start > ADMIN_TAG_SCAN_TIMEOUT_MS →
      (handleAdminModeUnlockState inp d).currentState = d.currentState ∧
      (handleAdminModeUnlockState inp d).unlock_unlockAttemptStartTime = start) := by
  have key : ∀ d2 : Device, d2.millis = (delay inp.tagReadMs d).millis →
      d2.unlock_unlockAttemptStartTime = start → d2.currentState = d.currentState →
      (elapsedSince (delay inp.tagReadMs d).millis start > ADMIN_TAG_SCAN_TIMEOUT_MS →
        (unlockCancelOrTimeout inp d2).currentState = IDLE_MENU ∧
        (unlockCancelOrTimeout inp d2).currentMenuScreen = MAIN_MENU ∧
        (unlockCancelOrTimeout inp d2).currentMenuSelection = 0) ∧
      (inp.pinB = false →
        ¬ elapsedSince (delay inp.tagReadMs d).millis start > ADMIN_TAG_SCAN_TIMEOUT_MS →
        (unlockCancelOrTimeout inp d2).currentState = d.currentState ∧
        (unlockCancelOrTimeout inp d2).unlock_unlockAttemptStartTime = start) := by
    intro d2 h1 h2 h3
    have h := unlockCancelOrTimeout_spec inp d2
    rw [h1, h2, h3] at h
    exact ⟨h.1, fun hb hnt => ⟨(h.2 hb hnt).1, (h.2 hb hnt).2.1⟩⟩
  unfold handleAdminModeUnlockState
  dsimp only
  simp only [hno, Bool.false_eq_true, if_false]
  by_cases h1 : (!d.unlock_oledPromptDrawn || d.redrawOled) = true
  · rw [if_pos h1] at hstart
    simp only [h1, if_true]
    exact key _ rfl (by simp [hstart]) (by simp)
  · rw [if_neg h1] at hstart
    simp only [h1, if_false]
    exact key _ rfl (by simp [hstart]) (by simp)

theorem handleAdminModeUnlockState_wrongTag (inp : Inputs) (d : Device)
    (hok : (pollTag inp).nfcReadSuccess = true) (huid : (pollTag inp).outUidString ≠ [])
    (hwrong : equalsIgnoreCase (pollTag inp).outUidString d.ADMIN_TAG_UID_STRING = false)
    (hlow : inp.pinB = false) :
    (handleAdminModeUnlockState inp d).currentState = d.currentState ∧
    (handleAdminModeUnlockState inp d).unlock_unlockAttemptStartTime
      = (handleAdminModeUnlockState inp d).millis := by
  have hne : (pollTag inp).outUidString.isEmpty = false := by
    cases hu : (pollTag inp).outUidString with
    | nil => exact absurd hu huid
    | cons a l => rfl
  have key : ∀ d2 : Device, d2.unlock_unlockAttemptStartTime = d2.millis →
      d2.currentState = d.currentState →
      (unlockCancelOrTimeout inp d2).currentState = d.currentState ∧
      (unlockCancelOrTimeout inp d2).unlock_unlockAttemptStartTime
        = (unlockCancelOrTimeout inp d2).millis := by
    intro d2 h1 h2
    have hnt : ¬ elapsedSince d2.millis d2.unlock_unlockAttemptStartTime
        > ADMIN_TAG_SCAN_TIMEOUT_MS := by
      rw [h1, elapsedSince_self]; decide
    have h := (unlockCancelOrTimeout_spec inp d2).2 hlow hnt
    exact ⟨h.1.trans h2, by rw [h.2.1, h.2.2, h1]⟩
  unfold handleAdminModeUnlockState
  dsimp only
  simp only [hok, if_true, hne, Bool.not_false]
  by_cases h1 : (!d.unlock_oledPromptDrawn || d.redrawOled) = true
  · simp only [h1, if_true]
    rw [if_neg (by simp [hwrong])]
    exact key _ rfl (by simp)
  · simp only [h1, if_false]
    rw [if_neg (by simp [hwrong])]
    exact key _ rfl (by simp)

theorem dispatchState_unlock (inp : Inputs) (d : Device)
    (h : d.currentState = ADMIN_MODE_UNLOCK) :
    dispatchState inp d = handleAdminModeUnlockState inp d := by
  simp [dispatchState, h, ADMIN_MODE_UNLOCK, IDLE_MENU, REPACK_SESSION_START_CONFIRM,
    SESSION_ACTIVE, REPACKING_SCAN, REPACK_CONFIRM_FINISH, REPACK_SESSION_COMPLETE]

/-! ## The workflow invariant: session operations -/

theorem markAll_WF (s : Session) (h : s.WF) : (markAllItemsUsedInitially s).WF := by
  have hf := markLoop_frame s.currentMaxItems 0 s
  unfold Session.WF at h ⊢
  unfold markAllItemsUsedInitially
  dsimp only
  rw [hf.1, hf.2.1, hf.2.2.1, hf.2.2.2.2.1, hf.2.2.2.2.2]
  exact h

theorem markAll_used (s : Session) (h : s.WF) (i : Nat) (hi : i < s.currentMaxItems) :
    (markAllItemsUsedInitially s).used i = true := by
  have e : (markAllItemsUsedInitially s).used i = (markLoop s.currentMaxItems 0 s).used i := rfl
  rw [e, markLoop_used]
  have hl : i < s.usedTagsInitially.length := by
    have h4 := h.2.2.2.1
    have h5 := h.2.2.2.2
    omega
  rw [if_pos ⟨Nat.zero_le i, by omega, hl⟩]

theorem markAll_count (s : Session) :
    (markAllItemsUsedInitially s).currentMaxItems = s.currentMaxItems :=
  (markLoop_frame s.currentMaxItems 0 s).2.2.1

theorem reset_WF (s : Session) (h : s.WF) : (resetFoundTagsForRepack s).WF := by
  have hf := resetLoop_frame s.currentMaxItems 0 s
  unfold Session.WF at h ⊢
  unfold resetFoundTagsForRepack
  dsimp only
  rw [hf.1, hf.2.1, hf.2.2.1, hf.2.2.2.2.1, hf.2.2.2.2.2]
  exact h

theorem process_WF (s : Session) (u : AString) (h : s.WF) :
    (processScannedRepackTag s u).1.WF := by
  have hf := processScannedRepackTag_frame s u
  have hl := processScannedRepackTag_foundList s u
  unfold Session.WF at h ⊢
  rw [hf.1, hf.2.1, hf.2.2.1, hf.2.2.2, hl]
  refine ⟨h.1, h.2.1, ?_, h.2.2.2.1, h.2.2.2.2⟩
  cases matchLoop s u s.currentMaxItems 0 with
  | none => exact h.2.2.1
  | some i => simpa using h.2.2.1

theorem fetch_WF (inp : Inputs) (d : Device) (h : d.session.WF) :
    (fetchEquipmentList_Airtable inp d).2.session.WF :=
  (fetchEquipmentList_Airtable_flags inp d).2.2 h

theorem tmod_up_range (sel count : Int) (h0 : 0 ≤ sel) (h1 : sel < count) :
    0 ≤ Int.tmod (sel - 1 + count) count ∧ Int.tmod (sel - 1 + count) count < count := by
  have hc : 0 < count := by omega
  rw [Int.tmod_eq_emod (by omega) (by omega)]
  exact ⟨Int.emod_nonneg _ (by omega), Int.emod_lt_of_pos _ hc⟩

theorem WorkflowInv_step (d r : Device) (hinv : WorkflowInv d) (hstep : WorkflowStep d r) :
    WorkflowInv r := by
  obtain ⟨hwf, hsess, hbag⟩ := hinv
  obtain ⟨hwf2, hsess2, hbag2⟩ := hstep
  refine ⟨hwf2, fun hin => ?_, fun hsel => ?_⟩
  · rcases hsess2 hin with ⟨hd, hu, hn⟩ | ⟨hn, hm⟩
    · have h := hsess hd
      rw [hn]
      refine ⟨h.1, fun i hi => ?_⟩
      have := h.2 i hi
      unfold Session.used at this ⊢
      rw [hu]; exact this
    · rw [hm, markAll_count]
      exact ⟨by omega, fun i hi => markAll_used d.session hwf i hi⟩
  · rcases hbag2 hsel with ⟨hd, hc, hs⟩ | ⟨h1, h2, h3⟩
    · have h := hbag hd
      rw [hc]
      rcases hs with hs | hs
      · rw [hs]; exact h
      · rw [hs]
        have ht := tmod_up_range d.currentMenuSelection d.availableBagCount h.2.2.1 h.2.2.2
        exact ⟨h.1, h.2.1, ht.1, ht.2⟩
    · rw [h3]
      exact ⟨by omega, h2, le_refl _, h1⟩

theorem loadBagRecords_count (rs : List (Option AString × Option AString)) :
    ∀ d : Device, d.availableBagCount ≤ MAX_BAGS_TO_LIST →
      (loadBagRecords rs d).availableBagCount ≤ MAX_BAGS_TO_LIST := by
  induction rs with
  | nil => intro d h; simpa [loadBagRecords] using h
  | cons r rest ih =>
    intro d h
    unfold loadBagRecords
    by_cases hc : d.availableBagCount ≥ MAX_BAGS_TO_LIST
    · rw [if_pos hc]; exact h
    · rw [if_neg hc]
      rcases r with ⟨_ | n, _ | i⟩
      · exact ih d h
      · exact ih d h
      · exact ih d h
      · have hlt : d.availableBagCount + 1 ≤ MAX_BAGS_TO_LIST := by omega
        exact ih _ hlt

theorem fetchAvailableBags_Airtable_count (inp : Inputs) (d : Device)
    (h : (fetchAvailableBags_Airtable inp d).1 = true) :
    (fetchAvailableBags_Airtable inp d).2.availableBagCount ≤ MAX_BAGS_TO_LIST := by
  unfold fetchAvailableBags_Airtable at h ⊢
  dsimp only at h ⊢
  by_cases h1 : (!inp.wifiStatus && !inp.wifiAfterConnect) = true
  · rw [if_pos h1] at h; cases h
  · rw [if_neg h1] at h ⊢
    cases hr : inp.bagsReply with
    | records rs =>
      rw [hr] at h
      dsimp only at h ⊢
      have key : ∀ e : Device, e.availableBagCount = 0 →
          (loadBagRecords rs e).availableBagCount ≤ MAX_BAGS_TO_LIST :=
        fun e he => loadBagRecords_count rs e (by rw [he]; decide)
      split_ifs <;>
        (simp only [oledShowStatusMessage_frame]
         exact key _ (by simp))
    | _ => rw [hr] at h; cases h

/-! ## The workflow invariant: steps of the handlers -/

theorem idle_wstep (inp : Inputs) (d : Device)
    (h : d.currentState = IDLE_MENU) (hwf : d.session.WF) :
    WorkflowStep d (handleIdleMenuState inp d) := by
  unfold WorkflowStep handleIdleMenuState
  dsimp only
  split_ifs <;>
    simp_all [InSession, markAll_WF, reset_WF, process_WF, fetch_WF,
      processScannedRepackTag_frame, resetFoundTagsForRepack_spec,
      IDLE_MENU, REPACK_SESSION_START_CONFIRM, SESSION_ACTIVE, REPACKING_SCAN,
      REPACK_CONFIRM_FINISH, REPACK_SESSION_COMPLETE,
      ADMIN_MODE_UNLOCK, ADMIN_MODE_PREPARE_WIFI, ADMIN_MENU, ADMIN_SET_ACTIVE_BAG_FETCH,
      ADMIN_SET_ACTIVE_BAG_SELECT, ADMIN_REPLACE_SCAN_OLD, ADMIN_REPLACE_SCAN_NEW,
      ADMIN_REPLACE_CONFIRM]

theorem startConfirm_wstep (inp : Inputs) (d : Device)
    (h : d.currentState = REPACK_SESSION_START_CONFIRM) (hwf : d.session.WF) :
    WorkflowStep d (handleRepackSessionStartConfirmState inp d) := by
  unfold WorkflowStep handleRepackSessionStartConfirmState
  dsimp only
  split_ifs <;>
    simp_all [InSession, markAll_WF, reset_WF, process_WF, fetch_WF,
      processScannedRepackTag_frame, resetFoundTagsForRepack_spec,
      IDLE_MENU, REPACK_SESSION_START_CONFIRM, SESSION_ACTIVE, REPACKING_SCAN,
      REPACK_CONFIRM_FINISH, REPACK_SESSION_COMPLETE,
      ADMIN_MODE_UNLOCK, ADMIN_MODE_PREPARE_WIFI, ADMIN_MENU, ADMIN_SET_ACTIVE_BAG_FETCH,
      ADMIN_SET_ACTIVE_BAG_SELECT, ADMIN_REPLACE_SCAN_OLD, ADMIN_REPLACE_SCAN_NEW,
      ADMIN_REPLACE_CONFIRM]

theorem sessionActive_wstep (inp : Inputs) (d : Device)
    (h : d.currentState = SESSION_ACTIVE) (hwf : d.session.WF) :
    WorkflowStep d (handleSessionActiveState inp d) := by
  unfold WorkflowStep handleSessionActiveState
  dsimp only
  split_ifs <;>
    simp_all [InSession, markAll_WF, reset_WF, process_WF, fetch_WF,
      processScannedRepackTag_frame, resetFoundTagsForRepack_spec,
      IDLE_MENU, REPACK_SESSION_START_CONFIRM, SESSION_ACTIVE, REPACKING_SCAN,
      REPACK_CONFIRM_FINISH, REPACK_SESSION_COMPLETE,
      ADMIN_MODE_UNLOCK, ADMIN_MODE_PREPARE_WIFI, ADMIN_MENU, ADMIN_SET_ACTIVE_BAG_FETCH,
      ADMIN_SET_ACTIVE_BAG_SELECT, ADMIN_REPLACE_SCAN_OLD, ADMIN_REPLACE_SCAN_NEW,
      ADMIN_REPLACE_CONFIRM]

theorem scan_wstep (inp : Inputs) (d : Device)
    (h : d.currentState = REPACKING_SCAN) (hwf : d.session.WF) :
    WorkflowStep d (handleRepackingScanState inp d) := by
  unfold WorkflowStep handleRepackingScanState scanAfterRead scanManualFinish
  dsimp only
  split_ifs <;>
    simp_all [InSession, markAll_WF, reset_WF, process_WF, fetch_WF,
      processScannedRepackTag_frame, resetFoundTagsForRepack_spec,
      IDLE_MENU, REPACK_SESSION_START_CONFIRM, SESSION_ACTIVE, REPACKING_SCAN,
      REPACK_CONFIRM_FINISH, REPACK_SESSION_COMPLETE,
      ADMIN_MODE_UNLOCK, ADMIN_MODE_PREPARE_WIFI, ADMIN_MENU, ADMIN_SET_ACTIVE_BAG_FETCH,
      ADMIN_SET_ACTIVE_BAG_SELECT, ADMIN_REPLACE_SCAN_OLD, ADMIN_REPLACE_SCAN_NEW,
      ADMIN_REPLACE_CONFIRM]

theorem confirmFinish_wstep (inp : Inputs) (d : Device)
    (h : d.currentState = REPACK_CONFIRM_FINISH) (hwf : d.session.WF) :
    WorkflowStep d (handleRepackConfirmFinishState inp d) := by
  unfold WorkflowStep handleRepackConfirmFinishState
  dsimp only
  split_ifs <;>
    simp_all [InSession, markAll_WF, reset_WF, process_WF, fetch_WF,
      processScannedRepackTag_frame, resetFoundTagsForRepack_spec,
      IDLE_MENU, REPACK_SESSION_START_CONFIRM, SESSION_ACTIVE, REPACKING_SCAN,
      REPACK_CONFIRM_FINISH, REPACK_SESSION_COMPLETE,
      ADMIN_MODE_UNLOCK, ADMIN_MODE_PREPARE_WIFI, ADMIN_MENU, ADMIN_SET_ACTIVE_BAG_FETCH,
      ADMIN_SET_ACTIVE_BAG_SELECT, ADMIN_REPLACE_SCAN_OLD, ADMIN_REPLACE_SCAN_NEW,
      ADMIN_REPLACE_CONFIRM]

theorem complete_wstep (inp : Inputs) (d : Device)
    (h : d.currentState = REPACK_SESSION_COMPLETE) (hwf : d.session.WF) :
    WorkflowStep d (handleRepackSessionCompleteState inp d) := by
  unfold WorkflowStep handleRepackSessionCompleteState
  dsimp only
  split_ifs <;>
    simp_all [InSession, markAll_WF, reset_WF, process_WF, fetch_WF,
      processScannedRepackTag_frame, resetFoundTagsForRepack_spec,
      IDLE_MENU, REPACK_SESSION_START_CONFIRM, SESSION_ACTIVE, REPACKING_SCAN,
      REPACK_CONFIRM_FINISH, REPACK_SESSION_COMPLETE,
      ADMIN_MODE_UNLOCK, ADMIN_MODE_PREPARE_WIFI, ADMIN_MENU, ADMIN_SET_ACTIVE_BAG_FETCH,
      ADMIN_SET_ACTIVE_BAG_SELECT, ADMIN_REPLACE_SCAN_OLD, ADMIN_REPLACE_SCAN_NEW,
      ADMIN_REPLACE_CONFIRM]

theorem unlock_wstep (inp : Inputs) (d : Device)
    (h : d.currentState = ADMIN_MODE_UNLOCK) (hwf : d.session.WF) :
    WorkflowStep d (handleAdminModeUnlockState inp d) := by
  unfold WorkflowStep handleAdminModeUnlockState unlockCancelOrTimeout
  dsimp only
  split_ifs <;>
    simp_all [InSession, markAll_WF, reset_WF, process_WF, fetch_WF,
      processScannedRepackTag_frame, resetFoundTagsForRepack_spec,
      IDLE_MENU, REPACK_SESSION_START_CONFIRM, SESSION_ACTIVE, REPACKING_SCAN,
      REPACK_CONFIRM_FINISH, REPACK_SESSION_COMPLETE,
      ADMIN_MODE_UNLOCK, ADMIN_MODE_PREPARE_WIFI, ADMIN_MENU, ADMIN_SET_ACTIVE_BAG_FETCH,
      ADMIN_SET_ACTIVE_BAG_SELECT, ADMIN_REPLACE_SCAN_OLD, ADMIN_REPLACE_SCAN_NEW,
      ADMIN_REPLACE_CONFIRM]

theorem prepareWifi_wstep (inp : Inputs) (d : Device)
    (h : d.currentState = ADMIN_MODE_PREPARE_WIFI) (hwf : d.session.WF) :
    WorkflowStep d (handleAdminModePrepareWifiState inp d) := by
  unfold WorkflowStep handleAdminModePrepareWifiState
  dsimp only
  split_ifs <;>
    simp_all [InSession, markAll_WF, reset_WF, process_WF, fetch_WF,
      processScannedRepackTag_frame, resetFoundTagsForRepack_spec,
      IDLE_MENU, REPACK_SESSION_START_CONFIRM, SESSION_ACTIVE, REPACKING_SCAN,
      REPACK_CONFIRM_FINISH, REPACK_SESSION_COMPLETE,
      ADMIN_MODE_UNLOCK, ADMIN_MODE_PREPARE_WIFI, ADMIN_MENU, ADMIN_SET_ACTIVE_BAG_FETCH,
      ADMIN_SET_ACTIVE_BAG_SELECT, ADMIN_REPLACE_SCAN_OLD, ADMIN_REPLACE_SCAN_NEW,
      ADMIN_REPLACE_CONFIRM]

theorem adminMenu_wstep (inp : Inputs) (d : Device)
    (h : d.currentState = ADMIN_MENU) (hwf : d.session.WF) :
    WorkflowStep d (handleAdminMenuState inp d) := by
  unfold WorkflowStep handleAdminMenuState
  dsimp only
  split_ifs <;>
    simp_all [InSession, markAll_WF, reset_WF, process_WF, fetch_WF,
      processScannedRepackTag_frame, resetFoundTagsForRepack_spec,
      IDLE_MENU, REPACK_SESSION_START_CONFIRM, SESSION_ACTIVE, REPACKING_SCAN,
      REPACK_CONFIRM_FINISH, REPACK_SESSION_COMPLETE,
      ADMIN_MODE_UNLOCK, ADMIN_MODE_PREPARE_WIFI, ADMIN_MENU, ADMIN_SET_ACTIVE_BAG_FETCH,
      ADMIN_SET_ACTIVE_BAG_SELECT, ADMIN_REPLACE_SCAN_OLD, ADMIN_REPLACE_SCAN_NEW,
      ADMIN_REPLACE_CONFIRM]

theorem bagSelect_wstep (inp : Inputs) (d : Device)
    (h : d.currentState = ADMIN_SET_ACTIVE_BAG_SELECT) (hwf : d.session.WF) :
    WorkflowStep d (handleAdminSetActiveBagSelectState inp d) := by
  unfold WorkflowStep handleAdminSetActiveBagSelectState
  dsimp only
  split_ifs <;>
    simp_all [InSession, markAll_WF, reset_WF, process_WF, fetch_WF,
      processScannedRepackTag_frame, resetFoundTagsForRepack_spec,
      IDLE_MENU, REPACK_SESSION_START_CONFIRM, SESSION_ACTIVE, REPACKING_SCAN,
      REPACK_CONFIRM_FINISH, REPACK_SESSION_COMPLETE,
      ADMIN_MODE_UNLOCK, ADMIN_MODE_PREPARE_WIFI, ADMIN_MENU, ADMIN_SET_ACTIVE_BAG_FETCH,
      ADMIN_SET_ACTIVE_BAG_SELECT, ADMIN_REPLACE_SCAN_OLD, ADMIN_REPLACE_SCAN_NEW,
      ADMIN_REPLACE_CONFIRM]

theorem replaceOld_wstep (inp : Inputs) (d : Device)
    (h : d.currentState = ADMIN_REPLACE_SCAN_OLD) (hwf : d.session.WF) :
    WorkflowStep d (handleAdminReplaceScanOldState inp d) := by
  unfold WorkflowStep handleAdminReplaceScanOldState replaceScanCancel
  dsimp only
  split_ifs <;>
    simp_all [InSession, markAll_WF, reset_WF, process_WF, fetch_WF,
      processScannedRepackTag_frame, resetFoundTagsForRepack_spec,
      IDLE_MENU, REPACK_SESSION_START_CONFIRM, SESSION_ACTIVE, REPACKING_SCAN,
      REPACK_CONFIRM_FINISH, REPACK_SESSION_COMPLETE,
      ADMIN_MODE_UNLOCK, ADMIN_MODE_PREPARE_WIFI, ADMIN_MENU, ADMIN_SET_ACTIVE_BAG_FETCH,
      ADMIN_SET_ACTIVE_BAG_SELECT, ADMIN_REPLACE_SCAN_OLD, ADMIN_REPLACE_SCAN_NEW,
      ADMIN_REPLACE_CONFIRM]

theorem replaceNew_wstep (inp : Inputs) (d : Device)
    (h : d.currentState = ADMIN_REPLACE_SCAN_NEW) (hwf : d.session.WF) :
    WorkflowStep d (handleAdminReplaceScanNewState inp d) := by
  unfold WorkflowStep handleAdminReplaceScanNewState replaceNewAfterRead replaceScanCancel
  dsimp only
  split_ifs <;>
    simp_all [InSession, markAll_WF, reset_WF, process_WF, fetch_WF,
      processScannedRepackTag_frame, resetFoundTagsForRepack_spec,
      IDLE_MENU, REPACK_SESSION_START_CONFIRM, SESSION_ACTIVE, REPACKING_SCAN,
      REPACK_CONFIRM_FINISH, REPACK_SESSION_COMPLETE,
      ADMIN_MODE_UNLOCK, ADMIN_MODE_PREPARE_WIFI, ADMIN_MENU, ADMIN_SET_ACTIVE_BAG_FETCH,
      ADMIN_SET_ACTIVE_BAG_SELECT, ADMIN_REPLACE_SCAN_OLD, ADMIN_REPLACE_SCAN_NEW,
      ADMIN_REPLACE_CONFIRM]

theorem replaceConfirm_wstep (inp : Inputs) (d : Device)
    (h : d.currentState = ADMIN_REPLACE_CONFIRM) (hwf : d.session.WF) :
    WorkflowStep d (handleAdminReplaceConfirmState inp d) := by
  unfold WorkflowStep handleAdminReplaceConfirmState
  dsimp only
  split_ifs <;>
    simp_all [InSession, markAll_WF, reset_WF, process_WF, fetch_WF,
      processScannedRepackTag_frame, resetFoundTagsForRepack_spec,
      IDLE_MENU, REPACK_SESSION_START_CONFIRM, SESSION_ACTIVE, REPACKING_SCAN,
      REPACK_CONFIRM_FINISH, REPACK_SESSION_COMPLETE,
      ADMIN_MODE_UNLOCK, ADMIN_MODE_PREPARE_WIFI, ADMIN_MENU, ADMIN_SET_ACTIVE_BAG_FETCH,
      ADMIN_SET_ACTIVE_BAG_SELECT, ADMIN_REPLACE_SCAN_OLD, ADMIN_REPLACE_SCAN_NEW,
      ADMIN_REPLACE_CONFIRM]

theorem bagFetch_wstep (inp : Inputs) (d : Device)
    (_h : d.currentState = ADMIN_SET_ACTIVE_BAG_FETCH) (hwf : d.session.WF) :
    WorkflowStep d (handleAdminSetActiveBagFetchState inp d) := by
  unfold WorkflowStep handleAdminSetActiveBagFetchState
  dsimp only
  by_cases h1 : (fetchAvailableBags_Airtable inp d).1 = true
  · have hc := fetchAvailableBags_Airtable_count inp d h1
    rw [if_pos h1]
    by_cases h2 : (fetchAvailableBags_Airtable inp d).2.availableBagCount > 0
    · rw [if_pos h2]
      simp only [fetchAvailableBags_Airtable_frame]
      refine ⟨hwf, fun hin => ?_, fun _ => Or.inr ⟨h2, hc, trivial⟩⟩
      simp [InSession, ADMIN_SET_ACTIVE_BAG_SELECT, SESSION_ACTIVE, REPACKING_SCAN,
        REPACK_CONFIRM_FINISH] at hin
    · rw [if_neg h2]
      simp [hwf, InSession, ADMIN_MENU, ADMIN_SET_ACTIVE_BAG_SELECT, SESSION_ACTIVE,
        REPACKING_SCAN, REPACK_CONFIRM_FINISH]
  · rw [if_neg h1]
    simp [hwf, InSession, ADMIN_MENU, ADMIN_SET_ACTIVE_BAG_SELECT, SESSION_ACTIVE,
      REPACKING_SCAN, REPACK_CONFIRM_FINISH]

theorem dispatchState_wstep (inp : Inputs) (d : Device) (hwf : d.session.WF) :
    WorkflowStep d (dispatchState inp d) := by
  unfold dispatchState
  by_cases h0 : d.currentState = IDLE_MENU
  · rw [if_pos h0]; exact idle_wstep inp d h0 hwf
  rw [if_neg h0]
  by_cases h1 : d.currentState = REPACK_SESSION_START_CONFIRM
  · rw [if_pos h1]; exact startConfirm_wstep inp d h1 hwf
  rw [if_neg h1]
  by_cases h2 : d.currentState = SESSION_ACTIVE
  · rw [if_pos h2]; exact sessionActive_wstep inp d h2 hwf
  rw [if_neg h2]
  by_cases h3 : d.currentState = REPACKING_SCAN
  · rw [if_pos h3]; exact scan_wstep inp d h3 hwf
  rw [if_neg h3]
  by_cases h4 : d.currentState = REPACK_CONFIRM_FINISH
  · rw [if_pos h4]; exact confirmFinish_wstep inp d h4 hwf
  rw [if_neg h4]
  by_cases h5 : d.currentState = REPACK_SESSION_COMPLETE
  · rw [if_pos h5]; exact complete_wstep inp d h5 hwf
  rw [if_neg h5]
  by_cases h6 : d.currentState = ADMIN_MODE_UNLOCK
  · rw [if_pos h6]; exact unlock_wstep inp d h6 hwf
  rw [if_neg h6]
  by_cases h7 : d.currentState = ADMIN_MODE_PREPARE_WIFI
  · rw [if_pos h7]; exact prepareWifi_wstep inp d h7 hwf
  rw [if_neg h7]
  by_cases h8 : d.currentState = ADMIN_MENU
  · rw [if_pos h8]; exact adminMenu_wstep inp d h8 hwf
  rw [if_neg h8]
  by_cases h9 : d.currentState = ADMIN_SET_ACTIVE_BAG_FETCH
  · rw [if_pos h9]; exact bagFetch_wstep inp d h9 hwf
  rw [if_neg h9]
  by_cases h10 : d.currentState = ADMIN_SET_ACTIVE_BAG_SELECT
  · rw [if_pos h10]; exact bagSelect_wstep inp d h10 hwf
  rw [if_neg h10]
  by_cases h11 : d.currentState = ADMIN_REPLACE_SCAN_OLD
  · rw [if_pos h11]; exact replaceOld_wstep inp d h11 hwf
  rw [if_neg h11]
  by_cases h12 : d.currentState = ADMIN_REPLACE_SCAN_NEW
  · rw [if_pos h12]; exact replaceNew_wstep inp d h12 hwf
  rw [if_neg h12]
  by_cases h13 : d.currentState = ADMIN_REPLACE_CONFIRM
  · rw [if_pos h13]; exact replaceConfirm_wstep inp d h13 hwf
  rw [if_neg h13]
  simp [WorkflowStep, hwf, InSession, IDLE_MENU, REPACK_SESSION_START_CONFIRM, SESSION_ACTIVE, REPACKING_SCAN,
    REPACK_CONFIRM_FINISH, REPACK_SESSION_COMPLETE, ADMIN_MODE_UNLOCK, ADMIN_MODE_PREPARE_WIFI,
    ADMIN_MENU, ADMIN_SET_ACTIVE_BAG_FETCH, ADMIN_SET_ACTIVE_BAG_SELECT, ADMIN_REPLACE_SCAN_OLD,
    ADMIN_REPLACE_SCAN_NEW, ADMIN_REPLACE_CONFIRM]

theorem runStateMachine_wstep (inp : Inputs) (d : Device) (hwf : d.session.WF) :
    WorkflowStep d (runStateMachine inp d) := by
  have hd := dispatchState_wstep inp d hwf
  have hc := runStateMachine_ctl inp d
  have hk := runStateMachine_clock inp d
  unfold WorkflowStep at hd ⊢
  rw [hc.1, hc.2.2.1, hc.2.2.2.2.2.2.2.2.2.1, hk.2.2]
  exact hd

theorem workflowStep_refl (d : Device) (hwf : d.session.WF) : WorkflowStep d d :=
  ⟨hwf, fun hin => Or.inl ⟨hin, rfl, rfl⟩, fun hsel => Or.inl ⟨hsel, rfl, Or.inl rfl⟩⟩

theorem loopOnce_wstep (inp : Inputs) (d : Device) (hwf : d.session.WF) :
    WorkflowStep d (loopOnce inp d) := by
  unfold loopOnce
  split_ifs
  · exact workflowStep_refl d hwf
  · exact runStateMachine_wstep inp (delay inp.elapsed d) hwf

theorem setup_state (b : BootInputs) (d : Device)
    (h : b.wakeup_reason ≠ ESP_SLEEP_WAKEUP_EXT1 ∨ (SnapshotInv d ∧ d.asleep = true)) :
    (setup b d).currentState = IDLE_MENU := by
  by_cases hnfc : b.nfc_firmware_version = 0
  · exact (setup_halted b d hnfc).2.2.1
  · rw [(setup_eq_restore b d hnfc).1]
    have hr := restoreOrDefault_ctl b (Device.initial d)
    have hi := Device.initial_ctl d
    by_cases hcause : b.wakeup_reason = ESP_SLEEP_WAKEUP_EXT1
    · rcases h with h | ⟨hinv, ha⟩
      · exact absurd hcause h
      · have hw := hr.2.2.2.2.2.2 hcause
        by_cases hv : (Device.initial d).rtcDataIsValid = true
        · rw [(hw.2.1 hv).1, hi.2.2.2.1]
          rcases hinv with ⟨_, h2⟩ | h2
          · rw [ha] at h2; cases h2
          · exact (h2.2 (by rw [← hi.2.2.2.2.2.2.1]; exact hv)).1
        · exact (hw.2.2 (by simpa using hv)).1
    · exact (hr.2.2.2.2.2.1 hcause).2.1

theorem setup_winv (b : BootInputs) (d : Device)
    (h : b.wakeup_reason ≠ ESP_SLEEP_WAKEUP_EXT1 ∨ (SnapshotInv d ∧ d.asleep = true)) :
    WorkflowInv (setup b d) := by
  have hs := setup_state b d h
  refine ⟨(setup_session b d).2.2, fun hin => ?_, fun hsel => ?_⟩
  · rw [hs] at hin
    simp [InSession, IDLE_MENU, SESSION_ACTIVE, REPACKING_SCAN, REPACK_CONFIRM_FINISH] at hin
  · rw [hs] at hsel
    simp [IDLE_MENU, ADMIN_SET_ACTIVE_BAG_SELECT] at hsel

theorem reachable_winv (d : Device) (h : Reachable d) : WorkflowInv d := by
  induction h with
  | coldStart b prev hcause => exact setup_winv b prev (Or.inl hcause)
  | pass inp d _ ih => exact WorkflowInv_step d _ ih (loopOnce_wstep inp d ih.1)
  | wake b d hr ha _ _ => exact setup_winv b d (Or.inr ⟨reachable_inv d hr, ha⟩)

/-! ## The menu selection in `IDLE_MENU` -/

theorem handleButtonInputsForMenu_selection (inp : Inputs) (d : Device) :
    (handleButtonInputsForMenu inp d).currentMenuSelection = d.currentMenuSelection ∨
    (handleButtonInputsForMenu inp d).currentMenuSelection
      = Int.tmod (d.currentMenuSelection - 1 + 2) 2 ∨
    (handleButtonInputsForMenu inp d).currentMenuSelection
      = Int.tmod (d.currentMenuSelection + 1) 2 ∨
    d.currentMenuScreen ≠ MAIN_MENU := by
  unfold handleButtonInputsForMenu
  dsimp only
  by_cases hm : d.currentMenuScreen = MAIN_MENU
  · split_ifs <;> simp_all
  · exact Or.inr (Or.inr (Or.inr hm))

theorem handleIdleMenuState_selection (inp : Inputs) (d : Device) :
    (handleIdleMenuState inp d).currentMenuSelection
      = (handleButtonInputsForMenu inp d).currentMenuSelection ∧
    (handleIdleMenuState inp d).currentMenuScreen = d.currentMenuScreen := by
  unfold handleIdleMenuState
  dsimp only
  split_ifs <;> simp

theorem idle_mstep (inp : Inputs) (d : Device) (h : d.currentState = IDLE_MENU) :
    MenuStep d (handleIdleMenuState inp d) := by
  have hs := handleIdleMenuState_selection inp d
  have hm := handleButtonInputsForMenu_selection inp d
  intro _
  refine Or.inr ⟨h, hs.2, ?_⟩
  rw [hs.1]
  exact hm

theorem startConfirm_mstep (inp : Inputs) (d : Device)
    (h : d.currentState = REPACK_SESSION_START_CONFIRM) :
    MenuStep d (handleRepackSessionStartConfirmState inp d) := by
  unfold MenuStep handleRepackSessionStartConfirmState
  dsimp only
  split_ifs <;>
    simp_all [IDLE_MENU, REPACK_SESSION_START_CONFIRM, SESSION_ACTIVE, REPACKING_SCAN,
      REPACK_CONFIRM_FINISH, REPACK_SESSION_COMPLETE, ADMIN_MODE_UNLOCK, ADMIN_MODE_PREPARE_WIFI,
      ADMIN_MENU, ADMIN_SET_ACTIVE_BAG_FETCH, ADMIN_SET_ACTIVE_BAG_SELECT, ADMIN_REPLACE_SCAN_OLD,
      ADMIN_REPLACE_SCAN_NEW, ADMIN_REPLACE_CONFIRM, MAIN_MENU, ADMIN_MENU_SCREEN]

theorem sessionActive_mstep (inp : Inputs) (d : Device)
    (h : d.currentState = SESSION_ACTIVE) :
    MenuStep d (handleSessionActiveState inp d) := by
  unfold MenuStep handleSessionActiveState
  dsimp only
  split_ifs <;>
    simp_all [IDLE_MENU, REPACK_SESSION_START_CONFIRM, SESSION_ACTIVE, REPACKING_SCAN,
      REPACK_CONFIRM_FINISH, REPACK_SESSION_COMPLETE, ADMIN_MODE_UNLOCK, ADMIN_MODE_PREPARE_WIFI,
      ADMIN_MENU, ADMIN_SET_ACTIVE_BAG_FETCH, ADMIN_SET_ACTIVE_BAG_SELECT, ADMIN_REPLACE_SCAN_OLD,
      ADMIN_REPLACE_SCAN_NEW, ADMIN_REPLACE_CONFIRM, MAIN_MENU, ADMIN_MENU_SCREEN]

theorem scan_mstep (inp : Inputs) (d : Device)
    (h : d.currentState = REPACKING_SCAN) :
    MenuStep d (handleRepackingScanState inp d) := by
  unfold MenuStep handleRepackingScanState scanAfterRead scanManualFinish
  dsimp only
  split_ifs <;>
    simp_all [IDLE_MENU, REPACK_SESSION_START_CONFIRM, SESSION_ACTIVE, REPACKING_SCAN,
      REPACK_CONFIRM_FINISH, REPACK_SESSION_COMPLETE, ADMIN_MODE_UNLOCK, ADMIN_MODE_PREPARE_WIFI,
      ADMIN_MENU, ADMIN_SET_ACTIVE_BAG_FETCH, ADMIN_SET_ACTIVE_BAG_SELECT, ADMIN_REPLACE_SCAN_OLD,
      ADMIN_REPLACE_SCAN_NEW, ADMIN_REPLACE_CONFIRM, MAIN_MENU, ADMIN_MENU_SCREEN]

theorem confirmFinish_mstep (inp : Inputs) (d : Device)
    (h : d.currentState = REPACK_CONFIRM_FINISH) :
    MenuStep d (handleRepackConfirmFinishState inp d) := by
  unfold MenuStep handleRepackConfirmFinishState
  dsimp only
  split_ifs <;>
    simp_all [IDLE_MENU, REPACK_SESSION_START_CONFIRM, SESSION_ACTIVE, REPACKING_SCAN,
      REPACK_CONFIRM_FINISH, REPACK_SESSION_COMPLETE, ADMIN_MODE_UNLOCK, ADMIN_MODE_PREPARE_WIFI,
      ADMIN_MENU, ADMIN_SET_ACTIVE_BAG_FETCH, ADMIN_SET_ACTIVE_BAG_SELECT, ADMIN_REPLACE_SCAN_OLD,
      ADMIN_REPLACE_SCAN_NEW, ADMIN_REPLACE_CONFIRM, MAIN_MENU, ADMIN_MENU_SCREEN]

theorem complete_mstep (inp : Inputs) (d : Device)
    (h : d.currentState = REPACK_SESSION_COMPLETE) :
    MenuStep d (handleRepackSessionCompleteState inp d) := by
  unfold MenuStep handleRepackSessionCompleteState
  dsimp only
  split_ifs <;>
    simp_all [IDLE_MENU, REPACK_SESSION_START_CONFIRM, SESSION_ACTIVE, REPACKING_SCAN,
      REPACK_CONFIRM_FINISH, REPACK_SESSION_COMPLETE, ADMIN_MODE_UNLOCK, ADMIN_MODE_PREPARE_WIFI,
      ADMIN_MENU, ADMIN_SET_ACTIVE_BAG_FETCH, ADMIN_SET_ACTIVE_BAG_SELECT, ADMIN_REPLACE_SCAN_OLD,
      ADMIN_REPLACE_SCAN_NEW, ADMIN_REPLACE_CONFIRM, MAIN_MENU, ADMIN_MENU_SCREEN]

theorem unlock_mstep (inp : Inputs) (d : Device)
    (h : d.currentState = ADMIN_MODE_UNLOCK) :
    MenuStep d (handleAdminModeUnlockState inp d) := by
  unfold MenuStep handleAdminModeUnlockState unlockCancelOrTimeout
  dsimp only
  split_ifs <;>
    simp_all [IDLE_MENU, REPACK_SESSION_START_CONFIRM, SESSION_ACTIVE, REPACKING_SCAN,
      REPACK_CONFIRM_FINISH, REPACK_SESSION_COMPLETE, ADMIN_MODE_UNLOCK, ADMIN_MODE_PREPARE_WIFI,
      ADMIN_MENU, ADMIN_SET_ACTIVE_BAG_FETCH, ADMIN_SET_ACTIVE_BAG_SELECT, ADMIN_REPLACE_SCAN_OLD,
      ADMIN_REPLACE_SCAN_NEW, ADMIN_REPLACE_CONFIRM, MAIN_MENU, ADMIN_MENU_SCREEN]

theorem prepareWifi_mstep (inp : Inputs) (d : Device)
    (h : d.currentState = ADMIN_MODE_PREPARE_WIFI) :
    MenuStep d (handleAdminModePrepareWifiState inp d) := by
  unfold MenuStep handleAdminModePrepareWifiState
  dsimp only
  split_ifs <;>
    simp_all [IDLE_MENU, REPACK_SESSION_START_CONFIRM, SESSION_ACTIVE, REPACKING_SCAN,
      REPACK_CONFIRM_FINISH, REPACK_SESSION_COMPLETE, ADMIN_MODE_UNLOCK, ADMIN_MODE_PREPARE_WIFI,
      ADMIN_MENU, ADMIN_SET_ACTIVE_BAG_FETCH, ADMIN_SET_ACTIVE_BAG_SELECT, ADMIN_REPLACE_SCAN_OLD,
      ADMIN_REPLACE_SCAN_NEW, ADMIN_REPLACE_CONFIRM, MAIN_MENU, ADMIN_MENU_SCREEN]

theorem adminMenu_mstep (inp : Inputs) (d : Device)
    (h : d.currentState = ADMIN_MENU) :
    MenuStep d (handleAdminMenuState inp d) := by
  unfold MenuStep handleAdminMenuState
  dsimp only
  split_ifs <;>
    simp_all [IDLE_MENU, REPACK_SESSION_START_CONFIRM, SESSION_ACTIVE, REPACKING_SCAN,
      REPACK_CONFIRM_FINISH, REPACK_SESSION_COMPLETE, ADMIN_MODE_UNLOCK, ADMIN_MODE_PREPARE_WIFI,
      ADMIN_MENU, ADMIN_SET_ACTIVE_BAG_FETCH, ADMIN_SET_ACTIVE_BAG_SELECT, ADMIN_REPLACE_SCAN_OLD,
      ADMIN_REPLACE_SCAN_NEW, ADMIN_REPLACE_CONFIRM, MAIN_MENU, ADMIN_MENU_SCREEN]

theorem bagFetch_mstep (inp : Inputs) (d : Device)
    (h : d.currentState = ADMIN_SET_ACTIVE_BAG_FETCH) :
    MenuStep d (handleAdminSetActiveBagFetchState inp d) := by
  unfold MenuStep handleAdminSetActiveBagFetchState
  dsimp only
  split_ifs <;>
    simp_all [IDLE_MENU, REPACK_SESSION_START_CONFIRM, SESSION_ACTIVE, REPACKING_SCAN,
      REPACK_CONFIRM_FINISH, REPACK_SESSION_COMPLETE, ADMIN_MODE_UNLOCK, ADMIN_MODE_PREPARE_WIFI,
      ADMIN_MENU, ADMIN_SET_ACTIVE_BAG_FETCH, ADMIN_SET_ACTIVE_BAG_SELECT, ADMIN_REPLACE_SCAN_OLD,
      ADMIN_REPLACE_SCAN_NEW, ADMIN_REPLACE_CONFIRM, MAIN_MENU, ADMIN_MENU_SCREEN]

theorem bagSelect_mstep (inp : Inputs) (d : Device)
    (h : d.currentState = ADMIN_SET_ACTIVE_BAG_SELECT) :
    MenuStep d (handleAdminSetActiveBagSelectState inp d) := by
  unfold MenuStep handleAdminSetActiveBagSelectState
  dsimp only
  split_ifs <;>
    simp_all [IDLE_MENU, REPACK_SESSION_START_CONFIRM, SESSION_ACTIVE, REPACKING_SCAN,
      REPACK_CONFIRM_FINISH, REPACK_SESSION_COMPLETE, ADMIN_MODE_UNLOCK, ADMIN_MODE_PREPARE_WIFI,
      ADMIN_MENU, ADMIN_SET_ACTIVE_BAG_FETCH, ADMIN_SET_ACTIVE_BAG_SELECT, ADMIN_REPLACE_SCAN_OLD,
      ADMIN_REPLACE_SCAN_NEW, ADMIN_REPLACE_CONFIRM, MAIN_MENU, ADMIN_MENU_SCREEN]

theorem replaceOld_mstep (inp : Inputs) (d : Device)
    (h : d.currentState = ADMIN_REPLACE_SCAN_OLD) :
    MenuStep d (handleAdminReplaceScanOldState inp d) := by
  unfold MenuStep handleAdminReplaceScanOldState replaceScanCancel
  dsimp only
  split_ifs <;>
    simp_all [IDLE_MENU, REPACK_SESSION_START_CONFIRM, SESSION_ACTIVE, REPACKING_SCAN,
      REPACK_CONFIRM_FINISH, REPACK_SESSION_COMPLETE, ADMIN_MODE_UNLOCK, ADMIN_MODE_PREPARE_WIFI,
      ADMIN_MENU, ADMIN_SET_ACTIVE_BAG_FETCH, ADMIN_SET_ACTIVE_BAG_SELECT, ADMIN_REPLACE_SCAN_OLD,
      ADMIN_REPLACE_SCAN_NEW, ADMIN_REPLACE_CONFIRM, MAIN_MENU, ADMIN_MENU_SCREEN]

theorem replaceNew_mstep (inp : Inputs) (d : Device)
    (h : d.currentState = ADMIN_REPLACE_SCAN_NEW) :
    MenuStep d (handleAdminReplaceScanNewState inp d) := by
  unfold MenuStep handleAdminReplaceScanNewState replaceNewAfterRead replaceScanCancel
  dsimp only
  split_ifs <;>
    simp_all [IDLE_MENU, REPACK_SESSION_START_CONFIRM, SESSION_ACTIVE, REPACKING_SCAN,
      REPACK_CONFIRM_FINISH, REPACK_SESSION_COMPLETE, ADMIN_MODE_UNLOCK, ADMIN_MODE_PREPARE_WIFI,
      ADMIN_MENU, ADMIN_SET_ACTIVE_BAG_FETCH, ADMIN_SET_ACTIVE_BAG_SELECT, ADMIN_REPLACE_SCAN_OLD,
      ADMIN_REPLACE_SCAN_NEW, ADMIN_REPLACE_CONFIRM, MAIN_MENU, ADMIN_MENU_SCREEN]

theorem replaceConfirm_mstep (inp : Inputs) (d : Device)
    (h : d.currentState = ADMIN_REPLACE_CONFIRM) :
    MenuStep d (handleAdminReplaceConfirmState inp d) := by
  unfold MenuStep handleAdminReplaceConfirmState
  dsimp only
  split_ifs <;>
    simp_all [IDLE_MENU, REPACK_SESSION_START_CONFIRM, SESSION_ACTIVE, REPACKING_SCAN,
      REPACK_CONFIRM_FINISH, REPACK_SESSION_COMPLETE, ADMIN_MODE_UNLOCK, ADMIN_MODE_PREPARE_WIFI,
      ADMIN_MENU, ADMIN_SET_ACTIVE_BAG_FETCH, ADMIN_SET_ACTIVE_BAG_SELECT, ADMIN_REPLACE_SCAN_OLD,
      ADMIN_REPLACE_SCAN_NEW, ADMIN_REPLACE_CONFIRM, MAIN_MENU, ADMIN_MENU_SCREEN]

theorem dispatchState_mstep (inp : Inputs) (d : Device) :
    MenuStep d (dispatchState inp d) := by
  unfold dispatchState
  by_cases h0 : d.currentState = IDLE_MENU
  · rw [if_pos h0]; exact idle_mstep inp d h0
  rw [if_neg h0]
  by_cases h1 : d.currentState = REPACK_SESSION_START_CONFIRM
  · rw [if_pos h1]; exact startConfirm_mstep inp d h1
  rw [if_neg h1]
  by_cases h2 : d.currentState = SESSION_ACTIVE
  · rw [if_pos h2]; exact sessionActive_mstep inp d h2
  rw [if_neg h2]
  by_cases h3 : d.currentState = REPACKING_SCAN
  · rw [if_pos h3]; exact scan_mstep inp d h3
  rw [if_neg h3]
  by_cases h4 : d.currentState = REPACK_CONFIRM_FINISH
  · rw [if_pos h4]; exact confirmFinish_mstep inp d h4
  rw [if_neg h4]
  by_cases h5 : d.currentState = REPACK_SESSION_COMPLETE
  · rw [if_pos h5]; exact complete_mstep inp d h5
  rw [if_neg h5]
  by_cases h6 : d.currentState = ADMIN_MODE_UNLOCK
  · rw [if_pos h6]; exact unlock_mstep inp d h6
  rw [if_neg h6]
  by_cases h7 : d.currentState = ADMIN_MODE_PREPARE_WIFI
  · rw [if_pos h7]; exact prepareWifi_mstep inp d h7
  rw [if_neg h7]
  by_cases h8 : d.currentState = ADMIN_MENU
  · rw [if_pos h8]; exact adminMenu_mstep inp d h8
  rw [if_neg h8]
  by_cases h9 : d.currentState = ADMIN_SET_ACTIVE_BAG_FETCH
  · rw [if_pos h9]; exact bagFetch_mstep inp d h9
  rw [if_neg h9]
  by_cases h10 : d.currentState = ADMIN_SET_ACTIVE_BAG_SELECT
  · rw [if_pos h10]; exact bagSelect_mstep inp d h10
  rw [if_neg h10]
  by_cases h11 : d.currentState = ADMIN_REPLACE_SCAN_OLD
  · rw [if_pos h11]; exact replaceOld_mstep inp d h11
  rw [if_neg h11]
  by_cases h12 : d.currentState = ADMIN_REPLACE_SCAN_NEW
  · rw [if_pos h12]; exact replaceNew_mstep inp d h12
  rw [if_neg h12]
  by_cases h13 : d.currentState = ADMIN_REPLACE_CONFIRM
  · rw [if_pos h13]; exact replaceConfirm_mstep inp d h13
  rw [if_neg h13]
  simp [MenuStep]

theorem runStateMachine_mstep (inp : Inputs) (d : Device) :
    MenuStep d (runStateMachine inp d) := by
  have hd := dispatchState_mstep inp d
  have hc := runStateMachine_ctl inp d
  unfold MenuStep at hd ⊢
  rw [hc.1, hc.2.1, hc.2.2.1]
  exact hd

theorem menuStep_refl (d : Device) : MenuStep d d :=
  fun h => Or.inr ⟨h, rfl, Or.inl rfl⟩

theorem loopOnce_mstep (inp : Inputs) (d : Device) : MenuStep d (loopOnce inp d) := by
  unfold loopOnce
  split_ifs
  · exact menuStep_refl d
  · exact runStateMachine_mstep inp (delay inp.elapsed d)

theorem tmod_two_range (sel : Int) (h0 : 0 ≤ sel) (h1 : sel ≤ 1) :
    (0 ≤ Int.tmod (sel - 1 + 2) 2 ∧ Int.tmod (sel - 1 + 2) 2 ≤ 1) ∧
    (0 ≤ Int.tmod (sel + 1) 2 ∧ Int.tmod (sel + 1) 2 ≤ 1) := by
  rw [Int.tmod_eq_emod (by omega) (by omega), Int.tmod_eq_emod (by omega) (by omega)]
  omega

theorem MenuInv_idle_step (d r : Device) (hinv : MenuInv d) (hstep : MenuStep d r)
    (hr : r.currentState = IDLE_MENU) :
    r.currentMenuScreen = MAIN_MENU ∧ 0 ≤ r.currentMenuSelection ∧
      r.currentMenuSelection ≤ 1 := by
  rcases hstep hr with ⟨h1, h2⟩ | ⟨hd, hscreen, hsel⟩
  · rw [h2]; exact ⟨h1, le_refl _, by decide⟩
  · have hi := hinv.2.1 hd
    have ht := tmod_two_range d.currentMenuSelection hi.2.1 hi.2.2
    refine ⟨by rw [hscreen]; exact hi.1, ?_⟩
    rcases hsel with h | h | h | h
    · rw [h]; exact hi.2
    · rw [h]; exact ht.1
    · rw [h]; exact ht.2
    · exact absurd hi.1 h

theorem loopOnce_minv (inp : Inputs) (d : Device) (hinv : MenuInv d) :
    MenuInv (loopOnce inp d) := by
  have hstep := loopOnce_mstep inp d
  have hidle := MenuInv_idle_step d (loopOnce inp d) hinv hstep
  rcases loopOnce_cases inp d with ⟨he, _⟩ | ⟨_, hh, _, hi⟩ | ⟨_, hh, _, hq⟩
  · rw [he]; exact hinv
  · obtain ⟨h1, _, hcase⟩ := hi
    refine ⟨fun hc => ?_, hidle, fun _ hv => ?_⟩
    · rw [h1, hh] at hc; cases hc
    · rcases hcase with ⟨_, _, _, h4, h5, _⟩ | ⟨_, _, _, _, h5, h6⟩
      · rw [h4]; exact hinv.2.2 hh (by rw [← h5]; exact hv)
      · rw [h5]
        have := hidle (by rw [h6]; assumption)
        exact this.2
  · obtain ⟨_, _, h3, h4, _, h6, _⟩ := hq
    refine ⟨fun hc => ?_, hidle, fun _ hv => ?_⟩
    · rw [h6, hh] at hc; cases hc
    · rw [h3]; exact hinv.2.2 hh (by rw [← h4]; exact hv)

theorem setup_minv (b : BootInputs) (d : Device)
    (h : b.wakeup_reason ≠ ESP_SLEEP_WAKEUP_EXT1 ∨
      (SnapshotInv d ∧ MenuInv d ∧ d.asleep = true)) :
    MenuInv (setup b d) := by
  by_cases hnfc : b.nfc_firmware_version = 0
  · have hs := setup_halted b d hnfc
    refine ⟨fun _ => hs.2.1, fun _ => ?_, fun hc => ?_⟩
    · rw [hs.2.2.2.1, hs.2.2.2.2.1]; exact ⟨rfl, le_refl _, by decide⟩
    · rw [hs.1] at hc; cases hc
  · have hs := setup_eq_restore b d hnfc
    have hr := restoreOrDefault_ctl b (Device.initial d)
    have hi := Device.initial_ctl d
    have hasleep : (setup b d).asleep = false := by
      rw [hs.2.2.2.2.2.2.2.1, hr.2.2.2.1]; exact hi.2.2.2.2.2.2.2.1
    by_cases hcause : b.wakeup_reason = ESP_SLEEP_WAKEUP_EXT1
    · rcases h with h | ⟨hsnap, hmenu, ha⟩
      · exact absurd hcause h
      · have hw := hr.2.2.2.2.2.2 hcause
        have hnothalted : d.halted = false := by
          cases hh : d.halted
          · rfl
          · have := hmenu.1 hh; rw [ha] at this; cases this
        have hsaved : d.rtcDataIsValid = true →
            d.savedCurrentMenuScreen = MAIN_MENU ∧ 0 ≤ d.savedCurrentMenuSelection ∧
              d.savedCurrentMenuSelection ≤ 1 := by
          intro hv
          rcases hsnap with ⟨_, h2⟩ | h2
          · rw [ha] at h2; cases h2
          · exact ⟨(h2.2 hv).2, hmenu.2.2 hnothalted hv⟩
        refine ⟨fun _ => hasleep, fun _ => ?_, fun _ hv => ?_⟩
        · rw [hs.2.1, hs.2.2.1]
          by_cases hv : (Device.initial d).rtcDataIsValid = true
          · have hv2 : d.rtcDataIsValid = true := by rw [← hi.2.2.2.2.2.2.1]; exact hv
            rw [(hw.2.1 hv).2.1, (hw.2.1 hv).2.2, hi.2.2.2.2.1, hi.2.2.2.2.2.1]
            exact hsaved hv2
          · have hf := hw.2.2 (by simpa using hv)
            rw [hf.2.1, hf.2.2]; exact ⟨rfl, le_refl _, by decide⟩
        · rw [hs.2.2.2.2.2.1, hr.2.2.1, hi.2.2.2.2.2.1]
          have hv2 : d.rtcDataIsValid = true := by
            rw [hs.2.2.2.2.2.2.1, hw.1, hi.2.2.2.2.2.2.1] at hv; exact hv
          exact (hsaved hv2).2
    · have hc := hr.2.2.2.2.2.1 hcause
      refine ⟨fun _ => hasleep, fun _ => ?_, fun _ hv => ?_⟩
      · rw [hs.2.1, hs.2.2.1, hc.2.2.1, hc.2.2.2]; exact ⟨rfl, le_refl _, by decide⟩
      · rw [hs.2.2.2.2.2.2.1, hc.1] at hv; cases hv

theorem reachable_minv (d : Device) (h : Reachable d) : MenuInv d := by
  induction h with
  | coldStart b prev hcause => exact setup_minv b prev (Or.inl hcause)
  | pass inp d _ ih => exact loopOnce_minv inp d ih
  | wake b d hr ha _ ih => exact setup_minv b d (Or.inr ⟨reachable_inv d hr, ih, ha⟩)

theorem reachable_idle_selection (d : Device) (h : Reachable d)
    (hphase : d.currentState = IDLE_MENU) :
    d.currentMenuScreen = MAIN_MENU ∧ 0 ≤ d.currentMenuSelection ∧
      d.currentMenuSelection ≤ 1 :=
  (reachable_minv d h).2.1 hphase

/-! ## The selected bag and the loaded list: lemmas -/

theorem delay_bagIDs (ms : Nat) (d : Device) :
    (delay ms d).availableBagIDs = d.availableBagIDs := by
  simp [delay]

theorem oledShowStatusMessage_bagIDs (p : Bool) (c : Nat) (d : Device) :
    (oledShowStatusMessage p c d).availableBagIDs = d.availableBagIDs := by
  unfold oledShowStatusMessage
  split <;> simp [delay_bagIDs]

theorem isButtonPressed_bagIDs (pin : Nat) (r : Bool) (d : Device) :
    ((isButtonPressed pin r d).2).availableBagIDs = d.availableBagIDs := by
  unfold isButtonPressed
  split <;> simp

theorem connectWiFi_bagIDs (inp : Inputs) (d : Device) :
    (connectWiFi inp d).availableBagIDs = d.availableBagIDs := by
  simp [connectWiFi, delay_bagIDs]

theorem disconnectWiFi_bagIDs (inp : Inputs) (d : Device) :
    (disconnectWiFi inp d).availableBagIDs = d.availableBagIDs := by
  unfold disconnectWiFi
  split <;> simp [oledShowStatusMessage_bagIDs]

theorem sendAirtableUpdateRequest_bagIDs (inp : Inputs) (d : Device) :
    ((sendAirtableUpdateRequest inp d).2).availableBagIDs = d.availableBagIDs := by
  simp [sendAirtableUpdateRequest, delay_bagIDs]

theorem saveCurrentBagID_bagIDs (inp : Inputs) (i n : AString) (d : Device) :
    ((saveCurrentBagID inp i n d).2).availableBagIDs = d.availableBagIDs := by
  unfold saveCurrentBagID
  split <;> simp

theorem displayCurrentMenuOnOLED_bagIDs (d : Device) :
    (displayCurrentMenuOnOLED d).availableBagIDs = d.availableBagIDs := by
  unfold displayCurrentMenuOnOLED
  split_ifs <;> simp

theorem handleButtonInputsForMenu_bagIDs (inp : Inputs) (d : Device) :
    (handleButtonInputsForMenu inp d).availableBagIDs = d.availableBagIDs := by
  unfold handleButtonInputsForMenu
  dsimp only
  split_ifs <;> simp [isButtonPressed_bagIDs]

theorem fetchEquipmentList_Airtable_bagIDs (inp : Inputs) (d : Device) :
    ((fetchEquipmentList_Airtable inp d).2).availableBagIDs = d.availableBagIDs := by
  unfold fetchEquipmentList_Airtable
  dsimp only
  split_ifs <;> (try split) <;>
    simp [oledShowStatusMessage_bagIDs, delay_bagIDs, connectWiFi_bagIDs]

theorem fetchEquipmentList_Airtable_noBag (inp : Inputs) (d : Device)
    (h : d.currentAssignedBagID = []) :
    ((fetchEquipmentList_Airtable inp d).2).session = d.session := by
  unfold fetchEquipmentList_Airtable
  simp [h]

theorem BagInv_keep (d r : Device) (hinv : BagInv d) (hk : BagKeep d r) : BagInv r := by
  obtain ⟨h1, h2, h3⟩ := hinv
  obtain ⟨k1, k2, k3, k4⟩ := hk
  refine ⟨fun he => ?_, by rw [k2]; exact h2, fun i hi => ?_⟩
  · rw [k1] at he
    rw [k4 he]; exact h1 he
  · unfold Device.bagID
    rw [k2]
    exact h3 i (by rw [← k3]; exact hi)

theorem bagKeep_refl (d : Device) : BagKeep d d := ⟨rfl, rfl, rfl, fun _ => rfl⟩

theorem idle_bagKeep (inp : Inputs) (d : Device) : BagKeep d (handleIdleMenuState inp d) := by
  unfold BagKeep handleIdleMenuState
  dsimp only
  split_ifs <;>
    simp_all [delay_bagIDs, oledShowStatusMessage_bagIDs, isButtonPressed_bagIDs,
      connectWiFi_bagIDs, disconnectWiFi_bagIDs, sendAirtableUpdateRequest_bagIDs,
      displayCurrentMenuOnOLED_bagIDs, handleButtonInputsForMenu_bagIDs,
      fetchEquipmentList_Airtable_bagIDs, fetchEquipmentList_Airtable_noBag,
      markAll_count, processScannedRepackTag_frame, resetFoundTagsForRepack_spec]

theorem startConfirm_bagKeep (inp : Inputs) (d : Device) : BagKeep d (handleRepackSessionStartConfirmState inp d) := by
  unfold BagKeep handleRepackSessionStartConfirmState
  dsimp only
  split_ifs <;>
    simp_all [delay_bagIDs, oledShowStatusMessage_bagIDs, isButtonPressed_bagIDs,
      connectWiFi_bagIDs, disconnectWiFi_bagIDs, sendAirtableUpdateRequest_bagIDs,
      displayCurrentMenuOnOLED_bagIDs, handleButtonInputsForMenu_bagIDs,
      fetchEquipmentList_Airtable_bagIDs, fetchEquipmentList_Airtable_noBag,
      markAll_count, processScannedRepackTag_frame, resetFoundTagsForRepack_spec]

theorem sessionActive_bagKeep (inp : Inputs) (d : Device) : BagKeep d (handleSessionActiveState inp d) := by
  unfold BagKeep handleSessionActiveState
  dsimp only
  split_ifs <;>
    simp_all [delay_bagIDs, oledShowStatusMessage_bagIDs, isButtonPressed_bagIDs,
      connectWiFi_bagIDs, disconnectWiFi_bagIDs, sendAirtableUpdateRequest_bagIDs,
      displayCurrentMenuOnOLED_bagIDs, handleButtonInputsForMenu_bagIDs,
      fetchEquipmentList_Airtable_bagIDs, fetchEquipmentList_Airtable_noBag,
      markAll_count, processScannedRepackTag_frame, resetFoundTagsForRepack_spec]

theorem scan_bagKeep (inp : Inputs) (d : Device) : BagKeep d (handleRepackingScanState inp d) := by
  unfold BagKeep handleRepackingScanState scanAfterRead scanManualFinish
  dsimp only
  split_ifs <;>
    simp_all [delay_bagIDs, oledShowStatusMessage_bagIDs, isButtonPressed_bagIDs,
      connectWiFi_bagIDs, disconnectWiFi_bagIDs, sendAirtableUpdateRequest_bagIDs,
      displayCurrentMenuOnOLED_bagIDs, handleButtonInputsForMenu_bagIDs,
      fetchEquipmentList_Airtable_bagIDs, fetchEquipmentList_Airtable_noBag,
      markAll_count, processScannedRepackTag_frame, resetFoundTagsForRepack_spec]

theorem confirmFinish_bagKeep (inp : Inputs) (d : Device) : BagKeep d (handleRepackConfirmFinishState inp d) := by
  unfold BagKeep handleRepackConfirmFinishState
  dsimp only
  split_ifs <;>
    simp_all [delay_bagIDs, oledShowStatusMessage_bagIDs, isButtonPressed_bagIDs,
      connectWiFi_bagIDs, disconnectWiFi_bagIDs, sendAirtableUpdateRequest_bagIDs,
      displayCurrentMenuOnOLED_bagIDs, handleButtonInputsForMenu_bagIDs,
      fetchEquipmentList_Airtable_bagIDs, fetchEquipmentList_Airtable_noBag,
      markAll_count, processScannedRepackTag_frame, resetFoundTagsForRepack_spec]

theorem complete_bagKeep (inp : Inputs) (d : Device) : BagKeep d (handleRepackSessionCompleteState inp d) := by
  unfold BagKeep handleRepackSessionCompleteState
  dsimp only
  split_ifs <;>
    simp_all [delay_bagIDs, oledShowStatusMessage_bagIDs, isButtonPressed_bagIDs,
      connectWiFi_bagIDs, disconnectWiFi_bagIDs, sendAirtableUpdateRequest_bagIDs,
      displayCurrentMenuOnOLED_bagIDs, handleButtonInputsForMenu_bagIDs,
      fetchEquipmentList_Airtable_bagIDs, fetchEquipmentList_Airtable_noBag,
      markAll_count, processScannedRepackTag_frame, resetFoundTagsForRepack_spec]

theorem unlock_bagKeep (inp : Inputs) (d : Device) : BagKeep d (handleAdminModeUnlockState inp d) := by
  unfold BagKeep handleAdminModeUnlockState unlockCancelOrTimeout
  dsimp only
  split_ifs <;>
    simp_all [delay_bagIDs, oledShowStatusMessage_bagIDs, isButtonPressed_bagIDs,
      connectWiFi_bagIDs, disconnectWiFi_bagIDs, sendAirtableUpdateRequest_bagIDs,
      displayCurrentMenuOnOLED_bagIDs, handleButtonInputsForMenu_bagIDs,
      fetchEquipmentList_Airtable_bagIDs, fetchEquipmentList_Airtable_noBag,
      markAll_count, processScannedRepackTag_frame, resetFoundTagsForRepack_spec]

theorem prepareWifi_bagKeep (inp : Inputs) (d : Device) : BagKeep d (handleAdminModePrepareWifiState inp d) := by
  unfold BagKeep handleAdminModePrepareWifiState
  dsimp only
  split_ifs <;>
    simp_all [delay_bagIDs, oledShowStatusMessage_bagIDs, isButtonPressed_bagIDs,
      connectWiFi_bagIDs, disconnectWiFi_bagIDs, sendAirtableUpdateRequest_bagIDs,
      displayCurrentMenuOnOLED_bagIDs, handleButtonInputsForMenu_bagIDs,
      fetchEquipmentList_Airtable_bagIDs, fetchEquipmentList_Airtable_noBag,
      markAll_count, processScannedRepackTag_frame, resetFoundTagsForRepack_spec]

theorem adminMenu_bagKeep (inp : Inputs) (d : Device) : BagKeep d (handleAdminMenuState inp d) := by
  unfold BagKeep handleAdminMenuState
  dsimp only
  split_ifs <;>
    simp_all [delay_bagIDs, oledShowStatusMessage_bagIDs, isButtonPressed_bagIDs,
      connectWiFi_bagIDs, disconnectWiFi_bagIDs, sendAirtableUpdateRequest_bagIDs,
      displayCurrentMenuOnOLED_bagIDs, handleButtonInputsForMenu_bagIDs,
      fetchEquipmentList_Airtable_bagIDs, fetchEquipmentList_Airtable_noBag,
      markAll_count, processScannedRepackTag_frame, resetFoundTagsForRepack_spec]

theorem replaceOld_bagKeep (inp : Inputs) (d : Device) : BagKeep d (handleAdminReplaceScanOldState inp d) := by
  unfold BagKeep handleAdminReplaceScanOldState replaceScanCancel
  dsimp only
  split_ifs <;>
    simp_all [delay_bagIDs, oledShowStatusMessage_bagIDs, isButtonPressed_bagIDs,
      connectWiFi_bagIDs, disconnectWiFi_bagIDs, sendAirtableUpdateRequest_bagIDs,
      displayCurrentMenuOnOLED_bagIDs, handleButtonInputsForMenu_bagIDs,
      fetchEquipmentList_Airtable_bagIDs, fetchEquipmentList_Airtable_noBag,
      markAll_count, processScannedRepackTag_frame, resetFoundTagsForRepack_spec]

theorem replaceNew_bagKeep (inp : Inputs) (d : Device) : BagKeep d (handleAdminReplaceScanNewState inp d) := by
  unfold BagKeep handleAdminReplaceScanNewState replaceNewAfterRead replaceScanCancel
  dsimp only
  split_ifs <;>
    simp_all [delay_bagIDs, oledShowStatusMessage_bagIDs, isButtonPressed_bagIDs,
      connectWiFi_bagIDs, disconnectWiFi_bagIDs, sendAirtableUpdateRequest_bagIDs,
      displayCurrentMenuOnOLED_bagIDs, handleButtonInputsForMenu_bagIDs,
      fetchEquipmentList_Airtable_bagIDs, fetchEquipmentList_Airtable_noBag,
      markAll_count, processScannedRepackTag_frame, resetFoundTagsForRepack_spec]

theorem replaceConfirm_bagKeep (inp : Inputs) (d : Device) : BagKeep d (handleAdminReplaceConfirmState inp d) := by
  unfold BagKeep handleAdminReplaceConfirmState
  dsimp only
  split_ifs <;>
    simp_all [delay_bagIDs, oledShowStatusMessage_bagIDs, isButtonPressed_bagIDs,
      connectWiFi_bagIDs, disconnectWiFi_bagIDs, sendAirtableUpdateRequest_bagIDs,
      displayCurrentMenuOnOLED_bagIDs, handleButtonInputsForMenu_bagIDs,
      fetchEquipmentList_Airtable_bagIDs, fetchEquipmentList_Airtable_noBag,
      markAll_count, processScannedRepackTag_frame, resetFoundTagsForRepack_spec]

theorem loadBagRecords_ids (rs : List (Option AString × Option AString))
    (hrs : ∀ r ∈ rs, r.2 ≠ some []) :
    ∀ d : Device, 0 ≤ d.availableBagCount →
      d.availableBagIDs.length = MAX_BAGS_TO_LIST →
      (∀ i : Nat, (i : Int) < d.availableBagCount → d.bagID i ≠ []) →
      (loadBagRecords rs d).availableBagIDs.length = MAX_BAGS_TO_LIST ∧
      (∀ i : Nat, (i : Int) < (loadBagRecords rs d).availableBagCount →
        (loadBagRecords rs d).bagID i ≠ []) := by
  induction rs with
  | nil => intro d _ hl hi; exact ⟨hl, hi⟩
  | cons r rest ih =>
    intro d h0 hl hi
    have hrest : ∀ r ∈ rest, r.2 ≠ some [] := fun x hx => hrs x (by simp [hx])
    unfold loadBagRecords
    by_cases hc : d.availableBagCount ≥ MAX_BAGS_TO_LIST
    · rw [if_pos hc]; exact ⟨hl, hi⟩
    · rw [if_neg hc]
      rcases r with ⟨_ | n, _ | i⟩
      · exact ih hrest d h0 hl hi
      · exact ih hrest d h0 hl hi
      · exact ih hrest d h0 hl hi
      · have hne : i ≠ [] := fun he => hrs (some n, some i) (by simp) (by simp [he])
        refine ih hrest _ (by show 0 ≤ d.availableBagCount + 1; omega)
          (by show (d.availableBagIDs.set _ _).length = _; rw [List.length_set]; exact hl)
          (fun j hj => ?_)
        have hj2 : (j : Int) < d.availableBagCount + 1 := hj
        show (d.availableBagIDs.set d.availableBagCount.toNat i).getD j [] ≠ []
        have hlt : d.availableBagCount.toNat < d.availableBagIDs.length := by
          rw [hl]; unfold MAX_BAGS_TO_LIST at hc ⊢; omega
        by_cases hjc : j = d.availableBagCount.toNat
        · rw [hjc, List.getD_eq_getElem?_getD, List.getElem?_set_self hlt]
          exact hne
        · rw [List.getD_eq_getElem?_getD, List.getElem?_set_ne (Ne.symm hjc),
            ← List.getD_eq_getElem?_getD]
          exact hi j (by omega)

theorem fetchAvailableBags_Airtable_bagInv (inp : Inputs) (d : Device)
    (hinv : BagInv d) (hids : inp.bagsReply.idsPresent = true) :
    BagInv (fetchAvailableBags_Airtable inp d).2 := by
  obtain ⟨h1, h2, h3⟩ := hinv
  have hf := fetchAvailableBags_Airtable_frame inp d
  refine ⟨fun he => ?_, ?_⟩
  · rw [hf.1]; exact h1 (by rw [← hf.2.1]; exact he)
  · unfold fetchAvailableBags_Airtable
    dsimp only
    by_cases hw : (!inp.wifiStatus && !inp.wifiAfterConnect) = true
    · rw [if_pos hw]
      simp only [Device.bagID, oledShowStatusMessage_bagIDs, connectWiFi_bagIDs,
        oledShowStatusMessage_frame, connectWiFi_frame]
      exact ⟨h2, h3⟩
    · rw [if_neg hw]
      have key : ∀ e : Device, e.availableBagIDs = d.availableBagIDs →
          (delay inp.networkMs { e with availableBagCount := 0 }).availableBagIDs.length
            = MAX_BAGS_TO_LIST ∧
          (∀ i : Nat, (i : Int) <
              (delay inp.networkMs { e with availableBagCount := 0 }).availableBagCount →
            (delay inp.networkMs { e with availableBagCount := 0 }).bagID i ≠ []) ∧
          0 ≤ (delay inp.networkMs { e with availableBagCount := 0 }).availableBagCount := by
        intro e he
        simp only [Device.bagID, delay_bagIDs, delay_frame, he]
        exact ⟨h2, fun i hi => absurd hi (by omega), le_refl _⟩
      cases hr : inp.bagsReply with
      | records rs =>
        rw [hr] at hids
        have hrs : ∀ r ∈ rs, r.2 ≠ some [] := by
          intro r hr2
          have := List.all_eq_true.mp hids r hr2
          simpa using this
        dsimp only
        have main : ∀ e : Device, e.availableBagIDs = d.availableBagIDs →
            (loadBagRecords rs (delay inp.networkMs
              { e with availableBagCount := 0 })).availableBagIDs.length
              = MAX_BAGS_TO_LIST ∧
            (∀ i : Nat, (i : Int) < (loadBagRecords rs (delay inp.networkMs
              { e with availableBagCount := 0 })).availableBagCount →
              (loadBagRecords rs (delay inp.networkMs
                { e with availableBagCount := 0 })).bagID i ≠ []) := fun e he =>
          loadBagRecords_ids rs hrs _ (key e he).2.2 (key e he).1 (key e he).2.1
        split_ifs <;>
          (simp only [Device.bagID, oledShowStatusMessage_bagIDs, oledShowStatusMessage_frame]
           exact main _ (by simp [connectWiFi_bagIDs]))
      | _ =>
        dsimp only
        split_ifs <;>
          (simp only [Device.bagID, oledShowStatusMessage_bagIDs, oledShowStatusMessage_frame]
           exact ⟨(key _ (by simp [connectWiFi_bagIDs])).1,
             (key _ (by simp [connectWiFi_bagIDs])).2.1⟩)

theorem bagFetch_bagInv (inp : Inputs) (d : Device)
    (hinv : BagInv d) (hids : inp.bagsReply.idsPresent = true) :
    BagInv (handleAdminSetActiveBagFetchState inp d) := by
  have hf := fetchAvailableBags_Airtable_bagInv inp d hinv hids
  unfold handleAdminSetActiveBagFetchState
  dsimp only
  unfold BagInv Device.bagID at hf ⊢
  split_ifs <;>
    simp only [oledShowStatusMessage_bagIDs, oledShowStatusMessage_frame] <;> exact hf

theorem bagSelect_bagInv (inp : Inputs) (d : Device) (hinv : BagInv d)
    (hsel : 0 ≤ d.currentMenuSelection ∧ d.currentMenuSelection < d.availableBagCount) :
    BagInv (handleAdminSetActiveBagSelectState inp d) := by
  obtain ⟨h1, h2, h3⟩ := hinv
  have hup := tmod_up_range d.currentMenuSelection d.availableBagCount hsel.1 hsel.2
  have hne1 := h3 d.currentMenuSelection.toNat (by omega)
  have hne2 := h3
    (Int.tmod (d.currentMenuSelection - 1 + d.availableBagCount) d.availableBagCount).toNat
    (by omega)
  unfold Device.bagID at hne1 hne2 h3
  unfold BagInv Device.bagID handleAdminSetActiveBagSelectState saveCurrentBagID
  dsimp only
  split_ifs <;>
    simp_all [delay_bagIDs, oledShowStatusMessage_bagIDs, isButtonPressed_bagIDs,
      fetchEquipmentList_Airtable_bagIDs, fetchEquipmentList_Airtable_noBag]

theorem dispatchState_bagInv (inp : Inputs) (d : Device) (hinv : BagInv d)
    (hsel : d.currentState = ADMIN_SET_ACTIVE_BAG_SELECT →
      0 ≤ d.currentMenuSelection ∧ d.currentMenuSelection < d.availableBagCount)
    (hids : inp.bagsReply.idsPresent = true) :
    BagInv (dispatchState inp d) := by
  unfold dispatchState
  by_cases h0 : d.currentState = IDLE_MENU
  · rw [if_pos h0]; exact BagInv_keep d _ hinv (idle_bagKeep inp d)
  rw [if_neg h0]
  by_cases h1 : d.currentState = REPACK_SESSION_START_CONFIRM
  · rw [if_pos h1]; exact BagInv_keep d _ hinv (startConfirm_bagKeep inp d)
  rw [if_neg h1]
  by_cases h2 : d.currentState = SESSION_ACTIVE
  · rw [if_pos h2]; exact BagInv_keep d _ hinv (sessionActive_bagKeep inp d)
  rw [if_neg h2]
  by_cases h3 : d.currentState = REPACKING_SCAN
  · rw [if_pos h3]; exact BagInv_keep d _ hinv (scan_bagKeep inp d)
  rw [if_neg h3]
  by_cases h4 : d.currentState = REPACK_CONFIRM_FINISH
  · rw [if_pos h4]; exact BagInv_keep d _ hinv (confirmFinish_bagKeep inp d)
  rw [if_neg h4]
  by_cases h5 : d.currentState = REPACK_SESSION_COMPLETE
  · rw [if_pos h5]; exact BagInv_keep d _ hinv (complete_bagKeep inp d)
  rw [if_neg h5]
  by_cases h6 : d.currentState = ADMIN_MODE_UNLOCK
  · rw [if_pos h6]; exact BagInv_keep d _ hinv (unlock_bagKeep inp d)
  rw [if_neg h6]
  by_cases h7 : d.currentState = ADMIN_MODE_PREPARE_WIFI
  · rw [if_pos h7]; exact BagInv_keep d _ hinv (prepareWifi_bagKeep inp d)
  rw [if_neg h7]
  by_cases h8 : d.currentState = ADMIN_MENU
  · rw [if_pos h8]; exact BagInv_keep d _ hinv (adminMenu_bagKeep inp d)
  rw [if_neg h8]
  by_cases h9 : d.currentState = ADMIN_SET_ACTIVE_BAG_FETCH
  · rw [if_pos h9]; exact bagFetch_bagInv inp d hinv hids
  rw [if_neg h9]
  by_cases h10 : d.currentState = ADMIN_SET_ACTIVE_BAG_SELECT
  · rw [if_pos h10]; exact bagSelect_bagInv inp d hinv (hsel h10)
  rw [if_neg h10]
  by_cases h11 : d.currentState = ADMIN_REPLACE_SCAN_OLD
  · rw [if_pos h11]; exact BagInv_keep d _ hinv (replaceOld_bagKeep inp d)
  rw [if_neg h11]
  by_cases h12 : d.currentState = ADMIN_REPLACE_SCAN_NEW
  · rw [if_pos h12]; exact BagInv_keep d _ hinv (replaceNew_bagKeep inp d)
  rw [if_neg h12]
  by_cases h13 : d.currentState = ADMIN_REPLACE_CONFIRM
  · rw [if_pos h13]; exact BagInv_keep d _ hinv (replaceConfirm_bagKeep inp d)
  rw [if_neg h13]
  exact BagInv_keep d _ hinv ⟨rfl, rfl, rfl, fun _ => rfl⟩

theorem runStateMachine_bagInv (inp : Inputs) (d : Device) (hinv : BagInv d)
    (hsel : d.currentState = ADMIN_SET_ACTIVE_BAG_SELECT →
      0 ≤ d.currentMenuSelection ∧ d.currentMenuSelection < d.availableBagCount)
    (hids : inp.bagsReply.idsPresent = true) :
    BagInv (runStateMachine inp d) := by
  have hd := dispatchState_bagInv inp d hinv hsel hids
  unfold runStateMachine
  dsimp only
  split_ifs
  · exact hd
  · exact BagInv_keep _ _ hd ⟨rfl, rfl, rfl, fun _ => rfl⟩
  · exact hd

theorem loopOnce_bagInv (inp : Inputs) (d : Device) (hinv : BagInv d)
    (hw : WorkflowInv d) (hids : inp.bagsReply.idsPresent = true) :
    BagInv (loopOnce inp d) := by
  unfold loopOnce
  split_ifs
  · exact hinv
  · refine runStateMachine_bagInv inp _
      (BagInv_keep d _ hinv ⟨by simp, delay_bagIDs _ _, by simp, fun _ => by simp⟩)
      (fun h => ?_) hids
    simp only [delay_frame] at h ⊢
    exact (hw.2.2 h).2.2

theorem setup_bagInv (b : BootInputs) (prev : Device) : BagInv (setup b prev) := by
  have hi : (Device.initial prev).availableBagIDs = List.replicate MAX_BAGS_TO_LIST [] ∧
      (Device.initial prev).availableBagCount = 0 ∧
      (Device.initial prev).currentAssignedBagID = [] ∧
      (Device.initial prev).session.currentMaxItems = 0 := by
    simp [Device.initial, Device.powerOn]
  have hr : (restoreOrDefault b (Device.initial prev)).availableBagIDs
        = List.replicate MAX_BAGS_TO_LIST [] ∧
      (restoreOrDefault b (Device.initial prev)).availableBagCount = 0 := by
    unfold restoreOrDefault
    split_ifs <;> simp [oledShowStatusMessage_bagIDs, hi]
  have hl : ((loadCurrentBagID b (restoreOrDefault b (Device.initial prev))).2).availableBagIDs
        = List.replicate MAX_BAGS_TO_LIST [] ∧
      ((loadCurrentBagID b (restoreOrDefault b (Device.initial prev))).2).availableBagCount
        = 0 := by
    unfold loadCurrentBagID
    split
    · exact hr
    · dsimp only
      split_ifs <;> exact hr
  have hlist : ∀ e : Device, ((loadListFromSPIFFS b e).2).availableBagIDs = e.availableBagIDs ∧
      ((loadListFromSPIFFS b e).2).availableBagCount = e.availableBagCount ∧
      ((loadListFromSPIFFS b e).2).currentAssignedBagID = e.currentAssignedBagID := by
    intro e
    unfold loadListFromSPIFFS
    split_ifs
    · exact ⟨rfl, rfl, rfl⟩
    · split <;> exact ⟨rfl, rfl, rfl⟩
  have base : ∀ e : Device, e.availableBagIDs = List.replicate MAX_BAGS_TO_LIST [] →
      e.availableBagCount = 0 → (e.currentAssignedBagID = [] → e.session.currentMaxItems = 0) →
      BagInv e := by
    intro e h1 h2 h3
    refine ⟨h3, by rw [h1]; simp, fun i h => ?_⟩
    rw [h2] at h; omega
  unfold setup
  dsimp only
  by_cases hn : b.nfc_firmware_version = 0
  · rw [if_pos hn]
    exact BagInv_keep (Device.initial prev) _ (base _ hi.1 hi.2.1 (fun _ => hi.2.2.2))
      ⟨rfl, rfl, rfl, fun _ => rfl⟩
  · rw [if_neg hn]
    generalize (loadCurrentBagID b (restoreOrDefault b (Device.initial prev))).2 = X at hl ⊢
    split_ifs with he
    · exact BagInv_keep (loadListFromSPIFFS b X).2 _
        (base _ (by rw [(hlist X).1]; exact hl.1) (by rw [(hlist X).2.1]; exact hl.2)
          (fun h => by rw [(hlist X).2.2] at h; simp [h] at he))
        ⟨by simp, by simp [delay_bagIDs], by simp, fun _ => by simp⟩
    · exact BagInv_keep { X with session := { X.session with currentMaxItems := 0 } } _
        (base _ hl.1 hl.2 (fun _ => rfl))
        ⟨by simp, by simp [delay_bagIDs], by simp, fun _ => by simp⟩

theorem reachableWithIds_reachable (d : Device) (h : ReachableWithIds d) : Reachable d := by
  induction h with
  | coldStart b prev hcause => exact Reachable.coldStart b prev hcause
  | pass inp d _ _ ih => exact Reachable.pass inp d ih
  | wake b d _ ha hw ih => exact Reachable.wake b d ih ha hw

theorem reachableWithIds_bagInv (d : Device) (h : ReachableWithIds d) : BagInv d := by
  induction h with
  | coldStart b prev _ => exact setup_bagInv b prev
  | pass inp d hr hids ih =>
    exact loopOnce_bagInv inp d ih (reachable_winv d (reachableWithIds_reachable d hr)) hids
  | wake b d _ _ _ _ => exact setup_bagInv b d

theorem reachableWithIds_runPasses (inps : List Inputs) :
    ∀ d : Device, ReachableWithIds d →
      (∀ inp ∈ inps, inp.bagsReply.idsPresent = true) →
      ReachableWithIds (runPasses d inps) := by
  induction inps with
  | nil => intro d h _; exact h
  | cons inp rest ih =>
    intro d h hall
    exact ih _ (ReachableWithIds.pass inp d h (hall inp (by simp)))
      (fun x hx => hall x (by simp [hx]))

theorem dispatchState_startConfirm (inp : Inputs) (d : Device)
    (h : d.currentState = REPACK_SESSION_START_CONFIRM) :
    dispatchState inp d = handleRepackSessionStartConfirmState inp d := by
  unfold dispatchState
  simp [h, IDLE_MENU, REPACK_SESSION_START_CONFIRM]

theorem startConfirm_empty_list_released (inp : Inputs) (d : Device)
    (h : d.session.currentMaxItems = 0) (hc : inp.pinC = false) :
    (handleRepackSessionStartConfirmState inp d).currentState = d.currentState := by
  unfold handleRepackSessionStartConfirmState
  dsimp only
  rw [hc]
  split_ifs <;> simp_all [isButtonPressed_low]

/-! ## Scenarios evaluated on the embedding -/

/-- Scenario A, first scan: 04AABBCC matches item 0 for the first time and the session is
not complete. -/
theorem scenarioA_first_scan :
    (processScannedRepackTag (markAllItemsUsedInitially scenarioList) (str "04AABBCC")).2
      = ScanReport.matched 0 false ∧
    (processScannedRepackTag (markAllItemsUsedInitially scenarioList)
      (str "04AABBCC")).1.allRepackItemsScanned = false := by decide

/-- Scenario A, second scan: 04112233 matches item 1 for the first time and the session
is complete. -/
theorem scenarioA_second_scan :
    (processScannedRepackTag
      (processScannedRepackTag (markAllItemsUsedInitially scenarioList) (str "04AABBCC")).1
      (str "04112233")).2 = ScanReport.matched 1 false ∧
    (processScannedRepackTag
      (processScannedRepackTag (markAllItemsUsedInitially scenarioList) (str "04AABBCC")).1
      (str "04112233")).1.allRepackItemsScanned = true := by decide

/-- Scenario B: the second of two scans of 04112233 is reported as already scanned. -/
theorem scenarioB_second_scan :
    (processScannedRepackTag
      (processScannedRepackTag (markAllItemsUsedInitially scenarioList) (str "04112233")).1
      (str "04112233")).2 = ScanReport.matched 1 true := by decide

/-- The "Helmet" window decodes to the label "Helmet" and the UID bytes 04 AA BB CC to
the string 04AABBCC. -/
theorem helmet_tag_read :
    readTagDetails (some { uid := [0x04, 0xAA, 0xBB, 0xCC], pages := some helmetWindow })
        junkBuffer =
      some { nfcReadSuccess := true
             outUidString := str "04AABBCC"
             outNdefName := str "Helmet" } := by decide

/-! ## The session tracker: claims -/

/-- C1: after `processScannedRepackTag` returns, `allRepackItemsScanned` is true exactly
when some index below `currentMaxItems` has `usedTagsInitially` set and every such index
also has `foundTagsDuringRepack` set; it is false for an empty list and when no item was
marked out. -/
theorem C1_completion_flag_iff (s : Session) (u : AString) (h : s.WF) :
    ((processScannedRepackTag s u).1.allRepackItemsScanned = true ↔
      (∃ i, i < (processScannedRepackTag s u).1.currentMaxItems ∧
          (processScannedRepackTag s u).1.usedTagsInitially.getD i false = true) ∧
        ∀ i, i < (processScannedRepackTag s u).1.currentMaxItems →
          (processScannedRepackTag s u).1.usedTagsInitially.getD i false = true →
          (processScannedRepackTag s u).1.foundTagsDuringRepack.getD i false = true) ∧
    ((processScannedRepackTag s u).1.currentMaxItems = 0 →
      (processScannedRepackTag s u).1.allRepackItemsScanned = false) ∧
    ((∀ i, i < (processScannedRepackTag s u).1.currentMaxItems →
        (processScannedRepackTag s u).1.usedTagsInitially.getD i false = false) →
      (processScannedRepackTag s u).1.allRepackItemsScanned = false) ∧
    (processScannedRepackTag s u).1.currentMaxItems = s.currentMaxItems ∧
    (processScannedRepackTag s u).1.currentMaxItems ≤ MAX_EXPECTED_ITEMS := by
  have hflag := processScannedRepackTag_flag s u
  simp only [Session.used, Session.found] at hflag
  refine ⟨hflag, ?_, ?_, (processScannedRepackTag_frame s u).2.2.1, ?_⟩
  · intro h0
    cases hf : (processScannedRepackTag s u).1.allRepackItemsScanned
    · rfl
    · obtain ⟨⟨i, hi, _⟩, _⟩ := hflag.1 hf
      omega
  · intro hall
    cases hf : (processScannedRepackTag s u).1.allRepackItemsScanned
    · rfl
    · obtain ⟨⟨i, hi, hu⟩, _⟩ := hflag.1 hf
      rw [hall i hi] at hu; cases hu
  · rw [(processScannedRepackTag_frame s u).2.2.1]; exact h.2.2.2.2

/-- Witness for C1: scenario A after `beginSession`, scanning the first expected UID. -/
theorem C1_completion_flag_iff_witness :
    (markAllItemsUsedInitially scenarioList).WF ∧
    ((processScannedRepackTag (markAllItemsUsedInitially scenarioList)
        (str "04AABBCC")).1.currentMaxItems = 0 →
      (processScannedRepackTag (markAllItemsUsedInitially scenarioList)
        (str "04AABBCC")).1.allRepackItemsScanned = false) :=
  ⟨by decide,
    (C1_completion_flag_iff (markAllItemsUsedInitially scenarioList) (str "04AABBCC")
      (by decide)).2.1⟩

/-- C2: when the scanned identifier matches some expected UID below `currentMaxItems`,
`processScannedRepackTag` reports a match for the least matching index `i0`, sets
`foundTagsDuringRepack[i0]`, and leaves every other found flag, every used flag and the
expected list as they were. -/
theorem C2_first_match_recorded (s : Session) (u : AString) (h : s.WF) (i : Nat)
    (hi : i < s.currentMaxItems) (hm : compareUidStrings u (s.uid i) = true) :
    ∃ i0, i0 ≤ i ∧ compareUidStrings u (s.uid i0) = true ∧
      (∀ j, j < i0 → compareUidStrings u (s.uid j) = false) ∧
      (processScannedRepackTag s u).2 = ScanReport.matched i0 (s.found i0) ∧
      (processScannedRepackTag s u).1.foundTagsDuringRepack.getD i0 false = true ∧
      (∀ j, j ≠ i0 → (processScannedRepackTag s u).1.foundTagsDuringRepack.getD j false
          = s.foundTagsDuringRepack.getD j false) ∧
      (processScannedRepackTag s u).1.usedTagsInitially = s.usedTagsInitially ∧
      (processScannedRepackTag s u).1.currentExpectedUIDStrings = s.currentExpectedUIDStrings ∧
      (processScannedRepackTag s u).1.currentExpectedItemNames = s.currentExpectedItemNames ∧
      (processScannedRepackTag s u).1.currentMaxItems = s.currentMaxItems := by
  obtain ⟨i0, hml, hle⟩ := matchLoop_exists s u i hi hm
  have hsome := (matchLoop_eq_some s u _ 0 i0).1 hml
  have hfr := processScannedRepackTag_frame s u
  have hfl := processScannedRepackTag_foundList s u
  have hrep := processScannedRepackTag_report s u
  rw [hml] at hfl hrep
  have hlen : i0 < s.foundTagsDuringRepack.length := by
    have h3 := h.2.2.1
    have h5 := h.2.2.2.2
    omega
  refine ⟨i0, hle, hsome.2.2.1, fun j hj => hsome.2.2.2 j (Nat.zero_le j) hj, hrep, ?_, ?_,
    hfr.2.2.2, hfr.2.1, hfr.1, hfr.2.2.1⟩
  · rw [hfl, getD_set_flag]; simp [hlen]
  · intro j hj
    rw [hfl, getD_set_flag]
    have : ¬ (i0 = j ∧ j < s.foundTagsDuringRepack.length) := fun hh => hj hh.1.symm
    simp [this]

/-- Witness for C2: scenario A, scanning the second UID in lower case. -/
theorem C2_first_match_recorded_witness :
    (markAllItemsUsedInitially scenarioList).WF ∧
    1 < (markAllItemsUsedInitially scenarioList).currentMaxItems ∧
    compareUidStrings (str "04112233") ((markAllItemsUsedInitially scenarioList).uid 1) = true ∧
    ∃ i0, i0 ≤ 1 ∧
      (processScannedRepackTag (markAllItemsUsedInitially scenarioList) (str "04112233")).2
        = ScanReport.matched i0 ((markAllItemsUsedInitially scenarioList).found i0) := by
  refine ⟨by decide, by decide, by decide, ?_⟩
  obtain ⟨i0, h1, _, _, h4, _⟩ :=
    C2_first_match_recorded (markAllItemsUsedInitially scenarioList) (str "04112233")
      (by decide) 1 (by decide) (by decide)
  exact ⟨i0, h1, h4⟩

/-- C6: an identifier that matches no expected UID below `currentMaxItems` is reported as
an unknown tag and both flag arrays (and the expected list) stay as they were. -/
theorem C6_unknown_tag_frame (s : Session) (u : AString) (h : s.WF)
    (hno : ∀ i, i < s.currentMaxItems → compareUidStrings u (s.uid i) = false) :
    (processScannedRepackTag s u).2 = ScanReport.unknownTag ∧
    (processScannedRepackTag s u).1.foundTagsDuringRepack = s.foundTagsDuringRepack ∧
    (processScannedRepackTag s u).1.usedTagsInitially = s.usedTagsInitially ∧
    (processScannedRepackTag s u).1.currentExpectedUIDStrings = s.currentExpectedUIDStrings ∧
    (processScannedRepackTag s u).1.currentExpectedItemNames = s.currentExpectedItemNames ∧
    (processScannedRepackTag s u).1.currentMaxItems = s.currentMaxItems ∧
    (processScannedRepackTag s u).1.currentMaxItems ≤ MAX_EXPECTED_ITEMS := by
  have hml : matchLoop s u s.currentMaxItems 0 = none :=
    (matchLoop_eq_none s u _ 0).2 (fun j _ hj => hno j (by omega))
  have hfr := processScannedRepackTag_frame s u
  have hfl := processScannedRepackTag_foundList s u
  have hrep := processScannedRepackTag_report s u
  rw [hml] at hfl hrep
  exact ⟨hrep, hfl, hfr.2.2.2, hfr.2.1, hfr.1, hfr.2.2.1, by rw [hfr.2.2.1]; exact h.2.2.2.2⟩

/-- Witness for C6: scenario C, scanning FFFFFFFF against [04AABBCC, 04112233]. -/
theorem C6_unknown_tag_frame_witness :
    (markAllItemsUsedInitially scenarioList).WF ∧
    (∀ i, i < (markAllItemsUsedInitially scenarioList).currentMaxItems →
      compareUidStrings (str "FFFFFFFF") ((markAllItemsUsedInitially scenarioList).uid i) = false) ∧
    (processScannedRepackTag (markAllItemsUsedInitially scenarioList) (str "FFFFFFFF")).2
      = ScanReport.unknownTag ∧
    (processScannedRepackTag (markAllItemsUsedInitially scenarioList)
        (str "FFFFFFFF")).1.foundTagsDuringRepack
      = (markAllItemsUsedInitially scenarioList).foundTagsDuringRepack ∧
    (processScannedRepackTag (markAllItemsUsedInitially scenarioList)
        (str "FFFFFFFF")).1.usedTagsInitially
      = (markAllItemsUsedInitially scenarioList).usedTagsInitially :=
  have h := C6_unknown_tag_frame (markAllItemsUsedInitially scenarioList) (str "FFFFFFFF")
    (by decide) (by decide)
  ⟨by decide, by decide, h.1, h.2.1, h.2.2.1⟩

/-- C7: after `markAllItemsUsedInitially` every index below `currentMaxItems` has
`usedTagsInitially` set and `foundTagsDuringRepack` cleared, `allRepackItemsScanned` is
false, and the expected list is unchanged. -/
theorem C7_beginSession_flags (s : Session) (h : s.WF) :
    (∀ i, i < s.currentMaxItems →
      (markAllItemsUsedInitially s).usedTagsInitially.getD i false = true ∧
      (markAllItemsUsedInitially s).foundTagsDuringRepack.getD i false = false) ∧
    (markAllItemsUsedInitially s).allRepackItemsScanned = false ∧
    (markAllItemsUsedInitially s).currentExpectedUIDStrings = s.currentExpectedUIDStrings ∧
    (markAllItemsUsedInitially s).currentExpectedItemNames = s.currentExpectedItemNames ∧
    (markAllItemsUsedInitially s).currentMaxItems = s.currentMaxItems := by
  have hfr := markLoop_frame s.currentMaxItems 0 s
  refine ⟨fun i hi => ⟨?_, ?_⟩, rfl, hfr.2.1, hfr.1, hfr.2.2.1⟩
  · have hu := markLoop_used s.currentMaxItems 0 s i
    have hlen : i < s.usedTagsInitially.length := by
      have h4 := h.2.2.2.1
      have h5 := h.2.2.2.2
      omega
    simp only [Session.used] at hu
    show (markLoop s.currentMaxItems 0 s).usedTagsInitially.getD i false = true
    rw [hu]; simp [hi, hlen]
  · have hf := markLoop_found s.currentMaxItems 0 s i
    have hlen : i < s.foundTagsDuringRepack.length := by
      have h3 := h.2.2.1
      have h5 := h.2.2.2.2
      omega
    simp only [Session.found] at hf
    show (markLoop s.currentMaxItems 0 s).foundTagsDuringRepack.getD i false = false
    rw [hf]; simp [hi, hlen]

/-- Witness for C7: the two-item list of scenario A. -/
theorem C7_beginSession_flags_witness :
    scenarioList.WF ∧ (markAllItemsUsedInitially scenarioList).allRepackItemsScanned = false :=
  ⟨by decide, (C7_beginSession_flags scenarioList (by decide)).2.1⟩

/-- C5: scanning the same matching identifier a second time reports the item as already
scanned and returns exactly the state left by the first scan (both flag arrays, the
completion flag and the expected list). -/
theorem C5_rescan_idempotent (s : Session) (u : AString) (h : s.WF) (i : Nat)
    (hi : i < s.currentMaxItems) (hm : compareUidStrings u (s.uid i) = true) :
    ∃ i0, i0 ≤ i ∧
      (processScannedRepackTag s u).2 = ScanReport.matched i0 (s.found i0) ∧
      processScannedRepackTag (processScannedRepackTag s u).1 u
        = ((processScannedRepackTag s u).1, ScanReport.matched i0 true) := by
  obtain ⟨i0, hml, hle⟩ := matchLoop_exists s u i hi hm
  have hfr := processScannedRepackTag_frame s u
  have hfl := processScannedRepackTag_foundList s u
  have hrep := processScannedRepackTag_report s u
  rw [hml] at hfl hrep
  have hlen : i0 < s.foundTagsDuringRepack.length := by
    have h3 := h.2.2.1
    have h5 := h.2.2.2.2
    omega
  have hfound : (processScannedRepackTag s u).1.found i0 = true := by
    simp only [Session.found]
    rw [hfl, getD_set_flag]; simp [hlen]
  have hml2 : matchLoop (processScannedRepackTag s u).1 u
      (processScannedRepackTag s u).1.currentMaxItems 0 = some i0 := by
    rw [matchLoop_congr s _ u hfr.2.1, hfr.2.2.1]; exact hml
  have hfr2 := processScannedRepackTag_frame (processScannedRepackTag s u).1 u
  have hfl2 := processScannedRepackTag_foundList (processScannedRepackTag s u).1 u
  have hrep2 := processScannedRepackTag_report (processScannedRepackTag s u).1 u
  rw [hml2] at hfl2 hrep2
  simp only [] at hfl2 hrep2
  rw [set_true_of_getD _ i0 hfound] at hfl2
  rw [hfound] at hrep2
  refine ⟨i0, hle, hrep, Prod.ext ?_ hrep2⟩
  exact Session.eq_of_fields _ _ hfr2.1 hfr2.2.1 hfr2.2.2.1 hfl2 hfr2.2.2.2
    (processScannedRepackTag_flag_congr s _ u u hfr2.2.2.1 hfl2 hfr2.2.2.2)

/-- Witness for C5: scenario B, scanning 04112233 twice in a row. -/
theorem C5_rescan_idempotent_witness :
    (markAllItemsUsedInitially scenarioList).WF ∧
    1 < (markAllItemsUsedInitially scenarioList).currentMaxItems ∧
    compareUidStrings (str "04112233") ((markAllItemsUsedInitially scenarioList).uid 1) = true ∧
    ∃ i0, i0 ≤ 1 ∧
      processScannedRepackTag
          (processScannedRepackTag (markAllItemsUsedInitially scenarioList) (str "04112233")).1
          (str "04112233")
        = ((processScannedRepackTag (markAllItemsUsedInitially scenarioList) (str "04112233")).1,
            ScanReport.matched i0 true) := by
  refine ⟨by decide, by decide, by decide, ?_⟩
  obtain ⟨i0, h1, _, h3⟩ :=
    C5_rescan_idempotent (markAllItemsUsedInitially scenarioList) (str "04112233")
      (by decide) 1 (by decide) (by decide)
  exact ⟨i0, h1, h3⟩

/-- C3: for a non-empty expected list with pairwise distinct UIDs (ignoring case), after
`markAllItemsUsedInitially` and any run of scans the completion flag is set exactly when
every expected UID matches one of the scanned identifiers; with no scan at all it is
not set. -/
theorem C3_complete_iff_all_scanned (s : Session) (h : s.WF) (hn : 0 < s.currentMaxItems)
    (hd : ∀ a, a < s.currentMaxItems → ∀ b, b < s.currentMaxItems → a ≠ b →
      compareUidStrings (s.uid a) (s.uid b) = false)
    (scans : List AString) :
    ((scanAll (markAllItemsUsedInitially s) scans).allRepackItemsScanned = true ↔
      ∀ i, i < s.currentMaxItems →
        ∃ u, u ∈ scans ∧ compareUidStrings (s.uid i) u = true) ∧
    (scanAll (markAllItemsUsedInitially s) []).allRepackItemsScanned = false := by
  have hd2 : ∀ a b, a < s.currentMaxItems → b < s.currentMaxItems → a ≠ b →
      compareUidStrings (s.uid a) (s.uid b) = false := fun a b ha hb hab => hd a ha b hb hab
  refine ⟨?_, rfl⟩
  rw [run_flag_iff s h hn scans]
  constructor
  · intro hall i hi
    obtain ⟨u, hu, hc⟩ := (run_found_iff s h hd2 scans i hi).1 (hall i hi)
    exact ⟨u, hu, by rw [compareUidStrings_symm]; exact hc⟩
  · intro hall i hi
    obtain ⟨u, hu, hc⟩ := hall i hi
    exact (run_found_iff s h hd2 scans i hi).2 ⟨u, hu, by rw [compareUidStrings_symm]; exact hc⟩

/-- Witness for C3: scenario A. After `beginSession` the flag is clear, it is still clear
after scanning 04AABBCC, and it is set after then scanning 04112233. -/
theorem C3_complete_iff_all_scanned_witness :
    scenarioList.WF ∧ 0 < scenarioList.currentMaxItems ∧
    (∀ a, a < scenarioList.currentMaxItems → ∀ b, b < scenarioList.currentMaxItems → a ≠ b →
      compareUidStrings (scenarioList.uid a) (scenarioList.uid b) = false) ∧
    (scanAll (markAllItemsUsedInitially scenarioList) []).allRepackItemsScanned = false ∧
    (scanAll (markAllItemsUsedInitially scenarioList)
      [str "04AABBCC"]).allRepackItemsScanned = false ∧
    (scanAll (markAllItemsUsedInitially scenarioList)
      [str "04AABBCC", str "04112233"]).allRepackItemsScanned = true ∧
    (∀ i, i < scenarioList.currentMaxItems →
      ∃ u, u ∈ [str "04AABBCC", str "04112233"] ∧
        compareUidStrings (scenarioList.uid i) u = true) :=
  ⟨by decide, by decide, by decide, by decide, by decide, by decide,
    (C3_complete_iff_all_scanned scenarioList (by decide) (by decide) (by decide)
      [str "04AABBCC", str "04112233"]).1.1 (by decide)⟩

/-- C4: when two indices `i < j` below `currentMaxItems` hold UIDs that are equal ignoring
case, after `markAllItemsUsedInitially` and any run of scans `foundTagsDuringRepack[j]`
is still false and `allRepackItemsScanned` is false. -/
theorem C4_duplicate_never_complete (s : Session) (h : s.WF) (i j : Nat) (hij : i < j)
    (hj : j < s.currentMaxItems)
    (hdup : compareUidStrings (s.uid i) (s.uid j) = true) (scans : List AString) :
    (scanAll (markAllItemsUsedInitially s) scans).foundTagsDuringRepack.getD j false = false ∧
    (scanAll (markAllItemsUsedInitially s) scans).allRepackItemsScanned = false := by
  induction scans using List.reverseRecOn with
  | nil => exact ⟨markAll_found s h j hj, rfl⟩
  | append_singleton l u ih =>
    have hfr := run_frame s h l
    have hfr2 := run_frame s h (l ++ [u])
    have hlen : j < (scanAll (markAllItemsUsedInitially s) l).foundTagsDuringRepack.length := by
      have h5 := h.2.2.2.2
      rw [hfr.2.2.1]; omega
    have hnot : matchLoop (scanAll (markAllItemsUsedInitially s) l) u
        (scanAll (markAllItemsUsedInitially s) l).currentMaxItems 0 ≠ some j := by
      intro hml
      have hsome := (matchLoop_eq_some _ u _ 0 j).1 hml
      have h1 := hsome.2.2.1
      have h2 := hsome.2.2.2 i (Nat.zero_le i) hij
      rw [run_uid s h l] at h1 h2
      have h3 : compareUidStrings (s.uid j) (s.uid i) = true := by
        rw [compareUidStrings_symm]; exact hdup
      rw [compareUidStrings_trans _ _ _ h1 h3] at h2
      cases h2
    have hfj : (scanAll (markAllItemsUsedInitially s) (l ++ [u])).found j = false := by
      cases hf : (scanAll (markAllItemsUsedInitially s) (l ++ [u])).found j
      · rfl
      · rw [scanAll_append] at hf
        rcases (processScannedRepackTag_found_iff _ u j hlen).1 hf with h1 | h1
        · have := ih.1
          simp only [Session.found] at h1
          rw [h1] at this; cases this
        · exact absurd h1 hnot
    refine ⟨hfj, ?_⟩
    cases hfl : (scanAll (markAllItemsUsedInitially s) (l ++ [u])).allRepackItemsScanned
    · rfl
    · rw [scanAll_append] at hfl hfj hfr2
      have hall := ((processScannedRepackTag_flag _ u).1 hfl).2 j
        (by rw [hfr2.2.1]; exact hj) (hfr2.2.2.2 j hj)
      rw [hfj] at hall; cases hall

/-- Witness for C4: the same tag listed twice, scanned twice. -/
theorem C4_duplicate_never_complete_witness :
    duplicateList.WF ∧ 0 < 1 ∧ 1 < duplicateList.currentMaxItems ∧
    compareUidStrings (duplicateList.uid 0) (duplicateList.uid 1) = true ∧
    (scanAll (markAllItemsUsedInitially duplicateList)
        [str "04AABBCC", str "04AABBCC"]).foundTagsDuringRepack.getD 1 false = false ∧
    (scanAll (markAllItemsUsedInitially duplicateList)
        [str "04AABBCC", str "04AABBCC"]).allRepackItemsScanned = false :=
  ⟨by decide, by decide, by decide, by decide,
    C4_duplicate_never_complete duplicateList (by decide) 0 1 (by decide) (by decide)
      (by decide) [str "04AABBCC", str "04AABBCC"]⟩

/-! ## The label decoder: claims -/

/-- The checked accesses do fail on a buffer that is too short: with a one-byte window
the read of the length byte leaves the buffer. -/
theorem parseNdefText_short_window : parseNdefText junkBuffer [0x03] = none := by decide

/-- C8: on a 32-byte window that passes the header checks at cursor `c`, with language
length `L`, text start `c + 5 + L` and text length `len = payloadLength - 1 - L`, if the
text is non-empty and lies inside the window then the decoded label is exactly the bytes
`window[start .. start+len)` cut at the first zero byte, whatever the other bytes of the
window and the previous content of `nameBuffer` are; its length is at most `len`. -/
theorem C8_label_is_text_slice (nameBuffer pageBuffer uid : List Nat)
    (hn : nameBuffer.length = 32) (hp : pageBuffer.length = 32) (c L len : Nat)
    (hc : c = if pageBuffer.getD 0 0 = 0x03 then 2 else 0)
    (h1 : pageBuffer.getD c 0 &&& 0x07 = 1) (h2 : pageBuffer.getD (c + 1) 0 = 1)
    (h3 : pageBuffer.getD (c + 3) 0 = 84)
    (hL : L = pageBuffer.getD (c + 4) 0 &&& 0x3F)
    (hlen : (len : Int) = (pageBuffer.getD (c + 2) 0 : Int) - 1 - (L : Int))
    (hpos : 0 < len) (hstart : c + 5 + L < 32) (hend : c + 5 + L + len ≤ 32) :
    readTagDetails (some { uid := uid, pages := some pageBuffer }) nameBuffer =
      some { nfcReadSuccess := true
             outUidString := uidBytesToHexString uid uid.length
             outNdefName := ((pageBuffer.drop (c + 5 + L)).take len).takeWhile (fun b => b ≠ 0) } ∧
    (((pageBuffer.drop (c + 5 + L)).take len).takeWhile (fun b => b ≠ 0)).length ≤ len := by
  have hparse : parseNdefText nameBuffer pageBuffer =
      some (((pageBuffer.drop (c + 5 + L)).take len).takeWhile (fun b => b ≠ 0)) := by
    have hc2 : c = 0 ∨ c = 2 := by
      by_cases h : pageBuffer.getD 0 0 = 3
      · rw [if_pos h] at hc; exact Or.inr hc
      · rw [if_neg h] at hc; exact Or.inl hc
    rw [parseNdefText_eq nameBuffer pageBuffer hp c hc, if_pos ⟨h1, h2, h3⟩, ← hL, ← hlen,
      copyText_spec nameBuffer pageBuffer hn hp (c + 5 + L) len hpos hend]
    have hmin : min len 31 = len := by omega
    rw [hmin]
  refine ⟨?_, ?_⟩
  · simp only [readTagDetails, hparse, Option.map_some']
  · exact ((List.takeWhile_sublist _).length_le).trans (by simp)

/-- Witness for C8: the "Helmet" text record behind a `0x03` marker. -/
theorem C8_label_is_text_slice_witness :
    readTagDetails (some { uid := [0x04, 0xAA, 0xBB, 0xCC], pages := some helmetWindow })
        junkBuffer =
      some { nfcReadSuccess := true
             outUidString := uidBytesToHexString [0x04, 0xAA, 0xBB, 0xCC] 4
             outNdefName := ((helmetWindow.drop (2 + 5 + 2)).take 6).takeWhile (fun b => b ≠ 0) } ∧
    ((helmetWindow.drop (2 + 5 + 2)).take 6).takeWhile (fun b => b ≠ 0) = str "Helmet" :=
  ⟨(C8_label_is_text_slice junkBuffer helmetWindow [0x04, 0xAA, 0xBB, 0xCC] (by decide)
      (by decide) 2 2 6 (by decide) (by decide) (by decide) (by decide) (by decide)
      (by decide) (by decide) (by decide) (by decide)).1, by decide⟩

/-- C9: for every content of the 32-byte page buffer (and of the 32-byte name buffer) the
label decoder finishes without an access outside either buffer: the checked parser never
takes its out-of-bounds branch. -/
theorem C9_parser_stays_in_bounds (nameBuffer pageBuffer uid : List Nat)
    (hn : nameBuffer.length = 32) (hp : pageBuffer.length = 32) :
    (parseNdefText nameBuffer pageBuffer).isSome = true ∧
    (readTagDetails (some { uid := uid, pages := some pageBuffer }) nameBuffer).isSome
      = true := by
  exact ⟨parseNdefText_isSome nameBuffer pageBuffer hn hp,
    readTagDetails_isSome nameBuffer pageBuffer uid hn hp⟩

/-- Witness for C9: the "Helmet" window read into a name buffer full of `0xAA`. -/
theorem C9_parser_stays_in_bounds_witness :
    junkBuffer.length = 32 ∧ helmetWindow.length = 32 ∧
    (parseNdefText junkBuffer helmetWindow).isSome = true :=
  ⟨by decide, by decide,
    (C9_parser_stays_in_bounds junkBuffer helmetWindow [] (by decide) (by decide)).1⟩

/-- C10: on every 32-byte window a non-empty decoded label implies that, at the cursor
`c`, the low three bits of the header byte are 1, the type length is 1 and the type byte
is `'T'`; a window failing one of these checks (in particular one without the `0x03`
marker whose first byte has other low bits, scenario E) gives the empty label while the
read reports success with the identifier. -/
theorem C10_label_needs_text_header (nameBuffer pageBuffer uid : List Nat)
    (hn : nameBuffer.length = 32) (hp : pageBuffer.length = 32) (c : Nat)
    (hc : c = if pageBuffer.getD 0 0 = 0x03 then 2 else 0) :
    (∀ d, readTagDetails (some { uid := uid, pages := some pageBuffer }) nameBuffer = some d →
      d.outNdefName ≠ [] →
      pageBuffer.getD c 0 &&& 0x07 = 1 ∧ pageBuffer.getD (c + 1) 0 = 1 ∧
        pageBuffer.getD (c + 3) 0 = 84) ∧
    (¬ (pageBuffer.getD c 0 &&& 0x07 = 1 ∧ pageBuffer.getD (c + 1) 0 = 1 ∧
        pageBuffer.getD (c + 3) 0 = 84) →
      readTagDetails (some { uid := uid, pages := some pageBuffer }) nameBuffer =
        some { nfcReadSuccess := true
               outUidString := uidBytesToHexString uid uid.length
               outNdefName := [] }) ∧
    (pageBuffer.getD 0 0 ≠ 0x03 → pageBuffer.getD 0 0 &&& 0x07 ≠ 1 →
      readTagDetails (some { uid := uid, pages := some pageBuffer }) nameBuffer =
        some { nfcReadSuccess := true
               outUidString := uidBytesToHexString uid uid.length
               outNdefName := [] }) ∧
    (readTagDetails (some { uid := uid, pages := some pageBuffer }) nameBuffer).isSome = true := by
  have hfail : ¬ (pageBuffer.getD c 0 &&& 0x07 = 1 ∧ pageBuffer.getD (c + 1) 0 = 1 ∧
        pageBuffer.getD (c + 3) 0 = 84) →
      readTagDetails (some { uid := uid, pages := some pageBuffer }) nameBuffer =
        some { nfcReadSuccess := true
               outUidString := uidBytesToHexString uid uid.length
               outNdefName := [] } := by
    intro hno
    simp only [readTagDetails, parseNdefText_eq nameBuffer pageBuffer hp c hc, if_neg hno,
      Option.map_some']
  refine ⟨?_, hfail, ?_, readTagDetails_isSome nameBuffer pageBuffer uid hn hp⟩
  · intro d hd hne
    by_contra hno
    rw [hfail hno] at hd
    injection hd with hd
    subst hd
    exact hne rfl
  · intro h0 h1
    have hc0 : c = 0 := by rw [if_neg h0] at hc; exact hc
    subst hc0
    exact hfail (fun hh => h1 hh.1)

/-- Witness for C10: scenario E, a window of zero bytes. -/
theorem C10_label_needs_text_header_witness :
    junkBuffer.length = 32 ∧ scenarioEWindow.length = 32 ∧
    (0 = if scenarioEWindow.getD 0 0 = 0x03 then 2 else 0) ∧
    scenarioEWindow.getD 0 0 ≠ 0x03 ∧ scenarioEWindow.getD 0 0 &&& 0x07 ≠ 1 ∧
    readTagDetails (some { uid := [0x04, 0xAA, 0xBB, 0xCC], pages := some scenarioEWindow })
        junkBuffer =
      some { nfcReadSuccess := true
             outUidString := uidBytesToHexString [0x04, 0xAA, 0xBB, 0xCC] 4
             outNdefName := [] } :=
  ⟨by decide, by decide, by decide, by decide, by decide,
    (C10_label_needs_text_header junkBuffer scenarioEWindow [0x04, 0xAA, 0xBB, 0xCC]
      (by decide) (by decide) 0 (by decide)).2.2.1 (by decide) (by decide)⟩

/-- C11: on a 32-byte window that passes the header checks, when the computed text length
`payloadLength - 1 - L` is zero or negative, or the text start `c + 5 + L` is at least 32,
or start plus length exceeds 32, the decoded label is empty (no truncated label is
returned) and the read still succeeds with the identifier. -/
theorem C11_invalid_text_bounds_empty (nameBuffer pageBuffer uid : List Nat)
    (hp : pageBuffer.length = 32) (c L : Nat) (len : Int)
    (hc : c = if pageBuffer.getD 0 0 = 0x03 then 2 else 0)
    (h1 : pageBuffer.getD c 0 &&& 0x07 = 1) (h2 : pageBuffer.getD (c + 1) 0 = 1)
    (h3 : pageBuffer.getD (c + 3) 0 = 84)
    (hL : L = pageBuffer.getD (c + 4) 0 &&& 0x3F)
    (hlen : len = (pageBuffer.getD (c + 2) 0 : Int) - 1 - (L : Int))
    (hbad : len ≤ 0 ∨ 32 ≤ c + 5 + L ∨ 32 < ((c + 5 + L : Nat) : Int) + len) :
    readTagDetails (some { uid := uid, pages := some pageBuffer }) nameBuffer =
      some { nfcReadSuccess := true
             outUidString := uidBytesToHexString uid uid.length
             outNdefName := [] } := by
  have hcond : ¬ (c + 5 + L < 32 ∧ len > 0 ∧ ((c + 5 + L : Nat) : Int) + len ≤ 32) := by
    omega
  have hparse : parseNdefText nameBuffer pageBuffer = some [] := by
    rw [parseNdefText_eq nameBuffer pageBuffer hp c hc, if_pos ⟨h1, h2, h3⟩, ← hL, ← hlen]
    unfold copyText
    rw [if_neg hcond]
  simp only [readTagDetails, hparse, Option.map_some']

/-- Witness for C11: a text record whose payload length 0x40 runs past the window. -/
theorem C11_invalid_text_bounds_empty_witness :
    (overlongWindow.getD 2 0 &&& 0x07 = 1 ∧ overlongWindow.getD (2 + 1) 0 = 1 ∧
      overlongWindow.getD (2 + 3) 0 = 84) ∧
    32 < (((2 + 5 + 2 : Nat) : Int)) + 61 ∧
    readTagDetails (some { uid := [0x04], pages := some overlongWindow }) junkBuffer =
      some { nfcReadSuccess := true
             outUidString := uidBytesToHexString [0x04] 1
             outNdefName := [] } :=
  ⟨by decide, by decide,
    C11_invalid_text_bounds_empty junkBuffer overlongWindow [0x04] (by decide)
      2 2 61 (by decide) (by decide) (by decide) (by decide) (by decide) (by decide)
      (Or.inr (Or.inr (by decide)))⟩

/-- Counterexample to C12 as stated: a window whose header byte 0xC1 has the SR bit clear
(low three bits 1, type length 1, type 'T') is decoded to the label "Helmet". -/
theorem C12_long_record_not_empty :
    longRecordWindow.length = 32 ∧ longRecordWindow.getD 0 0 = 0x03 ∧
    longRecordWindow.getD 2 0 &&& 0x10 = 0 ∧
    readTagDetails (some { uid := [0x04, 0xAA, 0xBB, 0xCC], pages := some longRecordWindow })
        junkBuffer =
      some { nfcReadSuccess := true
             outUidString := str "04AABBCC"
             outNdefName := str "Helmet" } := by decide

/-- C12 (amended): the parser does not look at the SR bit. On a 32-byte window whose header
byte has the SR bit clear it reads byte `c + 2` as the payload length, as for a short
record: when the low three bits are 1, the type length is 1, the type byte is 'T' and
the text so computed is non-empty and inside the window, the label is
`window[start .. start+len)` cut at the first zero byte; in every other case the label
is empty. -/
theorem C12_long_record_read_as_short (nameBuffer pageBuffer uid : List Nat)
    (hn : nameBuffer.length = 32) (hp : pageBuffer.length = 32) (c L : Nat) (len : Int)
    (hc : c = if pageBuffer.getD 0 0 = 0x03 then 2 else 0)
    (_hsr : pageBuffer.getD c 0 &&& 0x10 = 0)
    (hL : L = pageBuffer.getD (c + 4) 0 &&& 0x3F)
    (hlen : len = (pageBuffer.getD (c + 2) 0 : Int) - 1 - (L : Int)) :
    ((pageBuffer.getD c 0 &&& 0x07 = 1 ∧ pageBuffer.getD (c + 1) 0 = 1 ∧
        pageBuffer.getD (c + 3) 0 = 84 ∧ 0 < len ∧ ((c + 5 + L : Nat) : Int) + len ≤ 32) →
      readTagDetails (some { uid := uid, pages := some pageBuffer }) nameBuffer =
        some { nfcReadSuccess := true
               outUidString := uidBytesToHexString uid uid.length
               outNdefName :=
                 ((pageBuffer.drop (c + 5 + L)).take len.toNat).takeWhile (fun b => b ≠ 0) }) ∧
    (¬ (pageBuffer.getD c 0 &&& 0x07 = 1 ∧ pageBuffer.getD (c + 1) 0 = 1 ∧
        pageBuffer.getD (c + 3) 0 = 84 ∧ 0 < len ∧ ((c + 5 + L : Nat) : Int) + len ≤ 32) →
      readTagDetails (some { uid := uid, pages := some pageBuffer }) nameBuffer =
        some { nfcReadSuccess := true
               outUidString := uidBytesToHexString uid uid.length
               outNdefName := [] }) := by
  have hc2 : c = 0 ∨ c = 2 := by
    by_cases h : pageBuffer.getD 0 0 = 3
    · rw [if_pos h] at hc; exact Or.inr hc
    · rw [if_neg h] at hc; exact Or.inl hc
  refine ⟨?_, ?_⟩
  · rintro ⟨h1, h2, h3, h4, h5⟩
    obtain ⟨m, hm⟩ := Int.eq_ofNat_of_zero_le (Int.le_of_lt h4)
    have hparse : parseNdefText nameBuffer pageBuffer =
        some (((pageBuffer.drop (c + 5 + L)).take len.toNat).takeWhile (fun b => b ≠ 0)) := by
      rw [parseNdefText_eq nameBuffer pageBuffer hp c hc, if_pos ⟨h1, h2, h3⟩, ← hL, ← hlen, hm,
        copyText_spec nameBuffer pageBuffer hn hp (c + 5 + L) m (by omega) (by omega)]
      have hmin : min m 31 = m := by omega
      rw [hmin, Int.toNat_ofNat]
    simp only [readTagDetails, hparse, Option.map_some']
  · intro hno
    have hparse : parseNdefText nameBuffer pageBuffer = some [] := by
      rw [parseNdefText_eq nameBuffer pageBuffer hp c hc]
      by_cases hh : pageBuffer.getD c 0 &&& 7 = 1 ∧ pageBuffer.getD (c + 1) 0 = 1 ∧
          pageBuffer.getD (c + 3) 0 = 84
      · rw [if_pos hh, ← hL, ← hlen]
        have hcond : ¬ (c + 5 + L < 32 ∧ len > 0 ∧ ((c + 5 + L : Nat) : Int) + len ≤ 32) :=
          fun hcd => hno ⟨hh.1, hh.2.1, hh.2.2, hcd.2.1, hcd.2.2⟩
        unfold copyText
        rw [if_neg hcond]
      · rw [if_neg hh]
    simp only [readTagDetails, hparse, Option.map_some']

/-- Witness for the amended C12: the "Helmet" record with header byte 0xC1. -/
theorem C12_long_record_read_as_short_witness :
    longRecordWindow.getD 2 0 &&& 0x10 = 0 ∧
    readTagDetails (some { uid := [0x04], pages := some longRecordWindow }) junkBuffer =
      some { nfcReadSuccess := true
             outUidString := uidBytesToHexString [0x04] 1
             outNdefName :=
               ((longRecordWindow.drop (2 + 5 + 2)).take (6 : Int).toNat).takeWhile
                 (fun b => b ≠ 0) } :=
  ⟨by decide,
    (C12_long_record_read_as_short junkBuffer longRecordWindow [0x04] (by decide) (by decide)
      2 2 6 (by decide) (by decide) (by decide) (by decide)).1
      ⟨by decide, by decide, by decide, by decide, by decide⟩⟩

/-- C13: for a sequence `b` of at most 255 bytes, `uidBytesToHexString(b, n)` has exactly
`2n` characters, each `0-9` or `A-F`, and characters `2i`, `2i+1` are the upper-case
hexadecimal digits of the high and low nibble of `b[i]`. -/
theorem C13_hex_rendering (b : List Nat) (hb : ∀ x, x ∈ b → x < 256)
    (_hn : b.length ≤ 255) :
    (uidBytesToHexString b b.length).length = 2 * b.length ∧
    (∀ ch, ch ∈ uidBytesToHexString b b.length →
      (48 ≤ ch ∧ ch ≤ 57) ∨ (65 ≤ ch ∧ ch ≤ 70)) ∧
    (∀ i, i < b.length →
      (uidBytesToHexString b b.length).getD (2 * i) 0 = upperHexDigit (b.getD i 0 / 16) ∧
      (uidBytesToHexString b b.length).getD (2 * i + 1) 0
        = upperHexDigit (b.getD i 0 % 16)) ∧
    uidBytesToHexString b b.length = hexPairs b := by
  rw [uidBytesToHexString_eq b hb]
  exact ⟨hexPairs_length b, fun ch hch => hexPairs_chars b hb ch hch,
    fun i hi => hexPairs_getD b i hi, rfl⟩

/-- Witness for C13: the UID bytes 04 0A BB CC render as "040ABBCC". -/
theorem C13_hex_rendering_witness :
    (∀ x, x ∈ [0x04, 0x0A, 0xBB, 0xCC] → x < 256) ∧
    uidBytesToHexString [0x04, 0x0A, 0xBB, 0xCC] 4 = hexPairs [0x04, 0x0A, 0xBB, 0xCC] ∧
    hexPairs [0x04, 0x0A, 0xBB, 0xCC] = str "040ABBCC" :=
  ⟨by decide,
    (C13_hex_rendering [0x04, 0x0A, 0xBB, 0xCC] (by decide) (by decide)).2.2.2, by decide⟩

/-- C14: on byte sequences the comparison of the rendered identifiers is true exactly
when the two sequences are the same (same length, same bytes), and a string that differs
from a rendered identifier only in letter case compares equal to it. -/
theorem C14_compare_hex_iff (a b : List Nat) (s : AString)
    (ha : ∀ x, x ∈ a → x < 256) (hb : ∀ x, x ∈ b → x < 256) :
    (compareUidStrings (uidBytesToHexString a a.length) (uidBytesToHexString b b.length) = true
      ↔ a = b) ∧
    (List.Forall₂ sameLetter (uidBytesToHexString a a.length) s →
      compareUidStrings (uidBytesToHexString a a.length) s = true) := by
  refine ⟨?_, fun h => (compareUidStrings_iff _ _).2 (forall₂_sameLetter_lower _ _ h)⟩
  rw [compareUidStrings_iff, uidBytesToHexString_eq a ha, uidBytesToHexString_eq b hb]
  constructor
  · exact hexPairs_lower_inj a b ha hb
  · intro h; rw [h]

/-- Witness for C14: 04 AA BB CC against itself and against the lower-case string. -/
theorem C14_compare_hex_iff_witness :
    (∀ x, x ∈ [0x04, 0xAA, 0xBB, 0xCC] → x < 256) ∧
    compareUidStrings (uidBytesToHexString [0x04, 0xAA, 0xBB, 0xCC] 4)
      (uidBytesToHexString [0x04, 0xAA, 0xBB, 0xCC] 4) = true ∧
    compareUidStrings (uidBytesToHexString [0x04, 0xAA, 0xBB, 0xCC] 4) (str "04aabbcc")
      = true :=
  have h := C14_compare_hex_iff [0x04, 0xAA, 0xBB, 0xCC] [0x04, 0xAA, 0xBB, 0xCC]
    (str "04aabbcc") (by decide) (by decide)
  ⟨by decide, h.1.2 rfl, h.2 (by decide)⟩

/-! ## Start-up and sleep: claims -/

/-- C15 as stated fails: the device that went to sleep with a snapshot marked valid is
reachable; it is reset (a start whose wake-up cause is not EXT1) while the tag reader does
not answer; `setup` stops before the restore block and `rtcDataIsValid` is still true. -/
theorem C15_reader_missing_keeps_flag :
    Reachable sleepingDevice ∧
    readerMissingBoot.wakeup_reason ≠ ESP_SLEEP_WAKEUP_EXT1 ∧
    sleepingDevice.rtcDataIsValid = true ∧
    (setup readerMissingBoot sleepingDevice).halted = true ∧
    (setup readerMissingBoot sleepingDevice).rtcDataIsValid = true ∧
    (setup readerMissingBoot sleepingDevice).rtcDataIsValid ≠ false :=
  ⟨reachable_runPasses _ idleDevice (Reachable.coldStart scenarioBoot _ (by decide)),
    by decide, by decide, by decide, by decide, by decide⟩

/-- C15, amended: for every content of the retained RTC variables, a start whose wake-up
cause is not the button (EXT1) wake-up uses none of the saved values: the restore block
sets `rtcDataIsValid = false`, phase `IDLE_MENU`, menu screen `MAIN_MENU` and selection 0,
and `setup` ends with phase `IDLE_MENU`, menu screen `MAIN_MENU` and selection 0. `setup`
ends (is not halted) exactly when the tag reader is found, and then `rtcDataIsValid` is
false; when the reader is not found the device stops before the restore block, with the
workflow variables at `IDLE_MENU`, `MAIN_MENU`, 0, `rtcDataIsValid` as it was, and no pass
of `loop()` runs. -/
theorem C15_cold_start_discards_snapshot (b : BootInputs) (prev : Device)
    (hcause : b.wakeup_reason ≠ ESP_SLEEP_WAKEUP_EXT1) :
    ((restoreOrDefault b (Device.initial prev)).rtcDataIsValid = false ∧
      (restoreOrDefault b (Device.initial prev)).currentState = IDLE_MENU ∧
      (restoreOrDefault b (Device.initial prev)).currentMenuScreen = MAIN_MENU ∧
      (restoreOrDefault b (Device.initial prev)).currentMenuSelection = 0) ∧
    ((setup b prev).currentState = IDLE_MENU ∧ (setup b prev).currentMenuScreen = MAIN_MENU ∧
      (setup b prev).currentMenuSelection = 0) ∧
    ((setup b prev).halted = false → (setup b prev).rtcDataIsValid = false) ∧
    ((setup b prev).halted = false ↔ b.nfc_firmware_version ≠ 0) ∧
    (∀ inp, (setup b prev).halted = true → loopOnce inp (setup b prev) = setup b prev) ∧
    ((setup b prev).halted = true → (setup b prev).rtcDataIsValid = prev.rtcDataIsValid) := by
  have hr := (restoreOrDefault_ctl b (Device.initial prev)).2.2.2.2.2.1 hcause
  have hrh := (restoreOrDefault_ctl b (Device.initial prev)).2.2.2.2.1
  have hi := Device.initial_ctl prev
  by_cases hnfc : b.nfc_firmware_version = 0
  · have h := setup_halted b prev hnfc
    refine ⟨hr, ⟨h.2.2.1, h.2.2.2.1, h.2.2.2.2.1⟩, ?_, ?_, ?_, fun _ => h.2.2.2.2.2⟩
    · intro hh; rw [h.1] at hh; cases hh
    · rw [h.1]; simp [hnfc]
    · intro inp hh
      unfold loopOnce
      simp [hh]
  · have hs := setup_eq_restore b prev hnfc
    have hhalt : (setup b prev).halted = false := by
      rw [hs.2.2.2.2.2.2.2.2, hrh]; exact hi.2.2.2.2.2.2.2.2
    refine ⟨hr, ⟨by rw [hs.1]; exact hr.2.1, by rw [hs.2.1]; exact hr.2.2.1,
      by rw [hs.2.2.1]; exact hr.2.2.2⟩, ?_, ?_, ?_, ?_⟩
    · intro _; rw [hs.2.2.2.2.2.2.1]; exact hr.1
    · simp [hhalt, hnfc]
    · intro inp hh; rw [hhalt] at hh; cases hh
    · intro hh; rw [hhalt] at hh; cases hh

/-- Witness for C15: a power-on start, with the tag reader found, over RTC variables that
hold a snapshot marked valid of a non-idle phase (values that only a corrupted RTC memory
could hold). -/
theorem C15_cold_start_discards_snapshot_witness :
    scenarioBoot.wakeup_reason ≠ ESP_SLEEP_WAKEUP_EXT1 ∧
    (setup scenarioBoot
        { Device.powerOn [] with
          savedCurrentState := ADMIN_MENU, savedCurrentMenuScreen := ADMIN_MENU_SCREEN,
          savedCurrentMenuSelection := 3, rtcDataIsValid := true }).rtcDataIsValid = false ∧
    (setup scenarioBoot
        { Device.powerOn [] with
          savedCurrentState := ADMIN_MENU, savedCurrentMenuScreen := ADMIN_MENU_SCREEN,
          savedCurrentMenuSelection := 3, rtcDataIsValid := true }).currentState = IDLE_MENU :=
  have h := C15_cold_start_discards_snapshot scenarioBoot
    { Device.powerOn [] with
      savedCurrentState := ADMIN_MENU, savedCurrentMenuScreen := ADMIN_MENU_SCREEN,
      savedCurrentMenuSelection := 3, rtcDataIsValid := true } (by decide)
  ⟨by decide, h.2.2.1 (h.2.2.2.1.2 (by decide)), h.2.1.1⟩

/-- C16 as stated fails: the device went to sleep on the second entry of the main menu, so
the sleep path wrote the selection 1 with `rtcDataIsValid = true`; on the button (EXT1)
wake-up that follows the tag reader does not answer, `setup` stops before the restore
block and the selection is 0, not the saved 1. -/
theorem C16_reader_missing_no_restore :
    Reachable sleepingDevice ∧
    sleepingDevice.asleep = true ∧
    sleepingDevice.rtcDataIsValid = true ∧
    sleepingDevice.savedCurrentMenuSelection = 1 ∧
    readerMissingWake.wakeup_reason = ESP_SLEEP_WAKEUP_EXT1 ∧
    (setup readerMissingWake sleepingDevice).halted = true ∧
    (setup readerMissingWake sleepingDevice).currentMenuSelection = 0 ∧
    (setup readerMissingWake sleepingDevice).currentMenuSelection
      ≠ sleepingDevice.savedCurrentMenuSelection :=
  ⟨reachable_runPasses _ idleDevice (Reachable.coldStart scenarioBoot _ (by decide)),
    by decide, by decide, by decide, by decide, by decide, by decide, by decide⟩

/-- C16, amended: a button (EXT1) wake-up on which the tag reader is found restores what
the sleep path saved: with `rtcDataIsValid = true` it sets phase, menu screen and selection
to the saved values `p`, `m`, `k`; with `rtcDataIsValid = false` it sets `IDLE_MENU`,
`MAIN_MENU` and 0; and `setup` ends. In particular a wake-up after a pass of `loop()` that
went to sleep gives back the phase, menu screen and selection the device had when it went
to sleep. When the tag reader is not found, `setup` stops before the restore block, with
`IDLE_MENU`, `MAIN_MENU` and 0 from the initialisers. -/
theorem C16_save_wake_round_trip (b : BootInputs) (prev : Device) (inp : Inputs)
    (hwake : b.wakeup_reason = ESP_SLEEP_WAKEUP_EXT1) :
    (b.nfc_firmware_version ≠ 0 →
      (prev.rtcDataIsValid = true →
        (setup b prev).currentState = prev.savedCurrentState ∧
        (setup b prev).currentMenuScreen = prev.savedCurrentMenuScreen ∧
        (setup b prev).currentMenuSelection = prev.savedCurrentMenuSelection) ∧
      (prev.rtcDataIsValid = false →
        (setup b prev).currentState = IDLE_MENU ∧
        (setup b prev).currentMenuScreen = MAIN_MENU ∧
        (setup b prev).currentMenuSelection = 0) ∧
      (setup b prev).halted = false ∧
      (prev.asleep = false → (loopOnce inp prev).asleep = true →
        (loopOnce inp prev).rtcDataIsValid = true ∧
        (setup b (loopOnce inp prev)).currentState = (loopOnce inp prev).currentState ∧
        (setup b (loopOnce inp prev)).currentMenuScreen
          = (loopOnce inp prev).currentMenuScreen ∧
        (setup b (loopOnce inp prev)).currentMenuSelection
          = (loopOnce inp prev).currentMenuSelection)) ∧
    (b.nfc_firmware_version = 0 →
      (setup b prev).halted = true ∧ (setup b prev).currentState = IDLE_MENU ∧
      (setup b prev).currentMenuScreen = MAIN_MENU ∧
      (setup b prev).currentMenuSelection = 0) := by
  refine ⟨fun hnfc => ?_, fun h0 => ?_⟩
  swap
  · have h := setup_halted b prev h0
    exact ⟨h.1, h.2.2.1, h.2.2.2.1, h.2.2.2.2.1⟩
  have key : ∀ p : Device,
      (p.rtcDataIsValid = true →
        (setup b p).currentState = p.savedCurrentState ∧
        (setup b p).currentMenuScreen = p.savedCurrentMenuScreen ∧
        (setup b p).currentMenuSelection = p.savedCurrentMenuSelection) ∧
      (p.rtcDataIsValid = false →
        (setup b p).currentState = IDLE_MENU ∧ (setup b p).currentMenuScreen = MAIN_MENU ∧
        (setup b p).currentMenuSelection = 0) ∧
      (setup b p).halted = false := by
    intro p
    have hs := setup_eq_restore b p hnfc
    have hrc := restoreOrDefault_ctl b (Device.initial p)
    have hr := hrc.2.2.2.2.2.2 hwake
    have hi := Device.initial_ctl p
    refine ⟨fun hv => ?_, fun hv => ?_, ?_⟩
    · have h := hr.2.1 (by rw [hi.2.2.2.2.2.2.1]; exact hv)
      rw [hs.1, hs.2.1, hs.2.2.1, h.1, h.2.1, h.2.2]
      exact ⟨hi.2.2.2.1, hi.2.2.2.2.1, hi.2.2.2.2.2.1⟩
    · have h := hr.2.2 (by rw [hi.2.2.2.2.2.2.1]; exact hv)
      rw [hs.1, hs.2.1, hs.2.2.1]
      exact h
    · rw [hs.2.2.2.2.2.2.2.2, hrc.2.2.2.2.1]; exact hi.2.2.2.2.2.2.2.2
  refine ⟨(key prev).1, (key prev).2.1, (key prev).2.2, fun ha hs => ?_⟩
  have hsnap : (loopOnce inp prev).rtcDataIsValid = true ∧
      (loopOnce inp prev).savedCurrentState = (loopOnce inp prev).currentState ∧
      (loopOnce inp prev).savedCurrentMenuScreen = (loopOnce inp prev).currentMenuScreen ∧
      (loopOnce inp prev).savedCurrentMenuSelection
        = (loopOnce inp prev).currentMenuSelection := by
    rcases loopOnce_cases inp prev with ⟨he, _⟩ | ⟨_, _, _, hstep⟩ | ⟨_, _, _, hstep⟩
    · rw [he, ha] at hs; cases hs
    · obtain ⟨_, hmenu, hcase⟩ := hstep
      rcases hcase with ⟨h1, _⟩ | ⟨_, h2, h3, h4, h5, h6⟩
      · rw [h1, ha] at hs; cases hs
      · exact ⟨h2, by rw [h3, h6], by rw [h4, hmenu], h5⟩
    · rw [hstep.2.2.2.2.1, ha] at hs; cases hs
  have hk := (key (loopOnce inp prev)).1 hsnap.1
  exact ⟨hsnap.1, by rw [hk.1, hsnap.2.1], by rw [hk.2.1, hsnap.2.2.1],
    by rw [hk.2.2, hsnap.2.2.2]⟩

/-- Witness for C16: the device whose selection was moved to the second entry of the main
menu sleeps after 61 s with the selection 1 saved, and a button wake-up on which the tag
reader is found restores the selection 1, which the default branch would set to 0. -/
theorem C16_save_wake_round_trip_witness :
    wakeBoot.wakeup_reason = ESP_SLEEP_WAKEUP_EXT1 ∧ wakeBoot.nfc_firmware_version ≠ 0 ∧
    secondEntryDevice.asleep = false ∧
    loopOnce sleepyInputs secondEntryDevice = sleepingDevice ∧
    sleepingDevice.asleep = true ∧
    sleepingDevice.rtcDataIsValid = true ∧
    sleepingDevice.savedCurrentMenuSelection = 1 ∧
    (setup wakeBoot sleepingDevice).currentState = sleepingDevice.savedCurrentState ∧
    (setup wakeBoot sleepingDevice).currentMenuScreen
      = sleepingDevice.savedCurrentMenuScreen ∧
    (setup wakeBoot sleepingDevice).currentMenuSelection = 1 ∧
    (setup wakeBoot (loopOnce sleepyInputs secondEntryDevice)).currentMenuSelection
      = (loopOnce sleepyInputs secondEntryDevice).currentMenuSelection :=
  have h := (C16_save_wake_round_trip wakeBoot sleepingDevice sleepyInputs (by decide)).1
    (by decide)
  have h1 := h.1 (by decide)
  have h2 := ((C16_save_wake_round_trip wakeBoot secondEntryDevice sleepyInputs
    (by decide)).1 (by decide)).2.2.2 (by decide) (by decide)
  ⟨by decide, by decide, by decide, rfl, by decide, by decide, by decide, h1.1, h1.2.1,
    h1.2.2.trans (by decide), h2.2.2.2⟩

/-- C17: in every state reachable from a cold start, a pass of `loop()` writes the RTC
variables or requests sleep only when the phase is `IDLE_MENU` (so only in the
`IDLE_MENU` handler), and then it does both; a snapshot written holds the phase
`IDLE_MENU` and the menu screen `MAIN_MENU` and is marked valid; a pass that changes the
phase (such as the Select press that leaves Idle, which resets the inactivity timer
before the timeout test) writes no snapshot and requests no sleep. -/
theorem C17_sleep_only_from_idle (d : Device) (inp : Inputs) (hr : Reachable d) :
    (((loopOnce inp d).asleep ≠ d.asleep ∨
        (loopOnce inp d).rtcDataIsValid ≠ d.rtcDataIsValid ∨
        (loopOnce inp d).savedCurrentState ≠ d.savedCurrentState ∨
        (loopOnce inp d).savedCurrentMenuScreen ≠ d.savedCurrentMenuScreen ∨
        (loopOnce inp d).savedCurrentMenuSelection ≠ d.savedCurrentMenuSelection) →
      d.currentState = IDLE_MENU ∧ (loopOnce inp d).asleep = true ∧ d.asleep = false) ∧
    (d.asleep = false → (loopOnce inp d).asleep = true →
      (loopOnce inp d).rtcDataIsValid = true ∧
      (loopOnce inp d).savedCurrentState = IDLE_MENU ∧
      (loopOnce inp d).savedCurrentMenuScreen = MAIN_MENU ∧
      (loopOnce inp d).currentState = IDLE_MENU) ∧
    ((loopOnce inp d).currentState ≠ d.currentState →
      (loopOnce inp d).asleep = d.asleep ∧
      (loopOnce inp d).rtcDataIsValid = d.rtcDataIsValid ∧
      (loopOnce inp d).savedCurrentState = d.savedCurrentState ∧
      (loopOnce inp d).savedCurrentMenuScreen = d.savedCurrentMenuScreen ∧
      (loopOnce inp d).savedCurrentMenuSelection = d.savedCurrentMenuSelection) ∧
    (d.halted = false → d.rtcDataIsValid = true →
      d.savedCurrentState = IDLE_MENU ∧ d.savedCurrentMenuScreen = MAIN_MENU) := by
  have hinv := reachable_inv d hr
  refine ⟨?_, ?_, ?_, ?_⟩
  · intro hchg
    rcases loopOnce_cases inp d with ⟨he, _⟩ | ⟨ha, _, hi, hstep⟩ | ⟨_, _, _, hstep⟩
    · rw [he] at hchg; simp at hchg
    · obtain ⟨_, _, hcase⟩ := hstep
      rcases hcase with ⟨h1, h2, h3, h4, h5, _⟩ | ⟨h1, _⟩
      · rw [h1, h2, h3, h4, h5] at hchg; simp at hchg
      · exact ⟨hi, h1, ha⟩
    · obtain ⟨h1, h2, h3, h4, h5, _⟩ := hstep
      rw [h1, h2, h3, h4, h5] at hchg; simp at hchg
  · intro ha hs
    rcases loopOnce_cases inp d with ⟨he, _⟩ | ⟨_, hh, hi, hstep⟩ | ⟨_, _, _, hstep⟩
    · rw [he, ha] at hs; cases hs
    · have hmain : d.currentMenuScreen = MAIN_MENU := by
        rcases hinv with ⟨h1, _⟩ | h2
        · rw [hh] at h1; cases h1
        · exact h2.1 hi
      obtain ⟨_, _, hcase⟩ := hstep
      rcases hcase with ⟨h1, _⟩ | ⟨_, h2, h3, h4, _, h6⟩
      · rw [h1, ha] at hs; cases hs
      · exact ⟨h2, by rw [h3, hi], by rw [h4, hmain], by rw [h6, hi]⟩
    · rw [hstep.2.2.2.2.1, ha] at hs; cases hs
  · intro hchg
    rcases loopOnce_cases inp d with ⟨he, _⟩ | ⟨_, _, _, hstep⟩ | ⟨_, _, _, hstep⟩
    · rw [he] at hchg; exact absurd rfl hchg
    · obtain ⟨_, _, hcase⟩ := hstep
      rcases hcase with ⟨h1, h2, h3, h4, h5, _⟩ | ⟨_, _, _, _, _, h6⟩
      · exact ⟨h1, h5, h2, h3, h4⟩
      · exact absurd h6 hchg
    · obtain ⟨h1, h2, h3, h4, h5, _⟩ := hstep
      exact ⟨h5, h4, h1, h2, h3⟩
  · intro hh hv
    rcases hinv with ⟨h1, _⟩ | h2
    · rw [hh] at h1; cases h1
    · exact h2.2 hv

/-- Witness for C17: the device started from power-on, left alone for 61 s, writes a
snapshot of `IDLE_MENU` / `MAIN_MENU` and sleeps. -/
theorem C17_sleep_only_from_idle_witness :
    Reachable idleDevice ∧ idleDevice.asleep = false ∧
    (loopOnce sleepyInputs idleDevice).asleep = true ∧
    (loopOnce sleepyInputs idleDevice).rtcDataIsValid = true ∧
    (loopOnce sleepyInputs idleDevice).savedCurrentState = IDLE_MENU ∧
    (loopOnce sleepyInputs idleDevice).savedCurrentMenuScreen = MAIN_MENU :=
  have hr : Reachable idleDevice := Reachable.coldStart scenarioBoot _ (by decide)
  have h := (C17_sleep_only_from_idle idleDevice sleepyInputs hr).2.1 (by decide) (by decide)
  ⟨hr, by decide, by decide, h.1, h.2.1, h.2.2.1⟩

/-! ## The workflow phases: claims -/

/-- C18: in phase `REPACKING_SCAN`, a pass of `loop()` in which the tag poll is due and
`readTagDetails` succeeds with identifier `det.outUidString` leaves the session as
`processScannedRepackTag` makes it, for every list and flag state; the phase afterwards is
`REPACK_SESSION_COMPLETE` if and only if, in the session after recording, some item is
marked out and every item marked out is scanned back; otherwise the phase is still
`REPACKING_SCAN`, or `REPACK_CONFIRM_FINISH` when the press of the manual-finish button B
is registered in this pass. -/
theorem C18_scan_tick (d : Device) (inp : Inputs) (det : TagDetails)
    (hawake : d.asleep = false) (hrunning : d.halted = false)
    (hphase : d.currentState = REPACKING_SCAN)
    (hdue : elapsedSince (delay inp.elapsed d).millis d.scan_lastNfcPollTime
      ≥ NFC_POLLING_INTERVAL_MS)
    (hread : readTagDetails inp.tag inp.nameBuffer = some det)
    (hok : det.nfcReadSuccess = true) :
    (loopOnce inp d).session = (processScannedRepackTag d.session det.outUidString).1 ∧
    ((loopOnce inp d).currentState = REPACK_SESSION_COMPLETE ↔
      (∃ i, i < (loopOnce inp d).session.currentMaxItems ∧
        (loopOnce inp d).session.used i = true) ∧
      ∀ i, i < (loopOnce inp d).session.currentMaxItems →
        (loopOnce inp d).session.used i = true → (loopOnce inp d).session.found i = true) ∧
    ((loopOnce inp d).currentState ≠ REPACK_SESSION_COMPLETE →
      (loopOnce inp d).currentState = REPACKING_SCAN ∨
      ((loopOnce inp d).currentState = REPACK_CONFIRM_FINISH ∧ inp.pinB = true)) := by
  have hl := loopOnce_running inp d hawake hrunning
  have hc := runStateMachine_ctl inp (delay inp.elapsed d)
  have hd := dispatchState_scan inp (delay inp.elapsed d) hphase
  have ht := handleRepackingScanState_tick (delay inp.elapsed d) inp det hdue hread hok
  have hs : (loopOnce inp d).session = (processScannedRepackTag d.session det.outUidString).1 := by
    rw [hl, hc.2.2.2.2.2.2.2.2.2.1, hd]; exact ht.1
  have hst : (loopOnce inp d).currentState
      = (handleRepackingScanState inp (delay inp.elapsed d)).currentState := by
    rw [hl, hc.1, hd]
  have hf := processScannedRepackTag_flag d.session det.outUidString
  have hpos := usedTagsInitiallyCount_pos (processScannedRepackTag d.session det.outUidString).1
  rw [hs, hst]
  by_cases hcnd : (processScannedRepackTag d.session det.outUidString).1.allRepackItemsScanned
      = true ∧ usedTagsInitiallyCount (processScannedRepackTag d.session det.outUidString).1 > 0
  · have hcomplete := ht.2.1 hcnd
    exact ⟨rfl, ⟨fun _ => hf.1 hcnd.1, fun _ => hcomplete⟩, fun hne => absurd hcomplete hne⟩
  · have hstay := ht.2.2 hcnd
    have hphase2 : (delay inp.elapsed d).currentState = REPACKING_SCAN := hphase
    rw [hphase2] at hstay
    refine ⟨rfl, ⟨fun hcomp => ?_, fun hall => absurd ⟨hf.2 hall, hpos.2 hall.1⟩ hcnd⟩,
      fun _ => hstay⟩
    rcases hstay with h1 | ⟨h1, _⟩ <;> rw [h1] at hcomp <;> exact absurd hcomp (by decide)

/-- Witness for C18: after the run `scanRun` the helmet is scanned back and the gloves are
not; the pass that reads the gloves tag completes the session. -/
theorem C18_scan_tick_witness :
    scanningDevice.currentState = REPACKING_SCAN ∧
    (loopOnce glovesScan scanningDevice).session
      = (processScannedRepackTag scanningDevice.session (str "04112233")).1 ∧
    (loopOnce glovesScan scanningDevice).currentState = REPACK_SESSION_COMPLETE ∧
    ∀ i, i < (loopOnce glovesScan scanningDevice).session.currentMaxItems →
      (loopOnce glovesScan scanningDevice).session.used i = true →
      (loopOnce glovesScan scanningDevice).session.found i = true :=
  have h := C18_scan_tick scanningDevice glovesScan
    { nfcReadSuccess := true, outUidString := str "04112233", outNdefName := str "Gloves" }
    (by decide) (by decide) (by decide) (by decide) (by decide) (by decide)
  ⟨by decide, h.1, by decide, (h.2.1.1 (by decide)).2⟩

/-- The condition on the record ids is needed in the embedding. The run `emptyIdRun`
contains a bags answer whose record has the empty string as id, which the service does not
issue; it ends in `REPACK_SESSION_START_CONFIRM` with an empty `currentAssignedBagID` and
the two-item list still loaded, and there the pass in which the press of button A is
registered starts the session: the handler guards its inputs with `currentMaxItems == 0`
alone (main.cpp:1205). -/
theorem emptyRecordId_start_accepted :
    (∃ inp ∈ emptyIdRun, inp.bagsReply.idsPresent = false) ∧
    emptyIdDevice.currentState = REPACK_SESSION_START_CONFIRM ∧
    emptyIdDevice.currentAssignedBagID = [] ∧
    emptyIdDevice.session.currentMaxItems = 2 ∧
    (loopOnce pressA emptyIdDevice).currentState = SESSION_ACTIVE :=
  ⟨by decide, by decide, by decide, by decide, by decide⟩

/-- C20 as stated fails: the device at the end of `replaceRun` is reachable, is in phase
`ADMIN_REPLACE_SCAN_NEW` with the old UID 04AABBCC stored, and button B has just gone
down; in the next pass the tag 04112233 with the label "Gloves" is read (a UID that
differs from the old one, a non-empty label) while B is still held, and the phase
afterwards is `ADMIN_MENU`, not `ADMIN_REPLACE_CONFIRM`. -/
theorem C20_cancel_overrides_valid_tag :
    Reachable replaceNewDevice ∧
    replaceNewDevice.currentState = ADMIN_REPLACE_SCAN_NEW ∧
    replaceNewDevice.admin_TargetOldUID_str = str "04AABBCC" ∧
    readTagDetails glovesWhileCancelling.tag glovesWhileCancelling.nameBuffer
      = some { nfcReadSuccess := true, outUidString := str "04112233",
               outNdefName := str "Gloves" } ∧
    equalsIgnoreCase (str "04112233") replaceNewDevice.admin_TargetOldUID_str = false ∧
    (loopOnce glovesWhileCancelling replaceNewDevice).currentState = ADMIN_MENU ∧
    (loopOnce glovesWhileCancelling replaceNewDevice).currentState ≠ ADMIN_REPLACE_CONFIRM :=
  ⟨reachable_runPasses replaceRun idleDevice (Reachable.coldStart scenarioBoot _ (by decide)),
    by decide, by decide, by decide, by decide, by decide, by decide⟩

/-- C20, amended: in phase `ADMIN_REPLACE_SCAN_NEW`, for every stored old UID and every
successfully read tag with a non-empty UID `u` and label `l`: if `u` equals the old UID
ignoring letter case, or `l` is empty, the phase remains `ADMIN_REPLACE_SCAN_NEW`; if `u`
differs and `l` is non-empty, the next phase is `ADMIN_REPLACE_CONFIRM`, or `ADMIN_MENU`
when the press of the cancel button B is registered in the same pass (B is then held);
so in a pass in which B is not held the next phase is `ADMIN_REPLACE_CONFIRM` if and only
if `u` differs from the old UID and `l` is non-empty. -/
theorem C20_new_tag_validation (d : Device) (inp : Inputs) (det : TagDetails)
    (hawake : d.asleep = false) (hrunning : d.halted = false)
    (hphase : d.currentState = ADMIN_REPLACE_SCAN_NEW)
    (hread : readTagDetails inp.tag inp.nameBuffer = some det)
    (hok : det.nfcReadSuccess = true) (huid : det.outUidString ≠ []) :
    ((equalsIgnoreCase det.outUidString d.admin_TargetOldUID_str = true ∨
        det.outNdefName = []) →
      (loopOnce inp d).currentState = ADMIN_REPLACE_SCAN_NEW) ∧
    ((equalsIgnoreCase det.outUidString d.admin_TargetOldUID_str = false ∧
        det.outNdefName ≠ []) →
      (loopOnce inp d).currentState = ADMIN_REPLACE_CONFIRM ∨
      ((loopOnce inp d).currentState = ADMIN_MENU ∧ inp.pinB = true)) ∧
    (inp.pinB = false →
      ((loopOnce inp d).currentState = ADMIN_REPLACE_CONFIRM ↔
        (equalsIgnoreCase det.outUidString d.admin_TargetOldUID_str = false ∧
          det.outNdefName ≠ []))) := by
  have hl := loopOnce_running inp d hawake hrunning
  have hc := runStateMachine_ctl inp (delay inp.elapsed d)
  have hd := dispatchState_replaceNew inp (delay inp.elapsed d) hphase
  have ht := handleAdminReplaceScanNewState_read (delay inp.elapsed d) inp det hread hok huid
  have hst : (loopOnce inp d).currentState
      = (handleAdminReplaceScanNewState inp (delay inp.elapsed d)).currentState := by
    rw [hl, hc.1, hd]
  have hphase2 : (delay inp.elapsed d).currentState = ADMIN_REPLACE_SCAN_NEW := hphase
  have hold : (delay inp.elapsed d).admin_TargetOldUID_str = d.admin_TargetOldUID_str := rfl
  rw [hphase2, hold] at ht
  rw [hst]
  refine ⟨ht.1, ht.2, fun hb => ⟨fun hconf => ?_, fun hvalid => ?_⟩⟩
  · by_contra hnv
    have hrej : equalsIgnoreCase det.outUidString d.admin_TargetOldUID_str = true ∨
        det.outNdefName = [] := by
      by_cases h1 : equalsIgnoreCase det.outUidString d.admin_TargetOldUID_str = true
      · exact Or.inl h1
      · by_cases h2 : det.outNdefName = []
        · exact Or.inr h2
        · exact absurd ⟨by simpa using h1, h2⟩ hnv
    have hstay := ht.1 hrej
    rw [hstay] at hconf
    exact absurd hconf (by decide)
  · rcases ht.2 hvalid with h | ⟨_, h⟩
    · exact h
    · rw [hb] at h; cases h

/-- Witness for C20: on the device at the end of `replaceRun` (old UID 04AABBCC), a pass
that reads the tag 04112233 labelled "Gloves" with no button held moves to
`ADMIN_REPLACE_CONFIRM`. -/
theorem C20_new_tag_validation_witness :
    replaceNewDevice.currentState = ADMIN_REPLACE_SCAN_NEW ∧
    glovesNoButton.pinB = false ∧
    equalsIgnoreCase (str "04112233") replaceNewDevice.admin_TargetOldUID_str = false ∧
    (loopOnce glovesNoButton replaceNewDevice).currentState = ADMIN_REPLACE_CONFIRM :=
  have h := C20_new_tag_validation replaceNewDevice glovesNoButton
    { nfcReadSuccess := true, outUidString := str "04112233", outNdefName := str "Gloves" }
    (by decide) (by decide) (by decide) (by decide) (by decide) (by decide)
  ⟨by decide, by decide, by decide, (h.2.2 (by decide)).2 ⟨by decide, by decide⟩⟩

/-- C22: for every phase value above the last enumerator (`ADMIN_REPLACE_CONFIRM` = 13,
the enumerators being 0..13), whatever the inputs, one call of `runStateMachine` ends with
phase `IDLE_MENU`, menu screen `MAIN_MENU` and selection 0; no handler runs: on a device
that is awake the only other writes are `redrawOled = true` and the reset of the
inactivity timer that follows every phase change. -/
theorem C22_unknown_phase_resets (d : Device) (inp : Inputs)
    (hbad : ADMIN_REPLACE_CONFIRM < d.currentState) :
    (runStateMachine inp d).currentState = IDLE_MENU ∧
    (runStateMachine inp d).currentMenuScreen = MAIN_MENU ∧
    (runStateMachine inp d).currentMenuSelection = 0 ∧
    (d.asleep = false →
      runStateMachine inp d =
        { d with
          currentState := IDLE_MENU
          currentMenuScreen := MAIN_MENU
          currentMenuSelection := 0
          redrawOled := true
          lastActivityTime := d.millis }) := by
  have hd := dispatchState_unknown inp d hbad
  have hc := runStateMachine_ctl inp d
  refine ⟨by rw [hc.1, hd], by rw [hc.2.1, hd], by rw [hc.2.2.1, hd], fun ha => ?_⟩
  have hne : IDLE_MENU ≠ d.currentState := by
    unfold ADMIN_REPLACE_CONFIRM at hbad
    unfold IDLE_MENU
    omega
  unfold runStateMachine
  simp only [hd, ha, Bool.false_eq_true, if_false, ne_eq, hne, not_false_eq_true, if_true]

/-- Witness for C22: the device of the scenarios with the phase overwritten by 99. -/
theorem C22_unknown_phase_resets_witness :
    ADMIN_REPLACE_CONFIRM < ({ idleDevice with currentState := 99 } : Device).currentState ∧
    (runStateMachine quietInputs { idleDevice with currentState := 99 }).currentState
      = IDLE_MENU ∧
    (runStateMachine quietInputs { idleDevice with currentState := 99 }).currentMenuSelection
      = 0 :=
  have h := C22_unknown_phase_resets { idleDevice with currentState := 99 } quietInputs
    (by decide)
  ⟨by decide, h.1, h.2.2.1⟩

/-- C25: in phase `SESSION_ACTIVE`, a pass of `loop()` in which the press of button C
(start scanning) is registered moves to `REPACKING_SCAN` with the session
`resetFoundTagsForRepack` makes: every index below `currentMaxItems` has
`foundTagsDuringRepack` false, `usedTagsInitially` and the expected list are as before,
and `allRepackItemsScanned` is false. A pass in which no press of C is registered (in
particular every pass in which C is not held, whatever A and B do) leaves the phase and
the session unchanged. -/
theorem C25_start_scanning (d : Device) (inp : Inputs)
    (hawake : d.asleep = false) (hrunning : d.halted = false)
    (hphase : d.currentState = SESSION_ACTIVE) :
    ((isButtonPressed BUTTON_C_PIN inp.pinC (delay inp.elapsed d)).1 = true →
      (loopOnce inp d).currentState = REPACKING_SCAN ∧
      (loopOnce inp d).session = resetFoundTagsForRepack d.session) ∧
    ((isButtonPressed BUTTON_C_PIN inp.pinC (delay inp.elapsed d)).1 = false →
      (loopOnce inp d).currentState = SESSION_ACTIVE ∧ (loopOnce inp d).session = d.session) ∧
    (inp.pinC = false →
      (loopOnce inp d).currentState = SESSION_ACTIVE ∧ (loopOnce inp d).session = d.session) ∧
    ((∀ i, i < d.session.currentMaxItems →
        (resetFoundTagsForRepack d.session).found i = false) ∧
      (resetFoundTagsForRepack d.session).usedTagsInitially = d.session.usedTagsInitially ∧
      (resetFoundTagsForRepack d.session).currentExpectedUIDStrings
        = d.session.currentExpectedUIDStrings ∧
      (resetFoundTagsForRepack d.session).currentExpectedItemNames
        = d.session.currentExpectedItemNames ∧
      (resetFoundTagsForRepack d.session).currentMaxItems = d.session.currentMaxItems ∧
      (resetFoundTagsForRepack d.session).allRepackItemsScanned = false) := by
  have hl := loopOnce_running inp d hawake hrunning
  have hc := runStateMachine_ctl inp (delay inp.elapsed d)
  have hd := dispatchState_sessionActive inp (delay inp.elapsed d) hphase
  have hs := sessionActive_step inp (delay inp.elapsed d)
  have hphase2 : (delay inp.elapsed d).currentState = SESSION_ACTIVE := hphase
  have hsess : (delay inp.elapsed d).session = d.session := rfl
  rw [hphase2, hsess] at hs
  have hstate : (loopOnce inp d).currentState
      = (handleSessionActiveState inp (delay inp.elapsed d)).currentState := by
    rw [hl, hc.1, hd]
  have hsession : (loopOnce inp d).session
      = (handleSessionActiveState inp (delay inp.elapsed d)).session := by
    rw [hl, hc.2.2.2.2.2.2.2.2.2.1, hd]
  rw [hstate, hsession]
  refine ⟨hs.1, hs.2, fun hlow => hs.2 ?_, resetFoundTagsForRepack_spec d.session⟩
  rw [hlow]
  exact isButtonPressed_low _ _

/-- C26: two 32-byte windows that start with the marker 0x03 and differ at most in byte 1
(the length byte, the extended-length value 0xFF included) give the record cursor 2 and
the same decoded label, for every content of `nameBuffer`. -/
theorem C26_length_byte_ignored (nameBuffer w1 w2 : List Nat)
    (h1 : w1.length = 32) (h2 : w2.length = 32) (hmarker : w1.getD 0 0 = 0x03)
    (hsame : ∀ i, i ≠ 1 → w1.getD i 0 = w2.getD i 0) :
    recordOffsetOf w1 = some 2 ∧ recordOffsetOf w2 = some 2 ∧
    parseNdefText nameBuffer w1 = parseNdefText nameBuffer w2 := by
  have hmarker2 : w2.getD 0 0 = 0x03 := by rw [← hsame 0 (by decide)]; exact hmarker
  have hoff : ∀ w : List Nat, w.length = 32 → w.getD 0 0 = 0x03 → recordOffsetOf w = some 2 := by
    intro w hw hm
    unfold recordOffsetOf
    rw [readAt_eq w 0 (by omega), readAt_eq w 1 (by omega)]
    simp only [Option.some_bind, if_pos hm, ite_self]
  have hread : ∀ i, 2 ≤ i → readAt w1 i = readAt w2 i := by
    intro i hi
    by_cases hlt : i < 32
    · rw [readAt_eq w1 i (by omega), readAt_eq w2 i (by omega), hsame i (by omega)]
    · simp [readAt, List.getElem?_eq_none, h1, h2, Nat.le_of_not_lt hlt]
  refine ⟨hoff w1 h1 hmarker, hoff w2 h2 hmarker2, ?_⟩
  rw [parseNdefText_eq nameBuffer w1 h1 2 (by rw [if_pos hmarker]),
    parseNdefText_eq nameBuffer w2 h2 2 (by rw [if_pos hmarker2]),
    hsame 2 (by decide), hsame 3 (by decide), hsame 4 (by decide), hsame 5 (by decide),
    hsame 6 (by decide)]
  split_ifs
  · exact copyText_congr nameBuffer w1 w2 _ _ (fun i hi => hread i (by omega))
  · rfl

/-! ## Status views, list loading and the cached list file: claims -/

/-- C24: for every expected list and flag state, the item lines of
`reportSessionOutcomeToSerial` are, in order, the names and UIDs of `missingItems`: the
indices `i < currentMaxItems` with `usedTagsInitially[i]` and not
`foundTagsDuringRepack[i]`, in increasing order. A count the report prints, the number
after "Missing:" in `displayBagStatusSummaryOLED` (shown whenever a list is loaded) and
the count in `displaySessionOutcomeOLED` all equal the length of that sequence, and the
outcome view shows the all-packed message exactly when the sequence is empty, the list is
non-empty and at least one item was marked out. The report prints its count, and the
outcome view shows its count, exactly when the sequence is not empty; the outcome view
shows "no items out or list empty" exactly when the list is empty or no item was marked
out; the report prints the all-scanned-back line exactly when the outcome view shows the
all-packed message; the live view shows "No List!" exactly when the list is empty. -/
theorem C24_missing_items_views (s : Session) :
    ((∀ i, i ∈ missingItems s ↔
        i < s.currentMaxItems ∧ s.used i = true ∧ s.found i = false) ∧
      (missingItems s).Pairwise (fun i j => i < j)) ∧
    (reportSessionOutcomeToSerial s).filterMap OutcomeLine.itemOf
      = (missingItems s).map (fun i => (s.name i, s.uid i)) ∧
    (∀ k, OutcomeLine.stillMissing k ∈ reportSessionOutcomeToSerial s →
      k = (missingItems s).length) ∧
    (s.currentMaxItems ≠ 0 →
      (displayBagStatusSummaryOLED s).missingShown = some (missingItems s).length) ∧
    (∀ k, displaySessionOutcomeOLED s = OutcomeView.stillOut k →
      k = (missingItems s).length) ∧
    (displaySessionOutcomeOLED s = OutcomeView.wellDone ↔
      missingItems s = [] ∧ s.currentMaxItems > 0 ∧
        ∃ i, i < s.currentMaxItems ∧ s.used i = true) ∧
    (OutcomeLine.stillMissing (missingItems s).length ∈ reportSessionOutcomeToSerial s ↔
      missingItems s ≠ []) ∧
    (displaySessionOutcomeOLED s = OutcomeView.stillOut (missingItems s).length ↔
      missingItems s ≠ []) ∧
    (displaySessionOutcomeOLED s = OutcomeView.nothingOut ↔
      s.currentMaxItems = 0 ∨ ¬ ∃ i, i < s.currentMaxItems ∧ s.used i = true) ∧
    (OutcomeLine.allScannedBack ∈ reportSessionOutcomeToSerial s ↔
      displaySessionOutcomeOLED s = OutcomeView.wellDone) ∧
    (displayBagStatusSummaryOLED s = StatusView.noList ↔ s.currentMaxItems = 0) := by
  have hpos := usedTagsInitiallyCount_pos s
  have hnil0 : s.currentMaxItems = 0 → missingItems s = [] := fun h0 => by
    simp [h0, missingItems]
  have hnilc : usedTagsInitiallyCount s = 0 → missingItems s = [] :=
    missingItems_nil_of_count s
  refine ⟨⟨fun i => ?_, ?_⟩, ?_, ?_, displayBagStatusSummaryOLED_missing s, ?_, ?_,
    ?_, ?_, ?_, ?_, ?_⟩
  · simp [missingItems, List.mem_filter, List.mem_range]
  · exact List.Pairwise.filter _ (List.pairwise_lt_range _)
  · rw [reportSessionOutcomeToSerial_eq]
    by_cases h0 : s.currentMaxItems = 0
    · simp [h0, missingItems, OutcomeLine.itemOf]
    · by_cases hc : usedTagsInitiallyCount s = 0
      · simp [h0, hc, missingItems_nil_of_count s hc, OutcomeLine.itemOf]
      · rw [if_neg h0, if_neg hc]
        by_cases hm : missingItems s = []
        · simp [hm, OutcomeLine.itemOf]
        · simp only [hm, if_false, List.filterMap_append, List.filterMap_map,
            Function.comp_def, OutcomeLine.itemOf, List.filterMap_cons, List.filterMap_nil,
            List.nil_append, List.append_nil]
          generalize missingItems s = l
          induction l with
          | nil => rfl
          | cons a l ih => simp [List.filterMap_cons, ih]
  · intro k hk
    rw [reportSessionOutcomeToSerial_eq] at hk
    by_cases h0 : s.currentMaxItems = 0
    · simp [h0] at hk
    · by_cases hc : usedTagsInitiallyCount s = 0
      · simp [h0, hc] at hk
      · rw [if_neg h0, if_neg hc] at hk
        by_cases hm : missingItems s = []
        · simp [hm] at hk
        · simpa [hm] using hk
  · intro k hk
    rw [displaySessionOutcomeOLED_eq] at hk
    split_ifs at hk
    exact (OutcomeView.stillOut.inj hk).symm
  · rw [displaySessionOutcomeOLED_eq]
    by_cases h : s.currentMaxItems = 0 ∨ usedTagsInitiallyCount s = 0
    · rw [if_pos h]
      constructor
      · intro hc; cases hc
      · rintro ⟨_, hn, hu⟩
        have := hpos.2 hu
        omega
    · rw [if_neg h]
      have h2 : s.currentMaxItems > 0 ∧ usedTagsInitiallyCount s > 0 := by omega
      by_cases hm : missingItems s = []
      · rw [if_pos hm]
        exact ⟨fun _ => ⟨hm, h2.1, hpos.1 h2.2⟩, fun _ => rfl⟩
      · rw [if_neg hm]
        exact ⟨fun hc => (by cases hc), fun hc => absurd hc.1 hm⟩
  · rw [reportSessionOutcomeToSerial_eq]
    by_cases h0 : s.currentMaxItems = 0
    · simp [h0, hnil0 h0]
    · by_cases hc : usedTagsInitiallyCount s = 0
      · simp [h0, hc, hnilc hc]
      · rw [if_neg h0, if_neg hc]
        by_cases hm : missingItems s = []
        · simp [hm]
        · simp [hm]
  · rw [displaySessionOutcomeOLED_eq]
    by_cases h : s.currentMaxItems = 0 ∨ usedTagsInitiallyCount s = 0
    · have hm : missingItems s = [] := h.elim hnil0 hnilc
      simp [h, hm]
    · rw [if_neg h]
      by_cases hm : missingItems s = []
      · simp [hm]
      · simp [hm]
  · rw [displaySessionOutcomeOLED_eq]
    by_cases h : s.currentMaxItems = 0 ∨ usedTagsInitiallyCount s = 0
    · rw [if_pos h]
      refine ⟨fun _ => ?_, fun _ => rfl⟩
      rcases h with h | h
      · exact Or.inl h
      · refine Or.inr fun hu => ?_
        have := hpos.2 hu
        omega
    · rw [if_neg h]
      have h2 : s.currentMaxItems > 0 ∧ usedTagsInitiallyCount s > 0 := by omega
      constructor
      · intro hc
        split_ifs at hc
      · rintro (h0 | hu)
        · omega
        · exact absurd (hpos.1 h2.2) hu
  · rw [reportSessionOutcomeToSerial_eq, displaySessionOutcomeOLED_eq]
    by_cases h0 : s.currentMaxItems = 0
    · simp [h0]
    · by_cases hc : usedTagsInitiallyCount s = 0
      · simp [h0, hc]
      · have hor : ¬ (s.currentMaxItems = 0 ∨ usedTagsInitiallyCount s = 0) := by omega
        rw [if_neg h0, if_neg hc, if_neg hor]
        by_cases hm : missingItems s = []
        · simp [hm]
        · simp [hm]
  · unfold displayBagStatusSummaryOLED
    split_ifs with h <;> simp_all

set_option maxRecDepth 8000 in
/-- The views of C24 on the session of `scanningDevice`, in which both items were marked
out and the helmet has been scanned back: the sequence of missing items is the index of
the gloves, the report lists the gloves and prints the count 1, the live view shows
"Missing: 1" and the outcome view shows one item still out. -/
theorem C24_missing_items_views_witness :
    missingItems scanningDevice.session = [1] ∧
    (reportSessionOutcomeToSerial scanningDevice.session).filterMap OutcomeLine.itemOf
      = [(str "Gloves", str "04112233")] ∧
    OutcomeLine.stillMissing 1 ∈ reportSessionOutcomeToSerial scanningDevice.session ∧
    (displayBagStatusSummaryOLED scanningDevice.session).missingShown = some 1 ∧
    displaySessionOutcomeOLED scanningDevice.session = OutcomeView.stillOut 1 := by
  have h := C24_missing_items_views scanningDevice.session
  have hm : missingItems scanningDevice.session = [1] := by decide
  have hn : scanningDevice.session.currentMaxItems ≠ 0 := by decide
  refine ⟨hm, ?_, ?_, ?_, ?_⟩
  · rw [h.2.1, hm]; decide
  · have h7 := h.2.2.2.2.2.2.1
    rw [hm] at h7
    exact h7.2 (by simp)
  · have h4 := h.2.2.2.1 hn
    rw [hm] at h4
    exact h4
  · have h8 := h.2.2.2.2.2.2.2.1
    rw [hm] at h8
    exact h8.2 (by simp)

/-- C30: for every expected list of at most `MAX_EXPECTED_ITEMS` items whose UIDs are
non-empty strings of hexadecimal digits and whose names are non-empty, contain no line
feed and do not end in white space (commas in a name are allowed), `loadListFromSPIFFS`
run on the lines of the file `saveListToSPIFFS` writes yields the same number of items
with the same UIDs and names at the same indices. -/
theorem C30_cached_list_round_trip (s : Session) (b : BootInputs) (d : Device)
    (hn : s.currentMaxItems ≤ MAX_EXPECTED_ITEMS)
    (huid : ∀ i, i < s.currentMaxItems → s.uid i ≠ [] ∧ ∀ c ∈ s.uid i, isHexChar c = true)
    (hname : ∀ i, i < s.currentMaxItems →
      s.name i ≠ [] ∧ 10 ∉ s.name i ∧ ∀ l ∈ (s.name i).getLast?, isspace l = false)
    (hmount : b.spiffsOk = true)
    (hfile : b.listFile = some (fileLines (saveListToSPIFFS s) []))
    (hd : d.session.WF) :
    (loadListFromSPIFFS b d).1 = true ∧
    (loadListFromSPIFFS b d).2.session.currentMaxItems = s.currentMaxItems ∧
    ∀ i, i < s.currentMaxItems →
      (loadListFromSPIFFS b d).2.session.uid i = s.uid i ∧
      (loadListFromSPIFFS b d).2.session.name i = s.name i := by
  have hlines : fileLines (saveListToSPIFFS s) []
      = (List.range' 0 s.currentMaxItems).map (fun j => s.uid j ++ 44 :: s.name j ++ [13]) := by
    unfold saveListToSPIFFS
    refine fileLines_saveLoop s s.currentMaxItems 0 (fun j _ hj => ⟨fun hm => ?_, ?_⟩)
    · exact (isHexChar_facts 10 ((huid j (by omega)).2 10 hm)).2.2 rfl
    · exact (hname j (by omega)).2.1
  have h := loadListLoop_saved s s.currentMaxItems 0
    { d.session with currentMaxItems := 0 } rfl (by omega) hd.2.1 hd.1
    (fun j _ hj => huid j (by omega))
    (fun j _ hj => ⟨(hname j (by omega)).1, (hname j (by omega)).2.2⟩)
  have e : loadListFromSPIFFS b d =
      (true, { d with session := (loadListLoop
        ((List.range' 0 s.currentMaxItems).map (fun j => s.uid j ++ 44 :: s.name j ++ [13]))
        { d.session with currentMaxItems := 0 }) }) := by
    unfold loadListFromSPIFFS
    simp [hmount, hfile, hlines]
  rw [e]
  refine ⟨rfl, by simpa using h.1, fun i hi => ?_⟩
  exact (h.2 i).2 (Nat.zero_le i) (by omega)

set_option maxRecDepth 8000 in
/-- C23 as stated fails: at the end of `refetchRun` the device is reachable and in the
admin menu, with the flags of the finished session still set; the pass in which "Fetch
List" is confirmed loads the one-item list "Rope" with `fetchEquipmentList_Airtable`, and
afterwards index 0 of the new list has `usedTagsInitially` and `foundTagsDuringRepack`
true. -/
theorem C23_flags_survive_fetch :
    Reachable refetchDevice ∧
    refetchDevice.currentState = ADMIN_MENU ∧
    (fetchEquipmentList_Airtable fetchRopePass refetchDevice).1 = true ∧
    (loopOnce fetchRopePass refetchDevice).session.currentMaxItems = 1 ∧
    (loopOnce fetchRopePass refetchDevice).session.uid 0 = str "04DDEEFF" ∧
    (loopOnce fetchRopePass refetchDevice).session.name 0 = str "Rope" ∧
    (loopOnce fetchRopePass refetchDevice).session.used 0 = true ∧
    (loopOnce fetchRopePass refetchDevice).session.found 0 = true :=
  ⟨reachable_runPasses refetchRun idleDevice (Reachable.coldStart scenarioBoot _ (by decide)),
    by decide, by decide, by decide, by decide, by decide, by decide, by decide⟩

/-- C23, amended: loading an equipment list leaves both flag arrays as they are:
`fetchEquipmentList_Airtable` and `loadListFromSPIFFS` return with `usedTagsInitially` and
`foundTagsDuringRepack` unchanged, whatever the inputs. After `setup`, the only caller of
`loadListFromSPIFFS`, every flag is false, because the arrays have just been
initialised. -/
theorem C23_load_keeps_flags (inp : Inputs) (b : BootInputs) (d : Device) :
    ((fetchEquipmentList_Airtable inp d).2.session.usedTagsInitially
        = d.session.usedTagsInitially ∧
      (fetchEquipmentList_Airtable inp d).2.session.foundTagsDuringRepack
        = d.session.foundTagsDuringRepack) ∧
    ((loadListFromSPIFFS b d).2.session.usedTagsInitially = d.session.usedTagsInitially ∧
      (loadListFromSPIFFS b d).2.session.foundTagsDuringRepack
        = d.session.foundTagsDuringRepack) ∧
    (∀ i, (setup b d).session.used i = false ∧ (setup b d).session.found i = false) := by
  have hf := fetchEquipmentList_Airtable_flags inp d
  have hl := loadListFromSPIFFS_flags b d
  have hs := setup_session b d
  refine ⟨⟨hf.1, hf.2.1⟩, ⟨hl.1, hl.2.1⟩, fun i => ?_⟩
  unfold Session.used Session.found
  rw [hs.1, hs.2.1]
  by_cases hi : i < MAX_EXPECTED_ITEMS
  · simp [List.getD_eq_getElem?_getD, List.getElem?_replicate, hi]
  · simp [List.getD_eq_getElem?_getD, List.getElem?_replicate, hi]

/-- Witness for C25: at the end of `activeRun` the device is in `SESSION_ACTIVE` with both
items marked out; the pass that registers the press of C moves to `REPACKING_SCAN`, and a
pass with no button held stays. -/
theorem C25_start_scanning_witness :
    activeDevice.currentState = SESSION_ACTIVE ∧
    (loopOnce pressC activeDevice).currentState = REPACKING_SCAN ∧
    (loopOnce pressC activeDevice).session = resetFoundTagsForRepack activeDevice.session ∧
    (loopOnce pass60 activeDevice).currentState = SESSION_ACTIVE ∧
    (loopOnce pass60 activeDevice).session = activeDevice.session :=
  have h := C25_start_scanning activeDevice pressC (by decide) (by decide) (by decide)
  have h2 := C25_start_scanning activeDevice pass60 (by decide) (by decide) (by decide)
  ⟨by decide, (h.1 (by decide)).1, (h.1 (by decide)).2, (h2.2.2.1 (by decide)).1,
    (h2.2.2.1 (by decide)).2⟩

/-- Witness for C26: the "Helmet" window with its length byte 0x0D and with the
extended-length value 0xFF in its place decodes to the same label. -/
theorem C26_length_byte_ignored_witness :
    helmetWindow.getD 1 0 = 0x0D ∧ extendedLengthWindow.getD 1 0 = 0xFF ∧
    recordOffsetOf extendedLengthWindow = some 2 ∧
    parseNdefText junkBuffer helmetWindow = parseNdefText junkBuffer extendedLengthWindow ∧
    parseNdefText junkBuffer extendedLengthWindow = some (str "Helmet") :=
  have h := C26_length_byte_ignored junkBuffer helmetWindow extendedLengthWindow
    (by decide) (by decide) (by decide)
    (fun i hi => by
      unfold extendedLengthWindow
      simp only [List.getD_eq_getElem?_getD]
      rw [List.getElem?_set_ne (fun e => hi e.symm)])
  ⟨by decide, by decide, h.2.1, h.2.2, by decide⟩

/-- Witness for C30: the list `commaList`, whose first name is "Helmet, red", is read back
from the file `saveListToSPIFFS` writes for it. -/
theorem C30_cached_list_round_trip_witness :
    commaList.currentMaxItems = 2 ∧
    (loadListFromSPIFFS cachedBoot (Device.powerOn [])).2.session.currentMaxItems = 2 ∧
    (loadListFromSPIFFS cachedBoot (Device.powerOn [])).2.session.uid 0 = str "04AABBCC" ∧
    (loadListFromSPIFFS cachedBoot (Device.powerOn [])).2.session.name 0
      = str "Helmet, red" :=
  have h := C30_cached_list_round_trip commaList cachedBoot (Device.powerOn [])
    (by decide) (by decide) (by decide) (by decide) (by decide) (by decide)
  ⟨by decide, h.2.1, (h.2.2 0 (by decide)).1, (h.2.2 0 (by decide)).2⟩

/-! ## Admin mode: claims -/

/-- C21 as stated fails: the device at the end of `unlockRun` has just entered
`ADMIN_MODE_UNLOCK` (the pass before, it was in `IDLE_MENU`). Three passes follow in which
only the helmet tag, which is not the admin tag, is read; afterwards more than
`ADMIN_TAG_SCAN_TIMEOUT_MS` have elapsed since the phase was entered, the phase is still
`ADMIN_MODE_UNLOCK`, and a further pass of the handler with no tag leaves it there. -/
theorem C21_wrong_tag_restarts_timeout :
    Reachable unlockDevice ∧
    (runPasses idleDevice unlockRun.dropLast).currentState = IDLE_MENU ∧
    unlockDevice.currentState = ADMIN_MODE_UNLOCK ∧
    equalsIgnoreCase (str "04AABBCC") unlockDevice.ADMIN_TAG_UID_STRING = false ∧
    (runPasses unlockDevice [wrongTagPass, wrongTagPass, wrongTagPass]).currentState
      = ADMIN_MODE_UNLOCK ∧
    elapsedSince (runPasses unlockDevice [wrongTagPass, wrongTagPass, wrongTagPass]).millis
      unlockDevice.millis > ADMIN_TAG_SCAN_TIMEOUT_MS ∧
    (loopOnce idle3s
      (runPasses unlockDevice [wrongTagPass, wrongTagPass, wrongTagPass])).currentState
      = ADMIN_MODE_UNLOCK :=
  ⟨reachable_runPasses unlockRun idleDevice (Reachable.coldStart scenarioBoot _ (by decide)),
    by decide, by decide, by decide, by decide, by decide, by decide⟩

/-- C21, amended: in phase `ADMIN_MODE_UNLOCK` the timeout is measured from the last time
the prompt was drawn: the first pass after entry into the phase, or the first pass after a
wrong-tag attempt, which restarts it. In a pass in which no tag is read, `start` being the
time of this pass if the prompt is drawn in it and `unlockAttemptStartTime` otherwise: if
more than `ADMIN_TAG_SCAN_TIMEOUT_MS` have elapsed since `start` when the poll returns, the
workflow goes to `IDLE_MENU` (menu screen `MAIN_MENU`, selection 0); if not, and B is not
held, the phase stays and `unlockAttemptStartTime` is `start`. In a pass that reads a
non-empty identifier other than the admin tag, with B not held, the phase stays and
`unlockAttemptStartTime` is set to the time at the end of the pass. -/
theorem C21_unlock_timeout (d : Device) (inp : Inputs) (det : TagDetails)
    (hawake : d.asleep = false) (hrunning : d.halted = false)
    (hphase : d.currentState = ADMIN_MODE_UNLOCK)
    (hread : readTagDetails inp.tag inp.nameBuffer = some det) :
    (det.nfcReadSuccess = false →
      (elapsedSince (delay inp.tagReadMs (delay inp.elapsed d)).millis
          (if (!d.unlock_oledPromptDrawn || d.redrawOled) = true
            then (delay inp.elapsed d).millis else d.unlock_unlockAttemptStartTime)
          > ADMIN_TAG_SCAN_TIMEOUT_MS →
        (loopOnce inp d).currentState = IDLE_MENU ∧
        (loopOnce inp d).currentMenuScreen = MAIN_MENU ∧
        (loopOnce inp d).currentMenuSelection = 0) ∧
      (inp.pinB = false →
        ¬ elapsedSince (delay inp.tagReadMs (delay inp.elapsed d)).millis
          (if (!d.unlock_oledPromptDrawn || d.redrawOled) = true
            then (delay inp.elapsed d).millis else d.unlock_unlockAttemptStartTime)
          > ADMIN_TAG_SCAN_TIMEOUT_MS →
        (loopOnce inp d).currentState = ADMIN_MODE_UNLOCK ∧
        (loopOnce inp d).unlock_unlockAttemptStartTime
          = (if (!d.unlock_oledPromptDrawn || d.redrawOled) = true
            then (delay inp.elapsed d).millis else d.unlock_unlockAttemptStartTime))) ∧
    (det.nfcReadSuccess = true → det.outUidString ≠ [] →
      equalsIgnoreCase det.outUidString d.ADMIN_TAG_UID_STRING = false → inp.pinB = false →
      (loopOnce inp d).currentState = ADMIN_MODE_UNLOCK ∧
      (loopOnce inp d).unlock_unlockAttemptStartTime = (loopOnce inp d).millis) := by
  have hl := loopOnce_running inp d hawake hrunning
  have hc := runStateMachine_ctl inp (delay inp.elapsed d)
  have hk := runStateMachine_clock inp (delay inp.elapsed d)
  have hd := dispatchState_unlock inp (delay inp.elapsed d) hphase
  have hpoll := pollTag_eq inp det hread
  have hphase2 : (delay inp.elapsed d).currentState = ADMIN_MODE_UNLOCK := hphase
  rw [hl, hc.1, hc.2.1, hc.2.2.1, hk.1, hk.2.1, hd]
  refine ⟨fun hno => ?_, fun hok huid hwrong hlow => ?_⟩
  · have h := handleAdminModeUnlockState_noTag inp (delay inp.elapsed d)
      (by rw [hpoll]; exact hno) _ rfl
    rw [hphase2] at h
    exact h
  · have h := handleAdminModeUnlockState_wrongTag inp (delay inp.elapsed d)
      (by rw [hpoll]; exact hok) (by rw [hpoll]; exact huid) (by rw [hpoll]; exact hwrong) hlow
    rw [hphase2] at h
    exact h

/-- Witness for C21: with no tag shown, the device that drew the unlock prompt 10.1 s
ago returns to `IDLE_MENU`; the pass in which the helmet tag is read on entry stays in
`ADMIN_MODE_UNLOCK`. -/
theorem C21_unlock_timeout_witness :
    (loopOnce quietInputs unlockDevice).currentState = ADMIN_MODE_UNLOCK ∧
    (loopOnce idle10s (loopOnce quietInputs unlockDevice)).currentState = IDLE_MENU ∧
    (loopOnce wrongTagPass unlockDevice).currentState = ADMIN_MODE_UNLOCK ∧
    (loopOnce wrongTagPass unlockDevice).unlock_unlockAttemptStartTime
      = (loopOnce wrongTagPass unlockDevice).millis :=
  have h1 := C21_unlock_timeout (loopOnce quietInputs unlockDevice) idle10s
    { nfcReadSuccess := false, outUidString := [], outNdefName := [] }
    (by decide) (by decide) (by decide) (by decide)
  have h2 := C21_unlock_timeout unlockDevice wrongTagPass
    { nfcReadSuccess := true, outUidString := str "04AABBCC", outNdefName := str "Helmet" }
    (by decide) (by decide) (by decide) (by decide)
  ⟨by decide, ((h1.1 (by decide)).1 (by decide)).1,
    (h2.2 (by decide) (by decide) (by decide) (by decide)).1,
    (h2.2 (by decide) (by decide) (by decide) (by decide)).2⟩

/-! ## Invariants of the reachable states: claims -/

/-- C27: in every state reachable from a cold start by passes of `loop()` and sleep/wake
cycles whose phase is `SESSION_ACTIVE`, `REPACKING_SCAN` or `REPACK_CONFIRM_FINISH`, the
expected list is non-empty, every index below `currentMaxItems` has `usedTagsInitially`
true, so `foundTagsDuringRepack[i]` implies `usedTagsInitially[i]` (no item is found
unexpectedly), and `usedTagsInitiallyCount()` is positive. -/
theorem C27_session_phases_all_out (d : Device) (hr : Reachable d)
    (hphase : d.currentState = SESSION_ACTIVE ∨ d.currentState = REPACKING_SCAN ∨
      d.currentState = REPACK_CONFIRM_FINISH) :
    0 < d.session.currentMaxItems ∧
    (∀ i, i < d.session.currentMaxItems → d.session.used i = true) ∧
    (∀ i, i < d.session.currentMaxItems → d.session.found i = true →
      d.session.used i = true) ∧
    usedTagsInitiallyCount d.session > 0 := by
  have h := (reachable_winv d hr).2.1 hphase
  exact ⟨h.1, h.2, fun i hi _ => h.2 i hi,
    (usedTagsInitiallyCount_pos d.session).2 ⟨0, h.1, h.2 0 h.1⟩⟩

/-- Witness for C27: the device in `REPACKING_SCAN` at the end of `scanRun`. -/
theorem C27_session_phases_all_out_witness :
    Reachable scanningDevice ∧ scanningDevice.currentState = REPACKING_SCAN ∧
    0 < scanningDevice.session.currentMaxItems ∧
    usedTagsInitiallyCount scanningDevice.session > 0 :=
  have hr : Reachable scanningDevice :=
    reachable_runPasses scanRun idleDevice (Reachable.coldStart scenarioBoot _ (by decide))
  have h := C27_session_phases_all_out scanningDevice hr (Or.inr (Or.inl (by decide)))
  ⟨hr, by decide, h.1, h.2.2.2⟩

/-- C28: in every state reachable from a cold start whose phase is
`ADMIN_SET_ACTIVE_BAG_SELECT`, `availableBagCount` is between 1 and `MAX_BAGS_TO_LIST` and
`currentMenuSelection` is an index of the filled part of the bag arrays: at least 0 and
below `availableBagCount`. So the remainder by `availableBagCount` in the Up handler has
a non-zero divisor and yields an index in the same range. -/
theorem C28_bag_selection_in_range (d : Device) (hr : Reachable d)
    (hphase : d.currentState = ADMIN_SET_ACTIVE_BAG_SELECT) :
    1 ≤ d.availableBagCount ∧ d.availableBagCount ≤ MAX_BAGS_TO_LIST ∧
    0 ≤ d.currentMenuSelection ∧ d.currentMenuSelection < d.availableBagCount ∧
    d.availableBagCount ≠ 0 ∧
    0 ≤ Int.tmod (d.currentMenuSelection - 1 + d.availableBagCount) d.availableBagCount ∧
    Int.tmod (d.currentMenuSelection - 1 + d.availableBagCount) d.availableBagCount
      < d.availableBagCount := by
  have h := (reachable_winv d hr).2.2 hphase
  have ht := tmod_up_range d.currentMenuSelection d.availableBagCount h.2.2.1 h.2.2.2
  exact ⟨h.1, h.2.1, h.2.2.1, h.2.2.2, by omega, ht.1, ht.2⟩

/-- Witness for C28: at the end of `bagListRun` five bags are listed and the last one is
selected. -/
theorem C28_bag_selection_in_range_witness :
    Reachable bagListDevice ∧ bagListDevice.currentState = ADMIN_SET_ACTIVE_BAG_SELECT ∧
    bagListDevice.availableBagCount = 5 ∧ bagListDevice.currentMenuSelection = 4 ∧
    bagListDevice.currentMenuSelection < bagListDevice.availableBagCount :=
  have hr : Reachable bagListDevice :=
    reachable_runPasses bagListRun idleDevice (Reachable.coldStart scenarioBoot _ (by decide))
  have h := C28_bag_selection_in_range bagListDevice hr (by decide)
  ⟨hr, by decide, by decide, by decide, h.2.2.2.1⟩

/-- C29, the case the code misses: at the end of `bagListRun` the device is in
`ADMIN_SET_ACTIVE_BAG_SELECT` with the fifth of five bags selected (selection 4). Whether
the selection is confirmed with C or cancelled with B, the device returns to `ADMIN_MENU`
with `currentMenuSelection` still 4, which is no index of the four-entry admin menu; a
press of C in that state selects nothing. -/
theorem C29_admin_selection_stale :
    Reachable (runPasses bagListDevice confirmBag) ∧
    Reachable (runPasses bagListDevice cancelBag) ∧
    bagListDevice.currentState = ADMIN_SET_ACTIVE_BAG_SELECT ∧
    bagListDevice.currentMenuSelection = 4 ∧
    (runPasses bagListDevice confirmBag).currentState = ADMIN_MENU ∧
    (runPasses bagListDevice confirmBag).currentMenuSelection = 4 ∧
    (runPasses bagListDevice cancelBag).currentState = ADMIN_MENU ∧
    (runPasses bagListDevice cancelBag).currentMenuSelection = 4 ∧
    (runPasses (runPasses bagListDevice cancelBag)
      ([online60, online60] ++ confirmBag)).currentState = ADMIN_MENU ∧
    (runPasses (runPasses bagListDevice cancelBag)
      ([online60, online60] ++ confirmBag)).currentMenuSelection = 4 :=
  have hr : Reachable bagListDevice :=
    reachable_runPasses bagListRun idleDevice (Reachable.coldStart scenarioBoot _ (by decide))
  ⟨reachable_runPasses confirmBag bagListDevice hr,
    reachable_runPasses cancelBag bagListDevice hr,
    by decide, by decide, by decide, by decide, by decide, by decide, by decide, by decide⟩

end Repack
